import Mathlib

/-!
# pgpool-II watchdog: a shallow embedding of `src/watchdog/watchdog.c`

The C program keeps one process-wide aggregate `g_cluster`; here every function
that reads or writes it takes the aggregate as an argument and returns the new
value.  Pointers to watchdog nodes are indices (`NodeRef`), C arrays with a
separate element count are lists whose length is that count, and machine
integers are `Int`/`Nat` with explicit 32-bit wrapping where the code converts
between `int` and `unsigned int`.
-/

namespace Watchdog

/-! ## Data model -/

/-- Watchdog node states, in the order of `wd_state_names`. -/
inductive WD_STATES
  | WD_DEAD
  | WD_LOADING
  | WD_JOINING
  | WD_INITIALIZING
  | WD_COORDINATOR
  | WD_PARTICIPATE_IN_ELECTION
  | WD_STAND_FOR_COORDINATOR
  | WD_STANDBY
  | WD_LOST
  | WD_IN_NW_TROUBLE
  | WD_SHUTDOWN
  | WD_ADD_MESSAGE_SENT
  deriving DecidableEq, Repr

open WD_STATES

/-- Socket states used by `SocketConnection.sock_state` (the enum itself is declared in
`watchdog.h`; these are the five values `watchdog.c` assigns and tests). -/
inductive WD_SOCK_STATE
  | WD_SOCK_UNINITIALIZED
  | WD_SOCK_ERROR
  | WD_SOCK_CONNECTED
  | WD_SOCK_WAITING_FOR_CONNECT
  | WD_SOCK_CLOSED
  deriving DecidableEq, Repr

open WD_SOCK_STATE

/-- One direction of the link to a peer: the descriptor and its state. -/
structure SocketConnection where
  sock : Int
  sock_state : WD_SOCK_STATE
  deriving DecidableEq, Repr

/-- The fields of `WatchdogNode` that the modelled functions read or write.
`startup_time` is the `tv_sec` part, the only part the code compares; the send and
receive time stamps, which only drive timers, are left out. -/
structure WatchdogNode where
  state : WD_STATES
  startup_time : Int
  wd_priority : Int
  private_id : Int
  client_socket : SocketConnection
  server_socket : SocketConnection
  deriving DecidableEq, Repr

/-- An octet, the unit of the wire format and the C type `char`. -/
abbrev Byte := Fin 256

/-- The low eight bits of a number as an octet. -/
def toByte (n : Nat) : Byte := ⟨n % 256, Nat.mod_lt n (by decide)⟩

/-- Conversion of a C `int` to `unsigned int` (reduction modulo 2^32). -/
def toUInt32 (x : Int) : Nat := (x % 4294967296).toNat

/-- Conversion of a C `unsigned int` to `int` (two's complement). -/
def toInt32 (n : Nat) : Int :=
  if n % 4294967296 < 2147483648 then ((n % 4294967296 : Nat) : Int)
  else ((n % 4294967296 : Nat) : Int) - 4294967296

/-- The four octets that `htonl` followed by a 4-byte `write` puts on the wire:
the value in network (big-endian) order. -/
def htonl (v : Nat) : List Byte :=
  [toByte (v / 16777216), toByte (v / 65536), toByte (v / 256), toByte v]

/-- The value `ntohl` yields for four octets read from the wire. -/
def ntohl (b0 b1 b2 b3 : Byte) : Nat :=
  b0.val * 16777216 + b1.val * 65536 + b2.val * 256 + b3.val

/-- The C struct `WDPacketData`; `data` is `none` for a NULL pointer. -/
structure WDPacketData where
  type : Byte
  command_id : Int
  len : Int
  data : Option (List Byte)
  deriving DecidableEq, Repr

/-- `WD_NO_MESSAGE` (0). -/
def WD_NO_MESSAGE : Byte := 0
/-- `WD_ADD_NODE_MESSAGE` ('A'). -/
def WD_ADD_NODE_MESSAGE : Byte := 65
/-- `WD_REQ_INFO_MESSAGE` ('B'). -/
def WD_REQ_INFO_MESSAGE : Byte := 66
/-- `WD_DECLARE_COORDINATOR_MESSAGE` ('C'). -/
def WD_DECLARE_COORDINATOR_MESSAGE : Byte := 67
/-- `WD_DATA_MESSAGE` ('D'). -/
def WD_DATA_MESSAGE : Byte := 68
/-- `WD_ERROR_MESSAGE` ('E'). -/
def WD_ERROR_MESSAGE : Byte := 69
/-- `WD_ACCEPT_MESSAGE` ('G'). -/
def WD_ACCEPT_MESSAGE : Byte := 71
/-- `WD_INFO_MESSAGE` ('I'). -/
def WD_INFO_MESSAGE : Byte := 73
/-- `WD_JOIN_COORDINATOR_MESSAGE` ('J'). -/
def WD_JOIN_COORDINATOR_MESSAGE : Byte := 74
/-- `WD_IAM_COORDINATOR_MESSAGE` ('M'). -/
def WD_IAM_COORDINATOR_MESSAGE : Byte := 77
/-- `WD_REJECT_MESSAGE` ('R'). -/
def WD_REJECT_MESSAGE : Byte := 82
/-- `WD_STAND_FOR_COORDINATOR_MESSAGE` ('S'). -/
def WD_STAND_FOR_COORDINATOR_MESSAGE : Byte := 83
/-- `WD_REMOTE_FAILOVER_REQUEST` ('V'). -/
def WD_REMOTE_FAILOVER_REQUEST : Byte := 86
/-- `WD_CMD_REPLY_IN_DATA` ('-'). -/
def WD_CMD_REPLY_IN_DATA : Byte := 45

/-- A `WatchdogNode*`: the local node, or the remote node at an index of `remoteNodes`. -/
inductive NodeRef
  | localNode
  | remote (i : Nat)
  deriving DecidableEq, Repr

/-- Where a command record came from (`WDCommandSource`). -/
inductive WDCommandSource
  | COMMAND_SOURCE_IPC
  | COMMAND_SOURCE_LOCAL
  | COMMAND_SOURCE_REMOTE
  | COMMAND_SOURCE_INTERNAL
  deriving DecidableEq, Repr

open WDCommandSource

/-- Per-peer progress of a command (`WDNodeCommandState`, spelled as in the source). -/
inductive WDNodeCommandState
  | COMMAMD_STATE_INIT
  | COMMAND_STATE_SENT
  | COMMAND_STATE_REPLIED
  | COMMAND_STATE_SEND_ERROR
  | COMMAND_STATE_DO_NOT_SEND
  deriving DecidableEq, Repr

open WDNodeCommandState

/-- Overall status of a command (`WDCommandStatus`). -/
inductive WDCommandStatus
  | COMMAND_EMPTY
  | COMMAND_IN_PROGRESS
  | COMMAND_FINISHED_TIMEOUT
  | COMMAND_FINISHED_ALL_REPLIED
  | COMMAND_FINISHED_NODE_REJECTED
  | COMMAND_FINISHED_SEND_FAILED
  deriving DecidableEq, Repr

open WDCommandStatus

/-- Result of processing an IPC command (`IPC_CMD_PREOCESS_RES`). -/
inductive IPC_CMD_PREOCESS_RES
  | IPC_CMD_COMPLETE
  | IPC_CMD_PROCESSING
  | IPC_CMD_ERROR
  | IPC_CMD_OK
  | IPC_CMD_TRY_AGAIN
  deriving DecidableEq, Repr

open IPC_CMD_PREOCESS_RES

/-- The result codes `watchdog.c` puts in failover and locking replies
(`WDFailoverCMDResults`; the enum is declared in a header outside `src/`, so only the
names are used, never their numeric values). -/
inductive WDFailoverCMDResults
  | FAILOVER_RES_ERROR
  | FAILOVER_RES_TRANSITION
  | FAILOVER_RES_INVALID_FUNCTION
  | FAILOVER_RES_PROCEED
  | FAILOVER_RES_NOT_ALLOWED
  | FAILOVER_RES_ALREADY_ISSUED
  | FAILOVER_RES_MASTER_REJECTED
  | FAILOVER_RES_I_AM_LOCK_HOLDER
  | FAILOVER_RES_I_AM_NOT_LOCK_HOLDER
  | FAILOVER_RES_SUCCESS
  | FAILOVER_RES_LOCKED
  | FAILOVER_RES_UNLOCKED
  | FAILOVER_RES_NO_LOCKHOLDER_BUT_WAIT
  | FAILOVER_RES_NO_LOCKHOLDER
  deriving DecidableEq, Repr

open WDFailoverCMDResults

/-- One slot of `nodeResults` (`WDCommandNodeResult`; the result data pointer is left
out). -/
structure WDCommandNodeResult where
  wdNode : NodeRef
  cmdState : WDNodeCommandState
  result_type : Byte
  deriving DecidableEq, Repr

/-- A command record (`WDCommandData`).  `nodeResults` is `none` while the array is not
allocated; the three counters are `unsigned int`; times, error message and memory
context are left out. -/
structure WDCommandData where
  sourcePacket : WDPacketData
  commandPacket : WDPacketData
  nodeResults : Option (List WDCommandNodeResult)
  sendToNode : Option NodeRef
  commandStatus : WDCommandStatus
  commandSendToCount : Nat
  commandSendToErrorCount : Nat
  commandReplyFromCount : Nat
  commandSource : WDCommandSource
  sourceIPCSocket : Int
  sourceWdNode : Option NodeRef
  deriving DecidableEq, Repr

/-- `MAX_FAILOVER_LOCKS`: the three names of `wd_failover_lock_name`. -/
def MAX_FAILOVER_LOCKS : Nat := 3

/-- The lock table `InterlockingNode` (the lock time is not modelled). -/
structure InterlockingNode where
  lockHolderNode : Option NodeRef
  locks : List Bool
  deriving DecidableEq, Repr

/-- Request kinds stored in a failover object (`POOL_REQUEST_KIND`, the three values
`process_failover_command_on_coordinator` assigns). -/
inductive POOL_REQUEST_KIND
  | NODE_UP_REQUEST
  | NODE_DOWN_REQUEST
  | PROMOTE_NODE_REQUEST
  deriving DecidableEq, Repr

open POOL_REQUEST_KIND

/-- A registered failover (`WDFailoverObject`).  `nodeList` holds the `nodesCount`
node ids; `failoverID` is an `unsigned int`. The start time is not modelled. -/
structure WDFailoverObject where
  reqKind : POOL_REQUEST_KIND
  failoverID : Nat
  nodeList : List Int
  wdRequestingNode : NodeRef
  deriving DecidableEq, Repr

/-- The stored element count of a failover object. -/
def WDFailoverObject.nodesCount (o : WDFailoverObject) : Int := o.nodeList.length

/-- The part of `wd_cluster` (the global `g_cluster`) used by the modelled functions.
`remoteNodeCount` is the length of `remoteNodes`. -/
structure wd_cluster where
  localNode : WatchdogNode
  remoteNodes : List WatchdogNode
  masterNode : Option NodeRef
  interlockingNode : InterlockingNode
  quorum_status : Int
  nextCommandID : Nat
  ipc_commands : List WDCommandData
  wdCurrentFailovers : List WDFailoverObject
  clusterCommands : List WDCommandData
  escalated : Bool
  holding_vip : Bool
  deriving DecidableEq, Repr

/-- The configured number of remote peers (`g_cluster.remoteNodeCount`). -/
def wd_cluster.remoteNodeCount (c : wd_cluster) : Int := c.remoteNodes.length

/-! ## Quorum -/

/-- `is_node_active`: every state except DEAD, LOST and SHUTDOWN. -/
def is_node_active (wdNode : WatchdogNode) : Bool :=
  if wdNode.state = WD_DEAD ∨ wdNode.state = WD_LOST ∨ wdNode.state = WD_SHUTDOWN then false
  else true

/-- `get_cluster_node_count`: the loop over the remote nodes, skipping (`continue`) the
dead, lost and shut-down ones and incrementing `count` for the others. -/
def get_cluster_node_count (c : wd_cluster) : Int :=
  c.remoteNodes.foldl
    (fun count wdNode =>
      if wdNode.state = WD_DEAD ∨ wdNode.state = WD_LOST ∨ wdNode.state = WD_SHUTDOWN then count
      else count + 1)
    0

/-- `get_mimimum_nodes_required_for_quorum`, with C integer division and remainder
(truncating). -/
def get_mimimum_nodes_required_for_quorum (c : wd_cluster) : Int :=
  if Int.tmod c.remoteNodeCount 2 = 0 then Int.tdiv c.remoteNodeCount 2
  else Int.tdiv (c.remoteNodeCount - 1) 2

/-- `update_quorum_status`: stores the new status in the cluster and returns it. -/
def update_quorum_status (c : wd_cluster) : Int × wd_cluster :=
  let c1 : wd_cluster :=
    if get_cluster_node_count c > get_mimimum_nodes_required_for_quorum c then
      { c with quorum_status := 1 }
    else if get_cluster_node_count c = get_mimimum_nodes_required_for_quorum c then
      if Int.tmod c.remoteNodeCount 2 ≠ 0 then { c with quorum_status := 0 }
      else { c with quorum_status := 1 }
    else { c with quorum_status := -1 }
  (c1.quorum_status, c1)

/-! ## Packets and the wire codec -/

/-- The sending side of a descriptor as `write(2)` sees it: `accept` lists, for the
successive calls of `write`, how many octets the kernel takes at most (a value `≤ 0` is
a failed call returning that value; when the list is exhausted every call takes
everything), `out` is what has been put on the wire so far. -/
structure WriteSock where
  accept : List Int
  out : List Byte
  deriving DecidableEq, Repr

/-- One call of `write(sock, buf, count)`: the return value and the new socket. -/
def sys_write (s : WriteSock) (buf : List Byte) : Int × WriteSock :=
  match s.accept with
  | [] => ((buf.length : Int), { s with out := s.out ++ buf })
  | r :: rest =>
    if r ≤ 0 then (r, { accept := rest, out := s.out })
    else ((min r.toNat buf.length : Nat), { accept := rest, out := s.out ++ buf.take r.toNat })

/-- The `do ... while (bytes_send < pkt->len)` loop of `write_packet_to_socket`; every
round that continues has sent at least one octet, so `pkt->len` rounds of fuel suffice
(`write_packet_to_socket_total`). -/
def write_packet_data : Nat → WriteSock → List Byte → Int → Int → Option (Bool × WriteSock)
  | 0, _, _, _, _ => none
  | fuel + 1, s, data, len, bytes_send =>
    let r := sys_write s ((data.drop bytes_send.toNat).take (len - bytes_send).toNat)
    if r.1 ≤ 0 then some (false, r.2)
    else if bytes_send + r.1 < len then write_packet_data fuel r.2 data len (bytes_send + r.1)
    else some (true, r.2)

/-- `write_packet_to_socket(sock, pkt, ipcPacket)`: type octet, command id unless
`ipcPacket`, length, then the payload when `pkt->len > 0 && pkt->data`.  The lookup in
`all_packet_types` only serves the log messages and is left out. -/
def write_packet_to_socket (s : WriteSock) (pkt : WDPacketData) (ipcPacket : Bool) :
    Option (Bool × WriteSock) :=
  let r1 := sys_write s [pkt.type]
  if r1.1 < 1 then some (false, r1.2)
  else
    let r2 : Bool × WriteSock :=
      if ipcPacket = false then
        let w := sys_write r1.2 (htonl (toUInt32 pkt.command_id))
        if w.1 < 4 then (false, w.2) else (true, w.2)
      else (true, r1.2)
    if r2.1 = false then some (false, r2.2)
    else
      let r3 := sys_write r2.2 (htonl (toUInt32 pkt.len))
      if r3.1 < 4 then some (false, r3.2)
      else
        match pkt.data with
        | some data =>
          if pkt.len > 0 then write_packet_data pkt.len.toNat r3.2 data pkt.len 0
          else some (true, r3.2)
        | none => some (true, r3.2)

/-- Modelled from the spec: `socket_read` is declared outside `src/`; per the codec
section it delivers exactly the requested number of octets, and a short read is a
failure.  The result is the return value, the octets read and the rest of the stream. -/
def socket_read (inp : List Byte) (len : Nat) : Int × List Byte × List Byte :=
  if len ≤ inp.length then ((len : Int), inp.take len, inp.drop len)
  else ((inp.length : Int), inp, [])

/-- `is_socket_connection_connected`. -/
def is_socket_connection_connected (conn : SocketConnection) : Bool :=
  decide (conn.sock > 0) && decide (conn.sock_state = WD_SOCK_CONNECTED)

/-- `close_socket_connection`. -/
def close_socket_connection (conn : SocketConnection) : SocketConnection :=
  if (conn.sock > 0 ∧ conn.sock_state = WD_SOCK_CONNECTED)
      ∨ conn.sock_state = WD_SOCK_WAITING_FOR_CONNECT then
    { sock := -1, sock_state := WD_SOCK_CLOSED }
  else conn

/-- What a call of `read_packet_of_type` ends in: a packet, `NULL`, or the error exit of
the allocator (`palloc` is the host allocator, outside `src/`; it is taken to succeed on
every non-negative size and to raise an error on a negative one). -/
inductive ReadOutcome
  | packet (pkt : WDPacketData)
  | null
  | alloc_error
  deriving DecidableEq, Repr

/-- `read_packet_of_type(conn, ensure_type)` on a connection whose unread input is `inp`:
the outcome, the connection afterwards and the input left unread. -/
def read_packet_of_type (conn : SocketConnection) (inp : List Byte) (ensure_type : Byte) :
    ReadOutcome × SocketConnection × List Byte :=
  if is_socket_connection_connected conn = false then (ReadOutcome.null, conn, inp)
  else
    match socket_read inp 1 with
    | (1, [type], inp1) =>
      if ensure_type ≠ WD_NO_MESSAGE ∧ ensure_type ≠ type then
        (ReadOutcome.null, close_socket_connection conn, inp1)
      else
        match socket_read inp1 4 with
        | (4, [c0, c1, c2, c3], inp2) =>
          let cmd_id := ntohl c0 c1 c2 c3
          match socket_read inp2 4 with
          | (4, [l0, l1, l2, l3], inp3) =>
            let len := toInt32 (ntohl l0 l1 l2 l3)
            if len < 0 then (ReadOutcome.alloc_error, conn, inp3)
            else
              let r := socket_read inp3 len.toNat
              if r.1 ≠ len then (ReadOutcome.null, close_socket_connection conn, r.2.2)
              else
                (ReadOutcome.packet
                  { type := type, command_id := toInt32 cmd_id, len := len, data := some r.2.1 },
                  conn, r.2.2)
          | (_, _, inp3) => (ReadOutcome.null, close_socket_connection conn, inp3)
        | (_, _, inp2) => (ReadOutcome.null, close_socket_connection conn, inp2)
    | (_, _, inp1) => (ReadOutcome.null, close_socket_connection conn, inp1)

/-- `read_packet`: any packet type is accepted. -/
def read_packet (conn : SocketConnection) (inp : List Byte) :
    ReadOutcome × SocketConnection × List Byte :=
  read_packet_of_type conn inp WD_NO_MESSAGE

/-- The frame of a peer packet: type, command id and length in network order, payload. -/
def wire_frame (pkt : WDPacketData) (payload : List Byte) : List Byte :=
  [pkt.type] ++ htonl (toUInt32 pkt.command_id) ++ htonl (toUInt32 pkt.len) ++ payload

/-! ## The environment of the event loop -/

/-- Events delivered to the state machine (`WD_EVENTS`; the values `watchdog.c` names). -/
inductive WD_EVENTS
  | WD_EVENT_WD_STATE_CHANGED
  | WD_EVENT_TIMEOUT
  | WD_EVENT_PACKET_RCV
  | WD_EVENT_COMMAND_FINISHED
  | WD_EVENT_NEW_OUTBOUND_CONNECTION
  | WD_EVENT_NW_IP_IS_REMOVED
  | WD_EVENT_NW_IP_IS_ASSIGNED
  | WD_EVENT_NW_LINK_IS_INACTIVE
  | WD_EVENT_NW_LINK_IS_ACTIVE
  | WD_EVENT_LOCAL_NODE_LOST
  | WD_EVENT_REMOTE_NODE_LOST
  | WD_EVENT_REMOTE_NODE_FOUND
  | WD_EVENT_LOCAL_NODE_FOUND
  deriving DecidableEq, Repr

open WD_EVENTS

/-- What `watchdog.c` uses but `src/` does not define: the JSON reader and writers of
`wd_json_data.c`, the function-name macros (each `strcasecmp(MACRO, func_name) == 0`
test is one predicate on the name) and the IPC type and result codes of
`wd_ipc_defines.h`.  Every modelled function takes them as a parameter.
`get_watchdog_node_from_json` yields the state, the start time (`tv_sec`) and the
priority of the node record it parses, the three fields `standard_packet_processor`
copies. -/
structure WDExternals where
  parse_wd_node_function_json : Option (List Byte) → Int → Option (List Byte × List Int)
  is_failback_request : List Byte → Bool
  is_degenerate_request : List Byte → Bool
  is_promote_request : List Byte → Bool
  failover_result_json : WDFailoverCMDResults → Int → List Byte
  get_watchdog_node_info_json : WatchdogNode → List Byte
  get_watchdog_node_from_json : List Byte → Int → Option (WD_STATES × Int × Int)
  WD_IPC_CMD_RESULT_OK : Byte
  WD_IPC_CMD_RESULT_BAD : Byte
  WD_IPC_CMD_TIMEOUT : Byte
  WD_IPC_FAILOVER_COMMAND : Byte
  WD_IPC_ONLINE_RECOVERY_COMMAND : Byte
  WD_FAILOVER_LOCKING_REQUEST : Byte

/-- What the process does to the outside: a call of `send_message_to_node` for a node
with its result, a frame written to an IPC socket with
the result of the write, and a call into the host's failover code
(`send_failback_request`, `degenerate_backend_set`, `promote_backend`). -/
inductive Action
  | send (wdNode : NodeRef) (pkt : WDPacketData) (ok : Bool)
  | ipc_write (sock : Int) (pkt : WDPacketData) (ok : Bool)
  | failover_callback (kind : POOL_REQUEST_KIND) (node_ids : List Int) (failover_id : Nat)
  deriving DecidableEq, Repr

/-- The state the event loop works on: `g_cluster`, the host flag
`Req_info->switching` (shared memory outside `g_cluster`), the results of the coming
calls of `write_packet_to_socket` (`wr`; when exhausted every call succeeds), the
actions performed so far, and the results of the coming calls of
`wd_create_client_socket` (`connects`: the descriptor returned and the `connected` flag;
when exhausted every call fails with `-1`).  The octets a successful call writes are the
subject of the codec section. -/
structure World where
  cluster : wd_cluster
  switching : Bool
  wr : List Bool
  trace : List Action
  connects : List (Int × Bool)
  deriving DecidableEq, Repr

/-- The node a `WatchdogNode*` points to. -/
def get_node (c : wd_cluster) : NodeRef → Option WatchdogNode
  | NodeRef.localNode => some c.localNode
  | NodeRef.remote i => c.remoteNodes[i]?

/-- `get_next_commandID`: pre-increment of the `unsigned int` counter. -/
def get_next_commandID (c : wd_cluster) : Nat × wd_cluster :=
  ((c.nextCommandID + 1) % 4294967296,
   { c with nextCommandID := (c.nextCommandID + 1) % 4294967296 })

/-- `is_node_reachable`. -/
def is_node_reachable (wdNode : WatchdogNode) : Bool :=
  if is_socket_connection_connected wdNode.client_socket then true
  else if is_socket_connection_connected wdNode.server_socket then true
  else false

/-- `send_message_to_connection` with the result of `write_packet_to_socket` drawn from
`wr`: the return value, the connection afterwards and the results left. -/
def send_message_to_connection (conn : SocketConnection) (wr : List Bool) :
    Bool × SocketConnection × List Bool :=
  if conn.sock > 0 ∧ conn.sock_state = WD_SOCK_CONNECTED then
    match wr with
    | [] => (true, conn, [])
    | true :: rest => (true, conn, rest)
    | false :: rest => (false, close_socket_connection conn, rest)
  else (false, conn, wr)

/-- Stores a node record back where a `WatchdogNode*` points. -/
def set_node (c : wd_cluster) (ref : NodeRef) (n : WatchdogNode) : wd_cluster :=
  match ref with
  | NodeRef.localNode => { c with localNode := n }
  | NodeRef.remote i => { c with remoteNodes := c.remoteNodes.set i n }

/-- `send_message_to_node`: the client socket first, the server socket if that fails.
(The update of `last_sent_time` is not modelled.) -/
def send_message_to_node (w : World) (ref : NodeRef) (pkt : WDPacketData) : Bool × World :=
  match get_node w.cluster ref with
  | none => (false, w)
  | some wdNode =>
    let r1 := send_message_to_connection wdNode.client_socket w.wr
    let r2 :=
      if r1.1 = false then send_message_to_connection wdNode.server_socket r1.2.2
      else (true, wdNode.server_socket, r1.2.2)
    (r2.1,
     { w with
       cluster :=
         set_node w.cluster ref
           { wdNode with client_socket := r1.2.1, server_socket := r2.2.1 }
       wr := r2.2.2
       trace := w.trace ++ [Action.send ref pkt r2.1] })

/-- One round of the loop of `send_message` over the remote nodes. -/
def send_message_step (pkt : WDPacketData) (acc : Int × World) (i : Nat) : Int × World :=
  match acc.2.cluster.remoteNodes[i]? with
  | none => acc
  | some wdNode =>
    if is_node_reachable wdNode then
      let r := send_message_to_node acc.2 (NodeRef.remote i) pkt
      if r.1 then (acc.1 + 1, r.2) else (acc.1, r.2)
    else acc

/-- `send_message`: to one node, or to every reachable remote node when `wdNode` is
NULL; returns the number of nodes the message was sent to. -/
def send_message (w : World) (wdNode : Option NodeRef) (pkt : WDPacketData) : Int × World :=
  match wdNode with
  | some NodeRef.localNode => (1, w)
  | some (NodeRef.remote i) =>
    let r := send_message_to_node w (NodeRef.remote i) pkt
    if r.1 then (1, r.2) else (0, r.2)
  | none => (List.range w.cluster.remoteNodes.length).foldl (send_message_step pkt) (0, w)

/-- `get_minimum_message`: a zeroed packet with the type and either the command id of
the packet replied to or the next command id. -/
def get_minimum_message (c : wd_cluster) (type : Byte) (replyFor : Option WDPacketData) :
    WDPacketData × wd_cluster :=
  match replyFor with
  | none =>
    ({ type := type, command_id := toInt32 (get_next_commandID c).1, len := 0, data := none },
     (get_next_commandID c).2)
  | some r => ({ type := type, command_id := r.command_id, len := 0, data := none }, c)

/-- `reply_with_minimal_message`. -/
def reply_with_minimal_message (w : World) (wdNode : Option NodeRef) (type : Byte)
    (replyFor : Option WDPacketData) : Bool × World :=
  let m := get_minimum_message w.cluster type replyFor
  let r := send_message { w with cluster := m.2 } wdNode m.1
  (decide (r.1 ≠ 0), r.2)

/-- `reply_with_message`. -/
def reply_with_message (w : World) (wdNode : Option NodeRef) (type : Byte)
    (data : Option (List Byte)) (data_len : Int) (replyFor : Option WDPacketData) :
    Bool × World :=
  let id : Int × wd_cluster :=
    match replyFor with
    | none => (toInt32 (get_next_commandID w.cluster).1, (get_next_commandID w.cluster).2)
    | some r => (r.command_id, w.cluster)
  let r := send_message { w with cluster := id.2 } wdNode
    { type := type, command_id := id.1, len := data_len, data := data }
  (decide (r.1 ≠ 0), r.2)

/-- `write_ipc_command_with_result_data`: nothing is written unless the command came in
over IPC on a valid descriptor. -/
def write_ipc_command_with_result_data (w : World) (ipcCommand : WDCommandData) (type : Byte)
    (data : Option (List Byte)) (len : Int) : Bool × World :=
  if ipcCommand.commandSource ≠ COMMAND_SOURCE_IPC ∨ ipcCommand.sourceIPCSocket ≤ 0 then
    (false, w)
  else
    let ok := w.wr.headD true
    (ok,
     { w with
       wr := w.wr.tail
       trace := w.trace ++
         [Action.ipc_write ipcCommand.sourceIPCSocket
           { type := type, command_id := 0, len := len, data := data } ok] })

/-- The document `reply_to_failove_command` builds, as the NUL-terminated string it
sends (`jw_put_int` takes the failover id as an `int`). -/
def failover_reply_data (ext : WDExternals) (cmdResult : WDFailoverCMDResults)
    (failoverID : Nat) : List Byte :=
  ext.failover_result_json cmdResult (toInt32 failoverID) ++ [0]

/-- `reply_to_failove_command`: the result document goes to the IPC socket for a local
command, to the requesting node in a `WD_CMD_REPLY_IN_DATA` packet for a remote one. -/
def reply_to_failove_command (ext : WDExternals) (w : World) (ipcCommand : WDCommandData)
    (cmdResult : WDFailoverCMDResults) (failoverID : Nat) : Bool × World :=
  let data := failover_reply_data ext cmdResult failoverID
  if ipcCommand.commandSource = COMMAND_SOURCE_IPC then
    write_ipc_command_with_result_data w ipcCommand ext.WD_IPC_CMD_RESULT_OK (some data)
      data.length
  else if ipcCommand.commandSource = COMMAND_SOURCE_REMOTE then
    (false,
     (reply_with_message w ipcCommand.sourceWdNode WD_CMD_REPLY_IN_DATA (some data) data.length
        (some ipcCommand.sourcePacket)).2)
  else (false, w)

/-! ## The failover registry -/

/-- `get_failover_object_by_id`: the first registered object with the given id. -/
def get_failover_object_by_id (l : List WDFailoverObject) (failoverID : Nat) :
    Option WDFailoverObject :=
  match l with
  | [] => none
  | failoverObj :: rest =>
    if failoverObj.failoverID = failoverID then some failoverObj
    else get_failover_object_by_id rest failoverID

/-- `remove_failover_object_by_id`: deletes the object found by
`get_failover_object_by_id` (the first one with that id) and reports whether there was
one. -/
def remove_failover_object_by_id (l : List WDFailoverObject) (failoverID : Nat) :
    Bool × List WDFailoverObject :=
  match get_failover_object_by_id l failoverID with
  | some _ => (true, l.eraseP (fun o => decide (o.failoverID = failoverID)))
  | none => (false, l)

/-- `does_int_array_contains_value`: linear search in an `int` array. -/
def does_int_array_contains_value (intArray : List Int) (value : Int) : Bool :=
  match intArray with
  | [] => false
  | x :: rest => if x = value then true else does_int_array_contains_value rest value

/-- The inner loop of `get_failover_object` with its flag `equal`: every stored node id
occurs in the requested list. -/
def failover_nodes_equal (stored nodeList : List Int) : Bool :=
  match stored with
  | [] => true
  | v :: rest =>
    if does_int_array_contains_value nodeList v = false then false
    else failover_nodes_equal rest nodeList

/-- `get_failover_object(reqKind, nodesCount, nodeList)`: the first registered object of
the same kind and the same node count for which the inner loop ends with `equal`. -/
def get_failover_object (l : List WDFailoverObject) (reqKind : POOL_REQUEST_KIND)
    (nodeList : List Int) : Option WDFailoverObject :=
  match l with
  | [] => none
  | failoverObj :: rest =>
    if failoverObj.reqKind = reqKind ∧ failoverObj.nodesCount = nodeList.length then
      if failover_nodes_equal failoverObj.nodeList nodeList then some failoverObj
      else get_failover_object rest reqKind nodeList
    else get_failover_object rest reqKind nodeList

/-- The chain of `strcasecmp` tests that maps the function name of a request to its
kind. -/
def failover_request_kind (ext : WDExternals) (func_name : List Byte) :
    Option POOL_REQUEST_KIND :=
  if ext.is_failback_request func_name then some NODE_UP_REQUEST
  else if ext.is_degenerate_request func_name then some NODE_DOWN_REQUEST
  else if ext.is_promote_request func_name then some PROMOTE_NODE_REQUEST
  else none

/-- `allocate_resultNodes_in_command`: a zeroed slot per remote node, unless the array
exists already. -/
def allocate_resultNodes_in_command (c : wd_cluster) (ipcCommand : WDCommandData) :
    WDCommandData :=
  match ipcCommand.nodeResults with
  | some _ => ipcCommand
  | none =>
    { ipcCommand with
      nodeResults := some ((List.range c.remoteNodes.length).map fun i =>
        { wdNode := NodeRef.remote i, cmdState := COMMAMD_STATE_INIT,
          result_type := WD_NO_MESSAGE }) }

/-- Stores `cmdState` in slot `i` of the result array. -/
def set_cmdState (ipcCommand : WDCommandData) (i : Nat) (st : WDNodeCommandState) :
    WDCommandData :=
  { ipcCommand with
    nodeResults := ipcCommand.nodeResults.map fun rs =>
      match rs[i]? with
      | some nodeResult => rs.set i { nodeResult with cmdState := st }
      | none => rs }

/-- One round of the loop of `send_command_packet_to_remote_nodes`, for slot `i`. -/
def send_command_packet_step (source_included : Bool) (acc : WDCommandData × World)
    (i : Nat) : WDCommandData × World :=
  match (acc.1.nodeResults.getD [])[i]? with
  | none => acc
  | some nodeResult =>
    match get_node acc.2.cluster nodeResult.wdNode with
    | none => acc
    | some wdNode =>
      if acc.1.sendToNode ≠ none ∧ acc.1.sendToNode ≠ some nodeResult.wdNode then
        (set_cmdState acc.1 i COMMAND_STATE_DO_NOT_SEND, acc.2)
      else if source_included = false ∧ acc.1.sourceWdNode = some nodeResult.wdNode ∧
          acc.1.commandSource = COMMAND_SOURCE_REMOTE then
        (set_cmdState acc.1 i COMMAND_STATE_DO_NOT_SEND, acc.2)
      else if is_node_active wdNode = false then
        (set_cmdState acc.1 i COMMAND_STATE_DO_NOT_SEND, acc.2)
      else if is_node_reachable wdNode = false then
        ({ set_cmdState acc.1 i COMMAND_STATE_SEND_ERROR with
           commandSendToErrorCount := (acc.1.commandSendToErrorCount + 1) % 4294967296 },
         acc.2)
      else
        let r := send_message_to_node acc.2 nodeResult.wdNode acc.1.commandPacket
        if r.1 = true then
          ({ set_cmdState acc.1 i COMMAND_STATE_SENT with
             commandSendToCount := (acc.1.commandSendToCount + 1) % 4294967296 }, r.2)
        else
          ({ set_cmdState acc.1 i COMMAND_STATE_SEND_ERROR with
             commandSendToErrorCount := (acc.1.commandSendToErrorCount + 1) % 4294967296 },
           r.2)

/-- `send_command_packet_to_remote_nodes`: resets the counters, allocates the result
slots and walks over the remote nodes; returns `commandSendToCount`. -/
def send_command_packet_to_remote_nodes (w : World) (ipcCommand : WDCommandData)
    (source_included : Bool) : Nat × WDCommandData × World :=
  let cmd0 := allocate_resultNodes_in_command w.cluster
    { ipcCommand with
      commandSendToCount := 0, commandReplyFromCount := 0, commandSendToErrorCount := 0 }
  let r := (List.range w.cluster.remoteNodes.length).foldl
    (send_command_packet_step source_included) (cmd0, w)
  (r.1.commandSendToCount, r.1, r.2)

/-- `process_wd_command_function`: answers the requesting node and hands the failover to
the host.  `send_failback_request` and `promote_backend` receive `node_id_list[0]`,
recorded as the first element of the list. -/
def process_wd_command_function (ext : WDExternals) (w : World) (wdNode : Option NodeRef)
    (pkt : WDPacketData) (func_name : List Byte) (node_id_list : List Int)
    (failover_id : Nat) : World :=
  if ext.is_failback_request func_name then
    if w.switching then (reply_with_minimal_message w wdNode WD_REJECT_MESSAGE (some pkt)).2
    else
      let w1 := (reply_with_minimal_message w wdNode WD_ACCEPT_MESSAGE (some pkt)).2
      { w1 with trace := w1.trace ++
          [Action.failover_callback NODE_UP_REQUEST (node_id_list.take 1) failover_id] }
  else if ext.is_degenerate_request func_name then
    if w.switching then (reply_with_minimal_message w wdNode WD_REJECT_MESSAGE (some pkt)).2
    else
      let w1 := (reply_with_minimal_message w wdNode WD_ACCEPT_MESSAGE (some pkt)).2
      { w1 with trace := w1.trace ++
          [Action.failover_callback NODE_DOWN_REQUEST node_id_list failover_id] }
  else if ext.is_promote_request func_name then
    if w.switching then (reply_with_minimal_message w wdNode WD_REJECT_MESSAGE (some pkt)).2
    else
      let w1 := (reply_with_minimal_message w wdNode WD_ACCEPT_MESSAGE (some pkt)).2
      { w1 with trace := w1.trace ++
          [Action.failover_callback PROMOTE_NODE_REQUEST (node_id_list.take 1) failover_id] }
  else (reply_with_minimal_message w wdNode WD_ERROR_MESSAGE (some pkt)).2

/-- `process_failover_command_on_coordinator`: the result, the command record and the
world afterwards. -/
def process_failover_command_on_coordinator (ext : WDExternals) (w : World)
    (ipcCommand : WDCommandData) : IPC_CMD_PREOCESS_RES × WDCommandData × World :=
  if w.cluster.localNode.state ≠ WD_COORDINATOR then (IPC_CMD_ERROR, ipcCommand, w)
  else
    match ext.parse_wd_node_function_json ipcCommand.sourcePacket.data
        ipcCommand.sourcePacket.len with
    | none =>
      (IPC_CMD_COMPLETE, ipcCommand,
        (reply_to_failove_command ext w ipcCommand FAILOVER_RES_INVALID_FUNCTION 0).2)
    | some (func_name, node_id_list) =>
      match failover_request_kind ext func_name with
      | none =>
        (IPC_CMD_COMPLETE, ipcCommand,
          (reply_to_failove_command ext w ipcCommand FAILOVER_RES_INVALID_FUNCTION 0).2)
      | some reqKind =>
        if get_cluster_node_count w.cluster = 0 then
          (IPC_CMD_COMPLETE, ipcCommand,
            (reply_to_failove_command ext w ipcCommand FAILOVER_RES_PROCEED 0).2)
        else if ipcCommand.commandSource = COMMAND_SOURCE_REMOTE ∧ w.switching = true then
          (IPC_CMD_COMPLETE, ipcCommand,
            (reply_to_failove_command ext w ipcCommand FAILOVER_RES_NOT_ALLOWED 0).2)
        else
          match get_failover_object w.cluster.wdCurrentFailovers reqKind node_id_list with
          | some _ =>
            (IPC_CMD_COMPLETE, ipcCommand,
              (reply_to_failove_command ext w ipcCommand FAILOVER_RES_ALREADY_ISSUED 0).2)
          | none =>
            let id := get_next_commandID w.cluster
            let commandPacket : WDPacketData :=
              { ipcCommand.sourcePacket with
                type := WD_REMOTE_FAILOVER_REQUEST, command_id := toInt32 id.1 }
            let failoverObj : WDFailoverObject :=
              { reqKind := reqKind, failoverID := toUInt32 commandPacket.command_id,
                nodeList := node_id_list, wdRequestingNode := NodeRef.localNode }
            let w1 : World :=
              { w with cluster :=
                  { id.2 with wdCurrentFailovers := id.2.wdCurrentFailovers ++ [failoverObj] } }
            let s := send_command_packet_to_remote_nodes w1
              { ipcCommand with commandPacket := commandPacket, sendToNode := none } false
            if ipcCommand.commandSource = COMMAND_SOURCE_IPC then
              (IPC_CMD_COMPLETE, s.2.1,
                (reply_to_failove_command ext s.2.2 s.2.1 FAILOVER_RES_PROCEED
                  failoverObj.failoverID).2)
            else
              let w2 := process_wd_command_function ext s.2.2 s.2.1.sourceWdNode
                s.2.1.sourcePacket func_name node_id_list failoverObj.failoverID
              if get_cluster_node_count w2.cluster = 1 then (IPC_CMD_COMPLETE, s.2.1, w2)
              else (IPC_CMD_PROCESSING, s.2.1, w2)

/-- `node_is_asking_for_failover_end`: the end verb of the lock service. -/
def node_is_asking_for_failover_end (c : wd_cluster) (wdNode : NodeRef) (failoverID : Nat) :
    WDFailoverCMDResults × wd_cluster :=
  if c.localNode.state = WD_COORDINATOR then
    if c.interlockingNode.lockHolderNode = none ∨
        c.interlockingNode.lockHolderNode = some wdNode then
      (FAILOVER_RES_SUCCESS,
       { c with
         interlockingNode :=
           { lockHolderNode := none,
             locks := (List.range MAX_FAILOVER_LOCKS).foldl (fun l i => l.set i false)
               c.interlockingNode.locks }
         wdCurrentFailovers := (remove_failover_object_by_id c.wdCurrentFailovers failoverID).2 })
    else (FAILOVER_RES_I_AM_NOT_LOCK_HOLDER, c)
  else (FAILOVER_RES_ERROR, c)

/-- The table `wd_failover_lock_name`, indexed by the sub-lock in the log messages of the
release and status verbs. -/
def wd_failover_lock_name : List String := ["FAILOVER", "FAILBACK", "FOLLOW MASTER"]

/-- `node_is_asking_for_failover_start`: the start verb of the lock service.  The
packet and the failover id are only logged and the lock time is not modelled. -/
def node_is_asking_for_failover_start (c : wd_cluster) (wdNode : NodeRef) :
    WDFailoverCMDResults × wd_cluster :=
  if c.localNode.state = WD_COORDINATOR then
    if c.masterNode = some wdNode then
      (FAILOVER_RES_I_AM_LOCK_HOLDER,
       { c with
         interlockingNode :=
           { lockHolderNode := some wdNode,
             locks := (List.range MAX_FAILOVER_LOCKS).foldl (fun l i => l.set i true)
               c.interlockingNode.locks } })
    else (FAILOVER_RES_I_AM_NOT_LOCK_HOLDER, c)
  else (FAILOVER_RES_ERROR, c)

/-- `node_is_asking_for_failover_lock_release`: the release verb for one sub-lock (the
failover id is only logged).  The first statement of the function formats `wd_failover_lock_name[failoverLock]` for the
log; with an index outside the table that read is out of bounds and the behaviour is
undefined (`none`). -/
def node_is_asking_for_failover_lock_release (c : wd_cluster) (wdNode : NodeRef)
    (failoverLock : Int) : Option (WDFailoverCMDResults × wd_cluster) :=
  if failoverLock < 0 ∨ (wd_failover_lock_name.length : Int) ≤ failoverLock then none
  else if c.localNode.state = WD_COORDINATOR then
    if c.interlockingNode.lockHolderNode = some wdNode then
      if failoverLock < MAX_FAILOVER_LOCKS then
        some (FAILOVER_RES_SUCCESS,
          { c with
            interlockingNode :=
              { c.interlockingNode with
                locks := c.interlockingNode.locks.set failoverLock.toNat false } })
      else some (FAILOVER_RES_ERROR, c)
    else some (FAILOVER_RES_I_AM_NOT_LOCK_HOLDER, c)
  else some (FAILOVER_RES_ERROR, c)

/-- `node_is_asking_for_failover_lock_status`: the status verb for one sub-lock (the
requesting node is only logged).  As in the release verb, the log message at the top
reads `wd_failover_lock_name[failoverLock]` (`none` when that is out of bounds); `none`
also stands for a read of `locks` outside the array. -/
def node_is_asking_for_failover_lock_status (c : wd_cluster) (failoverLock : Int)
    (failoverID : Nat) : Option (WDFailoverCMDResults × wd_cluster) :=
  if failoverLock < 0 ∨ (wd_failover_lock_name.length : Int) ≤ failoverLock then none
  else if c.localNode.state = WD_COORDINATOR then
    match c.interlockingNode.lockHolderNode with
    | some _ =>
      if failoverLock < MAX_FAILOVER_LOCKS then
        match c.interlockingNode.locks[failoverLock.toNat]? with
        | some true => some (FAILOVER_RES_LOCKED, c)
        | some false => some (FAILOVER_RES_UNLOCKED, c)
        | none => none
      else some (FAILOVER_RES_ERROR, c)
    | none =>
      match get_failover_object_by_id c.wdCurrentFailovers failoverID with
      | some _ => some (FAILOVER_RES_NO_LOCKHOLDER_BUT_WAIT, c)
      | none => some (FAILOVER_RES_NO_LOCKHOLDER, c)
  else some (FAILOVER_RES_ERROR, c)

/-- The registry states of a coordinator: any state with an empty registry, then any
sequence of failover requests handled by `process_failover_command_on_coordinator`, end
verbs handled by `node_is_asking_for_failover_end`, and other activity of the event
loop, which may change everything except the list of current failovers (no other
function writes `wdCurrentFailovers`). -/
inductive RegistryReachable (ext : WDExternals) : World → Prop
  | init (w : World) (h : w.cluster.wdCurrentFailovers = []) : RegistryReachable ext w
  | request (w : World) (ipcCommand : WDCommandData) (h : RegistryReachable ext w) :
      RegistryReachable ext (process_failover_command_on_coordinator ext w ipcCommand).2.2
  | end_verb (w : World) (wdNode : NodeRef) (failoverID : Nat) (h : RegistryReachable ext w) :
      RegistryReachable ext
        { w with cluster := (node_is_asking_for_failover_end w.cluster wdNode failoverID).2 }
  | other (w w1 : World) (h : RegistryReachable ext w)
      (hreg : w1.cluster.wdCurrentFailovers = w.cluster.wdCurrentFailovers) :
      RegistryReachable ext w1

/-- `get_wd_command_from_reply`: the first command in the list that came in over IPC
and whose command packet carries the command id of the reply. -/
def get_wd_command_from_reply (commands : List WDCommandData) (pkt : WDPacketData) :
    Option WDCommandData :=
  match commands with
  | [] => none
  | ipcCommand :: rest =>
    if ipcCommand.commandSource ≠ COMMAND_SOURCE_IPC then get_wd_command_from_reply rest pkt
    else if ipcCommand.commandPacket.command_id = pkt.command_id then some ipcCommand
    else get_wd_command_from_reply rest pkt

/-- `get_wd_IPC_command_from_reply`. -/
def get_wd_IPC_command_from_reply (c : wd_cluster) (pkt : WDPacketData) :
    Option WDCommandData :=
  get_wd_command_from_reply c.ipc_commands pkt

/-- `wd_commands_packet_processor`, modelled for the replies ACCEPT, REJECT and ERROR to
a forwarded failover command; `none` stands for the branches that hand the packet to a
processor outside the model.  The result says whether the packet was consumed. -/
def wd_commands_packet_processor (ext : WDExternals) (w : World) (event : WD_EVENTS)
    (pkt : Option WDPacketData) : Option (Bool × World) :=
  if event ≠ WD_EVENT_PACKET_RCV then some (false, w)
  else
    match pkt with
    | none => some (false, w)
    | some p =>
      if p.type = ext.WD_FAILOVER_LOCKING_REQUEST then none
      else if p.type = ext.WD_IPC_FAILOVER_COMMAND then none
      else if p.type = WD_REMOTE_FAILOVER_REQUEST then none
      else if p.type = ext.WD_IPC_ONLINE_RECOVERY_COMMAND then none
      else if p.type = WD_DATA_MESSAGE then none
      else if p.type = WD_CMD_REPLY_IN_DATA then none
      else if p.type = WD_ACCEPT_MESSAGE ∨ p.type = WD_REJECT_MESSAGE ∨
          p.type = WD_ERROR_MESSAGE then
        match get_wd_IPC_command_from_reply w.cluster p with
        | none => some (false, w)
        | some ipcCommand =>
          if ipcCommand.commandPacket.type = ext.WD_IPC_FAILOVER_COMMAND then
            if p.type = WD_ACCEPT_MESSAGE then
              some (true, (reply_to_failove_command ext w ipcCommand FAILOVER_RES_PROCEED 0).2)
            else
              some (true,
                (reply_to_failove_command ext w ipcCommand FAILOVER_RES_MASTER_REJECTED 0).2)
          else if ipcCommand.commandPacket.type = ext.WD_FAILOVER_LOCKING_REQUEST then none
          else if ipcCommand.commandPacket.type = WD_REMOTE_FAILOVER_REQUEST ∨
              ipcCommand.commandPacket.type = ext.WD_IPC_ONLINE_RECOVERY_COMMAND then none
          else some (false, w)
      else some (false, w)

/-! ## The command tracker -/

/-- `WD_IAM_IN_NW_TROUBLE_MESSAGE` ('N'). -/
def WD_IAM_IN_NW_TROUBLE_MESSAGE : Byte := 78
/-- `WD_QUORUM_IS_LOST` ('Q'). -/
def WD_QUORUM_IS_LOST : Byte := 81
/-- `WD_INFORM_I_AM_GOING_DOWN` ('X'). -/
def WD_INFORM_I_AM_GOING_DOWN : Byte := 88
/-- `WD_ASK_FOR_POOL_CONFIG` ('Y'). -/
def WD_ASK_FOR_POOL_CONFIG : Byte := 89

/-- `create_command_object`: a zeroed record (`palloc0`), so the source is
`COMMAND_SOURCE_IPC` and the status `COMMAND_EMPTY`, the first values of their enums.
The buffer of the source packet is allocated when a length is given; its content is
unspecified until the caller fills it and is modelled as zeros. -/
def create_command_object (packet_data_length : Int) : WDCommandData :=
  { sourcePacket :=
      { type := WD_NO_MESSAGE, command_id := 0, len := 0,
        data := if packet_data_length > 0 then some (List.replicate packet_data_length.toNat 0)
          else none },
    commandPacket := { type := WD_NO_MESSAGE, command_id := 0, len := 0, data := none },
    nodeResults := none, sendToNode := none, commandStatus := COMMAND_EMPTY,
    commandSendToCount := 0, commandSendToErrorCount := 0, commandReplyFromCount := 0,
    commandSource := COMMAND_SOURCE_IPC, sourceIPCSocket := 0, sourceWdNode := none }

/-- `clear_command_node_result`. -/
def clear_command_node_result (nodeResult : WDCommandNodeResult) : WDCommandNodeResult :=
  { nodeResult with result_type := WD_NO_MESSAGE, cmdState := COMMAMD_STATE_INIT }

/-- A write through `&ipcCommand->nodeResults[i]`: slot `i` of the result array becomes
`f` of what it was. -/
def update_nodeResult (ipcCommand : WDCommandData) (i : Nat)
    (f : WDCommandNodeResult → WDCommandNodeResult) : WDCommandData :=
  { ipcCommand with
    nodeResults := ipcCommand.nodeResults.map fun rs =>
      match rs[i]? with
      | some nodeResult => rs.set i (f nodeResult)
      | none => rs }

/-- `is_node_active_and_reachable`. -/
def is_node_active_and_reachable (wdNode : WatchdogNode) : Bool :=
  if is_node_active wdNode then is_node_reachable wdNode else false

/-- One round of the broadcast loop of `issue_watchdog_internal_command` (`wdNode == NULL`).
The accumulator holds the record, the flag `save_message` and the world. -/
def issue_internal_command_step (pkt : WDPacketData) (acc : WDCommandData × Bool × World)
    (i : Nat) : WDCommandData × Bool × World :=
  match (acc.1.nodeResults.getD [])[i]? with
  | none => acc
  | some nodeResult =>
    match get_node acc.2.2.cluster nodeResult.wdNode with
    | none => acc
    | some wdNode =>
      if is_node_active wdNode = false then
        (update_nodeResult acc.1 i fun s =>
           { clear_command_node_result s with cmdState := COMMAND_STATE_DO_NOT_SEND },
         acc.2.1, acc.2.2)
      else
        let r := send_message_to_node acc.2.2 nodeResult.wdNode pkt
        if r.1 = false then
          (update_nodeResult acc.1 i fun s =>
             { clear_command_node_result s with cmdState := COMMAND_STATE_SEND_ERROR },
           true, r.2)
        else
          ({ update_nodeResult acc.1 i (fun s =>
               { clear_command_node_result s with cmdState := COMMAND_STATE_SENT }) with
             commandSendToCount := (acc.1.commandSendToCount + 1) % 4294967296 },
           acc.2.1, r.2)

/-- One round of the loop of `issue_watchdog_internal_command` for a single addressee:
every slot is cleared and the slot of the addressee is remembered. -/
def issue_internal_command_find (wdNode : NodeRef) (acc : WDCommandData × Option Nat)
    (i : Nat) : WDCommandData × Option Nat :=
  match (acc.1.nodeResults.getD [])[i]? with
  | none => acc
  | some nodeRes =>
    (update_nodeResult acc.1 i clear_command_node_result,
     if nodeRes.wdNode = wdNode then some i else acc.2)

/-- The end of `issue_watchdog_internal_command`: the payload is kept in the record when a
send failed, the record is appended to `clusterCommands`, and `commandSendToCount` is
returned. -/
def issue_internal_command_finish (pkt : WDPacketData) (r : WDCommandData × Bool × World) :
    Int × World :=
  let clusterCommand : WDCommandData :=
    if r.2.1 = true ∧ pkt.len > 0 then
      { r.1 with
        commandPacket :=
          { r.1.commandPacket with data := pkt.data.map (List.take pkt.len.toNat), len := pkt.len } }
    else r.1
  ((clusterCommand.commandSendToCount : Int),
   { r.2.2 with
     cluster :=
       { r.2.2.cluster with
         clusterCommands := r.2.2.cluster.clusterCommands ++ [clusterCommand] } })

/-- `issue_watchdog_internal_command(wdNode, pkt, timeout_sec)`: a new record with source
`COMMAND_SOURCE_LOCAL` is filled in, the packet is sent to the addressee or to every
active remote node, and the record is appended to `clusterCommands`.  With an addressee
that has no result slot the function returns `-1` and the record is dropped.  Times and
the time-out are not modelled. -/
def issue_watchdog_internal_command (w : World) (wdNode : Option NodeRef) (pkt : WDPacketData) :
    Int × World :=
  let clusterCommand := allocate_resultNodes_in_command w.cluster
    { create_command_object 0 with
      commandSource := COMMAND_SOURCE_LOCAL, sourceWdNode := some NodeRef.localNode,
      commandPacket := { type := pkt.type, command_id := pkt.command_id, len := 0, data := none },
      sendToNode := wdNode, commandSendToCount := 0, commandReplyFromCount := 0,
      commandStatus := COMMAND_IN_PROGRESS }
  match wdNode with
  | none =>
    issue_internal_command_finish pkt
      ((List.range w.cluster.remoteNodes.length).foldl (issue_internal_command_step pkt)
        (clusterCommand, false, w))
  | some target =>
    let f := (List.range w.cluster.remoteNodes.length).foldl
      (issue_internal_command_find target) (clusterCommand, none)
    match f.2 with
    | none => (-1, w)
    | some i =>
      let r := send_message_to_node w target pkt
      if r.1 = false then
        issue_internal_command_finish pkt
          (update_nodeResult f.1 i (fun s => { s with cmdState := COMMAND_STATE_SEND_ERROR }),
           true, r.2)
      else
        issue_internal_command_finish pkt
          ({ update_nodeResult f.1 i (fun s => { s with cmdState := COMMAND_STATE_SENT }) with
             commandSendToCount := (f.1.commandSendToCount + 1) % 4294967296 },
           false, r.2)

/-- `get_mynode_info_message`: the INFO packet describing the local node. -/
def get_mynode_info_message (ext : WDExternals) (c : wd_cluster)
    (replyFor : Option WDPacketData) : WDPacketData × wd_cluster :=
  let json := ext.get_watchdog_node_info_json c.localNode
  match replyFor with
  | none =>
    ({ type := WD_INFO_MESSAGE, command_id := toInt32 (get_next_commandID c).1,
       len := json.length, data := some json },
     (get_next_commandID c).2)
  | some r =>
    ({ type := WD_INFO_MESSAGE, command_id := r.command_id, len := json.length,
       data := some json }, c)

/-- `get_addnode_message`: the ADD NODE packet describing the local node, with the next
command id. -/
def get_addnode_message (ext : WDExternals) (c : wd_cluster) : WDPacketData × wd_cluster :=
  let json := ext.get_watchdog_node_info_json c.localNode
  ({ type := WD_ADD_NODE_MESSAGE, command_id := toInt32 (get_next_commandID c).1,
     len := json.length, data := some json },
   (get_next_commandID c).2)

/-- `get_message_of_type`: `none` is the NULL returned for a type without a case. -/
def get_message_of_type (ext : WDExternals) (c : wd_cluster) (type : Byte) :
    Option (WDPacketData × wd_cluster) :=
  if type = WD_INFO_MESSAGE then some (get_mynode_info_message ext c none)
  else if type = WD_ADD_NODE_MESSAGE then some (get_addnode_message ext c)
  else if type = WD_REQ_INFO_MESSAGE ∨ type = WD_IAM_COORDINATOR_MESSAGE ∨
      type = WD_STAND_FOR_COORDINATOR_MESSAGE ∨ type = WD_DECLARE_COORDINATOR_MESSAGE ∨
      type = WD_JOIN_COORDINATOR_MESSAGE ∨ type = WD_QUORUM_IS_LOST ∨
      type = WD_INFORM_I_AM_GOING_DOWN ∨ type = WD_ASK_FOR_POOL_CONFIG then
    some (get_minimum_message c type none)
  else none

/-- `send_message_of_type`. -/
def send_message_of_type (ext : WDExternals) (w : World) (wdNode : Option NodeRef)
    (type : Byte) : Int × World :=
  match get_message_of_type ext w.cluster type with
  | none => (-1, w)
  | some m => send_message { w with cluster := m.2 } wdNode m.1

/-- `send_cluster_command(wdNode, type, timeout_sec)`. -/
def send_cluster_command (ext : WDExternals) (w : World) (wdNode : Option NodeRef)
    (type : Byte) : Int × World :=
  match get_message_of_type ext w.cluster type with
  | none => (-1, w)
  | some m => issue_watchdog_internal_command { w with cluster := m.2 } wdNode m.1

/-- `get_wd_cluster_command_from_reply`. -/
def get_wd_cluster_command_from_reply (c : wd_cluster) (pkt : WDPacketData) :
    Option WDCommandData :=
  get_wd_command_from_reply c.clusterCommands pkt

/-- The position in the list of the record `get_wd_command_from_reply` returns, which is
what the returned pointer stands for. -/
def get_wd_command_index_from_reply (commands : List WDCommandData) (pkt : WDPacketData) :
    Option Nat :=
  match commands with
  | [] => none
  | ipcCommand :: rest =>
    if ipcCommand.commandSource ≠ COMMAND_SOURCE_IPC then
      (get_wd_command_index_from_reply rest pkt).map (· + 1)
    else if ipcCommand.commandPacket.command_id = pkt.command_id then some 0
    else (get_wd_command_index_from_reply rest pkt).map (· + 1)

/-- One round of the inner loop of `service_internal_command` on a command in progress: a
slot in state SEND_ERROR whose node is active and reachable again is sent the command
packet. -/
def service_internal_command_step (acc : WDCommandData × World) (i : Nat) :
    WDCommandData × World :=
  match (acc.1.nodeResults.getD [])[i]? with
  | none => acc
  | some nodeResult =>
    if nodeResult.cmdState = COMMAND_STATE_SEND_ERROR then
      match get_node acc.2.cluster nodeResult.wdNode with
      | none => acc
      | some wdNode =>
        if is_node_active_and_reachable wdNode then
          let r := send_message_to_node acc.2 nodeResult.wdNode acc.1.commandPacket
          if r.1 = true then
            ({ update_nodeResult acc.1 i (fun s => { s with cmdState := COMMAND_STATE_SENT }) with
               commandSendToCount := (acc.1.commandSendToCount + 1) % 4294967296 }, r.2)
          else (acc.1, r.2)
        else acc
    else acc

/-- The body of the outer loop of `service_internal_command` for one command: nothing for
a command that is not in progress (it is deleted after the loop), the resend loop
otherwise. -/
def service_internal_command_resend (w : World) (clusterCommand : WDCommandData) :
    WDCommandData × World :=
  if clusterCommand.commandStatus ≠ COMMAND_IN_PROGRESS then (clusterCommand, w)
  else
    (List.range w.cluster.remoteNodes.length).foldl service_internal_command_step
      (clusterCommand, w)

/-- `service_internal_command`: the resend loop over all cluster commands, then the
commands that are not in progress are deleted from the list. -/
def service_internal_command (w : World) : World :=
  let w1 := (List.range w.cluster.clusterCommands.length).foldl
    (fun (acc : World) j =>
      match acc.cluster.clusterCommands[j]? with
      | none => acc
      | some clusterCommand =>
        let r := service_internal_command_resend acc clusterCommand
        { r.2 with
          cluster :=
            { r.2.cluster with clusterCommands := r.2.cluster.clusterCommands.set j r.1 } })
    w
  { w1 with
    cluster :=
      { w1.cluster with
        clusterCommands := w1.cluster.clusterCommands.filter fun clusterCommand =>
          decide (clusterCommand.commandStatus = COMMAND_IN_PROGRESS) } }

/-- One round of the inner loop of `service_ipc_commands`; the first component of the
accumulator is set at the `break`. -/
def service_ipc_commands_step (acc : Bool × WDCommandData × World) (i : Nat) :
    Bool × WDCommandData × World :=
  if acc.1 = true then acc
  else
    match (acc.2.1.nodeResults.getD [])[i]? with
    | none => acc
    | some nodeResult =>
      if nodeResult.cmdState = COMMAND_STATE_SEND_ERROR then
        match get_node acc.2.2.cluster nodeResult.wdNode with
        | none => acc
        | some wdNode =>
          if is_node_active_and_reachable wdNode then
            let r := send_message_to_node acc.2.2 nodeResult.wdNode acc.2.1.commandPacket
            if r.1 = true then
              (decide ((acc.2.1.commandSendToErrorCount + 4294967295) % 4294967296 = 0),
               { update_nodeResult acc.2.1 i
                   (fun s => { s with cmdState := COMMAND_STATE_SENT }) with
                 commandSendToErrorCount :=
                   (acc.2.1.commandSendToErrorCount + 4294967295) % 4294967296,
                 commandSendToCount := (acc.2.1.commandSendToCount + 1) % 4294967296 },
               r.2)
            else (false, acc.2.1, r.2)
          else acc
      else acc

/-- The body of the outer loop of `service_ipc_commands` for one command: the resend loop
when the command has send errors. -/
def service_ipc_commands_resend (w : World) (ipcCommand : WDCommandData) :
    WDCommandData × World :=
  if ipcCommand.commandSendToErrorCount ≠ 0 then
    ((List.range w.cluster.remoteNodes.length).foldl service_ipc_commands_step
      (false, ipcCommand, w)).2
  else (ipcCommand, w)

/-- `service_ipc_commands`: the resend loop over all pending IPC commands. -/
def service_ipc_commands (w : World) : World :=
  (List.range w.cluster.ipc_commands.length).foldl
    (fun (acc : World) j =>
      match acc.cluster.ipc_commands[j]? with
      | none => acc
      | some ipcCommand =>
        let r := service_ipc_commands_resend acc ipcCommand
        { r.2 with
          cluster := { r.2.cluster with ipc_commands := r.2.cluster.ipc_commands.set j r.1 } })
    w

/-- `wd_command_is_complete`: the standard reply for a finished command (no record has a
`commandCompleteFunc`; the field is never assigned). -/
def wd_command_is_complete (ext : WDExternals) (w : World) (ipcCommand : WDCommandData) :
    World :=
  if ipcCommand.commandSource = COMMAND_SOURCE_IPC then
    let res_type : Byte :=
      match ipcCommand.commandStatus with
      | COMMAND_FINISHED_ALL_REPLIED => ext.WD_IPC_CMD_RESULT_OK
      | COMMAND_FINISHED_TIMEOUT => ext.WD_IPC_CMD_TIMEOUT
      | COMMAND_FINISHED_NODE_REJECTED => ext.WD_IPC_CMD_RESULT_BAD
      | COMMAND_FINISHED_SEND_FAILED => ext.WD_IPC_CMD_RESULT_BAD
      | _ => ext.WD_IPC_CMD_RESULT_OK
    (write_ipc_command_with_result_data w ipcCommand res_type none 0).2
  else if ipcCommand.commandSource = COMMAND_SOURCE_REMOTE then
    let res_type : Byte :=
      if ipcCommand.commandStatus = COMMAND_FINISHED_ALL_REPLIED then WD_ACCEPT_MESSAGE
      else WD_REJECT_MESSAGE
    (reply_with_minimal_message w ipcCommand.sourceWdNode res_type
      (some ipcCommand.commandPacket)).2
  else w

/-- The search loop of `reply_is_received_for_pgpool_replicate_command` and of
`wd_command_processor_for_node_lost_event`: the first of the `remoteNodeCount` slots
that belongs to `wdNode`. -/
def find_nodeResult (remoteNodeCount : Nat) (ipcCommand : WDCommandData) (wdNode : NodeRef) :
    Option Nat :=
  (List.range remoteNodeCount).find? fun i =>
    match (ipcCommand.nodeResults.getD [])[i]? with
    | some nodeResult => decide (nodeResult.wdNode = wdNode)
    | none => false

/-- `reply_is_received_for_pgpool_replicate_command`: the return value, the record, whether
the command was finished (`wd_command_is_complete` and `cleanUpIPCCommand` were called on
it; the caller, which knows where the record is kept, deletes it) and the world. -/
def reply_is_received_for_pgpool_replicate_command (ext : WDExternals) (w : World)
    (wdNode : NodeRef) (pkt : WDPacketData) (ipcCommand : WDCommandData) :
    Bool × WDCommandData × Bool × World :=
  match find_nodeResult w.cluster.remoteNodes.length ipcCommand wdNode with
  | none => (true, ipcCommand, false, w)
  | some i =>
    let cmd1 : WDCommandData :=
      { update_nodeResult ipcCommand i
          (fun s => { s with result_type := pkt.type, cmdState := COMMAND_STATE_REPLIED }) with
        commandReplyFromCount := (ipcCommand.commandReplyFromCount + 1) % 4294967296 }
    if pkt.type ≠ WD_ACCEPT_MESSAGE then
      (true, { cmd1 with commandStatus := COMMAND_FINISHED_NODE_REJECTED }, true,
        wd_command_is_complete ext w
          { cmd1 with commandStatus := COMMAND_FINISHED_NODE_REJECTED })
    else if cmd1.commandReplyFromCount ≥ cmd1.commandSendToCount then
      (true, { cmd1 with commandStatus := COMMAND_FINISHED_ALL_REPLIED }, true,
        wd_command_is_complete ext w
          { cmd1 with commandStatus := COMMAND_FINISHED_ALL_REPLIED })
    else (true, cmd1, false, w)

/-- `wd_command_processor_for_node_lost_event`: the result, the record and the world. -/
def wd_command_processor_for_node_lost_event (ext : WDExternals) (w : World)
    (ipcCommand : WDCommandData) (wdLostNode : NodeRef) :
    IPC_CMD_PREOCESS_RES × WDCommandData × World :=
  match ipcCommand.sendToNode with
  | some sendToNode =>
    if sendToNode = wdLostNode then
      (IPC_CMD_ERROR, { ipcCommand with commandStatus := COMMAND_FINISHED_SEND_FAILED },
        wd_command_is_complete ext w
          { ipcCommand with commandStatus := COMMAND_FINISHED_SEND_FAILED })
    else (IPC_CMD_PROCESSING, ipcCommand, w)
  | none =>
    match find_nodeResult w.cluster.remoteNodes.length ipcCommand wdLostNode with
    | none => (IPC_CMD_PROCESSING, ipcCommand, w)
    | some i =>
      match (ipcCommand.nodeResults.getD [])[i]? with
      | none => (IPC_CMD_PROCESSING, ipcCommand, w)
      | some nodeResult =>
        if nodeResult.cmdState = COMMAND_STATE_SENT then
          let cmd1 : WDCommandData :=
            { update_nodeResult ipcCommand i
                (fun s => { s with cmdState := COMMAND_STATE_DO_NOT_SEND }) with
              commandSendToCount := (ipcCommand.commandSendToCount + 4294967295) % 4294967296 }
          if cmd1.commandSendToCount ≤ cmd1.commandReplyFromCount then
            (IPC_CMD_COMPLETE, { cmd1 with commandStatus := COMMAND_FINISHED_ALL_REPLIED },
              wd_command_is_complete ext w
                { cmd1 with commandStatus := COMMAND_FINISHED_ALL_REPLIED })
          else (IPC_CMD_PROCESSING, cmd1, w)
        else (IPC_CMD_PROCESSING, ipcCommand, w)

/-- `check_for_current_command_timeout`.  The clock is outside the model: `expired` says
for which commands the time-out has passed.  Every command in progress that has expired
gets the status TIMEOUT and the state machine is called for it with
`WD_EVENT_COMMAND_FINISHED`; these calls are handed back, in order, as the second
component.  The commands that are not in progress when the loop meets them and the
expired ones are deleted from the list. -/
def check_for_current_command_timeout (expired : WDCommandData → Bool) (c : wd_cluster) :
    wd_cluster × List WDCommandData :=
  ({ c with
     clusterCommands := c.clusterCommands.filter fun clusterCommand =>
       decide (clusterCommand.commandStatus = COMMAND_IN_PROGRESS) && !expired clusterCommand },
   (c.clusterCommands.filter fun clusterCommand =>
      decide (clusterCommand.commandStatus = COMMAND_IN_PROGRESS) && expired clusterCommand).map
     fun clusterCommand => { clusterCommand with commandStatus := COMMAND_FINISHED_TIMEOUT })

/-- The slot loop of `watchdog_internal_command_packet_processor`: every slot it visits is
cleared, and it stops (`break`) at the slot of `wdNode`, whose index is the second
component. -/
def internal_command_reply_step (wdNode : NodeRef) (acc : WDCommandData × Option Nat)
    (i : Nat) : WDCommandData × Option Nat :=
  match acc.2 with
  | some _ => acc
  | none =>
    match (acc.1.nodeResults.getD [])[i]? with
    | none => acc
    | some nodeRes =>
      (update_nodeResult acc.1 i clear_command_node_result,
       if nodeRes.wdNode = wdNode then some i else none)

/-- What `watchdog_internal_command_packet_processor` does to the record of a command in
progress for a reply of type ERROR, ACCEPT, REJECT or INFO from `wdNode`: the record
afterwards, and whether the state machine is called with `WD_EVENT_COMMAND_FINISHED`. -/
def internal_command_reply (remoteNodeCount : Nat) (wdNode : NodeRef) (pkt : WDPacketData)
    (clusterCommand : WDCommandData) : WDCommandData × Bool :=
  let f := (List.range remoteNodeCount).foldl (internal_command_reply_step wdNode)
    (clusterCommand, none)
  match f.2 with
  | none => (f.1, false)
  | some i =>
    let cmd1 : WDCommandData :=
      { update_nodeResult f.1 i
          (fun s => { s with result_type := pkt.type, cmdState := COMMAND_STATE_REPLIED }) with
        commandReplyFromCount := (f.1.commandReplyFromCount + 1) % 4294967296 }
    if cmd1.commandReplyFromCount ≥ cmd1.commandSendToCount then
      if pkt.type = WD_REJECT_MESSAGE ∨ pkt.type = WD_ERROR_MESSAGE then
        ({ cmd1 with commandStatus := COMMAND_FINISHED_NODE_REJECTED }, true)
      else ({ cmd1 with commandStatus := COMMAND_FINISHED_ALL_REPLIED }, true)
    else if pkt.type = WD_REJECT_MESSAGE ∨ pkt.type = WD_ERROR_MESSAGE then
      ({ cmd1 with commandStatus := COMMAND_FINISHED_NODE_REJECTED }, true)
    else (cmd1, false)

/-! ## The state machine -/

/-- `resign_from_escalated_node`: the two flags are cleared.  The wait for a running
escalation process and the fork of the de-escalation process are not modelled. -/
def resign_from_escalated_node (c : wd_cluster) : wd_cluster :=
  if c.escalated = false then c
  else { c with holding_vip := false, escalated := false }

/-- `connect_to_node`, given what `wd_create_client_socket` returns: the descriptor and
the flag `connected`. -/
def connect_to_node (wdNode : WatchdogNode) (r : Int × Bool) : WatchdogNode :=
  { wdNode with
    client_socket :=
      if r.1 ≤ 0 then { sock := r.1, sock_state := WD_SOCK_ERROR }
      else if r.2 = true then { sock := r.1, sock_state := WD_SOCK_CONNECTED }
      else { sock := r.1, sock_state := WD_SOCK_WAITING_FOR_CONNECT } }

/-- The states for which `watchdog_state_machine` has a handler; in any other state it
logs "invalid watchdog state" and resets to LOADING. -/
def has_state_handler (s : WD_STATES) : Bool :=
  match s with
  | WD_LOADING | WD_JOINING | WD_INITIALIZING | WD_COORDINATOR | WD_PARTICIPATE_IN_ELECTION
  | WD_STAND_FOR_COORDINATOR | WD_STANDBY | WD_LOST | WD_IN_NW_TROUBLE => true
  | _ => false

/-- `watchdog_state_machine(WD_EVENT_NEW_OUTBOUND_CONNECTION, wdNode, NULL, NULL)`: the
ADD NODE message is sent to the node; after that no state handler has a case for the
event.  In a state without a handler the state machine resets to LOADING, which is
outside the model (`none`). -/
def watchdog_state_machine_new_outbound_connection (ext : WDExternals) (w : World)
    (wdNode : NodeRef) : Option World :=
  let m := get_addnode_message ext w.cluster
  let w1 := (send_message { w with cluster := m.2 } (some wdNode) m.1).2
  if has_state_handler w1.cluster.localNode.state then some w1 else none

/-- One round of the loop of `try_connecting_with_all_unreachable_nodes`. -/
def try_connecting_step (ext : WDExternals) (acc : Option World) (i : Nat) : Option World :=
  match acc with
  | none => none
  | some w =>
    match w.cluster.remoteNodes[i]? with
    | none => some w
    | some wdNode =>
      if wdNode.client_socket.sock_state ≠ WD_SOCK_WAITING_FOR_CONNECT ∧
          wdNode.client_socket.sock_state ≠ WD_SOCK_CONNECTED ∧
          wdNode.server_socket.sock_state ≠ WD_SOCK_WAITING_FOR_CONNECT ∧
          wdNode.server_socket.sock_state ≠ WD_SOCK_CONNECTED then
        if wdNode.state = WD_SHUTDOWN then some w
        else
          let n1 := connect_to_node wdNode (w.connects.headD (-1, false))
          let w1 : World :=
            { w with
              cluster := set_node w.cluster (NodeRef.remote i) n1
              connects := w.connects.tail }
          if n1.client_socket.sock_state = WD_SOCK_CONNECTED then
            watchdog_state_machine_new_outbound_connection ext w1 (NodeRef.remote i)
          else some w1
      else some w

/-- `try_connecting_with_all_unreachable_nodes`. -/
def try_connecting_with_all_unreachable_nodes (ext : WDExternals) (w : World) : Option World :=
  (List.range w.cluster.remoteNodes.length).foldl (try_connecting_step ext) (some w)

/-- The case `WD_EVENT_WD_STATE_CHANGED` of `watchdog_state_machine_joining`. -/
def joining_state_changed (ext : WDExternals) (w : World) : Option World :=
  match try_connecting_with_all_unreachable_nodes ext
      { w with cluster := { w.cluster with masterNode := none } } with
  | none => none
  | some w1 => some (send_cluster_command ext w1 none WD_REQ_INFO_MESSAGE).2

/-- The case `WD_EVENT_WD_STATE_CHANGED` of `watchdog_state_machine_coordinator` (the
loop that prints the node records is left out). -/
def coordinator_state_changed (ext : WDExternals) (w : World) : World :=
  (send_cluster_command ext w none WD_DECLARE_COORDINATOR_MESSAGE).2

/-- The case `WD_EVENT_WD_STATE_CHANGED` of `watchdog_state_machine_standForCord`. -/
def standForCord_state_changed (ext : WDExternals) (w : World) : World :=
  (send_cluster_command ext w none WD_STAND_FOR_COORDINATOR_MESSAGE).2

/-- The case `WD_EVENT_WD_STATE_CHANGED` of `watchdog_state_machine_standby`. -/
def standby_state_changed (ext : WDExternals) (w : World) : World :=
  let w1 := (send_cluster_command ext w w.cluster.masterNode WD_JOIN_COORDINATOR_MESSAGE).2
  { w1 with cluster := (update_quorum_status w1.cluster).2 }

/-- `watchdog_state_machine(WD_EVENT_WD_STATE_CHANGED, NULL, NULL, NULL)`: none of the
branches on the event applies, `wd_commands_packet_processor` declines an event that is
not a packet, and the handler of the local state runs its case for the event.  The
handlers of INITIALIZING and PARTICIPATE_IN_ELECTION only arm a timer.  `none` stands
for the states outside the model: LOADING, the network-trouble states (whose handler
ends the process) and the states without a handler. -/
def watchdog_state_machine_state_changed (ext : WDExternals) (w : World) : Option World :=
  match w.cluster.localNode.state with
  | WD_JOINING => joining_state_changed ext w
  | WD_INITIALIZING => some w
  | WD_COORDINATOR => some (coordinator_state_changed ext w)
  | WD_PARTICIPATE_IN_ELECTION => some w
  | WD_STAND_FOR_COORDINATOR => some (standForCord_state_changed ext w)
  | WD_STANDBY => some (standby_state_changed ext w)
  | _ => none

/-- `set_state`: the new state is stored; if it differs from the old one, the node
de-escalates when it leaves COORDINATOR, the state machine runs with
`WD_EVENT_WD_STATE_CHANGED`, and the INFO message is sent to all nodes. -/
def set_state (ext : WDExternals) (w : World) (newState : WD_STATES) : Option World :=
  let oldState := w.cluster.localNode.state
  let w1 : World :=
    { w with cluster := { w.cluster with localNode := { w.cluster.localNode with state := newState } } }
  if oldState ≠ newState then
    let w2 : World :=
      if oldState = WD_COORDINATOR then
        { w1 with cluster := resign_from_escalated_node w1.cluster }
      else w1
    match watchdog_state_machine_state_changed ext w2 with
    | none => none
    | some w3 => some (send_message_of_type ext w3 none WD_INFO_MESSAGE).2
  else some w1

/-- `parse_node_info_message`. -/
def parse_node_info_message (ext : WDExternals) (pkt : WDPacketData) :
    Option (WD_STATES × Int × Int) :=
  if pkt.type ≠ WD_ADD_NODE_MESSAGE ∧ pkt.type ≠ WD_INFO_MESSAGE then none
  else
    match pkt.data with
    | none => none
    | some data => if pkt.len ≤ 0 then none else ext.get_watchdog_node_from_json data pkt.len

/-- `standard_packet_processor`, modelled for the INFO message: the record of the sender
takes the announced state, start time and priority, and the master pointer follows.
`none` stands for the other packet types, which are outside the model. -/
def standard_packet_processor (ext : WDExternals) (w : World) (wdNode : NodeRef)
    (pkt : WDPacketData) : Option World :=
  if pkt.type = WD_INFO_MESSAGE then
    match parse_node_info_message ext pkt with
    | none => some w
    | some tempNode =>
      match get_node w.cluster wdNode with
      | none => none
      | some n =>
        let c1 := set_node w.cluster wdNode
          { n with state := tempNode.1, startup_time := tempNode.2.1, wd_priority := tempNode.2.2 }
        if tempNode.1 = WD_COORDINATOR then
          if c1.masterNode = none then
            some { w with cluster := { c1 with masterNode := some wdNode } }
          else if c1.masterNode ≠ some wdNode then
            set_state ext { w with cluster := { c1 with masterNode := none } } WD_JOINING
          else some { w with cluster := c1 }
        else if c1.masterNode = some wdNode then
          set_state ext { w with cluster := { c1 with masterNode := none } } WD_JOINING
        else some { w with cluster := c1 }
  else none

/-- `watchdog_internal_command_packet_processor`: whether the packet was consumed, the
world afterwards, and the record with which the state machine is called for
`WD_EVENT_COMMAND_FINISHED` (that call is the last thing the function does before it
returns `true`; it is handed back to the caller).  The record found by
`get_wd_cluster_command_from_reply` is addressed by its position in the list. -/
def watchdog_internal_command_packet_processor (ext : WDExternals) (w : World)
    (wdNode : NodeRef) (pkt : WDPacketData) : Option (Bool × World × Option WDCommandData) :=
  match get_wd_command_index_from_reply w.cluster.clusterCommands pkt with
  | none => some (false, w, none)
  | some idx =>
    match w.cluster.clusterCommands[idx]? with
    | none => none
    | some clusterCommand =>
      if clusterCommand.commandStatus ≠ COMMAND_IN_PROGRESS then some (false, w, none)
      else if pkt.type ≠ WD_ERROR_MESSAGE ∧ pkt.type ≠ WD_ACCEPT_MESSAGE ∧
          pkt.type ≠ WD_REJECT_MESSAGE ∧ pkt.type ≠ WD_INFO_MESSAGE then some (false, w, none)
      else
        match (if pkt.type = WD_INFO_MESSAGE then standard_packet_processor ext w wdNode pkt
            else some w) with
        | none => none
        | some w1 =>
          match w1.cluster.clusterCommands[idx]? with
          | none => none
          | some cmd =>
            let r := internal_command_reply w1.cluster.remoteNodes.length wdNode pkt cmd
            some (true,
              { w1 with
                cluster :=
                  { w1.cluster with clusterCommands := w1.cluster.clusterCommands.set idx r.1 } },
              if r.2 = true then some r.1 else none)

/-! ## Election: the STAND_FOR_COORDINATOR state -/

/-- `watchdog_state_machine_standForCord`.  The change of state, the time-out, the packet
cases STAND_FOR_COORDINATOR and DECLARE_COORDINATOR and the events without a case are
modelled; `none` stands for the parts outside the model (the end of a cluster command,
`standard_packet_processor`). -/
def watchdog_state_machine_standForCord (ext : WDExternals) (w : World) (event : WD_EVENTS)
    (wdNode : Option NodeRef) (pkt : Option WDPacketData) : Option World :=
  match event with
  | WD_EVENT_WD_STATE_CHANGED => some (standForCord_state_changed ext w)
  | WD_EVENT_COMMAND_FINISHED => none
  | WD_EVENT_TIMEOUT => set_state ext w WD_COORDINATOR
  | WD_EVENT_PACKET_RCV =>
    match pkt, wdNode.bind (get_node w.cluster) with
    | some p, some peer =>
      if p.type = WD_STAND_FOR_COORDINATOR_MESSAGE then
        if w.cluster.localNode.wd_priority > peer.wd_priority then
          some (reply_with_minimal_message w wdNode WD_REJECT_MESSAGE (some p)).2
        else if w.cluster.localNode.wd_priority = peer.wd_priority then
          if w.cluster.localNode.startup_time ≤ peer.startup_time then
            some (reply_with_minimal_message w wdNode WD_REJECT_MESSAGE (some p)).2
          else
            set_state ext (reply_with_minimal_message w wdNode WD_ACCEPT_MESSAGE (some p)).2
              WD_PARTICIPATE_IN_ELECTION
        else
          set_state ext (reply_with_minimal_message w wdNode WD_ACCEPT_MESSAGE (some p)).2
            WD_PARTICIPATE_IN_ELECTION
      else if p.type = WD_DECLARE_COORDINATOR_MESSAGE then
        if w.cluster.localNode.wd_priority > peer.wd_priority then
          some (reply_with_minimal_message w wdNode WD_REJECT_MESSAGE (some p)).2
        else
          set_state ext (reply_with_minimal_message w wdNode WD_ACCEPT_MESSAGE (some p)).2
            WD_JOINING
      else none
    | _, _ => none
  | _ => some w

/-- The minimal reply of the given type to packet `p` (`get_minimum_message(type, p)`). -/
def minimal_reply (type : Byte) (p : WDPacketData) : WDPacketData :=
  { type := type, command_id := p.command_id, len := 0, data := none }

/-- The outcome "replies REJECT and stays a candidate" of handling packet `p` from
`peer` in the STAND_FOR_COORDINATOR state: the handler sends exactly the minimal REJECT
reply to `peer` and the local state is still STAND_FOR_COORDINATOR. -/
def RejectsAndStays (ext : WDExternals) (w : World) (peer : NodeRef) (p : WDPacketData) :
    Prop :=
  ∃ w1, watchdog_state_machine_standForCord ext w WD_EVENT_PACKET_RCV (some peer) (some p)
      = some w1 ∧
    (∃ ok, w1.trace = w.trace ++ [Action.send peer (minimal_reply WD_REJECT_MESSAGE p) ok]) ∧
    w1.cluster.localNode.state = WD_STAND_FOR_COORDINATOR

/-- The outcome "replies ACCEPT and yields": the handler first sends the minimal ACCEPT
reply to `peer`, the local state becomes PARTICIPATE_IN_ELECTION, and whatever else is
sent is the INFO message that announces the new state. -/
def AcceptsAndYields (ext : WDExternals) (w : World) (peer : NodeRef) (p : WDPacketData) :
    Prop :=
  ∃ w1, watchdog_state_machine_standForCord ext w WD_EVENT_PACKET_RCV (some peer) (some p)
      = some w1 ∧
    (∃ ok rest,
      w1.trace = w.trace ++ Action.send peer (minimal_reply WD_ACCEPT_MESSAGE p) ok :: rest ∧
      ∀ a ∈ rest, ∃ n q b, a = Action.send n q b ∧ q.type = WD_INFO_MESSAGE) ∧
    w1.cluster.localNode.state = WD_PARTICIPATE_IN_ELECTION

/-- `watchdog_state_machine_coordinator`.  `none` stands for the parts outside this
function of the model: the end of a cluster command and the network events, the start of
the escalation process (`start_escalated_node`), the packets JOIN_COORDINATOR and
ADD_NODE, and what `standard_packet_processor` does not model.  The cases that start the
escalation are modelled by `coordinator_quorum_complete`, `coordinator_add_node` and
`coordinator_declare_finished`. -/
def watchdog_state_machine_coordinator (ext : WDExternals) (w : World) (event : WD_EVENTS)
    (wdNode : Option NodeRef) (pkt : Option WDPacketData) : Option World :=
  match event with
  | WD_EVENT_WD_STATE_CHANGED => some (coordinator_state_changed ext w)
  | WD_EVENT_COMMAND_FINISHED => none
  | WD_EVENT_NW_IP_IS_REMOVED => none
  | WD_EVENT_NW_IP_IS_ASSIGNED => some w
  | WD_EVENT_TIMEOUT => some (send_cluster_command ext w none WD_IAM_COORDINATOR_MESSAGE).2
  | WD_EVENT_REMOTE_NODE_LOST =>
    let c1 := (update_quorum_status w.cluster).2
    if c1.quorum_status = -1 then some { w with cluster := resign_from_escalated_node c1 }
    else some { w with cluster := c1 }
  | WD_EVENT_REMOTE_NODE_FOUND =>
    let c1 := (update_quorum_status w.cluster).2
    if c1.escalated = false then
      if c1.quorum_status ≥ 0 then none else some { w with cluster := c1 }
    else some { w with cluster := c1 }
  | WD_EVENT_PACKET_RCV =>
    match pkt, wdNode with
    | some p, some ref =>
      if p.type = WD_STAND_FOR_COORDINATOR_MESSAGE then
        some (reply_with_minimal_message w wdNode WD_REJECT_MESSAGE (some p)).2
      else if p.type = WD_DECLARE_COORDINATOR_MESSAGE then
        some (reply_with_minimal_message w wdNode WD_ERROR_MESSAGE (some p)).2
      else if p.type = WD_IAM_COORDINATOR_MESSAGE then
        set_state ext (reply_with_minimal_message w wdNode WD_ERROR_MESSAGE (some p)).2 WD_JOINING
      else if p.type = WD_JOIN_COORDINATOR_MESSAGE then none
      else if p.type = WD_ADD_NODE_MESSAGE then none
      else standard_packet_processor ext w ref p
    | _, _ => none
  | _ => some w

/-- `get_node_list_json`, as far as it writes `g_cluster`: the quorum status is
recomputed.  (`update_connected_node_count` writes `aliveNodeCount`, which is not
modelled; the document assembled from the fields is not modelled either.) -/
def get_node_list_json (c : wd_cluster) : wd_cluster :=
  (update_quorum_status c).2

/-- A registered object answers a look-up for `(reqKind, nodeList)` in
`get_failover_object`: same kind, same node count, and every stored node id occurs in
the requested list. -/
def FailoverMatches (o : WDFailoverObject) (reqKind : POOL_REQUEST_KIND)
    (nodeList : List Int) : Prop :=
  o.reqKind = reqKind ∧ o.nodeList.length = nodeList.length ∧ ∀ v ∈ o.nodeList, v ∈ nodeList

/-- What sending leaves alone: the registry, the lock table, the master pointer, the
pending IPC commands, the state of every node, the switching flag; the trace only
grows. -/
def SendFrame (w w1 : World) : Prop :=
  w1.cluster.wdCurrentFailovers = w.cluster.wdCurrentFailovers ∧
  w1.cluster.interlockingNode = w.cluster.interlockingNode ∧
  w1.cluster.masterNode = w.cluster.masterNode ∧
  w1.cluster.ipc_commands = w.cluster.ipc_commands ∧
  w1.cluster.localNode.state = w.cluster.localNode.state ∧
  w1.cluster.remoteNodes.map WatchdogNode.state = w.cluster.remoteNodes.map WatchdogNode.state ∧
  w1.switching = w.switching ∧
  ∃ rest, w1.trace = w.trace ++ rest

/-- The node an action is addressed to, for a packet sent to a node. -/
def Action.target : Action → Option NodeRef
  | Action.send wdNode _ _ => some wdNode
  | _ => none

/-- The nodes the result slots of a command point to. -/
def WDCommandData.resultNodes (cmd : WDCommandData) : List NodeRef :=
  (cmd.nodeResults.getD []).map WDCommandNodeResult.wdNode

/-- What the broadcast loop leaves alone in the command record: both packets, the
source, the addressee and the nodes of the result slots. -/
def CmdFrame (cmd cmd1 : WDCommandData) : Prop :=
  cmd1.sourcePacket = cmd.sourcePacket ∧ cmd1.commandPacket = cmd.commandPacket ∧
  cmd1.commandSource = cmd.commandSource ∧ cmd1.sourceIPCSocket = cmd.sourceIPCSocket ∧
  cmd1.sourceWdNode = cmd.sourceWdNode ∧ cmd1.sendToNode = cmd.sendToNode ∧
  cmd1.resultNodes = cmd.resultNodes

/-- The frame `reply_to_failove_command` writes to the IPC socket of a local command:
result code `cmdResult` and failover id `failoverID` in an OK packet. -/
def ipc_failover_reply (ext : WDExternals) (ipcCommand : WDCommandData)
    (cmdResult : WDFailoverCMDResults) (failoverID : Nat) (ok : Bool) : Action :=
  Action.ipc_write ipcCommand.sourceIPCSocket
    { type := ext.WD_IPC_CMD_RESULT_OK, command_id := 0,
      len := (failover_reply_data ext cmdResult failoverID).length,
      data := some (failover_reply_data ext cmdResult failoverID) } ok

/-- The packet `reply_to_failove_command` sends to the remote node `j` that forwarded a
command: result code and failover id in a `WD_CMD_REPLY_IN_DATA` packet with the command
id of the forwarded packet. -/
def remote_failover_reply (ext : WDExternals) (ipcCommand : WDCommandData) (j : Nat)
    (cmdResult : WDFailoverCMDResults) (failoverID : Nat) (ok : Bool) : Action :=
  Action.send (NodeRef.remote j)
    { type := WD_CMD_REPLY_IN_DATA, command_id := ipcCommand.sourcePacket.command_id,
      len := (failover_reply_data ext cmdResult failoverID).length,
      data := some (failover_reply_data ext cmdResult failoverID) } ok

/-- The node ids handed to the host for a request kind: the whole list for a degenerate
request, `node_id_list[0]` for failback and promote. -/
def callback_nodes (reqKind : POOL_REQUEST_KIND) (node_id_list : List Int) : List Int :=
  match reqKind with
  | NODE_DOWN_REQUEST => node_id_list
  | _ => node_id_list.take 1

/-- The command id `process_failover_command_on_coordinator` assigns to the
`WD_REMOTE_FAILOVER_REQUEST` packet in state `c`: the next value of the counter, stored
in the `int` field of the packet. -/
def assigned_command_id (c : wd_cluster) : Int :=
  toInt32 ((c.nextCommandID + 1) % 4294967296)

/-- The `WD_REMOTE_FAILOVER_REQUEST` packet broadcast for command `cmd` in state `c`: the
source packet with the new type and command id. -/
def failover_request_packet (c : wd_cluster) (cmd : WDCommandData) : WDPacketData :=
  { cmd.sourcePacket with
    type := WD_REMOTE_FAILOVER_REQUEST, command_id := assigned_command_id c }

/-- The failover object registered for a request admitted in state `c`. -/
def admitted_object (c : wd_cluster) (reqKind : POOL_REQUEST_KIND) (node_id_list : List Int) :
    WDFailoverObject :=
  { reqKind := reqKind, failoverID := toUInt32 (assigned_command_id c),
    nodeList := node_id_list, wdRequestingNode := NodeRef.localNode }

/-- The world in which the broadcast of an admitted request starts: the command id is
allocated and the failover object is registered. -/
def admitted_world (w : World) (reqKind : POOL_REQUEST_KIND) (node_id_list : List Int) :
    World :=
  { w with cluster :=
      { (get_next_commandID w.cluster).2 with
        wdCurrentFailovers := (get_next_commandID w.cluster).2.wdCurrentFailovers ++
          [admitted_object w.cluster reqKind node_id_list] } }

/-- The command record with which the broadcast of an admitted request starts. -/
def admitted_command (w : World) (cmd : WDCommandData) : WDCommandData :=
  { cmd with commandPacket := failover_request_packet w.cluster cmd, sendToNode := none }

/-- What sending packets and allocating command ids can change in the cluster: the node
records (through their sockets) and the command counter.  Every other field is the
same. -/
def NodesFrame (c c1 : wd_cluster) : Prop :=
  c1 = { c with
    localNode := c1.localNode, remoteNodes := c1.remoteNodes,
    nextCommandID := c1.nextCommandID }

/-- The frame of a function that only sends: `SendFrame`, every cluster field except the
node records and the command counter, and the pending connection results. -/
def WorldFrame (w w1 : World) : Prop :=
  SendFrame w w1 ∧ NodesFrame w.cluster w1.cluster ∧ w1.connects = w.connects

/-- What the cluster keeps when a cluster command is issued on top of sending: every
field except the node records, the command counter and the list of cluster commands. -/
def IssueFrame (c c1 : wd_cluster) : Prop :=
  c1 = { c with
    localNode := c1.localNode, remoteNodes := c1.remoteNodes,
    nextCommandID := c1.nextCommandID, clusterCommands := c1.clusterCommands }

/-- What every modelled step of the state machine keeps: the cluster commands recorded
before stay at their places in `clusterCommands` (new ones are appended), the trace only
grows, and the number of remote nodes is the same. -/
def Grows (w w1 : World) : Prop :=
  (∃ extra, w1.cluster.clusterCommands = w.cluster.clusterCommands ++ extra) ∧
  (∃ rest, w1.trace = w.trace ++ rest) ∧
  w1.cluster.remoteNodes.length = w.cluster.remoteNodes.length

/-- What the send loops of the tracker change in a command record: the result slots and
the send and error counters. -/
def CountsFrame (cmd cmd1 : WDCommandData) : Prop :=
  cmd1 = { cmd with
    nodeResults := cmd1.nodeResults, commandSendToCount := cmd1.commandSendToCount,
    commandSendToErrorCount := cmd1.commandSendToErrorCount }

/-- What a record issued by `issue_watchdog_internal_command` for packet `pkt` and
addressee `wdNode` looks like, whatever happened to its slots and send counter. -/
def IssuedCommand (wdNode : Option NodeRef) (pkt : WDPacketData) (cmd : WDCommandData) :
    Prop :=
  cmd.commandSource = COMMAND_SOURCE_LOCAL ∧ cmd.commandStatus = COMMAND_IN_PROGRESS ∧
  cmd.commandPacket.type = pkt.type ∧ cmd.commandPacket.command_id = pkt.command_id ∧
  cmd.commandReplyFromCount = 0 ∧ cmd.sendToNode = wdNode

/-- What a modelled step of the state machine keeps besides `Grows`: the state of the
local node. -/
def Keeps (w w1 : World) : Prop :=
  Grows w w1 ∧ w1.cluster.localNode.state = w.cluster.localNode.state

/-- The states `set_state` is modelled for as targets. -/
def ModelledTarget (s : WD_STATES) : Prop :=
  s = WD_JOINING ∨ s = WD_INITIALIZING ∨ s = WD_COORDINATOR ∨
  s = WD_PARTICIPATE_IN_ELECTION ∨ s = WD_STAND_FOR_COORDINATOR ∨ s = WD_STANDBY

/-- The lock-table states of a node: any state in which nobody holds the lock (the table
is zeroed at start-up), then any sequence of the four verbs of the lock service from any
node, of failover requests handled by `process_failover_command_on_coordinator`, and of
other activity of the event loop, which may change everything except the lock table (no
other function writes `interlockingNode`).  The list is the history of the grants: the
nodes whose start request was answered I_AM_LOCK_HOLDER, the latest first. -/
inductive LockReachable (ext : WDExternals) : List NodeRef → World → Prop
  | init (w : World) (h : w.cluster.interlockingNode.lockHolderNode = none) :
      LockReachable ext [] w
  | lock_start (granted : List NodeRef) (w : World) (wdNode : NodeRef)
      (h : LockReachable ext granted w) :
      LockReachable ext
        (if (node_is_asking_for_failover_start w.cluster wdNode).1
            = FAILOVER_RES_I_AM_LOCK_HOLDER then wdNode :: granted else granted)
        { w with cluster := (node_is_asking_for_failover_start w.cluster wdNode).2 }
  | lock_end (granted : List NodeRef) (w : World) (wdNode : NodeRef) (failoverID : Nat)
      (h : LockReachable ext granted w) :
      LockReachable ext granted
        { w with cluster := (node_is_asking_for_failover_end w.cluster wdNode failoverID).2 }
  | lock_release (granted : List NodeRef) (w : World) (wdNode : NodeRef) (failoverLock : Int)
      (r : WDFailoverCMDResults × wd_cluster) (h : LockReachable ext granted w)
      (hr : node_is_asking_for_failover_lock_release w.cluster wdNode failoverLock = some r) :
      LockReachable ext granted { w with cluster := r.2 }
  | lock_status (granted : List NodeRef) (w : World) (failoverLock : Int) (failoverID : Nat)
      (r : WDFailoverCMDResults × wd_cluster) (h : LockReachable ext granted w)
      (hr : node_is_asking_for_failover_lock_status w.cluster failoverLock failoverID = some r) :
      LockReachable ext granted { w with cluster := r.2 }
  | request (granted : List NodeRef) (w : World) (ipcCommand : WDCommandData)
      (h : LockReachable ext granted w) :
      LockReachable ext granted (process_failover_command_on_coordinator ext w ipcCommand).2.2
  | other (granted : List NodeRef) (w w1 : World) (h : LockReachable ext granted w)
      (hlock : w1.cluster.interlockingNode = w.cluster.interlockingNode) :
      LockReachable ext granted w1

/-- The number of result slots in the given state. -/
def count_cmdState (slots : List WDCommandNodeResult) (st : WDNodeCommandState) : Nat :=
  slots.countP fun s => decide (s.cmdState = st)

/-- The bookkeeping of a command record between its issue and its end: the send count
covers the slots in state SENT, the slots in state SEND_ERROR come on top of the send
count within the array, and the array has fewer than 2^32 slots (there is one per remote
node and their number is an `int`). -/
def TrackerInv (cmd : WDCommandData) : Prop :=
  count_cmdState (cmd.nodeResults.getD []) COMMAND_STATE_SENT ≤ cmd.commandSendToCount ∧
  cmd.commandSendToCount + count_cmdState (cmd.nodeResults.getD []) COMMAND_STATE_SEND_ERROR
    ≤ (cmd.nodeResults.getD []).length ∧
  (cmd.nodeResults.getD []).length < 4294967296

/-- The state of a record in an issue loop before round `k`: the send count is the number
of slots in state SENT and the slots from `k` on are still in state INIT. -/
def IssueInv (k : Nat) (cmd : WDCommandData) : Prop :=
  cmd.commandSendToCount = count_cmdState (cmd.nodeResults.getD []) COMMAND_STATE_SENT ∧
  (∀ j s, k ≤ j → (cmd.nodeResults.getD [])[j]? = some s → s.cmdState = COMMAMD_STATE_INIT) ∧
  (cmd.nodeResults.getD []).length < 4294967296

/-- The four statuses of a finished command. -/
def FinalStatus (s : WDCommandStatus) : Prop :=
  s = COMMAND_FINISHED_ALL_REPLIED ∨ s = COMMAND_FINISHED_TIMEOUT ∨
  s = COMMAND_FINISHED_NODE_REJECTED ∨ s = COMMAND_FINISHED_SEND_FAILED

/-- The command records between issue and end.  A record is issued by
`send_command_packet_to_remote_nodes` on a fresh record (an IPC command or one forwarded
by a peer; the result array is not allocated yet) or by
`issue_watchdog_internal_command` (a cluster command, the record appended to
`clusterCommands`), in a cluster whose number of remote nodes fits an `int`.  Then come
the steps of the tracker that do not finish the command: the resend loops of
`service_ipc_commands` and `service_internal_command`, a reply handled by
`reply_is_received_for_pgpool_replicate_command` or by
`watchdog_internal_command_packet_processor`, and a lost peer handled by
`wd_command_processor_for_node_lost_event`. -/
inductive Tracked (ext : WDExternals) : WDCommandData → Prop
  | issue_ipc (w : World) (cmd : WDCommandData) (source_included : Bool)
      (hfresh : cmd.nodeResults = none) (hn : w.cluster.remoteNodes.length < 2147483648) :
      Tracked ext (send_command_packet_to_remote_nodes w cmd source_included).2.1
  | issue_cluster (w : World) (wdNode : Option NodeRef) (pkt : WDPacketData)
      (cmd : WDCommandData) (hn : w.cluster.remoteNodes.length < 2147483648)
      (h : (issue_watchdog_internal_command w wdNode pkt).2.cluster.clusterCommands
        = w.cluster.clusterCommands ++ [cmd]) :
      Tracked ext cmd
  | resend_ipc (w : World) (cmd : WDCommandData) (h : Tracked ext cmd) :
      Tracked ext (service_ipc_commands_resend w cmd).1
  | resend_cluster (w : World) (cmd : WDCommandData) (h : Tracked ext cmd) :
      Tracked ext (service_internal_command_resend w cmd).1
  | reply_ipc (w : World) (wdNode : NodeRef) (pkt : WDPacketData) (cmd : WDCommandData)
      (h : Tracked ext cmd)
      (hopen : (reply_is_received_for_pgpool_replicate_command ext w wdNode pkt cmd).2.2.1
        = false) :
      Tracked ext (reply_is_received_for_pgpool_replicate_command ext w wdNode pkt cmd).2.1
  | reply_cluster (remoteNodeCount : Nat) (wdNode : NodeRef) (pkt : WDPacketData)
      (cmd : WDCommandData) (h : Tracked ext cmd)
      (hopen : (internal_command_reply remoteNodeCount wdNode pkt cmd).2 = false) :
      Tracked ext (internal_command_reply remoteNodeCount wdNode pkt cmd).1
  | peer_lost (w : World) (cmd : WDCommandData) (wdLostNode : NodeRef) (h : Tracked ext cmd)
      (hopen : (wd_command_processor_for_node_lost_event ext w cmd wdLostNode).1
        = IPC_CMD_PROCESSING) :
      Tracked ext (wd_command_processor_for_node_lost_event ext w cmd wdLostNode).2.1

/-- What `wd_cluster_initialize` takes from the configuration and from the host:
`pool_config->wd_remote_nodes.num_wd`, `pool_config->wd_priority`, the time of day, the
results of `get_watchdog_node_escalation_state` and `get_watchdog_process_needs_cleanup`,
and the zero value of the socket-state enumeration, which is declared outside `src/`. -/
structure WDInitConfig where
  num_wd : Int
  wd_priority : Int
  startup_time : Int
  escalation_state : Bool
  needs_cleanup : Bool
  zero_sock_state : WD_SOCK_STATE
  deriving DecidableEq, Repr

/-- `wd_cluster_initialize`: the fields of `g_cluster` the model keeps.  The node records
come from `palloc0`, so a remote record starts in the state with value zero, which is
DEAD (the first entry of `wd_state_names`), with zeroed connections; the lock table is
part of the zero-initialised global.  Without configured remote nodes the function
raises an error (`none`). -/
def wd_cluster_initialize (cfg : WDInitConfig) : Option wd_cluster :=
  if cfg.num_wd ≤ 0 then none
  else
    let zeroConn : SocketConnection := { sock := 0, sock_state := cfg.zero_sock_state }
    let c : wd_cluster :=
      { localNode :=
          { state := WD_DEAD, startup_time := cfg.startup_time,
            wd_priority := cfg.wd_priority, private_id := 0, client_socket := zeroConn,
            server_socket := zeroConn },
        remoteNodes := (List.range cfg.num_wd.toNat).map fun i =>
          { state := WD_DEAD, startup_time := 0, wd_priority := 0, private_id := (i : Int) + 1,
            client_socket := zeroConn, server_socket := zeroConn },
        masterNode := none,
        interlockingNode :=
          { lockHolderNode := none, locks := List.replicate MAX_FAILOVER_LOCKS false },
        quorum_status := -1, nextCommandID := 1, ipc_commands := [],
        wdCurrentFailovers := [], clusterCommands := [],
        escalated := cfg.escalation_state, holding_vip := false }
    some (if cfg.needs_cleanup = true then resign_from_escalated_node c else c)

/-- The count loop of `get_cluster_node_count` in `wd_child.c`, the older implementation:
it skips the dead and the lost nodes only. -/
def wd_child_get_cluster_node_count (c : wd_cluster) : Int :=
  c.remoteNodes.foldl
    (fun count wdNode =>
      if wdNode.state = WD_DEAD ∨ wdNode.state = WD_LOST then count else count + 1)
    0

/-- `get_quorum_status` of `wd_child.c`.  Its `get_mimimum_nodes_required_for_quorum` is
the same text as the one in `watchdog.c`. -/
def get_quorum_status (c : wd_cluster) : Int :=
  if wd_child_get_cluster_node_count c > get_mimimum_nodes_required_for_quorum c then 1
  else if wd_child_get_cluster_node_count c = get_mimimum_nodes_required_for_quorum c then
    if Int.tmod c.remoteNodeCount 2 ≠ 0 then 0 else 1
  else -1

/-- The quorum value in the words of the claim: the sign of `2 * (L + 1) - (N + 1)` for
`N` remote peers of which `L` are active. -/
def quorum_sign (N L : Nat) : Int := Int.sign (2 * ((L : Int) + 1) - ((N : Int) + 1))

/-- `cleanUpIPCCommand` for the record at position `j` of `ipc_commands`:
`list_delete_ptr` takes that record out of the list.  (Closing the IPC socket of the
record and freeing its memory context are not modelled.) -/
def cleanUpIPCCommand (c : wd_cluster) (j : Nat) : wd_cluster :=
  { c with ipc_commands := c.ipc_commands.eraseIdx j }

/-- One round of the first loop of `node_lost_while_ipc_command`: the record at position
`j` is handed to `wd_command_processor_for_node_lost_event`, which works on it in place,
and its position is noted for deletion when the result is not `IPC_CMD_PROCESSING`. -/
def node_lost_while_ipc_command_step (ext : WDExternals) (wdNode : NodeRef)
    (acc : World × List Nat) (j : Nat) : World × List Nat :=
  match acc.1.cluster.ipc_commands[j]? with
  | none => acc
  | some ipcCommand =>
    let r := wd_command_processor_for_node_lost_event ext acc.1 ipcCommand wdNode
    let w1 : World :=
      { r.2.2 with
        cluster := { r.2.2.cluster with ipc_commands := r.2.2.cluster.ipc_commands.set j r.2.1 } }
    if r.1 ≠ IPC_CMD_PROCESSING then (w1, acc.2 ++ [j]) else (w1, acc.2)

/-- `node_lost_while_ipc_command`: every pending IPC command is told about the lost node,
then `cleanUpIPCCommand` removes the completed ones from the list. -/
def node_lost_while_ipc_command (ext : WDExternals) (w : World) (wdNode : NodeRef) : World :=
  let r := (List.range w.cluster.ipc_commands.length).foldl
    (node_lost_while_ipc_command_step ext wdNode) (w, [])
  { r.1 with
    cluster :=
      { r.1.cluster with
        ipc_commands :=
          (r.1.cluster.ipc_commands.enum.filter fun p => decide (p.1 ∉ r.2)).map fun p => p.2 } }

/-- The branch of `watchdog_state_machine` for `WD_EVENT_REMOTE_NODE_LOST`, which runs
before the handler of the local state: both connections to the node are closed, its
state becomes LOST unless it is SHUTDOWN, the master pointer is cleared if it was the
master, and the pending IPC commands are told.  (The reset of `last_sent_time` is not
modelled.)  `none` stands for a node pointer outside the cluster. -/
def remote_node_lost_branch (ext : WDExternals) (w : World) (wdNode : NodeRef) :
    Option World :=
  match get_node w.cluster wdNode with
  | none => none
  | some n =>
    let n1 : WatchdogNode :=
      { n with
        client_socket := close_socket_connection n.client_socket,
        server_socket := close_socket_connection n.server_socket,
        state := if n.state = WD_SHUTDOWN then n.state else WD_LOST }
    let c1 := set_node w.cluster wdNode n1
    let c2 : wd_cluster :=
      if c1.masterNode = some wdNode then { c1 with masterNode := none } else c1
    some (node_lost_while_ipc_command ext { w with cluster := c2 } wdNode)

/-- `BEACON_MESSAGE_INTERVAL_SECONDS`. -/
def BEACON_MESSAGE_INTERVAL_SECONDS : Int := 10

/-- The end of `watchdog_state_machine_standby`, after its switch: while a master is set,
the seconds since the master's last packet (`last_rcv_sec`, read from the clock) decide
between rejoining, asking the master for its info, and nothing. -/
def standby_check_master_beacon (ext : WDExternals) (w : World) (last_rcv_sec : Int) :
    Option World :=
  match w.cluster.masterNode with
  | none => some w
  | some masterNode =>
    if last_rcv_sec ≥ 2 * BEACON_MESSAGE_INTERVAL_SECONDS then set_state ext w WD_JOINING
    else if last_rcv_sec ≥ BEACON_MESSAGE_INTERVAL_SECONDS then
      some (send_message_of_type ext w (some masterNode) WD_REQ_INFO_MESSAGE).2
    else some w

/-- The case `WD_EVENT_REMOTE_NODE_LOST` of `watchdog_state_machine_standby`, followed by
the end of the handler. -/
def standby_remote_node_lost (ext : WDExternals) (w : World) (last_rcv_sec : Int) :
    Option World :=
  let r : Option World :=
    if w.cluster.masterNode = none then set_state ext w WD_JOINING
    else
      let quorum_status := w.cluster.quorum_status
      let c1 := (update_quorum_status w.cluster).2
      if c1.quorum_status = -1 ∧ quorum_status ≥ 0 then
        some (send_message_of_type ext { w with cluster := c1 } none WD_QUORUM_IS_LOST).2
      else some { w with cluster := c1 }
  match r with
  | none => none
  | some w1 => standby_check_master_beacon ext w1 last_rcv_sec

/-- `watchdog_state_machine(WD_EVENT_REMOTE_NODE_LOST, wdNode, NULL, NULL)`: the branch
for the event, then the handler of the local state (`wd_commands_packet_processor`
declines an event that is not a packet).  Only the handlers of COORDINATOR and STANDBY
have a case for the event; `last_rcv_sec` is the clock reading the standby handler takes
at its end.  `none` stands for the states without a handler. -/
def watchdog_state_machine_remote_node_lost (ext : WDExternals) (w : World)
    (wdNode : NodeRef) (last_rcv_sec : Int) : Option World :=
  match remote_node_lost_branch ext w wdNode with
  | none => none
  | some w1 =>
    match w1.cluster.localNode.state with
    | WD_COORDINATOR =>
      watchdog_state_machine_coordinator ext w1 WD_EVENT_REMOTE_NODE_LOST (some wdNode) none
    | WD_STANDBY => standby_remote_node_lost ext w1 last_rcv_sec
    | s => if has_state_handler s then some w1 else none

/-- A step keeps the record of every remote node that is not reachable: same state, same
closed connections. -/
def StaysLost (w w1 : World) : Prop :=
  ∀ (j : Nat) (n : WatchdogNode), w.cluster.remoteNodes[j]? = some n →
    is_node_reachable n = false → w1.cluster.remoteNodes[j]? = some n

/-- The counters of a command record agree with its slots: the send count is the number
of slots in state SENT or REPLIED and the error count the number of slots in state
SEND_ERROR (the array is shorter than `2^32`, the range of the unsigned counters). -/
def CountsExact (cmd : WDCommandData) : Prop :=
  cmd.commandSendToCount
    = count_cmdState (cmd.nodeResults.getD []) COMMAND_STATE_SENT
      + count_cmdState (cmd.nodeResults.getD []) COMMAND_STATE_REPLIED ∧
  cmd.commandSendToErrorCount
    = count_cmdState (cmd.nodeResults.getD []) COMMAND_STATE_SEND_ERROR ∧
  (cmd.nodeResults.getD []).length < 4294967296

/-- The loop invariant of `send_command_packet_to_remote_nodes` before round `k`: the
counters agree with the slots and the slots from `k` on are untouched. -/
def IssueExact (k : Nat) (cmd : WDCommandData) : Prop :=
  CountsExact cmd ∧
  ∀ (j : Nat) (s : WDCommandNodeResult), k ≤ j → (cmd.nodeResults.getD [])[j]? = some s →
    s.cmdState = COMMAMD_STATE_INIT

/-- The records of IPC commands issued by `send_command_packet_to_remote_nodes` from a
fresh record, followed by the later steps of the tracker on them: the resend loop of
`service_ipc_commands`, a lost peer handled by `wd_command_processor_for_node_lost_event`,
and a reply handled by `reply_is_received_for_pgpool_replicate_command` when the slot of
the replying peer is in state SENT or REPLIED. -/
inductive SendTracked (ext : WDExternals) : WDCommandData → Prop
  | issue (w : World) (cmd : WDCommandData) (source_included : Bool)
      (hfresh : cmd.nodeResults = none) (hn : w.cluster.remoteNodes.length < 2147483648) :
      SendTracked ext (send_command_packet_to_remote_nodes w cmd source_included).2.1
  | resend (w : World) (cmd : WDCommandData) (h : SendTracked ext cmd) :
      SendTracked ext (service_ipc_commands_resend w cmd).1
  | reply (w : World) (wdNode : NodeRef) (pkt : WDPacketData) (cmd : WDCommandData)
      (h : SendTracked ext cmd)
      (hslot : ∀ (i : Nat) (s : WDCommandNodeResult),
        find_nodeResult w.cluster.remoteNodes.length cmd wdNode = some i →
        (cmd.nodeResults.getD [])[i]? = some s →
        s.cmdState = COMMAND_STATE_SENT ∨ s.cmdState = COMMAND_STATE_REPLIED) :
      SendTracked ext (reply_is_received_for_pgpool_replicate_command ext w wdNode pkt cmd).2.1
  | peer_lost (w : World) (cmd : WDCommandData) (wdLostNode : NodeRef)
      (h : SendTracked ext cmd) :
      SendTracked ext (wd_command_processor_for_node_lost_event ext w cmd wdLostNode).2.1

/-! ## JSON requests on the IPC socket -/

/-- The JSON library (`json.h`, `wd_json_data.h`; outside `src/`) as the functions of
this section use it, for a type `J` of parsed values: `json_parse` (NULL is `none`), the
test `root->type == json_object`, `json_get_int_value_for_key` (`none` is a non-zero
return, which leaves the target untouched; `some v` the `int` stored) and
`json_get_string_value_for_key` (NULL is `none`). -/
structure JsonExternals (J : Type) where
  json_parse : List Byte → Int → Option J
  is_json_object : J → Bool
  json_get_int_value_for_key : J → String → Option Int
  json_get_string_value_for_key : J → String → Option String

/-- What the authentication of IPC commands takes from outside `src/`: the key names
`WD_IPC_SHARED_KEY` and `WD_IPC_AUTH_KEY`, the codes of four IPC command types, the
result of `get_ipc_shared_key()` (a pointer to an `unsigned int`; NULL is `none`) and
the configured `pool_config->wd_authkey`. -/
structure IPCAuthExternals where
  WD_IPC_SHARED_KEY : String
  WD_IPC_AUTH_KEY : String
  WD_NODE_STATUS_CHANGE_COMMAND : Byte
  WD_REGISTER_FOR_NOTIFICATION : Byte
  WD_GET_NODES_LIST_COMMAND : Byte
  WD_GET_MASTER_DATA_REQUEST : Byte
  get_ipc_shared_key : Option Nat
  wd_authkey : String

/-- `check_IPC_client_authentication`, given the flag `g_cluster.ipc_auth_needed`.  The
`int` found under the shared-key name is stored through `(int*)&packet_key` and compared
as `unsigned int`.  `none` stands for the read of `*shared_key` through a NULL pointer
in the branch for user-facing commands. -/
def check_IPC_client_authentication {J : Type} (json : JsonExternals J)
    (auth : IPCAuthExternals) (ipc_auth_needed : Bool) (rootObj : J)
    (internal_client_only : Bool) : Option Bool :=
  let packet_key : Option Nat :=
    (json.json_get_int_value_for_key rootObj auth.WD_IPC_SHARED_KEY).map toUInt32
  if internal_client_only = true then
    match auth.get_ipc_shared_key with
    | none => some false
    | some shared_key =>
      match packet_key with
      | none => some false
      | some k => if shared_key ≠ k then some false else some true
  else if ipc_auth_needed = false then some true
  else
    let matched : Option Bool :=
      match packet_key with
      | none => some false
      | some k =>
        match auth.get_ipc_shared_key with
        | none => none
        | some shared_key => some (decide (shared_key = k))
    match matched with
    | none => none
    | some true => some true
    | some false =>
      match json.json_get_string_value_for_key rootObj auth.WD_IPC_AUTH_KEY with
      | none => some false
      | some packet_auth_key => if auth.wd_authkey ≠ packet_auth_key then some false else some true

/-- `check_and_report_IPC_authentication` for a command record: the result and the text
stored in `ipcCommand->errorMessage` (`none`: the field is left alone). -/
def check_and_report_IPC_authentication {J : Type} (ext : WDExternals)
    (json : JsonExternals J) (auth : IPCAuthExternals) (ipc_auth_needed : Bool)
    (ipcCommand : WDCommandData) : Option (Bool × Option String) :=
  let type := ipcCommand.sourcePacket.type
  let internal_client_only : Option Bool :=
    if type = auth.WD_NODE_STATUS_CHANGE_COMMAND ∨ type = auth.WD_REGISTER_FOR_NOTIFICATION ∨
        type = auth.WD_GET_NODES_LIST_COMMAND then some false
    else if type = ext.WD_IPC_FAILOVER_COMMAND ∨ type = ext.WD_IPC_ONLINE_RECOVERY_COMMAND ∨
        type = ext.WD_FAILOVER_LOCKING_REQUEST ∨ type = auth.WD_GET_MASTER_DATA_REQUEST then
      some true
    else none
  match internal_client_only with
  | none => some (true, none)
  | some internal =>
    if internal = false ∧ ipc_auth_needed = false then some (true, none)
    else
      match ipcCommand.sourcePacket.data with
      | none => some (false, some "authentication failed: invalid data")
      | some data =>
        if ipcCommand.sourcePacket.len ≤ 0 then
          some (false, some "authentication failed: invalid data")
        else
          match json.json_parse data ipcCommand.sourcePacket.len with
          | none => some (false, some "authentication failed: invalid data")
          | some root =>
            if json.is_json_object root = false then
              some (false, some "authentication failed: invalid data")
            else
              match check_IPC_client_authentication json auth ipc_auth_needed root internal with
              | none => none
              | some true => some (true, none)
              | some false => some (false, some "authentication failed: invalid KEY")

/-- The comparisons of the request type of a locking request with the names
`WD_REQ_FAILOVER_START`, `WD_REQ_FAILOVER_END`, `WD_REQ_FAILOVER_RELEASE_LOCK` and
`WD_REQ_FAILOVER_LOCK_STATUS` (`strcasecmp(name, syncRequestType) == 0`; the names are
defined outside `src/`). -/
structure LockRequestExternals where
  is_failover_start : String → Bool
  is_failover_end : String → Bool
  is_failover_release_lock : String → Bool
  is_failover_lock_status : String → Bool

/-- `process_failover_locking_requests_on_cordinator`.  The lock id starts as `-1` and
the failover id as `0`; the results of the two calls of `json_get_int_value_for_key` are
not looked at.  `none` stands for undefined behaviour: that of the verb called, or the
use of a NULL `sourceWdNode` there. -/
def process_failover_locking_requests_on_cordinator {J : Type} (ext : WDExternals)
    (json : JsonExternals J) (req : LockRequestExternals) (w : World)
    (ipcCommand : WDCommandData) : Option (IPC_CMD_PREOCESS_RES × World) :=
  if w.cluster.localNode.state ≠ WD_COORDINATOR then some (IPC_CMD_ERROR, w)
  else
    let invalid : Option (IPC_CMD_PREOCESS_RES × World) :=
      some (IPC_CMD_COMPLETE,
        (reply_to_failove_command ext w ipcCommand FAILOVER_RES_INVALID_FUNCTION 0).2)
    match ipcCommand.sourcePacket.data with
    | none => invalid
    | some data =>
      if ipcCommand.sourcePacket.len ≤ 0 then invalid
      else
        match json.json_parse data ipcCommand.sourcePacket.len with
        | none => invalid
        | some root =>
          if json.is_json_object root = false then invalid
          else
            let failoverLockID : Int :=
              (json.json_get_int_value_for_key root "FailoverLockID").getD (-1)
            let failoverID : Nat :=
              toUInt32 ((json.json_get_int_value_for_key root "WDFailoverID").getD 0)
            match json.json_get_string_value_for_key root "SyncRequestType" with
            | none => some (IPC_CMD_COMPLETE, w)
            | some syncRequestType =>
              let wdNode : Option NodeRef :=
                if ipcCommand.commandSource = COMMAND_SOURCE_IPC then some NodeRef.localNode
                else ipcCommand.sourceWdNode
              match wdNode with
              | none => none
              | some wdNode =>
                let res : Option (WDFailoverCMDResults × wd_cluster) :=
                  if req.is_failover_start syncRequestType = true then
                    some (node_is_asking_for_failover_start w.cluster wdNode)
                  else if req.is_failover_end syncRequestType = true then
                    some (node_is_asking_for_failover_end w.cluster wdNode failoverID)
                  else if req.is_failover_release_lock syncRequestType = true then
                    node_is_asking_for_failover_lock_release w.cluster wdNode failoverLockID
                  else if req.is_failover_lock_status syncRequestType = true then
                    node_is_asking_for_failover_lock_status w.cluster failoverLockID failoverID
                  else some (FAILOVER_RES_INVALID_FUNCTION, w.cluster)
                match res with
                | none => none
                | some r =>
                  some (IPC_CMD_COMPLETE,
                    (reply_to_failove_command ext { w with cluster := r.2 } ipcCommand r.1
                      failoverID).2)

/-- Whether the broadcast loop of `send_command_packet_to_remote_nodes` (called without
an addressee and with `source_included = false`) sends the command packet to the remote
node of index `i`: the node is not the remote node that forwarded the command, it is
active and it is reachable. -/
def broadcast_target (c : wd_cluster) (cmd : WDCommandData) (i : Nat) : Bool :=
  match c.remoteNodes[i]? with
  | none => false
  | some wdNode =>
    !(decide (cmd.sourceWdNode = some (NodeRef.remote i) ∧
        cmd.commandSource = COMMAND_SOURCE_REMOTE)) &&
      is_node_active wdNode && is_node_reachable wdNode

/-- `start_escalated_node`.  `forked` says whether `fork_escalation_process` returned a
process id (a value above zero) and `has_delegate_ip` whether the delegate IP of the local
node is a non-empty string, both outside `src/`; the wait for a running de-escalation
process is not modelled. -/
def start_escalated_node (c : wd_cluster) (forked has_delegate_ip : Bool) : wd_cluster :=
  if c.escalated = true then c
  else if forked = true then
    if has_delegate_ip = true then { c with escalated := true, holding_vip := true }
    else { c with escalated := true }
  else c

/-- The case `WD_EVENT_REMOTE_NODE_FOUND` of `watchdog_state_machine_coordinator`, which is
also the end of its case for the packet ADD_NODE: the quorum status is recomputed, and a
node that is not escalated starts the escalation when the quorum is present. -/
def coordinator_quorum_complete (c : wd_cluster) (forked has_delegate_ip : Bool) :
    wd_cluster :=
  let c1 := (update_quorum_status c).2
  if c1.escalated = false then
    if c1.quorum_status ≥ 0 then start_escalated_node c1 forked has_delegate_ip else c1
  else c1

/-- The case `WD_EVENT_COMMAND_FINISHED` of `watchdog_state_machine_coordinator` for a
DECLARE_COORDINATOR command that ended as ALL_REPLIED or TIMEOUT: the quorum status is
recomputed, the local node becomes the master pointer, and the escalation starts unless
the quorum is lost.  (`cluster_in_stable_state` sets `clusterInitialized` and signals the
parent; neither is modelled.) -/
def coordinator_declare_finished (c : wd_cluster) (forked has_delegate_ip : Bool) :
    wd_cluster :=
  let c1 : wd_cluster :=
    { (update_quorum_status c).2 with masterNode := some NodeRef.localNode }
  if c1.quorum_status = -1 then c1 else start_escalated_node c1 forked has_delegate_ip

/-- The case ADD_NODE of `watchdog_state_machine_coordinator`: `standard_packet_processor`
answers the sender with the INFO message of the local node, then the quorum status is
recomputed and the escalation starts as for a node that was found. -/
def coordinator_add_node (ext : WDExternals) (w : World) (wdNode : NodeRef)
    (pkt : WDPacketData) (forked has_delegate_ip : Bool) : World :=
  let m := get_mynode_info_message ext w.cluster (some pkt)
  let w1 := (send_message_to_node { w with cluster := m.2 } wdNode m.1).2
  { w1 with cluster := coordinator_quorum_complete w1.cluster forked has_delegate_ip }

/-- What a step keeps that writes neither an escalation flag nor `quorum_status` nor the
state of the local node. -/
def FlagsFrame (w w1 : World) : Prop :=
  w1.cluster.escalated = w.cluster.escalated ∧
  w1.cluster.holding_vip = w.cluster.holding_vip ∧
  w1.cluster.quorum_status = w.cluster.quorum_status ∧
  w1.cluster.localNode.state = w.cluster.localNode.state

/-- What a step keeps that, in addition, leaves the state of every remote node record as
it is. -/
def EscalationFrame (w w1 : World) : Prop :=
  FlagsFrame w w1 ∧
  w1.cluster.remoteNodes.map WatchdogNode.state = w.cluster.remoteNodes.map WatchdogNode.state

/-- The steps of the event loop of a node in COORDINATOR state that write
`quorum_status`: the event REMOTE_NODE_LOST for a remote node, the packet
INFORM_I_AM_GOING_DOWN of a remote node (its record is set to SHUTDOWN and the event
REMOTE_NODE_LOST is raised), the event REMOTE_NODE_FOUND, the packet ADD_NODE, the end of
the DECLARE_COORDINATOR command, and the IPC request for the node list. -/
inductive CoordinatorQuorumStep (ext : WDExternals) : World → World → Prop
  | node_lost (w w1 : World) (i : Nat) (last_rcv_sec : Int)
      (h : watchdog_state_machine_remote_node_lost ext w (NodeRef.remote i) last_rcv_sec
        = some w1) :
      CoordinatorQuorumStep ext w w1
  | going_down (w w1 : World) (i : Nat) (n : WatchdogNode) (last_rcv_sec : Int)
      (hn : w.cluster.remoteNodes[i]? = some n)
      (h : watchdog_state_machine_remote_node_lost ext
        { w with
          cluster := set_node w.cluster (NodeRef.remote i) { n with state := WD_SHUTDOWN } }
        (NodeRef.remote i) last_rcv_sec = some w1) :
      CoordinatorQuorumStep ext w w1
  | node_found (w : World) (forked has_delegate_ip : Bool) :
      CoordinatorQuorumStep ext w
        { w with cluster := coordinator_quorum_complete w.cluster forked has_delegate_ip }
  | add_node (w : World) (wdNode : NodeRef) (pkt : WDPacketData)
      (forked has_delegate_ip : Bool) :
      CoordinatorQuorumStep ext w (coordinator_add_node ext w wdNode pkt forked has_delegate_ip)
  | declare_finished (w : World) (forked has_delegate_ip : Bool) :
      CoordinatorQuorumStep ext w
        { w with cluster := coordinator_declare_finished w.cluster forked has_delegate_ip }
  | node_list (w : World) :
      CoordinatorQuorumStep ext w { w with cluster := get_node_list_json w.cluster }

/-- The states a node passes through, as far as the escalation is concerned.  It starts
from `wd_cluster_initialize`, where the host hands over a set escalation flag only
together with the order to clean up after a crash.  Outside the COORDINATOR state a step
may change everything except the two escalation flags (`start_escalated_node` is called
only by the handler of the COORDINATOR state, and `resign_from_escalated_node`, apart from
that handler, by `set_state` when it leaves COORDINATOR, at initialisation and at exit).
In COORDINATOR state the steps are: `set_state`; `standard_packet_processor` for an INFO
message of a remote node, and the record a new inbound connection fills in from an
ADD_NODE message, where a node announces a state other than DEAD, LOST and SHUTDOWN (no
node sets its own state to DEAD or SHUTDOWN, and a node that enters LOST or the
network-trouble state exits before it announces it); the steps that write
`quorum_status`; and the steps that leave the flags, `quorum_status`, the local state and
the states of the remote records alone. -/
inductive EscalationReachable (ext : WDExternals) : World → Prop
  | init (w : World) (cfg : WDInitConfig)
      (hw : wd_cluster_initialize cfg = some w.cluster)
      (hhost : cfg.escalation_state = true → cfg.needs_cleanup = true) :
      EscalationReachable ext w
  | outside (w w1 : World) (h : EscalationReachable ext w)
      (hs : w.cluster.localNode.state ≠ WD_COORDINATOR)
      (he : w1.cluster.escalated = w.cluster.escalated)
      (hv : w1.cluster.holding_vip = w.cluster.holding_vip) :
      EscalationReachable ext w1
  | state_change (w w1 : World) (s : WD_STATES) (h : EscalationReachable ext w)
      (hs : w.cluster.localNode.state = WD_COORDINATOR)
      (hset : set_state ext w s = some w1) :
      EscalationReachable ext w1
  | info (w w1 : World) (i : Nat) (pkt : WDPacketData) (h : EscalationReachable ext w)
      (hs : w.cluster.localNode.state = WD_COORDINATOR)
      (hp : standard_packet_processor ext w (NodeRef.remote i) pkt = some w1)
      (hactive : ∀ t, parse_node_info_message ext pkt = some t →
        ¬ (t.1 = WD_DEAD ∨ t.1 = WD_LOST ∨ t.1 = WD_SHUTDOWN)) :
      EscalationReachable ext w1
  | add_node_record (w : World) (i : Nat) (n n1 : WatchdogNode)
      (h : EscalationReachable ext w)
      (hs : w.cluster.localNode.state = WD_COORDINATOR)
      (hn : w.cluster.remoteNodes[i]? = some n)
      (hactive : ¬ (n1.state = WD_DEAD ∨ n1.state = WD_LOST ∨ n1.state = WD_SHUTDOWN)) :
      EscalationReachable ext { w with cluster := set_node w.cluster (NodeRef.remote i) n1 }
  | quorum_step (w w1 : World) (h : EscalationReachable ext w)
      (hs : w.cluster.localNode.state = WD_COORDINATOR)
      (hq : CoordinatorQuorumStep ext w w1) :
      EscalationReachable ext w1
  | other (w w1 : World) (h : EscalationReachable ext w)
      (hs : w.cluster.localNode.state = WD_COORDINATOR)
      (hf : EscalationFrame w w1) :
      EscalationReachable ext w1

/-- The bookkeeping of the escalation: the node holds the virtual IP only while it is
escalated; while it is escalated and the stored quorum status is not `-1`, the quorum
status computed from the node records is not `-1` either; and the node is escalated only
in COORDINATOR state. -/
def EscalationInv (c : wd_cluster) : Prop :=
  (c.holding_vip = true → c.escalated = true) ∧
  (c.escalated = true → c.quorum_status ≠ -1 → (update_quorum_status c).1 ≠ -1) ∧
  (c.localNode.state ≠ WD_COORDINATOR → c.escalated = false)

/-! ## Concrete inputs -/

/-- The watchdog state with the given index in `wd_state_names` (DEAD beyond the table). -/
def sampleState (b : Byte) : WD_STATES :=
  match b.val with
  | 1 => WD_LOADING
  | 2 => WD_JOINING
  | 3 => WD_INITIALIZING
  | 4 => WD_COORDINATOR
  | 5 => WD_PARTICIPATE_IN_ELECTION
  | 6 => WD_STAND_FOR_COORDINATOR
  | 7 => WD_STANDBY
  | 8 => WD_LOST
  | 9 => WD_IN_NW_TROUBLE
  | 10 => WD_SHUTDOWN
  | 11 => WD_ADD_MESSAGE_SENT
  | _ => WD_DEAD

/-- A stand-in for the external JSON layer and the IPC codes, used by the concrete
examples: a request document is one octet naming the function ('F' failback,
'D' degenerate, 'P' promote) followed by one octet per node id; a result document is the
index of the result code followed by the failover id in network order; a node info
document is the index of the state, the priority and the start time, one octet each. -/
def sampleExt : WDExternals where
  parse_wd_node_function_json := fun data _ =>
    match data with
    | some (f :: ids) => some ([f], ids.map (fun b => (b.val : Int)))
    | _ => none
  is_failback_request := fun name => decide (name = [70])
  is_degenerate_request := fun name => decide (name = [68])
  is_promote_request := fun name => decide (name = [80])
  failover_result_json := fun res id => toByte res.toCtorIdx :: htonl (toUInt32 id)
  get_watchdog_node_info_json := fun n => [toByte n.state.toCtorIdx]
  get_watchdog_node_from_json := fun data _ =>
    match data with
    | [s, p, t] => some (sampleState s, (p.val : Int), (t.val : Int))
    | _ => none
  WD_IPC_CMD_RESULT_OK := 55
  WD_IPC_CMD_RESULT_BAD := 54
  WD_IPC_CMD_TIMEOUT := 56
  WD_IPC_FAILOVER_COMMAND := 102
  WD_IPC_ONLINE_RECOVERY_COMMAND := 114
  WD_FAILOVER_LOCKING_REQUEST := 115

/-- A node record with the given state, priority and start time, reachable over a
connected client socket with descriptor `fd`. -/
def sampleNode (state : WD_STATES) (priority startup : Int) (fd : Int) : WatchdogNode :=
  { state := state, startup_time := startup, wd_priority := priority, private_id := fd,
    client_socket := { sock := fd, sock_state := WD_SOCK_CONNECTED },
    server_socket := { sock := -1, sock_state := WD_SOCK_UNINITIALIZED } }

/-- A world with the given local node and remote nodes, nobody holding the lock, no
registered failover and nothing sent yet. -/
def sampleWorld (localNode : WatchdogNode) (remoteNodes : List WatchdogNode) : World :=
  { cluster :=
      { localNode := localNode, remoteNodes := remoteNodes, masterNode := none,
        interlockingNode := { lockHolderNode := none, locks := [false, false, false] },
        quorum_status := -1, nextCommandID := 1, ipc_commands := [],
        wdCurrentFailovers := [], clusterCommands := [], escalated := false,
        holding_vip := false },
    switching := false, wr := [], trace := [], connects := [] }

/-- A STAND_FOR_COORDINATOR message with command id 9. -/
def standForPacket : WDPacketData :=
  { type := WD_STAND_FOR_COORDINATOR_MESSAGE, command_id := 9, len := 0, data := none }

/-- Candidate A (priority 1, started at 100) and its record of candidate B. -/
def candidateA : World :=
  sampleWorld (sampleNode WD_STAND_FOR_COORDINATOR 1 100 0)
    [sampleNode WD_STAND_FOR_COORDINATOR 1 200 5]

/-- Candidate B (priority 1, started at 200) and its record of candidate A. -/
def candidateB : World :=
  sampleWorld (sampleNode WD_STAND_FOR_COORDINATOR 1 200 0)
    [sampleNode WD_STAND_FOR_COORDINATOR 1 100 6]

/-- A candidate whose peer has the same priority and the same start time. -/
def candidateTie : World :=
  sampleWorld (sampleNode WD_STAND_FOR_COORDINATOR 1 100 0)
    [sampleNode WD_STAND_FOR_COORDINATOR 1 100 5]

/-- A cluster of three remote peers of which one is active. -/
def quorumEdgeCluster : wd_cluster :=
  (sampleWorld (sampleNode WD_COORDINATOR 1 100 0)
    [sampleNode WD_STANDBY 1 200 5, sampleNode WD_LOST 1 300 6,
     sampleNode WD_DEAD 1 400 7]).cluster

/-- A peer packet with a three-octet payload. -/
def samplePacket : WDPacketData :=
  { type := WD_REMOTE_FAILOVER_REQUEST, command_id := 258, len := 3, data := some [7, 8, 9] }

/-- A socket on which the kernel takes the payload of `samplePacket` in two pieces. -/
def slowSock : WriteSock := { accept := [1, 4, 4, 2], out := [] }

/-- A connected socket. -/
def connectedConn : SocketConnection := { sock := 5, sock_state := WD_SOCK_CONNECTED }

/-- A coordinator with three remote peers, two in STANDBY and one lost. -/
def coordinatorWorld : World :=
  sampleWorld (sampleNode WD_COORDINATOR 1 100 0)
    [sampleNode WD_STANDBY 1 200 5, sampleNode WD_STANDBY 1 250 6, sampleNode WD_LOST 1 300 7]

/-- A coordinator all of whose remote peers are lost. -/
def loneCoordinatorWorld : World :=
  sampleWorld (sampleNode WD_COORDINATOR 1 100 0)
    [sampleNode WD_LOST 1 200 5, sampleNode WD_LOST 1 300 6]

/-- A fresh command record as `read_ipc_socket_and_process` builds it for a failover
command with document `doc` received on IPC socket `sock`. -/
def ipcFailoverCommand (doc : List Byte) (sock : Int) : WDCommandData :=
  { sourcePacket :=
      { type := sampleExt.WD_IPC_FAILOVER_COMMAND, command_id := 0, len := doc.length,
        data := some doc },
    commandPacket := { type := WD_NO_MESSAGE, command_id := 0, len := 0, data := none },
    nodeResults := none, sendToNode := none, commandStatus := COMMAND_EMPTY,
    commandSendToCount := 0, commandSendToErrorCount := 0, commandReplyFromCount := 0,
    commandSource := COMMAND_SOURCE_IPC, sourceIPCSocket := sock,
    sourceWdNode := some NodeRef.localNode }

/-- A fresh command record as `process_remote_failover_command_on_coordinator` builds it
for a failover command with document `doc` and command id `id` forwarded by the remote
node of index `i`. -/
def remoteFailoverCommand (doc : List Byte) (id : Int) (i : Nat) : WDCommandData :=
  { sourcePacket :=
      { type := sampleExt.WD_IPC_FAILOVER_COMMAND, command_id := id, len := doc.length,
        data := some doc },
    commandPacket := { type := WD_NO_MESSAGE, command_id := 0, len := 0, data := none },
    nodeResults := none, sendToNode := none, commandStatus := COMMAND_EMPTY,
    commandSendToCount := 0, commandSendToErrorCount := 0, commandReplyFromCount := 0,
    commandSource := COMMAND_SOURCE_REMOTE, sourceIPCSocket := 0,
    sourceWdNode := some (NodeRef.remote i) }

/-- The registry after a degenerate request for the node list `[1, 1]` was admitted with
failover id 2. -/
def duplicateIdRegistry : List WDFailoverObject :=
  [{ reqKind := NODE_DOWN_REQUEST, failoverID := 2, nodeList := [1, 1],
     wdRequestingNode := NodeRef.localNode }]

/-- `coordinatorWorld` while the host is switching. -/
def switchingCoordinatorWorld : World := { coordinatorWorld with switching := true }

/-- `loneCoordinatorWorld` while the host is switching. -/
def switchingLoneCoordinatorWorld : World := { loneCoordinatorWorld with switching := true }

/-- The command record a standby keeps after forwarding the degenerate request for
node 1, received on IPC socket 11, to the coordinator under command id 77
(`process_IPC_failover_command`, standby branch). -/
def forwardedCommand : WDCommandData :=
  { ipcFailoverCommand [68, 1] 11 with
    commandPacket :=
      { type := sampleExt.WD_IPC_FAILOVER_COMMAND, command_id := 77, len := 2,
        data := some [68, 1] },
    sendToNode := some (NodeRef.remote 0) }

/-- A standby whose master is remote node 0 and which waits for the answer to
`forwardedCommand`. -/
def standbyWorld : World :=
  { cluster :=
      { localNode := sampleNode WD_STANDBY 1 200 0,
        remoteNodes := [sampleNode WD_COORDINATOR 1 100 5, sampleNode WD_STANDBY 1 250 6],
        masterNode := some (NodeRef.remote 0),
        interlockingNode := { lockHolderNode := none, locks := [false, false, false] },
        quorum_status := 1, nextCommandID := 77, ipc_commands := [forwardedCommand],
        wdCurrentFailovers := [], clusterCommands := [], escalated := false,
        holding_vip := false },
    switching := false, wr := [], trace := [], connects := [] }

/-- `coordinatorWorld` after its declaration was accepted: the master pointer is the
local node and the quorum is present. -/
def masterWorld : World :=
  { coordinatorWorld with
    cluster :=
      { coordinatorWorld.cluster with
        masterNode := some NodeRef.localNode, quorum_status := 1 } }

/-- The cluster of `masterWorld` in the middle of a failover: the coordinator holds the
lock, the second sub-lock is released, and the failovers 2 and 3 are registered. -/
def lockedCluster : wd_cluster :=
  { masterWorld.cluster with
    interlockingNode := { lockHolderNode := some NodeRef.localNode, locks := [true, false, true] },
    wdCurrentFailovers :=
      [{ reqKind := NODE_DOWN_REQUEST, failoverID := 2, nodeList := [1],
         wdRequestingNode := NodeRef.localNode },
       { reqKind := NODE_UP_REQUEST, failoverID := 3, nodeList := [0],
         wdRequestingNode := NodeRef.localNode }] }

/-- The cluster of `masterWorld` right after failover 2 was admitted: nobody holds the
lock yet. -/
def admittedCluster : wd_cluster :=
  { masterWorld.cluster with
    wdCurrentFailovers :=
      [{ reqKind := NODE_DOWN_REQUEST, failoverID := 2, nodeList := [1],
         wdRequestingNode := NodeRef.localNode }] }

/-- A DECLARE_COORDINATOR message with command id 9. -/
def declarePacket : WDPacketData :=
  { type := WD_DECLARE_COORDINATOR_MESSAGE, command_id := 9, len := 0, data := none }

/-- An IAM_COORDINATOR beacon with command id 9. -/
def beaconPacket : WDPacketData :=
  { type := WD_IAM_COORDINATOR_MESSAGE, command_id := 9, len := 0, data := none }

/-- An escalated coordinator of a cluster of three: both peers are standbys, the quorum
is present and the node holds the virtual IP. -/
def escalatedWorld : World :=
  { sampleWorld (sampleNode WD_COORDINATOR 1 100 0)
      [sampleNode WD_STANDBY 1 200 5, sampleNode WD_STANDBY 1 250 6] with
    cluster :=
      { (sampleWorld (sampleNode WD_COORDINATOR 1 100 0)
          [sampleNode WD_STANDBY 1 200 5, sampleNode WD_STANDBY 1 250 6]).cluster with
        masterNode := some NodeRef.localNode, quorum_status := 1, escalated := true,
        holding_vip := true } }

/-- An INFO message (priority 1, start time 200) that announces the state LOST.  No node
running this code sends it: a node that enters LOST or the network-trouble state exits in
the handler of the state change, before `set_state` sends the INFO message. -/
def lostInfoPacket : WDPacketData :=
  { type := WD_INFO_MESSAGE, command_id := 3, len := 3, data := some [8, 1, 200] }

/-- A cluster command in progress that `get_wd_cluster_command_from_reply` finds for a
reply with command id 9: a DECLARE_COORDINATOR command whose source field is
`COMMAND_SOURCE_IPC`, sent to remote nodes 0 and 1 and not to the lost node 2. -/
def matchedCommand : WDCommandData :=
  { create_command_object 0 with
    commandPacket := declarePacket,
    nodeResults := some
      [{ wdNode := NodeRef.remote 0, cmdState := COMMAND_STATE_SENT, result_type := WD_NO_MESSAGE },
       { wdNode := NodeRef.remote 1, cmdState := COMMAND_STATE_SENT, result_type := WD_NO_MESSAGE },
       { wdNode := NodeRef.remote 2, cmdState := COMMAND_STATE_DO_NOT_SEND,
         result_type := WD_NO_MESSAGE }],
    commandStatus := COMMAND_IN_PROGRESS, commandSendToCount := 2,
    sourceWdNode := some NodeRef.localNode }

/-- `masterWorld` with `matchedCommand` as its only cluster command. -/
def matchedCommandWorld : World :=
  { masterWorld with
    cluster := { masterWorld.cluster with clusterCommands := [matchedCommand] } }

/-- The REJECT reply to the command with id 9. -/
def rejectPacket : WDPacketData :=
  { type := WD_REJECT_MESSAGE, command_id := 9, len := 0, data := none }

/-- A coordinator with one peer that is in STANDBY, so active, but to which no socket is
connected. -/
def unreachablePeerWorld : World :=
  sampleWorld (sampleNode WD_COORDINATOR 1 100 0)
    [{ sampleNode WD_STANDBY 1 200 5 with
       client_socket := { sock := -1, sock_state := WD_SOCK_UNINITIALIZED } }]

/-- The ACCEPT reply to the command with id 2. -/
def acceptPacket : WDPacketData :=
  { type := WD_ACCEPT_MESSAGE, command_id := 2, len := 0, data := none }

/-- A configuration with two remote nodes, no escalation to recover from. -/
def sampleInitConfig : WDInitConfig :=
  { num_wd := 2, wd_priority := 1, startup_time := 100, escalation_state := false,
    needs_cleanup := false, zero_sock_state := WD_SOCK_UNINITIALIZED }

/-- The world in which the event loop starts for `sampleInitConfig`: the cluster as
`wd_cluster_initialize` leaves it, nothing sent yet, and a first outbound connection that
completes at once on descriptor 5. -/
def initialWorld : World :=
  { cluster :=
      ( wd_cluster_initialize sampleInitConfig).getD
        (sampleWorld (sampleNode WD_DEAD 1 100 0) []).cluster,
    switching := false, wr := [], trace := [], connects := [(5, true)] }

/-- The coordinator's ACCEPT for the packet of `forwardedCommand`. -/
def acceptPacket77 : WDPacketData :=
  { type := WD_ACCEPT_MESSAGE, command_id := 77, len := 0, data := none }

/-- A failover command issued by `coordinatorWorld`: the result of
`send_command_packet_to_remote_nodes`, sent to the remote nodes 0 and 1. -/
def sentCommand : Nat × WDCommandData × World :=
  send_command_packet_to_remote_nodes coordinatorWorld (ipcFailoverCommand [68, 1] 11) false

/-- The record of `sentCommand` after the loss of remote node 1. -/
def lostPeerCommand : IPC_CMD_PREOCESS_RES × WDCommandData × World :=
  wd_command_processor_for_node_lost_event sampleExt sentCommand.2.2 sentCommand.2.1
    (NodeRef.remote 1)

/-- The record of `lostPeerCommand` after an ACCEPT reply of remote node 1 that arrives
after the node was declared lost. -/
def lateReplyCommand : Bool × WDCommandData × Bool × World :=
  reply_is_received_for_pgpool_replicate_command sampleExt lostPeerCommand.2.2
    (NodeRef.remote 1) acceptPacket lostPeerCommand.2.1

/-- A small stand-in for parsed JSON: an object with integer and string members, or a
value that is not an object. -/
inductive SampleJson
  | object (ints : List (String × Int)) (strings : List (String × String))
  | other
  deriving DecidableEq, Repr

/-- A JSON library for the examples: a document is one octet that selects a value.
Document 1 is an object with the shared key 4242, document 2 an object with the shared
key 7, document 3 an object with the auth key "secret" and no shared key, document 4 a
release request without lock id, document 5 a status request for the lock id 7, and
document 6 a value that is not an object. -/
def sampleJson : JsonExternals SampleJson where
  json_parse := fun data _ =>
    match data with
    | [1] => some (SampleJson.object [("IPCSharedKey", 4242)] [])
    | [2] => some (SampleJson.object [("IPCSharedKey", 7)] [("IPCAuthKey", "secret")])
    | [3] => some (SampleJson.object [] [("IPCAuthKey", "secret")])
    | [4] => some (SampleJson.object [("WDFailoverID", 2)] [("SyncRequestType", "RELEASE")])
    | [5] => some (SampleJson.object [("FailoverLockID", 7), ("WDFailoverID", 2)]
        [("SyncRequestType", "STATUS")])
    | [6] => some SampleJson.other
    | _ => none
  is_json_object := fun v =>
    match v with
    | SampleJson.object _ _ => true
    | SampleJson.other => false
  json_get_int_value_for_key := fun v key =>
    match v with
    | SampleJson.object ints _ => (ints.find? fun p => decide (p.1 = key)).map fun p => p.2
    | SampleJson.other => none
  json_get_string_value_for_key := fun v key =>
    match v with
    | SampleJson.object _ strings => (strings.find? fun p => decide (p.1 = key)).map fun p => p.2
    | SampleJson.other => none

/-- Authentication settings for the examples: shared key 4242, auth key "secret". -/
def sampleAuth : IPCAuthExternals where
  WD_IPC_SHARED_KEY := "IPCSharedKey"
  WD_IPC_AUTH_KEY := "IPCAuthKey"
  WD_NODE_STATUS_CHANGE_COMMAND := 99
  WD_REGISTER_FOR_NOTIFICATION := 48
  WD_GET_NODES_LIST_COMMAND := 49
  WD_GET_MASTER_DATA_REQUEST := 100
  get_ipc_shared_key := some 4242
  wd_authkey := "secret"

/-- Request names for the examples. -/
def sampleReq : LockRequestExternals where
  is_failover_start := fun s => decide (s = "START")
  is_failover_end := fun s => decide (s = "END")
  is_failover_release_lock := fun s => decide (s = "RELEASE")
  is_failover_lock_status := fun s => decide (s = "STATUS")

/-- An IPC command of the given type whose payload is the one-octet document `doc`. -/
def ipcCommandOfType (type : Byte) (doc : List Byte) : WDCommandData :=
  { ipcFailoverCommand doc 11 with
    sourcePacket := { type := type, command_id := 0, len := doc.length, data := some doc } }

/-- An INFO message in which the sender announces the state COORDINATOR. -/
def coordinatorInfoPacket : WDPacketData :=
  { type := WD_INFO_MESSAGE, command_id := 4, len := 3, data := some [4, 1, 200] }

/-- The world after `masterWorld` has admitted the failover of node 1 and has handled the
start verb of the local node and then the start verb of remote node 0. -/
def lockedWorld : World :=
  { (process_failover_command_on_coordinator sampleExt masterWorld
        (ipcFailoverCommand [68, 1] 11)).2.2 with
    cluster :=
      (node_is_asking_for_failover_start
        (node_is_asking_for_failover_start
          (process_failover_command_on_coordinator sampleExt masterWorld
            (ipcFailoverCommand [68, 1] 11)).2.2.cluster
          NodeRef.localNode).2
        (NodeRef.remote 0)).2 }

/-- A node that has just entered the COORDINATOR state: two standby peers, the quorum
status not computed yet, not escalated. -/
def newCoordinatorWorld : World :=
  sampleWorld (sampleNode WD_COORDINATOR 1 100 0)
    [sampleNode WD_STANDBY 1 200 5, sampleNode WD_STANDBY 1 250 6]

/-- The coordinator of `newCoordinatorWorld` after the event REMOTE_NODE_FOUND has started
the escalation (the fork succeeded and a delegate IP is configured) and the event
REMOTE_NODE_LOST for remote node 1 was handled: escalated, holding the virtual IP, quorum
status 1 with one active peer left. -/
def escalatedOnePeerWorld : World :=
  (watchdog_state_machine_remote_node_lost sampleExt
    { newCoordinatorWorld with
      cluster := coordinator_quorum_complete newCoordinatorWorld.cluster true true }
    (NodeRef.remote 1) 0).getD newCoordinatorWorld

/-! ## Lemmas on the quorum computation -/

/-- The counting loop started from any value adds the number of active nodes. -/
theorem foldl_count_active (l : List WatchdogNode) (k : Int) :
    l.foldl
      (fun count wdNode =>
        if wdNode.state = WD_DEAD ∨ wdNode.state = WD_LOST ∨ wdNode.state = WD_SHUTDOWN then count
        else count + 1)
      k = k + (l.countP is_node_active : Nat) := by
  induction l generalizing k with
  | nil => simp
  | cons n ns ih =>
    rw [List.foldl_cons, ih, List.countP_cons]
    by_cases h : n.state = WD_DEAD ∨ n.state = WD_LOST ∨ n.state = WD_SHUTDOWN
    · simp [is_node_active, h]
    · simp [is_node_active, h]
      omega

/-- The loop of `get_cluster_node_count` counts exactly the active remote nodes. -/
theorem get_cluster_node_count_eq (c : wd_cluster) :
    get_cluster_node_count c = (c.remoteNodes.countP is_node_active : Nat) := by
  unfold get_cluster_node_count
  rw [foldl_count_active]
  simp

/-- On the non-negative counts that occur, the C quotient of the minimum is the
mathematical one. -/
theorem get_mimimum_nodes_required_for_quorum_eq (c : wd_cluster) :
    get_mimimum_nodes_required_for_quorum c =
      if c.remoteNodes.length % 2 = 0 then ((c.remoteNodes.length / 2 : Nat) : Int)
      else (((c.remoteNodes.length - 1) / 2 : Nat) : Int) := by
  unfold get_mimimum_nodes_required_for_quorum wd_cluster.remoteNodeCount
  have h0 : (0 : Int) ≤ (c.remoteNodes.length : Int) := Int.ofNat_nonneg _
  rw [Int.tmod_eq_emod h0 (by decide : (0 : Int) ≤ 2)]
  by_cases hpar : c.remoteNodes.length % 2 = 0
  · have : ((c.remoteNodes.length : Int)) % 2 = 0 := by omega
    rw [if_pos this, if_pos hpar, Int.tdiv_eq_ediv h0 (by decide : (0 : Int) ≤ 2)]
    omega
  · have : ¬ ((c.remoteNodes.length : Int)) % 2 = 0 := by omega
    have h1 : (0 : Int) ≤ (c.remoteNodes.length : Int) - 1 := by omega
    rw [if_neg this, if_neg hpar, Int.tdiv_eq_ediv h1 (by decide : (0 : Int) ≤ 2)]
    omega

/-! ## Claims -/

/-- C1. With `N` configured remote peers of which `L` are active (so `0 ≤ L ≤ N`) and
`minimum = N/2` for even `N`, `(N-1)/2` for odd `N`, `update_quorum_status` returns, and
stores in `quorum_status`, `+1` if `L > minimum`, `0` if `L = minimum` and `N` is odd,
`+1` if `L = minimum` and `N` is even, and `-1` otherwise. -/
theorem update_quorum_status_spec (c : wd_cluster) (N L : Nat)
    (hN : c.remoteNodes.length = N) (hL : c.remoteNodes.countP is_node_active = L) :
    L ≤ N ∧
    (update_quorum_status c).1 =
      (if L > (if N % 2 = 0 then N / 2 else (N - 1) / 2) then 1
       else if L = (if N % 2 = 0 then N / 2 else (N - 1) / 2) then
         (if N % 2 = 1 then 0 else 1)
       else -1) ∧
    (update_quorum_status c).2.quorum_status = (update_quorum_status c).1 := by
  refine ⟨?_, ?_, rfl⟩
  · rw [← hN, ← hL]
    exact List.countP_le_length _
  · unfold update_quorum_status
    simp only [get_cluster_node_count_eq, get_mimimum_nodes_required_for_quorum_eq, hN, hL,
      wd_cluster.remoteNodeCount]
    have h0 : (0 : Int) ≤ (N : Int) := Int.ofNat_nonneg _
    rw [Int.tmod_eq_emod h0 (by decide : (0 : Int) ≤ 2)]
    by_cases hpar : N % 2 = 0
    · have hp : ((N : Int)) % 2 = 0 := by omega
      simp only [hpar, hp, if_true]
      split_ifs <;> simp_all <;> omega
    · have hp : ¬ ((N : Int)) % 2 = 0 := by omega
      have hq : N % 2 = 1 := by omega
      simp only [hpar, hp, hq, if_false, if_true]
      split_ifs <;> simp_all <;> omega

/-- Witness of C1: three configured peers, one of them active, is the edge case with
status 0. -/
theorem update_quorum_status_spec_witness :
    quorumEdgeCluster.remoteNodes.length = 3 ∧
    quorumEdgeCluster.remoteNodes.countP is_node_active = 1 ∧
    (update_quorum_status quorumEdgeCluster).1 = 0 ∧
    (update_quorum_status quorumEdgeCluster).2.quorum_status = 0 :=
  ⟨by decide, by decide,
   (update_quorum_status_spec quorumEdgeCluster 3 1 (by decide) (by decide)).2.1,
   (update_quorum_status_spec quorumEdgeCluster 3 1 (by decide) (by decide)).2.2.trans
     (update_quorum_status_spec quorumEdgeCluster 3 1 (by decide) (by decide)).2.1⟩

/-! ## Lemmas on sending -/

theorem send_message_to_node_remote (w : World) (i : Nat) (pkt : WDPacketData)
    (n : WatchdogNode) (h : w.cluster.remoteNodes[i]? = some n) :
    ∃ ok n1, (send_message_to_node w (NodeRef.remote i) pkt).1 = ok ∧
      (send_message_to_node w (NodeRef.remote i) pkt).2.trace
        = w.trace ++ [Action.send (NodeRef.remote i) pkt ok] ∧
      (send_message_to_node w (NodeRef.remote i) pkt).2.cluster
        = { w.cluster with remoteNodes := w.cluster.remoteNodes.set i n1 } ∧
      n1.state = n.state ∧ n1.wd_priority = n.wd_priority ∧
      n1.startup_time = n.startup_time ∧
      (send_message_to_node w (NodeRef.remote i) pkt).2.switching = w.switching := by
  have hg : get_node w.cluster (NodeRef.remote i) = some n := h
  unfold send_message_to_node
  rw [hg]
  exact ⟨_, _, rfl, rfl, rfl, rfl, rfl, rfl, rfl⟩

theorem send_message_step_spec (pkt : WDPacketData) (acc : Int × World) (i : Nat) :
    (send_message_step pkt acc i).2.cluster.localNode = acc.2.cluster.localNode ∧
    ∃ rest, (send_message_step pkt acc i).2.trace = acc.2.trace ++ rest ∧
      ∀ a ∈ rest, ∃ n b, a = Action.send n pkt b := by
  unfold send_message_step
  split
  · exact ⟨rfl, [], by simp, by simp⟩
  · rename_i wdNode h
    obtain ⟨ok, n1, _, htr, hcl, _⟩ := send_message_to_node_remote acc.2 i pkt wdNode h
    have hmem : ∀ a ∈ [Action.send (NodeRef.remote i) pkt ok], ∃ n b, a = Action.send n pkt b := by
      intro a ha
      rw [List.mem_singleton] at ha
      exact ⟨_, _, ha⟩
    split
    · dsimp only
      split
      · refine ⟨?_, _, htr, hmem⟩
        show (send_message_to_node acc.2 (NodeRef.remote i) pkt).2.cluster.localNode = _
        rw [hcl]
      · refine ⟨?_, _, htr, hmem⟩
        show (send_message_to_node acc.2 (NodeRef.remote i) pkt).2.cluster.localNode = _
        rw [hcl]
    · exact ⟨rfl, [], by simp, by simp⟩

theorem send_message_loop_spec (pkt : WDPacketData) (l : List Nat) (acc : Int × World) :
    (l.foldl (send_message_step pkt) acc).2.cluster.localNode = acc.2.cluster.localNode ∧
    ∃ rest, (l.foldl (send_message_step pkt) acc).2.trace = acc.2.trace ++ rest ∧
      ∀ a ∈ rest, ∃ n b, a = Action.send n pkt b := by
  induction l generalizing acc with
  | nil => exact ⟨rfl, [], by simp, by simp⟩
  | cons i l ih =>
    rw [List.foldl_cons]
    obtain ⟨h1, r1, ht1, ha1⟩ := send_message_step_spec pkt acc i
    obtain ⟨h2, r2, ht2, ha2⟩ := ih (send_message_step pkt acc i)
    refine ⟨h2.trans h1, r1 ++ r2, ?_, ?_⟩
    · rw [ht2, ht1, List.append_assoc]
    · intro a ha
      rcases List.mem_append.mp ha with h | h
      · exact ha1 a h
      · exact ha2 a h

/-- A minimal reply to a remote peer is one call of `send_message_to_node`; it leaves the
local node record alone. -/
theorem reply_with_minimal_message_remote (w : World) (i : Nat) (type : Byte)
    (p : WDPacketData) (n : WatchdogNode) (h : w.cluster.remoteNodes[i]? = some n) :
    (∃ ok, (reply_with_minimal_message w (some (NodeRef.remote i)) type (some p)).2.trace
        = w.trace ++ [Action.send (NodeRef.remote i) (minimal_reply type p) ok]) ∧
    (reply_with_minimal_message w (some (NodeRef.remote i)) type (some p)).2.cluster.localNode
      = w.cluster.localNode := by
  obtain ⟨ok, n1, _, htr, hcl, _⟩ :=
    send_message_to_node_remote w i (minimal_reply type p) n h
  unfold reply_with_minimal_message get_minimum_message send_message
  simp only []
  split
  · exact ⟨⟨ok, htr⟩, by
      show (send_message_to_node w (NodeRef.remote i) (minimal_reply type p)).2.cluster.localNode = _
      rw [hcl]⟩
  · exact ⟨⟨ok, htr⟩, by
      show (send_message_to_node w (NodeRef.remote i) (minimal_reply type p)).2.cluster.localNode = _
      rw [hcl]⟩

/-- Sending the message of type INFO is sending the INFO packet of the local node. -/
theorem send_message_of_type_info (ext : WDExternals) (w : World) (wdNode : Option NodeRef) :
    send_message_of_type ext w wdNode WD_INFO_MESSAGE =
      send_message { w with cluster := (get_mynode_info_message ext w.cluster none).2 } wdNode
        (get_mynode_info_message ext w.cluster none).1 := by
  unfold send_message_of_type get_message_of_type
  rfl

/-- Moving from a state other than COORDINATOR to PARTICIPATE_IN_ELECTION succeeds,
sets the local state and sends nothing but INFO messages. -/
theorem set_state_participate (ext : WDExternals) (w : World)
    (h1 : w.cluster.localNode.state ≠ WD_COORDINATOR)
    (h2 : w.cluster.localNode.state ≠ WD_PARTICIPATE_IN_ELECTION) :
    ∃ w1, set_state ext w WD_PARTICIPATE_IN_ELECTION = some w1 ∧
      w1.cluster.localNode.state = WD_PARTICIPATE_IN_ELECTION ∧
      ∃ rest, w1.trace = w.trace ++ rest ∧
        ∀ a ∈ rest, ∃ n q b, a = Action.send n q b ∧ q.type = WD_INFO_MESSAGE := by
  unfold set_state
  simp only [ne_eq, h1, h2, not_false_eq_true, if_true, if_false,
    watchdog_state_machine_state_changed, send_message_of_type_info]
  refine ⟨_, rfl, ?_, ?_⟩
  · unfold send_message
    simp only []
    rw [(send_message_loop_spec _ _ _).1]
    cases w.cluster.localNode.state <;> rfl
  · unfold send_message
    simp only []
    obtain ⟨_, rest, ht, ha⟩ := send_message_loop_spec
      (get_mynode_info_message ext
        { w.cluster with localNode := { w.cluster.localNode with state := WD_PARTICIPATE_IN_ELECTION } }
        none).1
      (List.range w.cluster.remoteNodes.length)
      (0, { w with cluster := (get_mynode_info_message ext
        { w.cluster with localNode := { w.cluster.localNode with state := WD_PARTICIPATE_IN_ELECTION } }
        none).2 })
    refine ⟨rest, ?_, ?_⟩
    · exact ht
    · intro a hmem
      obtain ⟨n, b, hab⟩ := ha a hmem
      exact ⟨n, _, b, hab, rfl⟩

/-! ## Election -/

/-- In the STAND_FOR_COORDINATOR state, a STAND_FOR_COORDINATOR message from a remote
peer is rejected exactly when the local node has the higher priority, or the same
priority and a start time that is not later. -/
theorem standForCord_rejects (ext : WDExternals) (w : World) (i : Nat) (peer : WatchdogNode)
    (p : WDPacketData)
    (hpeer : w.cluster.remoteNodes[i]? = some peer)
    (hstate : w.cluster.localNode.state = WD_STAND_FOR_COORDINATOR)
    (hp : p.type = WD_STAND_FOR_COORDINATOR_MESSAGE)
    (hwin : w.cluster.localNode.wd_priority > peer.wd_priority ∨
      (w.cluster.localNode.wd_priority = peer.wd_priority ∧
        w.cluster.localNode.startup_time ≤ peer.startup_time)) :
    RejectsAndStays ext w (NodeRef.remote i) p := by
  obtain ⟨htr, hloc⟩ := reply_with_minimal_message_remote w i WD_REJECT_MESSAGE p peer hpeer
  have hg : (some (NodeRef.remote i)).bind (get_node w.cluster) = some peer := hpeer
  unfold RejectsAndStays watchdog_state_machine_standForCord
  simp only [hg, hp, if_true]
  rcases hwin with h | ⟨h1, h2⟩
  · rw [if_pos h]
    exact ⟨_, rfl, htr, by rw [hloc]; exact hstate⟩
  · have hn : ¬ w.cluster.localNode.wd_priority > peer.wd_priority := by omega
    rw [if_neg hn, if_pos h1, if_pos h2]
    exact ⟨_, rfl, htr, by rw [hloc]; exact hstate⟩

/-- In the STAND_FOR_COORDINATOR state, a STAND_FOR_COORDINATOR message from a remote
peer is accepted, and the node yields, exactly when the peer has the higher priority, or
the same priority and a strictly earlier start time. -/
theorem standForCord_accepts (ext : WDExternals) (w : World) (i : Nat) (peer : WatchdogNode)
    (p : WDPacketData)
    (hpeer : w.cluster.remoteNodes[i]? = some peer)
    (hstate : w.cluster.localNode.state = WD_STAND_FOR_COORDINATOR)
    (hp : p.type = WD_STAND_FOR_COORDINATOR_MESSAGE)
    (hlose : w.cluster.localNode.wd_priority < peer.wd_priority ∨
      (w.cluster.localNode.wd_priority = peer.wd_priority ∧
        peer.startup_time < w.cluster.localNode.startup_time)) :
    AcceptsAndYields ext w (NodeRef.remote i) p := by
  obtain ⟨⟨ok, htr⟩, hloc⟩ :=
    reply_with_minimal_message_remote w i WD_ACCEPT_MESSAGE p peer hpeer
  have hs1 : (reply_with_minimal_message w (some (NodeRef.remote i)) WD_ACCEPT_MESSAGE
      (some p)).2.cluster.localNode.state ≠ WD_COORDINATOR := by
    rw [hloc, hstate]; decide
  have hs2 : (reply_with_minimal_message w (some (NodeRef.remote i)) WD_ACCEPT_MESSAGE
      (some p)).2.cluster.localNode.state ≠ WD_PARTICIPATE_IN_ELECTION := by
    rw [hloc, hstate]; decide
  obtain ⟨w1, hw1, hst, rest, hrest, hinfo⟩ := set_state_participate ext _ hs1 hs2
  have hg : (some (NodeRef.remote i)).bind (get_node w.cluster) = some peer := hpeer
  have hfin : ∃ ok rest,
      w1.trace = w.trace ++ Action.send (NodeRef.remote i) (minimal_reply WD_ACCEPT_MESSAGE p) ok
        :: rest ∧
      ∀ a ∈ rest, ∃ n q b, a = Action.send n q b ∧ q.type = WD_INFO_MESSAGE := by
    refine ⟨ok, rest, ?_, hinfo⟩
    rw [hrest, htr, List.append_assoc]
    rfl
  unfold AcceptsAndYields watchdog_state_machine_standForCord
  simp only [hg, hp, if_true]
  rcases hlose with h | ⟨h1, h2⟩
  · have hn : ¬ w.cluster.localNode.wd_priority > peer.wd_priority := by omega
    have hne : ¬ w.cluster.localNode.wd_priority = peer.wd_priority := by omega
    rw [if_neg hn, if_neg hne]
    exact ⟨w1, hw1, hfin, hst⟩
  · have hn : ¬ w.cluster.localNode.wd_priority > peer.wd_priority := by omega
    have hle : ¬ w.cluster.localNode.startup_time ≤ peer.startup_time := by omega
    rw [if_neg hn, if_pos h1, if_neg hle]
    exact ⟨w1, hw1, hfin, hst⟩

/-- No packet is both rejected and accepted: the two outcomes end in different states. -/
theorem not_rejects_of_accepts (ext : WDExternals) (w : World) (peer : NodeRef)
    (p : WDPacketData) (h : AcceptsAndYields ext w peer p) : ¬ RejectsAndStays ext w peer p := by
  rintro ⟨w1, h1, _, hs1⟩
  obtain ⟨w2, h2, _, hs2⟩ := h
  rw [h1] at h2
  cases h2
  rw [hs1] at hs2
  cases hs2

/-- C2. Two nodes A and B are both in STAND_FOR_COORDINATOR, each holds the other's true
priority and start time, and each receives the other's STAND_FOR_COORDINATOR message.
If the pairs (priority, start time) differ, the node that is the lexicographic minimum
of (-priority, start time) replies REJECT and stays a candidate, and the other one
replies ACCEPT, moves to PARTICIPATE_IN_ELECTION and does not reject; one of the two
nodes is that minimum. -/
theorem election_determinism (ext : WDExternals) (wA wB : World) (iA iB : Nat)
    (recA recB : WatchdogNode) (pA pB : WDPacketData)
    (hA : wA.cluster.localNode.state = WD_STAND_FOR_COORDINATOR)
    (hB : wB.cluster.localNode.state = WD_STAND_FOR_COORDINATOR)
    (hrecB : wA.cluster.remoteNodes[iB]? = some recB)
    (hrecA : wB.cluster.remoteNodes[iA]? = some recA)
    (htrueB : recB.wd_priority = wB.cluster.localNode.wd_priority ∧
      recB.startup_time = wB.cluster.localNode.startup_time)
    (htrueA : recA.wd_priority = wA.cluster.localNode.wd_priority ∧
      recA.startup_time = wA.cluster.localNode.startup_time)
    (hpA : pA.type = WD_STAND_FOR_COORDINATOR_MESSAGE)
    (hpB : pB.type = WD_STAND_FOR_COORDINATOR_MESSAGE)
    (hne : (wA.cluster.localNode.wd_priority, wA.cluster.localNode.startup_time) ≠
      (wB.cluster.localNode.wd_priority, wB.cluster.localNode.startup_time)) :
    (toLex (-wA.cluster.localNode.wd_priority, wA.cluster.localNode.startup_time) <
        toLex (-wB.cluster.localNode.wd_priority, wB.cluster.localNode.startup_time) →
      RejectsAndStays ext wA (NodeRef.remote iB) pA ∧
      AcceptsAndYields ext wB (NodeRef.remote iA) pB ∧
      ¬ RejectsAndStays ext wB (NodeRef.remote iA) pB) ∧
    (toLex (-wB.cluster.localNode.wd_priority, wB.cluster.localNode.startup_time) <
        toLex (-wA.cluster.localNode.wd_priority, wA.cluster.localNode.startup_time) →
      RejectsAndStays ext wB (NodeRef.remote iA) pB ∧
      AcceptsAndYields ext wA (NodeRef.remote iB) pA ∧
      ¬ RejectsAndStays ext wA (NodeRef.remote iB) pA) ∧
    (toLex (-wA.cluster.localNode.wd_priority, wA.cluster.localNode.startup_time) <
        toLex (-wB.cluster.localNode.wd_priority, wB.cluster.localNode.startup_time) ∨
      toLex (-wB.cluster.localNode.wd_priority, wB.cluster.localNode.startup_time) <
        toLex (-wA.cluster.localNode.wd_priority, wA.cluster.localNode.startup_time)) := by
  obtain ⟨hB1, hB2⟩ := htrueB
  obtain ⟨hA1, hA2⟩ := htrueA
  simp only [Prod.Lex.lt_iff]
  refine ⟨?_, ?_, ?_⟩
  · intro h
    have hr : RejectsAndStays ext wA (NodeRef.remote iB) pA :=
      standForCord_rejects ext wA iB recB pA hrecB hA hpA (by omega)
    have ha : AcceptsAndYields ext wB (NodeRef.remote iA) pB :=
      standForCord_accepts ext wB iA recA pB hrecA hB hpB (by omega)
    exact ⟨hr, ha, not_rejects_of_accepts ext wB _ pB ha⟩
  · intro h
    have hr : RejectsAndStays ext wB (NodeRef.remote iA) pB :=
      standForCord_rejects ext wB iA recA pB hrecA hB hpB (by omega)
    have ha : AcceptsAndYields ext wA (NodeRef.remote iB) pA :=
      standForCord_accepts ext wA iB recB pA hrecB hA hpA (by omega)
    exact ⟨hr, ha, not_rejects_of_accepts ext wA _ pA ha⟩
  · have h2 : ¬ (wA.cluster.localNode.wd_priority = wB.cluster.localNode.wd_priority ∧
        wA.cluster.localNode.startup_time = wB.cluster.localNode.startup_time) := by
      rintro ⟨e1, e2⟩
      exact hne (by rw [e1, e2])
    omega

/-- Witness of C2: candidates A (started at 100) and B (started at 200) with equal
priority; A rejects and stays, B accepts and yields. -/
theorem election_determinism_witness :
    RejectsAndStays sampleExt candidateA (NodeRef.remote 0) standForPacket ∧
    AcceptsAndYields sampleExt candidateB (NodeRef.remote 0) standForPacket ∧
    ¬ RejectsAndStays sampleExt candidateB (NodeRef.remote 0) standForPacket :=
  (election_determinism sampleExt candidateA candidateB 0 0
    (sampleNode WD_STAND_FOR_COORDINATOR 1 100 6) (sampleNode WD_STAND_FOR_COORDINATOR 1 200 5)
    standForPacket standForPacket rfl rfl rfl rfl ⟨rfl, rfl⟩ ⟨rfl, rfl⟩ rfl rfl (by decide)).1
    ((Prod.Lex.lt_iff _ _).mpr (Or.inr ⟨rfl, by decide⟩))

/-- C3, as the code behaves: at the tie of `candidateTie` (same priority 1, same start
time 100) the handler sends the minimal REJECT reply and the node stays in
STAND_FOR_COORDINATOR; it does not reply ACCEPT and does not yield. -/
theorem standForCord_tie_counterexample :
    candidateTie.cluster.localNode.wd_priority = 1 ∧
    candidateTie.cluster.localNode.startup_time = 100 ∧
    candidateTie.cluster.remoteNodes[0]? = some (sampleNode WD_STAND_FOR_COORDINATOR 1 100 5) ∧
    (watchdog_state_machine_standForCord sampleExt candidateTie WD_EVENT_PACKET_RCV
        (some (NodeRef.remote 0)) (some standForPacket)).map
      (fun w => (w.trace, w.cluster.localNode.state)) =
      some ([Action.send (NodeRef.remote 0) (minimal_reply WD_REJECT_MESSAGE standForPacket) true],
        WD_STAND_FOR_COORDINATOR) ∧
    ¬ AcceptsAndYields sampleExt candidateTie (NodeRef.remote 0) standForPacket := by
  refine ⟨rfl, rfl, rfl, by decide, ?_⟩
  intro h
  exact not_rejects_of_accepts _ _ _ _ h
    (standForCord_rejects sampleExt candidateTie 0 _ standForPacket rfl rfl rfl
      (Or.inr ⟨rfl, by decide⟩))

/-- C3 amended. A node in STAND_FOR_COORDINATOR that receives a STAND_FOR_COORDINATOR
message from a peer whose priority and start time both equal its own replies REJECT and
stays in STAND_FOR_COORDINATOR. -/
theorem standForCord_tie_rejects (ext : WDExternals) (w : World) (i : Nat)
    (peer : WatchdogNode) (p : WDPacketData)
    (hpeer : w.cluster.remoteNodes[i]? = some peer)
    (hstate : w.cluster.localNode.state = WD_STAND_FOR_COORDINATOR)
    (hp : p.type = WD_STAND_FOR_COORDINATOR_MESSAGE)
    (hprio : peer.wd_priority = w.cluster.localNode.wd_priority)
    (hstart : peer.startup_time = w.cluster.localNode.startup_time) :
    RejectsAndStays ext w (NodeRef.remote i) p ∧
    ¬ AcceptsAndYields ext w (NodeRef.remote i) p := by
  have hr : RejectsAndStays ext w (NodeRef.remote i) p :=
    standForCord_rejects ext w i peer p hpeer hstate hp (Or.inr ⟨hprio.symm, by omega⟩)
  exact ⟨hr, fun ha => not_rejects_of_accepts ext w _ p ha hr⟩

/-- Witness of C3 amended, at the tie of `candidateTie`. -/
theorem standForCord_tie_rejects_witness :
    RejectsAndStays sampleExt candidateTie (NodeRef.remote 0) standForPacket ∧
    ¬ AcceptsAndYields sampleExt candidateTie (NodeRef.remote 0) standForPacket :=
  standForCord_tie_rejects sampleExt candidateTie 0
    (sampleNode WD_STAND_FOR_COORDINATOR 1 100 5) standForPacket rfl rfl rfl rfl rfl

/-! ## The wire codec -/

theorem ntohl_htonl (v : Nat) (h : v < 4294967296) :
    ntohl (toByte (v / 16777216)) (toByte (v / 65536)) (toByte (v / 256)) (toByte v) = v := by
  simp only [ntohl, toByte]
  omega

theorem toUInt32_lt (x : Int) : toUInt32 x < 4294967296 := by
  unfold toUInt32
  omega

theorem toInt32_toUInt32 (x : Int) (h1 : -2147483648 ≤ x) (h2 : x < 2147483648) :
    toInt32 (toUInt32 x) = x := by
  unfold toInt32 toUInt32
  split_ifs <;> omega

/-- A call of `write` either fails (returns a value `≤ 0`) or takes a non-empty prefix of
the buffer and returns its length; on a socket without restrictions it takes it all. -/
theorem sys_write_spec (s : WriteSock) (buf : List Byte) :
    ((sys_write s buf).1 ≤ 0 ∨
      (0 < (sys_write s buf).1 ∧ (sys_write s buf).1 ≤ buf.length ∧
        (sys_write s buf).2.out = s.out ++ buf.take (sys_write s buf).1.toNat)) ∧
    (s.accept = [] → (sys_write s buf).1 = buf.length ∧ (sys_write s buf).2.accept = [] ∧
      (sys_write s buf).2.out = s.out ++ buf) := by
  unfold sys_write
  cases hacc : s.accept with
  | nil =>
    simp only [true_implies, and_self, and_true]
    by_cases hb : buf.length = 0
    · left; simp [hb]
    · right
      refine ⟨by omega, le_refl _, ?_⟩
      simp
  | cons r rest =>
    simp only [reduceCtorEq, false_implies, and_true]
    by_cases hr : r ≤ 0
    · left; simp [hr]
    · simp only [hr, if_false]
      by_cases hb : buf.length = 0
      · left; simp [hb]
      · right
        refine ⟨by omega, by omega, ?_⟩
        congr 1
        rw [List.take_eq_take]
        omega

/-- The payload loop terminates within `len - bytes_send` rounds; when it reports
success the rest of the payload is on the wire, and on a socket without restrictions it
reports success. -/
theorem write_packet_data_spec (fuel : Nat) (s : WriteSock) (data : List Byte)
    (len bytes_send : Int) (h0 : 0 ≤ bytes_send) (hlt : bytes_send < len)
    (hlen : (data.length : Int) = len) (hfuel : (len - bytes_send).toNat ≤ fuel) :
    ∃ b s1, write_packet_data fuel s data len bytes_send = some (b, s1) ∧
      (b = true → s1.out = s.out ++ data.drop bytes_send.toNat) ∧
      (s.accept = [] → b = true) := by
  induction fuel generalizing s bytes_send with
  | zero => omega
  | succ fuel ih =>
    have hbuf : (data.drop bytes_send.toNat).take (len - bytes_send).toNat
        = data.drop bytes_send.toNat := by
      apply List.take_of_length_le
      rw [List.length_drop]
      omega
    have hbl : ((data.drop bytes_send.toNat).length : Int) = len - bytes_send := by
      rw [List.length_drop]
      omega
    unfold write_packet_data
    simp only [hbuf]
    obtain ⟨hsw, hfree⟩ := sys_write_spec s (data.drop bytes_send.toNat)
    by_cases hfail : (sys_write s (data.drop bytes_send.toNat)).1 ≤ 0
    · rw [if_pos hfail]
      refine ⟨false, _, rfl, by simp, ?_⟩
      intro hacc
      have := (hfree hacc).1
      omega
    · rw [if_neg hfail]
      rcases hsw with hsw | ⟨hpos, hle, hout⟩
      · exact absurd hsw hfail
      · by_cases hmore : bytes_send + (sys_write s (data.drop bytes_send.toNat)).1 < len
        · rw [if_pos hmore]
          obtain ⟨b, s1, hrun, hb, _⟩ :=
            ih (sys_write s (data.drop bytes_send.toNat)).2
              (bytes_send + (sys_write s (data.drop bytes_send.toNat)).1)
              (by omega) hmore (by omega)
          refine ⟨b, s1, hrun, ?_, ?_⟩
          · intro hbt
            rw [hb hbt, hout, List.append_assoc]
            congr 1
            have hsum : (bytes_send + (sys_write s (data.drop bytes_send.toNat)).1).toNat
                = bytes_send.toNat + (sys_write s (data.drop bytes_send.toNat)).1.toNat := by
              omega
            rw [hsum, ← List.drop_drop, List.take_append_drop]
          · intro hacc
            have := (hfree hacc).1
            omega
        · rw [if_neg hmore]
          refine ⟨true, _, rfl, ?_, fun _ => rfl⟩
          intro _
          rw [hout]
          congr 1
          apply List.take_of_length_le
          omega

/-- A call of `write` that returns at least the size of a non-empty buffer has put the
whole buffer on the wire. -/
theorem sys_write_full (s : WriteSock) (buf : List Byte) (hpos : 0 < buf.length)
    (h : (buf.length : Int) ≤ (sys_write s buf).1) :
    (sys_write s buf).2.out = s.out ++ buf := by
  rcases (sys_write_spec s buf).1 with hs | ⟨_, hle, hout⟩
  · omega
  · rw [hout]
    congr 1
    apply List.take_of_length_le
    omega

/-- `write_packet_to_socket` in peer mode returns; when it returns true the socket has
received exactly the frame of the packet, and on a socket without restrictions it
returns true. -/
theorem write_packet_to_socket_spec (s : WriteSock) (pkt : WDPacketData)
    (payload : List Byte) (hdata : pkt.data = some payload)
    (hlen : pkt.len = payload.length) :
    ∃ b s1, write_packet_to_socket s pkt false = some (b, s1) ∧
      (b = true → s1.out = s.out ++ wire_frame pkt payload) ∧
      (s.accept = [] → b = true) := by
  unfold write_packet_to_socket
  simp only [hdata, if_true]
  by_cases h1 : (sys_write s [pkt.type]).1 < 1
  · rw [if_pos h1]
    refine ⟨false, _, rfl, by simp, ?_⟩
    intro hacc
    have := ((sys_write_spec s [pkt.type]).2 hacc).1
    simp only [List.length_singleton] at this
    omega
  · rw [if_neg h1]
    have o1 : (sys_write s [pkt.type]).2.out = s.out ++ [pkt.type] :=
      sys_write_full _ _ (by simp) (by simp only [List.length_singleton]; omega)
    have a1 : s.accept = [] → (sys_write s [pkt.type]).2.accept = [] :=
      fun hacc => ((sys_write_spec s [pkt.type]).2 hacc).2.1
    by_cases h2 : (sys_write (sys_write s [pkt.type]).2 (htonl (toUInt32 pkt.command_id))).1 < 4
    · simp only [h2, if_true]
      refine ⟨false, _, rfl, by simp, ?_⟩
      intro hacc
      have := ((sys_write_spec (sys_write s [pkt.type]).2
        (htonl (toUInt32 pkt.command_id))).2 (a1 hacc)).1
      simp only [htonl, List.length_cons, List.length_nil] at this h2
      omega
    · simp only [h2, if_false]
      have o2 := sys_write_full (sys_write s [pkt.type]).2 (htonl (toUInt32 pkt.command_id))
        (by simp [htonl]) (by simp only [htonl, List.length_cons, List.length_nil] at h2 ⊢; omega)
      have a2 : s.accept = [] →
          (sys_write (sys_write s [pkt.type]).2 (htonl (toUInt32 pkt.command_id))).2.accept = [] :=
        fun hacc => ((sys_write_spec _ _).2 (a1 hacc)).2.1
      rw [if_neg (by decide : ¬ (true = false))]
      by_cases h3 : (sys_write (sys_write (sys_write s [pkt.type]).2
          (htonl (toUInt32 pkt.command_id))).2 (htonl (toUInt32 pkt.len))).1 < 4
      · rw [if_pos h3]
        refine ⟨false, _, rfl, by simp, ?_⟩
        intro hacc
        have := ((sys_write_spec (sys_write (sys_write s [pkt.type]).2
          (htonl (toUInt32 pkt.command_id))).2 (htonl (toUInt32 pkt.len))).2 (a2 hacc)).1
        simp only [htonl, List.length_cons, List.length_nil] at this h3
        omega
      · rw [if_neg h3]
        have o3 := sys_write_full (sys_write (sys_write s [pkt.type]).2
          (htonl (toUInt32 pkt.command_id))).2 (htonl (toUInt32 pkt.len))
          (by simp [htonl]) (by simp only [htonl, List.length_cons, List.length_nil] at h3 ⊢; omega)
        have a3 : s.accept = [] →
            (sys_write (sys_write (sys_write s [pkt.type]).2
              (htonl (toUInt32 pkt.command_id))).2 (htonl (toUInt32 pkt.len))).2.accept = [] :=
          fun hacc => ((sys_write_spec _ _).2 (a2 hacc)).2.1
        have hhead : (sys_write (sys_write (sys_write s [pkt.type]).2
              (htonl (toUInt32 pkt.command_id))).2 (htonl (toUInt32 pkt.len))).2.out
            = s.out ++ ([pkt.type] ++ htonl (toUInt32 pkt.command_id) ++ htonl (toUInt32 pkt.len)) := by
          rw [o3, o2, o1]
          simp only [List.append_assoc]
        by_cases hpos : pkt.len > 0
        · rw [if_pos hpos]
          obtain ⟨b, s1, hrun, hb, hfree⟩ := write_packet_data_spec pkt.len.toNat
            (sys_write (sys_write (sys_write s [pkt.type]).2
              (htonl (toUInt32 pkt.command_id))).2 (htonl (toUInt32 pkt.len))).2
            payload pkt.len 0 (le_refl _) hpos hlen.symm (by omega)
          refine ⟨b, s1, hrun, ?_, fun hacc => hfree (a3 hacc)⟩
          intro hbt
          rw [hb hbt, hhead]
          simp [wire_frame]
        · rw [if_neg hpos]
          refine ⟨true, _, rfl, ?_, fun _ => rfl⟩
          intro _
          have hnil : payload = [] := by
            apply List.eq_nil_of_length_eq_zero
            omega
          rw [hhead, hnil]
          simp [wire_frame]

theorem socket_read_one (x : Byte) (xs : List Byte) :
    socket_read (x :: xs) 1 = (1, [x], xs) := by
  simp [socket_read]

theorem socket_read_four (a b c d : Byte) (xs : List Byte) :
    socket_read (a :: b :: c :: d :: xs) 4 = (4, [a, b, c, d], xs) := by
  simp [socket_read]

theorem socket_read_append (payload rest : List Byte) :
    socket_read (payload ++ rest) payload.length = ((payload.length : Int), payload, rest) := by
  simp [socket_read]

/-- Reading the frame of a packet from a connected socket yields the packet and leaves
what follows the frame unread. -/
theorem read_packet_of_type_frame (conn : SocketConnection) (pkt : WDPacketData)
    (payload rest : List Byte) (ensure_type : Byte)
    (hconn : is_socket_connection_connected conn = true)
    (hens : ensure_type = WD_NO_MESSAGE ∨ ensure_type = pkt.type)
    (hdata : pkt.data = some payload) (hlen : pkt.len = payload.length)
    (hc1 : -2147483648 ≤ pkt.command_id) (hc2 : pkt.command_id < 2147483648)
    (hl : payload.length < 2147483648) :
    read_packet_of_type conn (wire_frame pkt payload ++ rest) ensure_type
      = (ReadOutcome.packet pkt, conn, rest) := by
  have hframe : wire_frame pkt payload ++ rest =
      pkt.type :: toByte (toUInt32 pkt.command_id / 16777216)
        :: toByte (toUInt32 pkt.command_id / 65536) :: toByte (toUInt32 pkt.command_id / 256)
        :: toByte (toUInt32 pkt.command_id)
        :: toByte (toUInt32 pkt.len / 16777216) :: toByte (toUInt32 pkt.len / 65536)
        :: toByte (toUInt32 pkt.len / 256) :: toByte (toUInt32 pkt.len)
        :: (payload ++ rest) := by
    simp [wire_frame, htonl]
  have hcid : toInt32 (ntohl (toByte (toUInt32 pkt.command_id / 16777216))
      (toByte (toUInt32 pkt.command_id / 65536)) (toByte (toUInt32 pkt.command_id / 256))
      (toByte (toUInt32 pkt.command_id))) = pkt.command_id := by
    rw [ntohl_htonl _ (toUInt32_lt _), toInt32_toUInt32 _ hc1 hc2]
  have hlenrt : toInt32 (ntohl (toByte (toUInt32 pkt.len / 16777216))
      (toByte (toUInt32 pkt.len / 65536)) (toByte (toUInt32 pkt.len / 256))
      (toByte (toUInt32 pkt.len))) = (payload.length : Int) := by
    rw [ntohl_htonl _ (toUInt32_lt _), toInt32_toUInt32 _ (by omega) (by omega), hlen]
  have hnot : ¬ (ensure_type ≠ WD_NO_MESSAGE ∧ ensure_type ≠ pkt.type) := by
    rintro ⟨h1, h2⟩
    rcases hens with h | h
    · exact h1 h
    · exact h2 h
  unfold read_packet_of_type
  rw [hframe, hconn]
  simp only [Bool.true_eq_false, if_false, socket_read_one, socket_read_four, hnot, hlenrt,
    hcid]
  rw [if_neg (by omega)]
  simp only [Int.toNat_ofNat, socket_read_append, ne_eq, not_true_eq_false, if_false]
  cases pkt
  simp_all

/-- C4. For a peer packet with a payload of `len` octets (command id and length within
the range of the C type `int`), `write_packet_to_socket` in peer mode returns, and when
it returns true (as it does on a socket that takes every write) it has written the frame
type, command id big-endian, length big-endian, payload, of `9 + len` octets; and
`read_packet_of_type`, asked for any type or for this type on a connected socket, turns
exactly those octets back into the same packet: same type, command id, length and
payload. -/
theorem packet_roundtrip (s : WriteSock) (conn : SocketConnection) (pkt : WDPacketData)
    (payload : List Byte) (ensure_type : Byte)
    (hdata : pkt.data = some payload) (hlen : pkt.len = payload.length)
    (hc1 : -2147483648 ≤ pkt.command_id) (hc2 : pkt.command_id < 2147483648)
    (hl : payload.length < 2147483648)
    (hconn : is_socket_connection_connected conn = true)
    (hens : ensure_type = WD_NO_MESSAGE ∨ ensure_type = pkt.type) :
    wire_frame pkt payload =
      [pkt.type] ++ htonl (toUInt32 pkt.command_id) ++ htonl (toUInt32 pkt.len) ++ payload ∧
    (wire_frame pkt payload).length = 9 + payload.length ∧
    (∃ b s1, write_packet_to_socket s pkt false = some (b, s1) ∧
      (b = true → s1.out = s.out ++ wire_frame pkt payload) ∧
      (s.accept = [] → b = true)) ∧
    read_packet_of_type conn (wire_frame pkt payload) ensure_type
      = (ReadOutcome.packet pkt, conn, []) := by
  refine ⟨rfl, ?_, write_packet_to_socket_spec s pkt payload hdata hlen, ?_⟩
  · simp only [wire_frame, htonl, List.length_append, List.length_cons, List.length_nil]
  · have h := read_packet_of_type_frame conn pkt payload [] ensure_type hconn hens hdata hlen
      hc1 hc2 hl
    rwa [List.append_nil] at h

/-- Witness of C4: `samplePacket` written to a socket that takes the payload in two
pieces, and read back. -/
theorem packet_roundtrip_witness :
    write_packet_to_socket slowSock samplePacket false
      = some (true, { accept := [], out := [86, 0, 0, 1, 2, 0, 0, 0, 3, 7, 8, 9] }) ∧
    wire_frame samplePacket [7, 8, 9] = [86, 0, 0, 1, 2, 0, 0, 0, 3, 7, 8, 9] ∧
    read_packet_of_type connectedConn (wire_frame samplePacket [7, 8, 9]) WD_NO_MESSAGE
      = (ReadOutcome.packet samplePacket, connectedConn, []) :=
  ⟨by decide, by decide,
   (packet_roundtrip slowSock connectedConn samplePacket [7, 8, 9] WD_NO_MESSAGE rfl rfl
     (by decide) (by decide) (by decide) (by decide) (Or.inl rfl)).2.2.2⟩

/-! ## Frame lemmas -/

theorem SendFrame_refl (w : World) : SendFrame w w :=
  ⟨rfl, rfl, rfl, rfl, rfl, rfl, rfl, [], by simp⟩

theorem SendFrame_trans {w1 w2 w3 : World} (h12 : SendFrame w1 w2) (h23 : SendFrame w2 w3) :
    SendFrame w1 w3 := by
  obtain ⟨a1, a2, a3, a4, a5, a6, a7, r1, a8⟩ := h12
  obtain ⟨b1, b2, b3, b4, b5, b6, b7, r2, b8⟩ := h23
  refine ⟨b1.trans a1, b2.trans a2, b3.trans a3, b4.trans a4, b5.trans a5, b6.trans a6,
    b7.trans a7, r1 ++ r2, ?_⟩
  rw [b8, a8, List.append_assoc]

/-- The number of active remote nodes depends on the node states only. -/
theorem get_cluster_node_count_congr (c1 c2 : wd_cluster)
    (h : c1.remoteNodes.map WatchdogNode.state = c2.remoteNodes.map WatchdogNode.state) :
    get_cluster_node_count c1 = get_cluster_node_count c2 := by
  rw [get_cluster_node_count_eq, get_cluster_node_count_eq]
  have e : ∀ l : List WatchdogNode, l.countP is_node_active
      = (l.map WatchdogNode.state).countP
          (fun st => decide (¬ (st = WD_DEAD ∨ st = WD_LOST ∨ st = WD_SHUTDOWN))) := by
    intro l
    rw [List.countP_map]
    congr 1
    funext n
    simp only [is_node_active, Function.comp]
    by_cases hn : n.state = WD_DEAD ∨ n.state = WD_LOST ∨ n.state = WD_SHUTDOWN <;> simp [hn]
  rw [e, e, h]

theorem send_message_to_node_frame (w : World) (ref : NodeRef) (pkt : WDPacketData) :
    SendFrame w (send_message_to_node w ref pkt).2 := by
  unfold send_message_to_node
  cases hg : get_node w.cluster ref with
  | none => exact SendFrame_refl w
  | some n =>
    cases ref with
    | localNode =>
      have hn : n = w.cluster.localNode := by
        simp only [get_node, Option.some.injEq] at hg
        exact hg.symm
      subst hn
      exact ⟨rfl, rfl, rfl, rfl, rfl, rfl, rfl, _, rfl⟩
    | remote i =>
      refine ⟨rfl, rfl, rfl, rfl, rfl, ?_, rfl, _, rfl⟩
      have hi : w.cluster.remoteNodes[i]? = some n := hg
      simp only [set_node]
      apply List.ext_getElem?
      intro j
      simp only [List.getElem?_map, List.getElem?_set]
      by_cases hij : i = j
      · subst hij
        have hlt : i < w.cluster.remoteNodes.length := by
          by_contra hcon
          rw [List.getElem?_eq_none (by omega)] at hi
          cases hi
        simp [hlt, hi]
      · simp [hij]

theorem send_message_step_frame (pkt : WDPacketData) (acc : Int × World) (i : Nat) :
    SendFrame acc.2 (send_message_step pkt acc i).2 := by
  unfold send_message_step
  split
  · exact SendFrame_refl _
  · split
    · dsimp only
      split
      · exact send_message_to_node_frame _ _ _
      · exact send_message_to_node_frame _ _ _
    · exact SendFrame_refl _

theorem send_message_frame (w : World) (wdNode : Option NodeRef) (pkt : WDPacketData) :
    SendFrame w (send_message w wdNode pkt).2 := by
  unfold send_message
  split
  · exact SendFrame_refl _
  · dsimp only
    split
    · exact send_message_to_node_frame _ _ _
    · exact send_message_to_node_frame _ _ _
  · have key : ∀ (l : List Nat) (acc : Int × World),
        SendFrame acc.2 (l.foldl (send_message_step pkt) acc).2 := by
      intro l
      induction l with
      | nil => intro acc; exact SendFrame_refl _
      | cons i l ih =>
        intro acc
        rw [List.foldl_cons]
        exact SendFrame_trans (send_message_step_frame pkt acc i) (ih _)
    exact key _ (0, w)

theorem reply_with_minimal_message_frame (w : World) (wdNode : Option NodeRef) (type : Byte)
    (replyFor : Option WDPacketData) :
    SendFrame w (reply_with_minimal_message w wdNode type replyFor).2 := by
  unfold reply_with_minimal_message
  have h1 : SendFrame w { w with cluster := (get_minimum_message w.cluster type replyFor).2 } := by
    unfold get_minimum_message
    cases replyFor with
    | none => exact ⟨rfl, rfl, rfl, rfl, rfl, rfl, rfl, [], by simp⟩
    | some r => exact SendFrame_refl _
  exact SendFrame_trans h1 (send_message_frame _ _ _)

theorem reply_with_message_frame (w : World) (wdNode : Option NodeRef) (type : Byte)
    (data : Option (List Byte)) (data_len : Int) (replyFor : Option WDPacketData) :
    SendFrame w (reply_with_message w wdNode type data data_len replyFor).2 := by
  unfold reply_with_message
  cases replyFor with
  | none =>
    have h1 : SendFrame w { w with cluster := (get_next_commandID w.cluster).2 } :=
      ⟨rfl, rfl, rfl, rfl, rfl, rfl, rfl, [], by simp⟩
    exact SendFrame_trans h1 (send_message_frame _ _ _)
  | some r => exact send_message_frame _ _ _

theorem write_ipc_command_with_result_data_frame (w : World) (ipcCommand : WDCommandData)
    (type : Byte) (data : Option (List Byte)) (len : Int) :
    SendFrame w (write_ipc_command_with_result_data w ipcCommand type data len).2 := by
  unfold write_ipc_command_with_result_data
  split
  · exact SendFrame_refl _
  · exact ⟨rfl, rfl, rfl, rfl, rfl, rfl, rfl, _, rfl⟩

theorem reply_to_failove_command_frame (ext : WDExternals) (w : World)
    (ipcCommand : WDCommandData) (cmdResult : WDFailoverCMDResults) (failoverID : Nat) :
    SendFrame w (reply_to_failove_command ext w ipcCommand cmdResult failoverID).2 := by
  unfold reply_to_failove_command
  dsimp only
  split
  · exact write_ipc_command_with_result_data_frame _ _ _ _ _
  · split
    · dsimp only
      exact reply_with_message_frame w _ _ _ _ _
    · exact SendFrame_refl _

theorem process_wd_command_function_frame (ext : WDExternals) (w : World)
    (wdNode : Option NodeRef) (pkt : WDPacketData) (func_name : List Byte)
    (node_id_list : List Int) (failover_id : Nat) :
    SendFrame w (process_wd_command_function ext w wdNode pkt func_name node_id_list
      failover_id) := by
  have hcb : ∀ (w1 : World) (a : Action), SendFrame w w1 →
      SendFrame w { w1 with trace := w1.trace ++ [a] } := by
    intro w1 a h
    exact SendFrame_trans h ⟨rfl, rfl, rfl, rfl, rfl, rfl, rfl, _, rfl⟩
  unfold process_wd_command_function
  split
  · split
    · exact reply_with_minimal_message_frame _ _ _ _
    · exact hcb _ _ (reply_with_minimal_message_frame _ _ _ _)
  · split
    · split
      · exact reply_with_minimal_message_frame _ _ _ _
      · exact hcb _ _ (reply_with_minimal_message_frame _ _ _ _)
    · split
      · split
        · exact reply_with_minimal_message_frame _ _ _ _
        · exact hcb _ _ (reply_with_minimal_message_frame _ _ _ _)
      · exact reply_with_minimal_message_frame _ _ _ _

/-! ## The broadcast of a command -/

theorem CmdFrame_refl (cmd : WDCommandData) : CmdFrame cmd cmd :=
  ⟨rfl, rfl, rfl, rfl, rfl, rfl, rfl⟩

theorem CmdFrame_trans {c1 c2 c3 : WDCommandData} (h12 : CmdFrame c1 c2)
    (h23 : CmdFrame c2 c3) : CmdFrame c1 c3 := by
  obtain ⟨a1, a2, a3, a4, a5, a6, a7⟩ := h12
  obtain ⟨b1, b2, b3, b4, b5, b6, b7⟩ := h23
  exact ⟨b1.trans a1, b2.trans a2, b3.trans a3, b4.trans a4, b5.trans a5, b6.trans a6,
    b7.trans a7⟩

theorem set_cmdState_resultNodes (cmd : WDCommandData) (i : Nat) (st : WDNodeCommandState) :
    (set_cmdState cmd i st).resultNodes = cmd.resultNodes := by
  unfold set_cmdState WDCommandData.resultNodes
  cases hr : cmd.nodeResults with
  | none => rfl
  | some rs =>
    simp only [Option.map_some', Option.getD_some]
    cases hi : rs[i]? with
    | none => rfl
    | some nr =>
      simp only []
      apply List.ext_getElem?
      intro j
      simp only [List.getElem?_map, List.getElem?_set]
      by_cases hij : i = j
      · subst hij
        have hlt : i < rs.length := by
          by_contra hcon
          rw [List.getElem?_eq_none (by omega)] at hi
          cases hi
        simp [hlt, hi]
      · simp [hij]

theorem set_cmdState_frame (cmd : WDCommandData) (i : Nat) (st : WDNodeCommandState) :
    CmdFrame cmd (set_cmdState cmd i st) :=
  ⟨rfl, rfl, rfl, rfl, rfl, rfl, set_cmdState_resultNodes cmd i st⟩

/-- One round of the broadcast loop sends nothing, or the command packet once to the
node of slot `i`. -/
theorem send_command_packet_step_spec (source_included : Bool) (acc : WDCommandData × World)
    (i : Nat) :
    CmdFrame acc.1 (send_command_packet_step source_included acc i).1 ∧
    SendFrame acc.2 (send_command_packet_step source_included acc i).2 ∧
    ((send_command_packet_step source_included acc i).2.trace = acc.2.trace ∨
      ∃ ref ok, acc.1.resultNodes[i]? = some ref ∧
        (send_command_packet_step source_included acc i).2.trace
          = acc.2.trace ++ [Action.send ref acc.1.commandPacket ok]) := by
  unfold send_command_packet_step
  cases hnr : (acc.1.nodeResults.getD [])[i]? with
  | none => exact ⟨CmdFrame_refl _, SendFrame_refl _, Or.inl rfl⟩
  | some nodeResult =>
    have href : acc.1.resultNodes[i]? = some nodeResult.wdNode := by
      simp [WDCommandData.resultNodes, List.getElem?_map, hnr]
    dsimp only
    cases hg : get_node acc.2.cluster nodeResult.wdNode with
    | none => exact ⟨CmdFrame_refl _, SendFrame_refl _, Or.inl rfl⟩
    | some wdNode =>
      dsimp only
      split
      · exact ⟨set_cmdState_frame _ _ _, SendFrame_refl _, Or.inl rfl⟩
      · split
        · exact ⟨set_cmdState_frame _ _ _, SendFrame_refl _, Or.inl rfl⟩
        · split
          · exact ⟨set_cmdState_frame _ _ _, SendFrame_refl _, Or.inl rfl⟩
          · split
            · exact ⟨set_cmdState_frame _ _ _, SendFrame_refl _, Or.inl rfl⟩
            · have htr : (send_message_to_node acc.2 nodeResult.wdNode acc.1.commandPacket).2.trace
                  = acc.2.trace ++ [Action.send nodeResult.wdNode acc.1.commandPacket
                      (send_message_to_node acc.2 nodeResult.wdNode acc.1.commandPacket).1] := by
                unfold send_message_to_node
                rw [hg]
              split
              · exact ⟨set_cmdState_frame _ _ _, send_message_to_node_frame _ _ _,
                  Or.inr ⟨_, _, href, htr⟩⟩
              · exact ⟨set_cmdState_frame _ _ _, send_message_to_node_frame _ _ _,
                  Or.inr ⟨_, _, href, htr⟩⟩

theorem send_command_packet_loop_spec (source_included : Bool) (l : List Nat)
    (acc : WDCommandData × World) :
    CmdFrame acc.1 (l.foldl (send_command_packet_step source_included) acc).1 ∧
    SendFrame acc.2 (l.foldl (send_command_packet_step source_included) acc).2 ∧
    ∃ B, (l.foldl (send_command_packet_step source_included) acc).2.trace = acc.2.trace ++ B ∧
      (∀ a ∈ B, ∃ ref ok, a = Action.send ref acc.1.commandPacket ok) ∧
      List.Sublist (B.filterMap Action.target) (l.filterMap fun i => acc.1.resultNodes[i]?) := by
  induction l generalizing acc with
  | nil => exact ⟨CmdFrame_refl _, SendFrame_refl _, [], by simp, by simp, by simp⟩
  | cons i l ih =>
    rw [List.foldl_cons]
    obtain ⟨hc1, hs1, ht1⟩ := send_command_packet_step_spec source_included acc i
    obtain ⟨hc2, hs2, B, htB, haB, hsub⟩ := ih (send_command_packet_step source_included acc i)
    have hpkt : (send_command_packet_step source_included acc i).1.commandPacket
        = acc.1.commandPacket := hc1.2.1
    have hrn : (send_command_packet_step source_included acc i).1.resultNodes
        = acc.1.resultNodes := hc1.2.2.2.2.2.2
    rw [hpkt] at haB
    rw [hrn] at hsub
    refine ⟨CmdFrame_trans hc1 hc2, SendFrame_trans hs1 hs2, ?_⟩
    rcases ht1 with ht1 | ⟨ref, ok, href, ht1⟩
    · refine ⟨B, by rw [htB, ht1], haB, ?_⟩
      exact hsub.trans (List.Sublist.filterMap _ (List.sublist_cons_self i l))
    · refine ⟨Action.send ref acc.1.commandPacket ok :: B, ?_, ?_, ?_⟩
      · rw [htB, ht1, List.append_assoc]
        rfl
      · intro a ha
        rcases List.mem_cons.mp ha with h | h
        · exact ⟨_, _, h⟩
        · exact haB a h
      · rw [List.filterMap_cons_some href]
        simp only [List.filterMap_cons, Action.target]
        exact hsub.cons₂ ref

/-- The broadcast of a fresh command: the registry, lock table and node states are
untouched, the command keeps its packets and source, and the only things sent are copies
of the command packet, at most one per node. -/
theorem send_command_packet_to_remote_nodes_spec (w : World) (cmd : WDCommandData)
    (source_included : Bool) (hfresh : cmd.nodeResults = none) :
    (send_command_packet_to_remote_nodes w cmd source_included).2.1.sourcePacket
      = cmd.sourcePacket ∧
    (send_command_packet_to_remote_nodes w cmd source_included).2.1.commandPacket
      = cmd.commandPacket ∧
    (send_command_packet_to_remote_nodes w cmd source_included).2.1.commandSource
      = cmd.commandSource ∧
    (send_command_packet_to_remote_nodes w cmd source_included).2.1.sourceIPCSocket
      = cmd.sourceIPCSocket ∧
    (send_command_packet_to_remote_nodes w cmd source_included).2.1.sourceWdNode
      = cmd.sourceWdNode ∧
    SendFrame w (send_command_packet_to_remote_nodes w cmd source_included).2.2 ∧
    ∃ B, (send_command_packet_to_remote_nodes w cmd source_included).2.2.trace = w.trace ++ B ∧
      (∀ a ∈ B, ∃ ref ok, a = Action.send ref cmd.commandPacket ok) ∧
      (B.filterMap Action.target).Nodup := by
  unfold send_command_packet_to_remote_nodes
  dsimp only
  obtain ⟨hc, hs, B, htB, haB, hsub⟩ := send_command_packet_loop_spec source_included
    (List.range w.cluster.remoteNodes.length)
    (allocate_resultNodes_in_command w.cluster
      { cmd with commandSendToCount := 0, commandReplyFromCount := 0,
                 commandSendToErrorCount := 0 }, w)
  have halloc : allocate_resultNodes_in_command w.cluster
      { cmd with commandSendToCount := 0, commandReplyFromCount := 0,
                 commandSendToErrorCount := 0 }
      = { cmd with commandSendToCount := 0, commandReplyFromCount := 0,
                   commandSendToErrorCount := 0,
                   nodeResults := some ((List.range w.cluster.remoteNodes.length).map fun i =>
                     { wdNode := NodeRef.remote i, cmdState := COMMAMD_STATE_INIT,
                       result_type := WD_NO_MESSAGE }) } := by
    unfold allocate_resultNodes_in_command
    simp only [hfresh]
  rw [halloc] at hc hs htB haB hsub
  obtain ⟨c1, c2, c3, c4, c5, _, _⟩ := hc
  rw [halloc]
  refine ⟨c1, c2, c3, c4, c5, hs, B, htB, haB, ?_⟩
  refine hsub.nodup ?_
  have hmap : (List.range w.cluster.remoteNodes.length).filterMap
      (fun i => (WDCommandData.resultNodes
        { cmd with commandSendToCount := 0, commandReplyFromCount := 0,
                   commandSendToErrorCount := 0,
                   nodeResults := some ((List.range w.cluster.remoteNodes.length).map fun i =>
                     { wdNode := NodeRef.remote i, cmdState := COMMAMD_STATE_INIT,
                       result_type := WD_NO_MESSAGE }) })[i]?)
      = (List.range w.cluster.remoteNodes.length).map NodeRef.remote := by
    trans (List.range w.cluster.remoteNodes.length).filterMap (some ∘ NodeRef.remote)
    · apply List.filterMap_congr
      intro i hi
      have hlt : i < w.cluster.remoteNodes.length := List.mem_range.mp hi
      simp [WDCommandData.resultNodes, List.getElem?_map, List.getElem?_range hlt]
    · rw [List.filterMap_eq_map]
  rw [hmap]
  exact (List.nodup_range _).map (fun a b h => by cases h; rfl)

theorem send_command_packet_to_remote_nodes_frame (w : World) (cmd : WDCommandData)
    (source_included : Bool) :
    SendFrame w (send_command_packet_to_remote_nodes w cmd source_included).2.2 :=
  (send_command_packet_loop_spec source_included _ _).2.1

/-! ## The failover registry -/

theorem does_int_array_contains_value_iff (intArray : List Int) (value : Int) :
    does_int_array_contains_value intArray value = true ↔ value ∈ intArray := by
  induction intArray with
  | nil => simp [does_int_array_contains_value]
  | cons x rest ih =>
    unfold does_int_array_contains_value
    by_cases h : x = value
    · simp [h]
    · rw [if_neg h, ih]
      simp [Ne.symm h]

theorem failover_nodes_equal_iff (stored nodeList : List Int) :
    failover_nodes_equal stored nodeList = true ↔ ∀ v ∈ stored, v ∈ nodeList := by
  induction stored with
  | nil => simp [failover_nodes_equal]
  | cons v rest ih =>
    unfold failover_nodes_equal
    by_cases h : does_int_array_contains_value nodeList v = true
    · have hv : v ∈ nodeList := (does_int_array_contains_value_iff _ _).mp h
      simp [h, ih, hv]
    · have hv : v ∉ nodeList := fun hm => h ((does_int_array_contains_value_iff _ _).mpr hm)
      simp [h, hv]

/-- `get_failover_object` finds nothing exactly when no registered object matches. -/
theorem get_failover_object_none_iff (l : List WDFailoverObject) (reqKind : POOL_REQUEST_KIND)
    (nodeList : List Int) :
    get_failover_object l reqKind nodeList = none ↔
      ∀ o ∈ l, ¬ FailoverMatches o reqKind nodeList := by
  induction l with
  | nil => simp [get_failover_object]
  | cons o rest ih =>
    unfold get_failover_object
    by_cases h1 : o.reqKind = reqKind ∧ o.nodesCount = nodeList.length
    · rw [if_pos h1]
      have hlen : o.nodeList.length = nodeList.length := by
        have := h1.2
        unfold WDFailoverObject.nodesCount at this
        exact_mod_cast this
      by_cases h2 : failover_nodes_equal o.nodeList nodeList = true
      · rw [if_pos h2]
        simp only [reduceCtorEq, List.mem_cons, forall_eq_or_imp, false_iff, not_and]
        intro hno
        exact absurd ⟨h1.1, hlen, (failover_nodes_equal_iff _ _).mp h2⟩ hno
      · rw [if_neg h2, ih]
        simp only [List.mem_cons, forall_eq_or_imp, iff_and_self]
        intro _ hm
        exact h2 ((failover_nodes_equal_iff _ _).mpr hm.2.2)
    · rw [if_neg h1, ih]
      simp only [List.mem_cons, forall_eq_or_imp, iff_and_self]
      intro _ hm
      apply h1
      refine ⟨hm.1, ?_⟩
      unfold WDFailoverObject.nodesCount
      exact_mod_cast hm.2.1

/-- What `get_failover_object` returns is registered and matches the look-up. -/
theorem get_failover_object_some (l : List WDFailoverObject) (reqKind : POOL_REQUEST_KIND)
    (nodeList : List Int) (o : WDFailoverObject)
    (h : get_failover_object l reqKind nodeList = some o) :
    o ∈ l ∧ FailoverMatches o reqKind nodeList := by
  induction l with
  | nil => simp [get_failover_object] at h
  | cons x rest ih =>
    unfold get_failover_object at h
    by_cases h1 : x.reqKind = reqKind ∧ x.nodesCount = nodeList.length
    · rw [if_pos h1] at h
      by_cases h2 : failover_nodes_equal x.nodeList nodeList = true
      · rw [if_pos h2] at h
        cases h
        refine ⟨List.mem_cons_self _ _, h1.1, ?_, (failover_nodes_equal_iff _ _).mp h2⟩
        have := h1.2
        unfold WDFailoverObject.nodesCount at this
        exact_mod_cast this
      · rw [if_neg h2] at h
        exact ⟨List.mem_cons_of_mem _ (ih h).1, (ih h).2⟩
    · rw [if_neg h1] at h
      exact ⟨List.mem_cons_of_mem _ (ih h).1, (ih h).2⟩

/-- An object of the same kind whose node list is a permutation of the requested one
matches. -/
theorem FailoverMatches_of_perm (o : WDFailoverObject) (reqKind : POOL_REQUEST_KIND)
    (nodeList : List Int) (hk : o.reqKind = reqKind) (hp : o.nodeList.Perm nodeList) :
    FailoverMatches o reqKind nodeList :=
  ⟨hk, hp.length_eq, fun _ hv => hp.subset hv⟩

/-- Handling a failover request leaves the registry as it is or appends one object, and
it appends only after `get_failover_object` has found no match for the request. -/
theorem process_failover_command_registry (ext : WDExternals) (w : World)
    (ipcCommand : WDCommandData) :
    (process_failover_command_on_coordinator ext w ipcCommand).2.2.cluster.wdCurrentFailovers
      = w.cluster.wdCurrentFailovers ∨
    ∃ o, get_failover_object w.cluster.wdCurrentFailovers o.reqKind o.nodeList = none ∧
      (process_failover_command_on_coordinator ext w ipcCommand).2.2.cluster.wdCurrentFailovers
        = w.cluster.wdCurrentFailovers ++ [o] := by
  unfold process_failover_command_on_coordinator
  split
  · exact Or.inl rfl
  · split
    · exact Or.inl (reply_to_failove_command_frame _ _ _ _ _).1
    · split
      · exact Or.inl (reply_to_failove_command_frame _ _ _ _ _).1
      · split
        · exact Or.inl (reply_to_failove_command_frame _ _ _ _ _).1
        · split
          · exact Or.inl (reply_to_failove_command_frame _ _ _ _ _).1
          · split
            · exact Or.inl (reply_to_failove_command_frame _ _ _ _ _).1
            · rename_i func_name node_id_list _ _ reqKind _ _ _ _ hnone
              right
              refine ⟨{ reqKind := reqKind,
                        failoverID := toUInt32 (toInt32 (get_next_commandID w.cluster).1),
                        nodeList := node_id_list,
                        wdRequestingNode := NodeRef.localNode }, hnone, ?_⟩
              dsimp only
              split
              · exact (reply_to_failove_command_frame _ _ _ _ _).1.trans
                  (send_command_packet_to_remote_nodes_frame _ _ _).1
              · split
                · exact (process_wd_command_function_frame _ _ _ _ _ _ _).1.trans
                    (send_command_packet_to_remote_nodes_frame _ _ _).1
                · exact (process_wd_command_function_frame _ _ _ _ _ _ _).1.trans
                    (send_command_packet_to_remote_nodes_frame _ _ _).1

/-- C5, the failing input: with the object (NODE_DOWN, [1, 1]) registered, as it is after
the degenerate request 'D' 1 1 was admitted, `get_failover_object(NODE_DOWN, [1, 2])`
returns that object although no registered object has the node list [1, 2] as a
multiset, and the degenerate request for nodes 1 and 2 is answered ALREADY_ISSUED. -/
theorem get_failover_object_duplicate_ids :
    (process_failover_command_on_coordinator sampleExt coordinatorWorld
        (ipcFailoverCommand [68, 1, 1] 9)).2.2.cluster.wdCurrentFailovers = duplicateIdRegistry ∧
    get_failover_object duplicateIdRegistry NODE_DOWN_REQUEST [1, 2]
      = some { reqKind := NODE_DOWN_REQUEST, failoverID := 2, nodeList := [1, 1],
               wdRequestingNode := NodeRef.localNode } ∧
    (∀ o ∈ duplicateIdRegistry,
      ¬ (o.reqKind = NODE_DOWN_REQUEST ∧ o.nodeList.Perm [1, 2])) ∧
    (process_failover_command_on_coordinator sampleExt
        (process_failover_command_on_coordinator sampleExt coordinatorWorld
          (ipcFailoverCommand [68, 1, 1] 9)).2.2
        (ipcFailoverCommand [68, 1, 2] 10)).2.2.trace.getLast?
      = some (Action.ipc_write 10
          { type := sampleExt.WD_IPC_CMD_RESULT_OK, command_id := 0, len := 6,
            data := some (failover_reply_data sampleExt FAILOVER_RES_ALREADY_ISSUED 0) } true) := by
  refine ⟨by decide, by decide, ?_, by decide⟩
  intro o ho
  simp only [duplicateIdRegistry, List.mem_singleton] at ho
  subst ho
  rintro ⟨_, hp⟩
  have h2 : (2 : Int) ∈ ([1, 1] : List Int) := hp.symm.subset (by simp)
  simp at h2

/-- C6. In every registry state reached from an empty registry by failover requests,
end verbs and other activity of the event loop, no two entries of the list of current
failovers have the same kind and the same node list up to order (equal as multisets);
more precisely no entry matches the look-up key of a later one. -/
theorem failover_registry_no_duplicates (ext : WDExternals) (w : World)
    (h : RegistryReachable ext w) :
    w.cluster.wdCurrentFailovers.Pairwise
      (fun a b => ¬ (a.reqKind = b.reqKind ∧ a.nodeList.Perm b.nodeList)) ∧
    w.cluster.wdCurrentFailovers.Pairwise
      (fun a b => ¬ FailoverMatches a b.reqKind b.nodeList) := by
  have key : w.cluster.wdCurrentFailovers.Pairwise
      (fun a b => ¬ FailoverMatches a b.reqKind b.nodeList) := by
    induction h with
    | init w h0 => rw [h0]; exact List.Pairwise.nil
    | request w cmd _ ih =>
      rcases process_failover_command_registry ext w cmd with hsame | ⟨o, hnone, happ⟩
      · rw [hsame]; exact ih
      · rw [happ, List.pairwise_append]
        refine ⟨ih, List.pairwise_singleton _ _, ?_⟩
        intro a ha b hb
        rw [List.mem_singleton] at hb
        subst hb
        exact (get_failover_object_none_iff _ _ _).mp hnone a ha
    | end_verb w wdNode failoverID _ ih =>
      have hsub : List.Sublist
          (node_is_asking_for_failover_end w.cluster wdNode failoverID).2.wdCurrentFailovers
          w.cluster.wdCurrentFailovers := by
        unfold node_is_asking_for_failover_end remove_failover_object_by_id
        split
        · split
          · dsimp only
            split
            · exact List.eraseP_sublist _
            · exact List.Sublist.refl _
          · exact List.Sublist.refl _
        · exact List.Sublist.refl _
      exact ih.sublist hsub
    | other w w1 _ hreg ih => rw [hreg]; exact ih
  refine ⟨key.imp ?_, key⟩
  intro a b hnot hab
  exact hnot (FailoverMatches_of_perm a b.reqKind b.nodeList hab.1 hab.2)

/-- Witness of C6: the state after a degenerate request for nodes 1 and 2 followed by
the same request with the nodes in the other order. -/
theorem failover_registry_no_duplicates_witness :
    (process_failover_command_on_coordinator sampleExt
        (process_failover_command_on_coordinator sampleExt coordinatorWorld
          (ipcFailoverCommand [68, 1, 2] 9)).2.2
        (ipcFailoverCommand [68, 2, 1] 10)).2.2.cluster.wdCurrentFailovers.Pairwise
      (fun a b => ¬ (a.reqKind = b.reqKind ∧ a.nodeList.Perm b.nodeList)) :=
  (failover_registry_no_duplicates sampleExt _
    (RegistryReachable.request _ (ipcFailoverCommand [68, 2, 1] 10)
      (RegistryReachable.request _ (ipcFailoverCommand [68, 1, 2] 9)
        (RegistryReachable.init coordinatorWorld rfl)))).1

/-! ## Replies to failover requests -/

/-- The reply to a command that came in on a valid IPC socket is one frame on that
socket. -/
theorem reply_to_failove_command_ipc (ext : WDExternals) (w : World) (cmd : WDCommandData)
    (cmdResult : WDFailoverCMDResults) (failoverID : Nat)
    (hsrc : cmd.commandSource = COMMAND_SOURCE_IPC) (hsock : cmd.sourceIPCSocket > 0) :
    (reply_to_failove_command ext w cmd cmdResult failoverID).2.trace
      = w.trace ++ [ipc_failover_reply ext cmd cmdResult failoverID (w.wr.headD true)] := by
  unfold reply_to_failove_command write_ipc_command_with_result_data ipc_failover_reply
  have hs : ¬ (cmd.sourceIPCSocket ≤ 0) := by omega
  simp [hsrc, hs]

/-- The reply to a command forwarded by a remote node is one packet to that node. -/
theorem reply_to_failove_command_remote (ext : WDExternals) (w : World) (cmd : WDCommandData)
    (cmdResult : WDFailoverCMDResults) (failoverID : Nat) (j : Nat) (n : WatchdogNode)
    (hsrc : cmd.commandSource = COMMAND_SOURCE_REMOTE)
    (hnode : cmd.sourceWdNode = some (NodeRef.remote j))
    (hj : w.cluster.remoteNodes[j]? = some n) :
    ∃ ok, (reply_to_failove_command ext w cmd cmdResult failoverID).2.trace
      = w.trace ++ [remote_failover_reply ext cmd j cmdResult failoverID ok] := by
  obtain ⟨ok, _, _, htr, _⟩ := send_message_to_node_remote w j
    { type := WD_CMD_REPLY_IN_DATA, command_id := cmd.sourcePacket.command_id,
      len := (failover_reply_data ext cmdResult failoverID).length,
      data := some (failover_reply_data ext cmdResult failoverID) } n hj
  refine ⟨ok, ?_⟩
  unfold reply_to_failove_command reply_with_message send_message remote_failover_reply
  simp only [hsrc, hnode, reduceCtorEq, if_false, if_true]
  split
  · exact htr
  · exact htr

/-- With the switching flag clear, `process_wd_command_function` answers a request of a
known kind from a remote node with ACCEPT and then calls the host. -/
theorem process_wd_command_function_accept (ext : WDExternals) (w : World) (j : Nat)
    (n : WatchdogNode) (pkt : WDPacketData) (func_name : List Byte) (node_id_list : List Int)
    (failover_id : Nat) (reqKind : POOL_REQUEST_KIND)
    (hj : w.cluster.remoteNodes[j]? = some n) (hsw : w.switching = false)
    (hk : failover_request_kind ext func_name = some reqKind) :
    ∃ ok, (process_wd_command_function ext w (some (NodeRef.remote j)) pkt func_name
        node_id_list failover_id).trace
      = w.trace ++ [Action.send (NodeRef.remote j) (minimal_reply WD_ACCEPT_MESSAGE pkt) ok,
          Action.failover_callback reqKind (callback_nodes reqKind node_id_list) failover_id] := by
  obtain ⟨⟨ok, htr⟩, _⟩ := reply_with_minimal_message_remote w j WD_ACCEPT_MESSAGE pkt n hj
  refine ⟨ok, ?_⟩
  unfold process_wd_command_function
  unfold failover_request_kind at hk
  simp only [hsw, Bool.false_eq_true, if_false]
  cases h1 : ext.is_failback_request func_name with
  | true =>
    simp only [h1, if_true, Option.some.injEq] at hk ⊢
    subst hk
    rw [htr, List.append_assoc]
    rfl
  | false =>
    simp only [h1, Bool.false_eq_true, if_false] at hk ⊢
    cases h2 : ext.is_degenerate_request func_name with
    | true =>
      simp only [h2, if_true, Option.some.injEq] at hk ⊢
      subst hk
      rw [htr, List.append_assoc]
      rfl
    | false =>
      simp only [h2, Bool.false_eq_true, if_false] at hk ⊢
      cases h3 : ext.is_promote_request func_name with
      | true =>
        simp only [h3, if_true, Option.some.injEq] at hk ⊢
        subst hk
        rw [htr, List.append_assoc]
        rfl
      | false =>
        simp only [h3, Bool.false_eq_true, if_false, reduceCtorEq] at hk

/-! ## The paths of `process_failover_command_on_coordinator` -/

/-- The only node in the cluster: PROCEED with failover id 0, nothing else. -/
theorem process_failover_command_lone (ext : WDExternals) (w : World) (cmd : WDCommandData)
    (func_name : List Byte) (node_id_list : List Int) (reqKind : POOL_REQUEST_KIND)
    (hcoord : w.cluster.localNode.state = WD_COORDINATOR)
    (hparse : ext.parse_wd_node_function_json cmd.sourcePacket.data cmd.sourcePacket.len
      = some (func_name, node_id_list))
    (hkind : failover_request_kind ext func_name = some reqKind)
    (hcount : get_cluster_node_count w.cluster = 0) :
    process_failover_command_on_coordinator ext w cmd
      = (IPC_CMD_COMPLETE, cmd,
          (reply_to_failove_command ext w cmd FAILOVER_RES_PROCEED 0).2) := by
  unfold process_failover_command_on_coordinator
  simp only [hcoord, ne_eq, not_true_eq_false, if_false, hparse, hkind, hcount, if_true]

/-- A request forwarded by a remote node while the host is switching: NOT_ALLOWED. -/
theorem process_failover_command_not_allowed (ext : WDExternals) (w : World)
    (cmd : WDCommandData) (func_name : List Byte) (node_id_list : List Int)
    (reqKind : POOL_REQUEST_KIND)
    (hcoord : w.cluster.localNode.state = WD_COORDINATOR)
    (hparse : ext.parse_wd_node_function_json cmd.sourcePacket.data cmd.sourcePacket.len
      = some (func_name, node_id_list))
    (hkind : failover_request_kind ext func_name = some reqKind)
    (hcount : get_cluster_node_count w.cluster ≠ 0)
    (hsrc : cmd.commandSource = COMMAND_SOURCE_REMOTE) (hsw : w.switching = true) :
    process_failover_command_on_coordinator ext w cmd
      = (IPC_CMD_COMPLETE, cmd,
          (reply_to_failove_command ext w cmd FAILOVER_RES_NOT_ALLOWED 0).2) := by
  unfold process_failover_command_on_coordinator
  simp only [hcoord, ne_eq, not_true_eq_false, if_false, hparse, hkind, hcount, hsrc, hsw,
    and_self, if_true]

/-- A request that matches a registered object: ALREADY_ISSUED with failover id 0. -/
theorem process_failover_command_already_issued (ext : WDExternals) (w : World)
    (cmd : WDCommandData) (func_name : List Byte) (node_id_list : List Int)
    (reqKind : POOL_REQUEST_KIND) (o : WDFailoverObject)
    (hcoord : w.cluster.localNode.state = WD_COORDINATOR)
    (hparse : ext.parse_wd_node_function_json cmd.sourcePacket.data cmd.sourcePacket.len
      = some (func_name, node_id_list))
    (hkind : failover_request_kind ext func_name = some reqKind)
    (hcount : get_cluster_node_count w.cluster ≠ 0)
    (hsw : ¬ (cmd.commandSource = COMMAND_SOURCE_REMOTE ∧ w.switching = true))
    (hfound : get_failover_object w.cluster.wdCurrentFailovers reqKind node_id_list = some o) :
    process_failover_command_on_coordinator ext w cmd
      = (IPC_CMD_COMPLETE, cmd,
          (reply_to_failove_command ext w cmd FAILOVER_RES_ALREADY_ISSUED 0).2) := by
  unfold process_failover_command_on_coordinator
  simp only [hcoord, ne_eq, not_true_eq_false, if_false, hparse, hkind, hcount, hsw, hfound]

/-- Sending to one remote node leaves the records of the other remote nodes alone. -/
theorem send_message_to_node_other (w : World) (i j : Nat) (pkt : WDPacketData) (h : j ≠ i) :
    (send_message_to_node w (NodeRef.remote i) pkt).2.cluster.remoteNodes[j]?
      = w.cluster.remoteNodes[j]? := by
  unfold send_message_to_node
  cases hg : get_node w.cluster (NodeRef.remote i) with
  | none => rfl
  | some n =>
    show (w.cluster.remoteNodes.set i _)[j]? = _
    rw [List.getElem?_set_ne (Ne.symm h)]

/-- One round of the broadcast loop for a slot that points to the remote node of its own
index: the packet is sent once to that node if it is a target, nothing is sent
otherwise, and the records of the other remote nodes are left alone. -/
theorem send_command_packet_step_targets (acc : WDCommandData × World) (i : Nat)
    (hslot : acc.1.resultNodes[i]? = some (NodeRef.remote i))
    (hto : acc.1.sendToNode = none) :
    (∀ j, j ≠ i → (send_command_packet_step false acc i).2.cluster.remoteNodes[j]?
      = acc.2.cluster.remoteNodes[j]?) ∧
    ∃ B, (send_command_packet_step false acc i).2.trace = acc.2.trace ++ B ∧
      (∀ a ∈ B, ∃ ref ok, a = Action.send ref acc.1.commandPacket ok) ∧
      B.filterMap Action.target
        = if broadcast_target acc.2.cluster acc.1 i = true then [NodeRef.remote i] else [] := by
  obtain ⟨nr, hnr, hw⟩ : ∃ nr, (acc.1.nodeResults.getD [])[i]? = some nr ∧
      nr.wdNode = NodeRef.remote i := by
    unfold WDCommandData.resultNodes at hslot
    rw [List.getElem?_map] at hslot
    cases hx : (acc.1.nodeResults.getD [])[i]? with
    | none => rw [hx] at hslot; cases hslot
    | some nr =>
      rw [hx] at hslot
      exact ⟨nr, rfl, Option.some.inj hslot⟩
  unfold send_command_packet_step
  simp only [hnr, hw]
  cases hg : acc.2.cluster.remoteNodes[i]? with
  | none =>
    have hg2 : get_node acc.2.cluster (NodeRef.remote i) = none := hg
    simp only [hg2]
    exact ⟨by simp, [], by simp, by simp, by simp [broadcast_target, hg]⟩
  | some wdNode =>
    have hg2 : get_node acc.2.cluster (NodeRef.remote i) = some wdNode := hg
    simp only [hg2]
    have h1 : ¬ (acc.1.sendToNode ≠ none ∧ acc.1.sendToNode ≠ some (NodeRef.remote i)) := by
      rintro ⟨a, _⟩
      exact a hto
    rw [if_neg h1]
    by_cases h2 : acc.1.sourceWdNode = some (NodeRef.remote i) ∧
        acc.1.commandSource = COMMAND_SOURCE_REMOTE
    · have h2c : (True ∧ acc.1.sourceWdNode = some (NodeRef.remote i) ∧
          acc.1.commandSource = COMMAND_SOURCE_REMOTE) := ⟨trivial, h2⟩
      rw [if_pos h2c]
      exact ⟨fun _ _ => rfl, [], by simp, by simp, by simp [broadcast_target, hg, h2]⟩
    · have h2c : ¬ (True ∧ acc.1.sourceWdNode = some (NodeRef.remote i) ∧
          acc.1.commandSource = COMMAND_SOURCE_REMOTE) := fun h => h2 h.2
      rw [if_neg h2c]
      by_cases h3 : is_node_active wdNode = false
      · rw [if_pos h3]
        exact ⟨fun _ _ => rfl, [], by simp, by simp, by simp [broadcast_target, hg, h3]⟩
      · rw [if_neg h3]
        by_cases h4 : is_node_reachable wdNode = false
        · rw [if_pos h4]
          exact ⟨fun _ _ => rfl, [], by simp, by simp, by simp [broadcast_target, hg, h4]⟩
        · rw [if_neg h4]
          have htr : (send_message_to_node acc.2 (NodeRef.remote i) acc.1.commandPacket).2.trace
              = acc.2.trace ++ [Action.send (NodeRef.remote i) acc.1.commandPacket
                  (send_message_to_node acc.2 (NodeRef.remote i) acc.1.commandPacket).1] := by
            unfold send_message_to_node
            rw [hg2]
          have hbt : broadcast_target acc.2.cluster acc.1 i = true := by
            have h3t : is_node_active wdNode = true := by
              cases hb : is_node_active wdNode with
              | true => rfl
              | false => exact absurd hb h3
            have h4t : is_node_reachable wdNode = true := by
              cases hb : is_node_reachable wdNode with
              | true => rfl
              | false => exact absurd hb h4
            simp [broadcast_target, hg, h2, h3t, h4t]
          rw [hbt]
          have hfin : ∀ (x y : WDCommandData) (c : Prop) [Decidable c] (wf : World),
              (if c then (x, wf) else (y, wf)).2 = wf := by
            intro x y c _ wf
            split <;> rfl
          rw [hfin]
          refine ⟨fun j hj => send_message_to_node_other _ _ _ _ hj, _, htr, ?_, ?_⟩
          · intro a ha
            rw [List.mem_singleton] at ha
            exact ⟨_, _, ha⟩
          · simp [Action.target]

/-- Whether a node is a target depends on the record of the node and on the source of the
command only. -/
theorem broadcast_target_congr (c c0 : wd_cluster) (cmd cmd0 : WDCommandData) (i : Nat)
    (hn : c.remoteNodes[i]? = c0.remoteNodes[i]?) (hs : cmd.sourceWdNode = cmd0.sourceWdNode)
    (hc : cmd.commandSource = cmd0.commandSource) :
    broadcast_target c cmd i = broadcast_target c0 cmd0 i := by
  unfold broadcast_target
  rw [hn, hs, hc]

/-- The broadcast loop over distinct indices whose slots point to the remote nodes of
their index: the packet goes exactly once to each target, in the order of the loop, and
nothing else is sent. -/
theorem send_command_packet_loop_targets (c0 : wd_cluster) (cmd0 : WDCommandData)
    (l : List Nat) (hnd : l.Nodup) (acc : WDCommandData × World)
    (hslot : ∀ i ∈ l, acc.1.resultNodes[i]? = some (NodeRef.remote i))
    (hto : acc.1.sendToNode = none)
    (hs : acc.1.sourceWdNode = cmd0.sourceWdNode)
    (hc : acc.1.commandSource = cmd0.commandSource)
    (hnode : ∀ i ∈ l, acc.2.cluster.remoteNodes[i]? = c0.remoteNodes[i]?) :
    ∃ B, (l.foldl (send_command_packet_step false) acc).2.trace = acc.2.trace ++ B ∧
      (∀ a ∈ B, ∃ ref ok, a = Action.send ref acc.1.commandPacket ok) ∧
      B.filterMap Action.target
        = (l.filter (broadcast_target c0 cmd0)).map NodeRef.remote := by
  induction l generalizing acc with
  | nil => exact ⟨[], by simp, by simp, by simp⟩
  | cons i l ih =>
    rw [List.foldl_cons]
    rw [List.nodup_cons] at hnd
    obtain ⟨hc1, _, _⟩ := send_command_packet_step_spec false acc i
    obtain ⟨hother, B1, htB1, haB1, htg1⟩ :=
      send_command_packet_step_targets acc i (hslot i (List.mem_cons_self _ _)) hto
    obtain ⟨B2, htB2, haB2, htg2⟩ := ih hnd.2 (send_command_packet_step false acc i)
      (by
        intro j hj
        rw [hc1.2.2.2.2.2.2]
        exact hslot j (List.mem_cons_of_mem _ hj))
      (hc1.2.2.2.2.2.1.trans hto)
      (hc1.2.2.2.2.1.trans hs)
      (hc1.2.2.1.trans hc)
      (by
        intro j hj
        have hji : j ≠ i := by
          intro e
          rw [e] at hj
          exact hnd.1 hj
        rw [hother j hji]
        exact hnode j (List.mem_cons_of_mem _ hj))
    rw [hc1.2.1] at haB2
    rw [broadcast_target_congr acc.2.cluster c0 acc.1 cmd0 i
      (hnode i (List.mem_cons_self _ _)) hs hc] at htg1
    refine ⟨B1 ++ B2, by rw [htB2, htB1, List.append_assoc], ?_, ?_⟩
    · intro a ha
      rcases List.mem_append.mp ha with h | h
      · exact haB1 a h
      · exact haB2 a h
    · rw [List.filterMap_append, htg1, htg2]
      by_cases hb : broadcast_target c0 cmd0 i = true
      · rw [if_pos hb, List.filter_cons_of_pos hb]
        rfl
      · rw [if_neg hb, List.filter_cons_of_neg hb]
        rfl

/-- The broadcast of a fresh command without addressee: the command packet is sent
exactly once to every remote node that is a target, in the order of the node table, and
nothing else is sent. -/
theorem send_command_packet_to_remote_nodes_targets (w : World) (cmd : WDCommandData)
    (hfresh : cmd.nodeResults = none) (hto : cmd.sendToNode = none) :
    ∃ B, (send_command_packet_to_remote_nodes w cmd false).2.2.trace = w.trace ++ B ∧
      (∀ a ∈ B, ∃ ref ok, a = Action.send ref cmd.commandPacket ok) ∧
      B.filterMap Action.target
        = ((List.range w.cluster.remoteNodes.length).filter
            (broadcast_target w.cluster cmd)).map NodeRef.remote := by
  unfold send_command_packet_to_remote_nodes
  dsimp only
  have halloc : allocate_resultNodes_in_command w.cluster
      { cmd with commandSendToCount := 0, commandReplyFromCount := 0,
                 commandSendToErrorCount := 0 }
      = { cmd with commandSendToCount := 0, commandReplyFromCount := 0,
                   commandSendToErrorCount := 0,
                   nodeResults := some ((List.range w.cluster.remoteNodes.length).map fun i =>
                     { wdNode := NodeRef.remote i, cmdState := COMMAMD_STATE_INIT,
                       result_type := WD_NO_MESSAGE }) } := by
    unfold allocate_resultNodes_in_command
    simp only [hfresh]
  rw [halloc]
  exact send_command_packet_loop_targets w.cluster cmd
    (List.range w.cluster.remoteNodes.length) (List.nodup_range _)
    ({ cmd with commandSendToCount := 0, commandReplyFromCount := 0,
                commandSendToErrorCount := 0,
                nodeResults := some ((List.range w.cluster.remoteNodes.length).map fun i =>
                  { wdNode := NodeRef.remote i, cmdState := COMMAMD_STATE_INIT,
                    result_type := WD_NO_MESSAGE }) }, w)
    (by
      intro i hi
      have hlt : i < w.cluster.remoteNodes.length := List.mem_range.mp hi
      simp [WDCommandData.resultNodes, List.getElem?_map, List.getElem?_range hlt])
    hto rfl rfl (fun _ _ => rfl)

/-- A new request on a coordinator with active peers is admitted: an object whose
failover id is the command id of the broadcast packet is appended to the registry, the
packet is sent at most once to each node, and then the originator is answered: PROCEED
with that failover id for a local IPC client, ACCEPT for a forwarding remote node. -/
theorem process_failover_command_admit (ext : WDExternals) (w : World) (cmd : WDCommandData)
    (func_name : List Byte) (node_id_list : List Int) (reqKind : POOL_REQUEST_KIND)
    (hcoord : w.cluster.localNode.state = WD_COORDINATOR)
    (hparse : ext.parse_wd_node_function_json cmd.sourcePacket.data cmd.sourcePacket.len
      = some (func_name, node_id_list))
    (hkind : failover_request_kind ext func_name = some reqKind)
    (hcount : get_cluster_node_count w.cluster ≠ 0)
    (hsw : ¬ (cmd.commandSource = COMMAND_SOURCE_REMOTE ∧ w.switching = true))
    (hnew : get_failover_object w.cluster.wdCurrentFailovers reqKind node_id_list = none)
    (hfresh : cmd.nodeResults = none) :
    (process_failover_command_on_coordinator ext w cmd).2.1.commandPacket
      = failover_request_packet w.cluster cmd ∧
    (process_failover_command_on_coordinator ext w cmd).2.2.cluster.wdCurrentFailovers
      = w.cluster.wdCurrentFailovers ++
          [{ reqKind := reqKind, failoverID := toUInt32 (assigned_command_id w.cluster),
             nodeList := node_id_list, wdRequestingNode := NodeRef.localNode }] ∧
    ∃ B, (∀ a ∈ B, ∃ ref ok, a = Action.send ref (failover_request_packet w.cluster cmd) ok) ∧
      (B.filterMap Action.target).Nodup ∧
      (cmd.commandSource = COMMAND_SOURCE_IPC →
        (process_failover_command_on_coordinator ext w cmd).1 = IPC_CMD_COMPLETE ∧
        (cmd.sourceIPCSocket > 0 → ∃ ok,
          (process_failover_command_on_coordinator ext w cmd).2.2.trace
            = w.trace ++ B ++ [ipc_failover_reply ext cmd FAILOVER_RES_PROCEED
                (toUInt32 (assigned_command_id w.cluster)) ok])) ∧
      (cmd.commandSource = COMMAND_SOURCE_REMOTE → ∀ j n,
        cmd.sourceWdNode = some (NodeRef.remote j) → w.cluster.remoteNodes[j]? = some n →
        ∃ ok, (process_failover_command_on_coordinator ext w cmd).2.2.trace
          = w.trace ++ B ++
            [Action.send (NodeRef.remote j) (minimal_reply WD_ACCEPT_MESSAGE cmd.sourcePacket) ok,
             Action.failover_callback reqKind (callback_nodes reqKind node_id_list)
               (toUInt32 (assigned_command_id w.cluster))]) := by
  have hred : process_failover_command_on_coordinator ext w cmd =
      if cmd.commandSource = COMMAND_SOURCE_IPC then
        (IPC_CMD_COMPLETE,
          (send_command_packet_to_remote_nodes (admitted_world w reqKind node_id_list)
            (admitted_command w cmd) false).2.1,
          (reply_to_failove_command ext
            (send_command_packet_to_remote_nodes (admitted_world w reqKind node_id_list)
              (admitted_command w cmd) false).2.2
            (send_command_packet_to_remote_nodes (admitted_world w reqKind node_id_list)
              (admitted_command w cmd) false).2.1
            FAILOVER_RES_PROCEED (toUInt32 (assigned_command_id w.cluster))).2)
      else
        if get_cluster_node_count
            (process_wd_command_function ext
              (send_command_packet_to_remote_nodes (admitted_world w reqKind node_id_list)
                (admitted_command w cmd) false).2.2
              (send_command_packet_to_remote_nodes (admitted_world w reqKind node_id_list)
                (admitted_command w cmd) false).2.1.sourceWdNode
              (send_command_packet_to_remote_nodes (admitted_world w reqKind node_id_list)
                (admitted_command w cmd) false).2.1.sourcePacket
              func_name node_id_list (toUInt32 (assigned_command_id w.cluster))).cluster = 1 then
          (IPC_CMD_COMPLETE,
            (send_command_packet_to_remote_nodes (admitted_world w reqKind node_id_list)
              (admitted_command w cmd) false).2.1,
            process_wd_command_function ext
              (send_command_packet_to_remote_nodes (admitted_world w reqKind node_id_list)
                (admitted_command w cmd) false).2.2
              (send_command_packet_to_remote_nodes (admitted_world w reqKind node_id_list)
                (admitted_command w cmd) false).2.1.sourceWdNode
              (send_command_packet_to_remote_nodes (admitted_world w reqKind node_id_list)
                (admitted_command w cmd) false).2.1.sourcePacket
              func_name node_id_list (toUInt32 (assigned_command_id w.cluster)))
        else
          (IPC_CMD_PROCESSING,
            (send_command_packet_to_remote_nodes (admitted_world w reqKind node_id_list)
              (admitted_command w cmd) false).2.1,
            process_wd_command_function ext
              (send_command_packet_to_remote_nodes (admitted_world w reqKind node_id_list)
                (admitted_command w cmd) false).2.2
              (send_command_packet_to_remote_nodes (admitted_world w reqKind node_id_list)
                (admitted_command w cmd) false).2.1.sourceWdNode
              (send_command_packet_to_remote_nodes (admitted_world w reqKind node_id_list)
                (admitted_command w cmd) false).2.1.sourcePacket
              func_name node_id_list (toUInt32 (assigned_command_id w.cluster))) := by
    unfold process_failover_command_on_coordinator
    simp only [hcoord, ne_eq, not_true_eq_false, if_false, hparse, hkind, hcount, hsw, hnew]
    rfl
  obtain ⟨s1, s2, s3, s4, s5, sframe, B, htB, haB, hnodup⟩ :=
    send_command_packet_to_remote_nodes_spec (admitted_world w reqKind node_id_list)
      (admitted_command w cmd) false hfresh
  have hreg : (send_command_packet_to_remote_nodes (admitted_world w reqKind node_id_list)
      (admitted_command w cmd) false).2.2.cluster.wdCurrentFailovers
      = w.cluster.wdCurrentFailovers ++
          [{ reqKind := reqKind, failoverID := toUInt32 (assigned_command_id w.cluster),
             nodeList := node_id_list, wdRequestingNode := NodeRef.localNode }] := sframe.1
  rw [hred]
  by_cases hipc : cmd.commandSource = COMMAND_SOURCE_IPC
  · rw [if_pos hipc]
    refine ⟨s2, ?_, B, haB, hnodup, fun _ => ⟨rfl, ?_⟩, ?_⟩
    · exact (reply_to_failove_command_frame _ _ _ _ _).1.trans hreg
    · intro hsock
      have h := reply_to_failove_command_ipc ext
        (send_command_packet_to_remote_nodes (admitted_world w reqKind node_id_list)
          (admitted_command w cmd) false).2.2
        (send_command_packet_to_remote_nodes (admitted_world w reqKind node_id_list)
          (admitted_command w cmd) false).2.1
        FAILOVER_RES_PROCEED (toUInt32 (assigned_command_id w.cluster))
        (s3.trans hipc) (by rw [s4]; exact hsock)
      refine ⟨(send_command_packet_to_remote_nodes (admitted_world w reqKind node_id_list)
        (admitted_command w cmd) false).2.2.wr.headD true, ?_⟩
      rw [htB] at h
      unfold ipc_failover_reply at h ⊢
      rw [s4] at h
      exact h
    · intro hrem
      rw [hipc] at hrem
      cases hrem
  · rw [if_neg hipc]
    have hfin : ∀ (x y : IPC_CMD_PREOCESS_RES) (c : Prop) [Decidable c] (cm : WDCommandData)
        (wf : World), (if c then (x, cm, wf) else (y, cm, wf)).2 = (cm, wf) := by
      intro x y c _ cm wf
      split <;> rfl
    rw [hfin]
    dsimp only
    refine ⟨s2, ?_, B, haB, hnodup, fun h => absurd h hipc, ?_⟩
    · exact (process_wd_command_function_frame _ _ _ _ _ _ _).1.trans hreg
    · intro hrem j n hnode hj
      have hsw0 : w.switching = false := by
        cases hb : w.switching with
        | false => rfl
        | true => exact absurd ⟨hrem, hb⟩ hsw
      have hlen : (send_command_packet_to_remote_nodes (admitted_world w reqKind node_id_list)
          (admitted_command w cmd) false).2.2.cluster.remoteNodes.length
          = w.cluster.remoteNodes.length := by
        have := congrArg List.length sframe.2.2.2.2.2.1
        simpa [admitted_world, get_next_commandID] using this
      have hjlt : j < w.cluster.remoteNodes.length := by
        by_contra hcon
        rw [List.getElem?_eq_none (by omega)] at hj
        cases hj
      obtain ⟨n1, hn1⟩ : ∃ n1, (send_command_packet_to_remote_nodes
          (admitted_world w reqKind node_id_list)
          (admitted_command w cmd) false).2.2.cluster.remoteNodes[j]? = some n1 :=
        ⟨_, List.getElem?_eq_getElem (by omega)⟩
      obtain ⟨ok, h⟩ := process_wd_command_function_accept ext
        (send_command_packet_to_remote_nodes (admitted_world w reqKind node_id_list)
          (admitted_command w cmd) false).2.2 j n1
        cmd.sourcePacket func_name node_id_list (toUInt32 (assigned_command_id w.cluster))
        reqKind hn1 (sframe.2.2.2.2.2.2.1.trans hsw0) hkind
      have s5c : (send_command_packet_to_remote_nodes (admitted_world w reqKind node_id_list)
          (admitted_command w cmd) false).2.1.sourceWdNode = cmd.sourceWdNode := s5
      have s1c : (send_command_packet_to_remote_nodes (admitted_world w reqKind node_id_list)
          (admitted_command w cmd) false).2.1.sourcePacket = cmd.sourcePacket := s1
      refine ⟨ok, ?_⟩
      rw [s5c, s1c, hnode, h, htB]
      rfl

/-- The admission of a failover request, with the exact targets of the broadcast: the
result of `process_failover_command_admit` with the list of the nodes the
REMOTE_FAILOVER_REQUEST packet is sent to. -/
theorem process_failover_command_admit_targets (ext : WDExternals) (w : World) (cmd : WDCommandData)
    (func_name : List Byte) (node_id_list : List Int) (reqKind : POOL_REQUEST_KIND)
    (hcoord : w.cluster.localNode.state = WD_COORDINATOR)
    (hparse : ext.parse_wd_node_function_json cmd.sourcePacket.data cmd.sourcePacket.len
      = some (func_name, node_id_list))
    (hkind : failover_request_kind ext func_name = some reqKind)
    (hcount : get_cluster_node_count w.cluster ≠ 0)
    (hsw : ¬ (cmd.commandSource = COMMAND_SOURCE_REMOTE ∧ w.switching = true))
    (hnew : get_failover_object w.cluster.wdCurrentFailovers reqKind node_id_list = none)
    (hfresh : cmd.nodeResults = none) :
    (process_failover_command_on_coordinator ext w cmd).2.1.commandPacket
      = failover_request_packet w.cluster cmd ∧
    (process_failover_command_on_coordinator ext w cmd).2.2.cluster.wdCurrentFailovers
      = w.cluster.wdCurrentFailovers ++
          [{ reqKind := reqKind, failoverID := toUInt32 (assigned_command_id w.cluster),
             nodeList := node_id_list, wdRequestingNode := NodeRef.localNode }] ∧
    ∃ B, (∀ a ∈ B, ∃ ref ok, a = Action.send ref (failover_request_packet w.cluster cmd) ok) ∧
      B.filterMap Action.target
        = ((List.range w.cluster.remoteNodes.length).filter
            (broadcast_target w.cluster cmd)).map NodeRef.remote ∧
      (cmd.commandSource = COMMAND_SOURCE_IPC →
        (process_failover_command_on_coordinator ext w cmd).1 = IPC_CMD_COMPLETE ∧
        (cmd.sourceIPCSocket > 0 → ∃ ok,
          (process_failover_command_on_coordinator ext w cmd).2.2.trace
            = w.trace ++ B ++ [ipc_failover_reply ext cmd FAILOVER_RES_PROCEED
                (toUInt32 (assigned_command_id w.cluster)) ok])) ∧
      (cmd.commandSource = COMMAND_SOURCE_REMOTE → ∀ j n,
        cmd.sourceWdNode = some (NodeRef.remote j) → w.cluster.remoteNodes[j]? = some n →
        ∃ ok, (process_failover_command_on_coordinator ext w cmd).2.2.trace
          = w.trace ++ B ++
            [Action.send (NodeRef.remote j) (minimal_reply WD_ACCEPT_MESSAGE cmd.sourcePacket) ok,
             Action.failover_callback reqKind (callback_nodes reqKind node_id_list)
               (toUInt32 (assigned_command_id w.cluster))]) := by
  have hred : process_failover_command_on_coordinator ext w cmd =
      if cmd.commandSource = COMMAND_SOURCE_IPC then
        (IPC_CMD_COMPLETE,
          (send_command_packet_to_remote_nodes (admitted_world w reqKind node_id_list)
            (admitted_command w cmd) false).2.1,
          (reply_to_failove_command ext
            (send_command_packet_to_remote_nodes (admitted_world w reqKind node_id_list)
              (admitted_command w cmd) false).2.2
            (send_command_packet_to_remote_nodes (admitted_world w reqKind node_id_list)
              (admitted_command w cmd) false).2.1
            FAILOVER_RES_PROCEED (toUInt32 (assigned_command_id w.cluster))).2)
      else
        if get_cluster_node_count
            (process_wd_command_function ext
              (send_command_packet_to_remote_nodes (admitted_world w reqKind node_id_list)
                (admitted_command w cmd) false).2.2
              (send_command_packet_to_remote_nodes (admitted_world w reqKind node_id_list)
                (admitted_command w cmd) false).2.1.sourceWdNode
              (send_command_packet_to_remote_nodes (admitted_world w reqKind node_id_list)
                (admitted_command w cmd) false).2.1.sourcePacket
              func_name node_id_list (toUInt32 (assigned_command_id w.cluster))).cluster = 1 then
          (IPC_CMD_COMPLETE,
            (send_command_packet_to_remote_nodes (admitted_world w reqKind node_id_list)
              (admitted_command w cmd) false).2.1,
            process_wd_command_function ext
              (send_command_packet_to_remote_nodes (admitted_world w reqKind node_id_list)
                (admitted_command w cmd) false).2.2
              (send_command_packet_to_remote_nodes (admitted_world w reqKind node_id_list)
                (admitted_command w cmd) false).2.1.sourceWdNode
              (send_command_packet_to_remote_nodes (admitted_world w reqKind node_id_list)
                (admitted_command w cmd) false).2.1.sourcePacket
              func_name node_id_list (toUInt32 (assigned_command_id w.cluster)))
        else
          (IPC_CMD_PROCESSING,
            (send_command_packet_to_remote_nodes (admitted_world w reqKind node_id_list)
              (admitted_command w cmd) false).2.1,
            process_wd_command_function ext
              (send_command_packet_to_remote_nodes (admitted_world w reqKind node_id_list)
                (admitted_command w cmd) false).2.2
              (send_command_packet_to_remote_nodes (admitted_world w reqKind node_id_list)
                (admitted_command w cmd) false).2.1.sourceWdNode
              (send_command_packet_to_remote_nodes (admitted_world w reqKind node_id_list)
                (admitted_command w cmd) false).2.1.sourcePacket
              func_name node_id_list (toUInt32 (assigned_command_id w.cluster))) := by
    unfold process_failover_command_on_coordinator
    simp only [hcoord, ne_eq, not_true_eq_false, if_false, hparse, hkind, hcount, hsw, hnew]
    rfl
  obtain ⟨s1, s2, s3, s4, s5, sframe, _⟩ :=
    send_command_packet_to_remote_nodes_spec (admitted_world w reqKind node_id_list)
      (admitted_command w cmd) false hfresh
  obtain ⟨B, htB, haB, htg⟩ :=
    send_command_packet_to_remote_nodes_targets (admitted_world w reqKind node_id_list)
      (admitted_command w cmd) hfresh rfl
  have hnodup : B.filterMap Action.target
      = ((List.range w.cluster.remoteNodes.length).filter
          (broadcast_target w.cluster cmd)).map NodeRef.remote := htg
  have hreg : (send_command_packet_to_remote_nodes (admitted_world w reqKind node_id_list)
      (admitted_command w cmd) false).2.2.cluster.wdCurrentFailovers
      = w.cluster.wdCurrentFailovers ++
          [{ reqKind := reqKind, failoverID := toUInt32 (assigned_command_id w.cluster),
             nodeList := node_id_list, wdRequestingNode := NodeRef.localNode }] := sframe.1
  rw [hred]
  by_cases hipc : cmd.commandSource = COMMAND_SOURCE_IPC
  · rw [if_pos hipc]
    refine ⟨s2, ?_, B, haB, hnodup, fun _ => ⟨rfl, ?_⟩, ?_⟩
    · exact (reply_to_failove_command_frame _ _ _ _ _).1.trans hreg
    · intro hsock
      have h := reply_to_failove_command_ipc ext
        (send_command_packet_to_remote_nodes (admitted_world w reqKind node_id_list)
          (admitted_command w cmd) false).2.2
        (send_command_packet_to_remote_nodes (admitted_world w reqKind node_id_list)
          (admitted_command w cmd) false).2.1
        FAILOVER_RES_PROCEED (toUInt32 (assigned_command_id w.cluster))
        (s3.trans hipc) (by rw [s4]; exact hsock)
      refine ⟨(send_command_packet_to_remote_nodes (admitted_world w reqKind node_id_list)
        (admitted_command w cmd) false).2.2.wr.headD true, ?_⟩
      rw [htB] at h
      unfold ipc_failover_reply at h ⊢
      rw [s4] at h
      exact h
    · intro hrem
      rw [hipc] at hrem
      cases hrem
  · rw [if_neg hipc]
    have hfin : ∀ (x y : IPC_CMD_PREOCESS_RES) (c : Prop) [Decidable c] (cm : WDCommandData)
        (wf : World), (if c then (x, cm, wf) else (y, cm, wf)).2 = (cm, wf) := by
      intro x y c _ cm wf
      split <;> rfl
    rw [hfin]
    dsimp only
    refine ⟨s2, ?_, B, haB, hnodup, fun h => absurd h hipc, ?_⟩
    · exact (process_wd_command_function_frame _ _ _ _ _ _ _).1.trans hreg
    · intro hrem j n hnode hj
      have hsw0 : w.switching = false := by
        cases hb : w.switching with
        | false => rfl
        | true => exact absurd ⟨hrem, hb⟩ hsw
      have hlen : (send_command_packet_to_remote_nodes (admitted_world w reqKind node_id_list)
          (admitted_command w cmd) false).2.2.cluster.remoteNodes.length
          = w.cluster.remoteNodes.length := by
        have := congrArg List.length sframe.2.2.2.2.2.1
        simpa [admitted_world, get_next_commandID] using this
      have hjlt : j < w.cluster.remoteNodes.length := by
        by_contra hcon
        rw [List.getElem?_eq_none (by omega)] at hj
        cases hj
      obtain ⟨n1, hn1⟩ : ∃ n1, (send_command_packet_to_remote_nodes
          (admitted_world w reqKind node_id_list)
          (admitted_command w cmd) false).2.2.cluster.remoteNodes[j]? = some n1 :=
        ⟨_, List.getElem?_eq_getElem (by omega)⟩
      obtain ⟨ok, h⟩ := process_wd_command_function_accept ext
        (send_command_packet_to_remote_nodes (admitted_world w reqKind node_id_list)
          (admitted_command w cmd) false).2.2 j n1
        cmd.sourcePacket func_name node_id_list (toUInt32 (assigned_command_id w.cluster))
        reqKind hn1 (sframe.2.2.2.2.2.2.1.trans hsw0) hkind
      have s5c : (send_command_packet_to_remote_nodes (admitted_world w reqKind node_id_list)
          (admitted_command w cmd) false).2.1.sourceWdNode = cmd.sourceWdNode := s5
      have s1c : (send_command_packet_to_remote_nodes (admitted_world w reqKind node_id_list)
          (admitted_command w cmd) false).2.1.sourcePacket = cmd.sourcePacket := s1
      refine ⟨ok, ?_⟩
      rw [s5c, s1c, hnode, h, htB]
      rfl

/-! ## Duplicate requests -/

/-- Counterexample to C7 as worded.  (1) On `loneCoordinatorWorld`, a coordinator without
an active peer, the degenerate request for node 1 is answered PROCEED (failover id 0)
both times, nothing is registered and nothing is sent to any peer.  (2) On
`coordinatorWorld` the same request forwarded by remote node 0 is not answered PROCEED:
REMOTE_FAILOVER_REQUEST goes to remote node 1 only, the forwarding node gets an ACCEPT
packet and the host is called.  (3) With the switching flag set the forwarded request is
answered NOT_ALLOWED and nothing is registered.  (4) On `unreachablePeerWorld`, whose
one peer is active but not reachable, the request of a local client is answered PROCEED
and REMOTE_FAILOVER_REQUEST is sent to nobody.  (5) Once the request is registered,
processing it twice more gives ALREADY_ISSUED both times. -/
theorem duplicate_request_counterexample :
    loneCoordinatorWorld.cluster.localNode.state = WD_COORDINATOR ∧
    (process_failover_command_on_coordinator sampleExt loneCoordinatorWorld
        (ipcFailoverCommand [68, 1] 9)).2.2.trace
      = [ipc_failover_reply sampleExt (ipcFailoverCommand [68, 1] 9) FAILOVER_RES_PROCEED 0 true] ∧
    (process_failover_command_on_coordinator sampleExt
        (process_failover_command_on_coordinator sampleExt loneCoordinatorWorld
          (ipcFailoverCommand [68, 1] 9)).2.2
        (ipcFailoverCommand [68, 1] 10)).2.2.trace
      = [ipc_failover_reply sampleExt (ipcFailoverCommand [68, 1] 9) FAILOVER_RES_PROCEED 0 true,
         ipc_failover_reply sampleExt (ipcFailoverCommand [68, 1] 10) FAILOVER_RES_PROCEED 0 true] ∧
    (process_failover_command_on_coordinator sampleExt
        (process_failover_command_on_coordinator sampleExt loneCoordinatorWorld
          (ipcFailoverCommand [68, 1] 9)).2.2
        (ipcFailoverCommand [68, 1] 10)).2.2.cluster.wdCurrentFailovers = [] ∧
    coordinatorWorld.cluster.localNode.state = WD_COORDINATOR ∧
    (process_failover_command_on_coordinator sampleExt coordinatorWorld
        (remoteFailoverCommand [68, 1] 7 0)).2.2.trace
      = [Action.send (NodeRef.remote 1)
           (failover_request_packet coordinatorWorld.cluster (remoteFailoverCommand [68, 1] 7 0))
           true,
         Action.send (NodeRef.remote 0)
           (minimal_reply WD_ACCEPT_MESSAGE (remoteFailoverCommand [68, 1] 7 0).sourcePacket) true,
         Action.failover_callback NODE_DOWN_REQUEST [1] 2] ∧
    (process_failover_command_on_coordinator sampleExt { coordinatorWorld with switching := true }
        (remoteFailoverCommand [68, 1] 7 0)).2.2.trace
      = [remote_failover_reply sampleExt (remoteFailoverCommand [68, 1] 7 0) 0
           FAILOVER_RES_NOT_ALLOWED 0 true] ∧
    (process_failover_command_on_coordinator sampleExt { coordinatorWorld with switching := true }
        (remoteFailoverCommand [68, 1] 7 0)).2.2.cluster.wdCurrentFailovers = [] ∧
    unreachablePeerWorld.cluster.localNode.state = WD_COORDINATOR ∧
    get_cluster_node_count unreachablePeerWorld.cluster = 1 ∧
    (process_failover_command_on_coordinator sampleExt unreachablePeerWorld
        (ipcFailoverCommand [68, 1] 9)).2.2.trace
      = [ipc_failover_reply sampleExt (ipcFailoverCommand [68, 1] 9) FAILOVER_RES_PROCEED 2 true] ∧
    (process_failover_command_on_coordinator sampleExt
        (process_failover_command_on_coordinator sampleExt
          (process_failover_command_on_coordinator sampleExt coordinatorWorld
            (ipcFailoverCommand [68, 1] 9)).2.2
          (ipcFailoverCommand [68, 1] 10)).2.2
        (ipcFailoverCommand [68, 1] 11)).2.2.trace.drop 3
      = [ipc_failover_reply sampleExt (ipcFailoverCommand [68, 1] 10)
           FAILOVER_RES_ALREADY_ISSUED 0 true,
         ipc_failover_reply sampleExt (ipcFailoverCommand [68, 1] 11)
           FAILOVER_RES_ALREADY_ISSUED 0 true] := by
  decide

/-- C7 amended. On a coordinator with at least one active remote peer, a valid failover
request that matches no registered object, in a fresh command record (no result slots
yet, as the IPC reader and the packet processor build it), is admitted:
REMOTE_FAILOVER_REQUEST is sent exactly once to every remote node that is active,
reachable and not the node that forwarded the request (`broadcast_target`), in the order
of the node table, and to no other node, and then the originator is answered, a local IPC
client with PROCEED, a forwarding remote node (switching flag clear) with ACCEPT.  When
the same request (same
kind, same nodes in any order) is processed again while the object registered for the
first is still in the registry (no end verb has removed it), again with an active peer,
the only thing sent is the reply ALREADY_ISSUED to its originator, and the registry stays
as it is. -/
theorem duplicate_failover_request (ext : WDExternals) (w w2 : World)
    (cmd cmd2 : WDCommandData) (func_name func_name2 : List Byte)
    (node_id_list node_id_list2 : List Int) (reqKind : POOL_REQUEST_KIND)
    (hcoord : w.cluster.localNode.state = WD_COORDINATOR)
    (hparse : ext.parse_wd_node_function_json cmd.sourcePacket.data cmd.sourcePacket.len
      = some (func_name, node_id_list))
    (hkind : failover_request_kind ext func_name = some reqKind)
    (hcount : get_cluster_node_count w.cluster ≠ 0)
    (hsw : ¬ (cmd.commandSource = COMMAND_SOURCE_REMOTE ∧ w.switching = true))
    (hnew : get_failover_object w.cluster.wdCurrentFailovers reqKind node_id_list = none)
    (hfresh : cmd.nodeResults = none)
    (hcoord2 : w2.cluster.localNode.state = WD_COORDINATOR)
    (hparse2 : ext.parse_wd_node_function_json cmd2.sourcePacket.data cmd2.sourcePacket.len
      = some (func_name2, node_id_list2))
    (hkind2 : failover_request_kind ext func_name2 = some reqKind)
    (hperm : node_id_list.Perm node_id_list2)
    (hcount2 : get_cluster_node_count w2.cluster ≠ 0)
    (hsw2 : ¬ (cmd2.commandSource = COMMAND_SOURCE_REMOTE ∧ w2.switching = true))
    (hreg : admitted_object w.cluster reqKind node_id_list ∈ w2.cluster.wdCurrentFailovers) :
    (∃ B, (∀ a ∈ B, ∃ ref ok, a = Action.send ref (failover_request_packet w.cluster cmd) ok) ∧
      B.filterMap Action.target
        = ((List.range w.cluster.remoteNodes.length).filter
            (broadcast_target w.cluster cmd)).map NodeRef.remote ∧
      (cmd.commandSource = COMMAND_SOURCE_IPC → cmd.sourceIPCSocket > 0 → ∃ ok,
        (process_failover_command_on_coordinator ext w cmd).2.2.trace
          = w.trace ++ B ++ [ipc_failover_reply ext cmd FAILOVER_RES_PROCEED
              (toUInt32 (assigned_command_id w.cluster)) ok]) ∧
      (cmd.commandSource = COMMAND_SOURCE_REMOTE → ∀ j n,
        cmd.sourceWdNode = some (NodeRef.remote j) → w.cluster.remoteNodes[j]? = some n →
        ∃ ok, (process_failover_command_on_coordinator ext w cmd).2.2.trace
          = w.trace ++ B ++
            [Action.send (NodeRef.remote j) (minimal_reply WD_ACCEPT_MESSAGE cmd.sourcePacket) ok,
             Action.failover_callback reqKind (callback_nodes reqKind node_id_list)
               (toUInt32 (assigned_command_id w.cluster))])) ∧
    process_failover_command_on_coordinator ext w2 cmd2
      = (IPC_CMD_COMPLETE, cmd2,
          (reply_to_failove_command ext w2 cmd2 FAILOVER_RES_ALREADY_ISSUED 0).2) ∧
    (cmd2.commandSource = COMMAND_SOURCE_IPC → cmd2.sourceIPCSocket > 0 →
      (process_failover_command_on_coordinator ext w2 cmd2).2.2.trace
        = w2.trace ++ [ipc_failover_reply ext cmd2 FAILOVER_RES_ALREADY_ISSUED 0
            (w2.wr.headD true)]) ∧
    (cmd2.commandSource = COMMAND_SOURCE_REMOTE → ∀ j n,
      cmd2.sourceWdNode = some (NodeRef.remote j) → w2.cluster.remoteNodes[j]? = some n →
      ∃ ok, (process_failover_command_on_coordinator ext w2 cmd2).2.2.trace
        = w2.trace ++ [remote_failover_reply ext cmd2 j FAILOVER_RES_ALREADY_ISSUED 0 ok]) ∧
    (process_failover_command_on_coordinator ext w2 cmd2).2.2.cluster.wdCurrentFailovers
      = w2.cluster.wdCurrentFailovers := by
  obtain ⟨_, hadm, B, haB, hnodup, hipc, hrem⟩ :=
    process_failover_command_admit_targets ext w cmd func_name node_id_list reqKind hcoord hparse
      hkind hcount hsw hnew hfresh
  have hfound : ∃ o, get_failover_object w2.cluster.wdCurrentFailovers reqKind node_id_list2
      = some o := by
    cases hget : get_failover_object w2.cluster.wdCurrentFailovers reqKind node_id_list2 with
    | some o => exact ⟨o, rfl⟩
    | none =>
      exfalso
      refine (get_failover_object_none_iff _ _ _).mp hget
        { reqKind := reqKind, failoverID := toUInt32 (assigned_command_id w.cluster),
          nodeList := node_id_list, wdRequestingNode := NodeRef.localNode } ?_ ?_
      · exact hreg
      · exact FailoverMatches_of_perm _ _ _ rfl hperm
  obtain ⟨o, ho⟩ := hfound
  have h2 := process_failover_command_already_issued ext w2 cmd2 func_name2 node_id_list2
    reqKind o hcoord2 hparse2 hkind2 hcount2 hsw2 ho
  refine ⟨⟨B, haB, hnodup, fun h1 => (hipc h1).2, hrem⟩, h2, ?_, ?_, ?_⟩
  · intro hs hsock
    rw [h2]
    exact reply_to_failove_command_ipc ext w2 cmd2 _ _ hs hsock
  · intro hs j n hnode hj
    rw [h2]
    exact reply_to_failove_command_remote ext w2 cmd2 _ _ j n hs hnode hj
  · rw [h2]
    exact (reply_to_failove_command_frame _ _ _ _ _).1

/-- Witness of C7 amended: the coordinator of `coordinatorWorld` handles the degenerate
request for nodes 1 and 2 from IPC socket 9, which is sent once to the remote nodes 0 and
1 (node 2 is lost) and answered PROCEED, and then the request for nodes 2 and 1 from IPC
socket 10; the second adds the reply ALREADY_ISSUED and nothing else. -/
theorem duplicate_failover_request_witness :
    (process_failover_command_on_coordinator sampleExt coordinatorWorld
        (ipcFailoverCommand [68, 1, 2] 9)).2.2.trace
      = [Action.send (NodeRef.remote 0)
           (failover_request_packet coordinatorWorld.cluster (ipcFailoverCommand [68, 1, 2] 9))
           true,
         Action.send (NodeRef.remote 1)
           (failover_request_packet coordinatorWorld.cluster (ipcFailoverCommand [68, 1, 2] 9))
           true,
         ipc_failover_reply sampleExt (ipcFailoverCommand [68, 1, 2] 9) FAILOVER_RES_PROCEED 2
           true] ∧
    (∃ B, (∀ a ∈ B, ∃ ref ok, a = Action.send ref
          (failover_request_packet coordinatorWorld.cluster (ipcFailoverCommand [68, 1, 2] 9))
          ok) ∧
      B.filterMap Action.target
        = ((List.range coordinatorWorld.cluster.remoteNodes.length).filter
            (broadcast_target coordinatorWorld.cluster (ipcFailoverCommand [68, 1, 2] 9))).map
            NodeRef.remote ∧
      ∃ ok, (process_failover_command_on_coordinator sampleExt coordinatorWorld
          (ipcFailoverCommand [68, 1, 2] 9)).2.2.trace
        = coordinatorWorld.trace ++ B ++
            [ipc_failover_reply sampleExt (ipcFailoverCommand [68, 1, 2] 9) FAILOVER_RES_PROCEED
              (toUInt32 (assigned_command_id coordinatorWorld.cluster)) ok]) ∧
    ((List.range coordinatorWorld.cluster.remoteNodes.length).filter
        (broadcast_target coordinatorWorld.cluster (ipcFailoverCommand [68, 1, 2] 9))).map
        NodeRef.remote
      = [NodeRef.remote 0, NodeRef.remote 1] ∧
    (process_failover_command_on_coordinator sampleExt
        (process_failover_command_on_coordinator sampleExt coordinatorWorld
          (ipcFailoverCommand [68, 1, 2] 9)).2.2
        (ipcFailoverCommand [68, 2, 1] 10)).2.2.trace
      = (process_failover_command_on_coordinator sampleExt coordinatorWorld
          (ipcFailoverCommand [68, 1, 2] 9)).2.2.trace ++
        [ipc_failover_reply sampleExt (ipcFailoverCommand [68, 2, 1] 10)
          FAILOVER_RES_ALREADY_ISSUED 0 true] :=
  have T := duplicate_failover_request sampleExt coordinatorWorld
    (process_failover_command_on_coordinator sampleExt coordinatorWorld
      (ipcFailoverCommand [68, 1, 2] 9)).2.2
    (ipcFailoverCommand [68, 1, 2] 9) (ipcFailoverCommand [68, 2, 1] 10) [68] [68] [1, 2] [2, 1]
    NODE_DOWN_REQUEST (by decide) (by decide) (by decide) (by decide) (by decide) (by decide)
    (by decide) (by decide) (by decide) (by decide) (List.Perm.swap 2 1 []) (by decide)
    (by decide) (by decide)
  ⟨by decide,
   T.1.elim fun B hB => ⟨B, hB.1, hB.2.1, hB.2.2.1 (by decide) (by decide)⟩,
   by decide,
   T.2.2.1 (by decide) (by decide)⟩

/-! ## The failover id in replies -/

/-- C8, as the code behaves: with the object for (NODE_DOWN, [1]) registered under
failover id 2, the same request from IPC socket 10 is answered ALREADY_ISSUED with
failover id 0, which is not the reply that carries the id 2 of the registered object. -/
theorem already_issued_reply_counterexample :
    (process_failover_command_on_coordinator sampleExt coordinatorWorld
        (ipcFailoverCommand [68, 1] 9)).2.2.cluster.wdCurrentFailovers
      = [{ reqKind := NODE_DOWN_REQUEST, failoverID := 2, nodeList := [1],
           wdRequestingNode := NodeRef.localNode }] ∧
    (process_failover_command_on_coordinator sampleExt
        (process_failover_command_on_coordinator sampleExt coordinatorWorld
          (ipcFailoverCommand [68, 1] 9)).2.2
        (ipcFailoverCommand [68, 1] 10)).2.2.trace.getLast?
      = some (ipc_failover_reply sampleExt (ipcFailoverCommand [68, 1] 10)
          FAILOVER_RES_ALREADY_ISSUED 0 true) ∧
    ipc_failover_reply sampleExt (ipcFailoverCommand [68, 1] 10) FAILOVER_RES_ALREADY_ISSUED 0 true
      ≠ ipc_failover_reply sampleExt (ipcFailoverCommand [68, 1] 10)
          FAILOVER_RES_ALREADY_ISSUED 2 true := by
  decide

/-- C8 amended. Whenever a failover request reaches a coordinator with an active remote
peer (from IPC, or from a remote node while the switching flag is clear) and
`get_failover_object` finds a registered object for it, whatever the failover id of
that object, the reply to the requester is ALREADY_ISSUED with failover id 0: a frame on
the IPC socket for a local client, a `WD_CMD_REPLY_IN_DATA` packet for a remote node. -/
theorem already_issued_reply_id_zero (ext : WDExternals) (w : World) (cmd : WDCommandData)
    (func_name : List Byte) (node_id_list : List Int) (reqKind : POOL_REQUEST_KIND)
    (o : WDFailoverObject)
    (hcoord : w.cluster.localNode.state = WD_COORDINATOR)
    (hparse : ext.parse_wd_node_function_json cmd.sourcePacket.data cmd.sourcePacket.len
      = some (func_name, node_id_list))
    (hkind : failover_request_kind ext func_name = some reqKind)
    (hcount : get_cluster_node_count w.cluster ≠ 0)
    (hsw : ¬ (cmd.commandSource = COMMAND_SOURCE_REMOTE ∧ w.switching = true))
    (hfound : get_failover_object w.cluster.wdCurrentFailovers reqKind node_id_list = some o) :
    (process_failover_command_on_coordinator ext w cmd).1 = IPC_CMD_COMPLETE ∧
    (cmd.commandSource = COMMAND_SOURCE_IPC → cmd.sourceIPCSocket > 0 →
      (process_failover_command_on_coordinator ext w cmd).2.2.trace
        = w.trace ++ [ipc_failover_reply ext cmd FAILOVER_RES_ALREADY_ISSUED 0
            (w.wr.headD true)]) ∧
    (cmd.commandSource = COMMAND_SOURCE_REMOTE → ∀ j n,
      cmd.sourceWdNode = some (NodeRef.remote j) → w.cluster.remoteNodes[j]? = some n →
      ∃ ok, (process_failover_command_on_coordinator ext w cmd).2.2.trace
        = w.trace ++ [remote_failover_reply ext cmd j FAILOVER_RES_ALREADY_ISSUED 0 ok]) := by
  have h := process_failover_command_already_issued ext w cmd func_name node_id_list reqKind o
    hcoord hparse hkind hcount hsw hfound
  rw [h]
  refine ⟨rfl, ?_, ?_⟩
  · intro hs hsock
    exact reply_to_failove_command_ipc ext w cmd _ _ hs hsock
  · intro hs j n hnode hj
    exact reply_to_failove_command_remote ext w cmd _ _ j n hs hnode hj

/-- Witness of C8 amended: the second degenerate request for node 1 in `coordinatorWorld`,
with the first registered under failover id 2. -/
theorem already_issued_reply_id_zero_witness :
    (process_failover_command_on_coordinator sampleExt
        (process_failover_command_on_coordinator sampleExt coordinatorWorld
          (ipcFailoverCommand [68, 1] 9)).2.2
        (ipcFailoverCommand [68, 1] 10)).2.2.trace
      = (process_failover_command_on_coordinator sampleExt coordinatorWorld
          (ipcFailoverCommand [68, 1] 9)).2.2.trace ++
        [ipc_failover_reply sampleExt (ipcFailoverCommand [68, 1] 10)
          FAILOVER_RES_ALREADY_ISSUED 0 true] :=
  (already_issued_reply_id_zero sampleExt
    (process_failover_command_on_coordinator sampleExt coordinatorWorld
      (ipcFailoverCommand [68, 1] 9)).2.2
    (ipcFailoverCommand [68, 1] 10) [68] [1] NODE_DOWN_REQUEST
    { reqKind := NODE_DOWN_REQUEST, failoverID := 2, nodeList := [1],
      wdRequestingNode := NodeRef.localNode }
    (by decide) (by decide) (by decide) (by decide) (by decide) (by decide)).2.1
    (by decide) (by decide)

theorem get_wd_command_from_reply_some (l : List WDCommandData) (pkt : WDPacketData)
    (c : WDCommandData) (h : get_wd_command_from_reply l pkt = some c) :
    c ∈ l ∧ c.commandSource = COMMAND_SOURCE_IPC ∧
      c.commandPacket.command_id = pkt.command_id := by
  induction l with
  | nil => simp [get_wd_command_from_reply] at h
  | cons x rest ih =>
    unfold get_wd_command_from_reply at h
    by_cases h1 : x.commandSource ≠ COMMAND_SOURCE_IPC
    · rw [if_pos h1] at h
      exact ⟨List.mem_cons_of_mem _ (ih h).1, (ih h).2⟩
    · rw [if_neg h1] at h
      by_cases h2 : x.commandPacket.command_id = pkt.command_id
      · rw [if_pos h2] at h
        cases h
        exact ⟨List.mem_cons_self _ _, not_not.mp h1, h2⟩
      · rw [if_neg h2] at h
        exact ⟨List.mem_cons_of_mem _ (ih h).1, (ih h).2⟩

/-- C9, as the code behaves for a request forwarded by a standby: the coordinator of
`coordinatorWorld` registers the failover under id 2 and broadcasts it under command id
2, but what it sends to the forwarding node 0 is the bare ACCEPT packet (no payload,
command id 77 of the forwarded packet), and the standby relays that to its IPC client
as PROCEED with failover id 0, not 2. -/
theorem forwarded_request_reply_counterexample :
    (process_failover_command_on_coordinator sampleExt coordinatorWorld
        (remoteFailoverCommand [68, 1] 77 0)).2.2.cluster.wdCurrentFailovers
      = [{ reqKind := NODE_DOWN_REQUEST, failoverID := 2, nodeList := [1],
           wdRequestingNode := NodeRef.localNode }] ∧
    (process_failover_command_on_coordinator sampleExt coordinatorWorld
        (remoteFailoverCommand [68, 1] 77 0)).2.2.trace
      = [Action.send (NodeRef.remote 1)
           { type := WD_REMOTE_FAILOVER_REQUEST, command_id := 2, len := 2,
             data := some [68, 1] } true,
         Action.send (NodeRef.remote 0)
           { type := WD_ACCEPT_MESSAGE, command_id := 77, len := 0, data := none } true,
         Action.failover_callback NODE_DOWN_REQUEST [1] 2] ∧
    (wd_commands_packet_processor sampleExt standbyWorld WD_EVENT_PACKET_RCV
        (some { type := WD_ACCEPT_MESSAGE, command_id := 77, len := 0, data := none })).map
      (fun r => (r.1, r.2.trace))
      = some (true, [ipc_failover_reply sampleExt forwardedCommand FAILOVER_RES_PROCEED 0 true]) ∧
    ipc_failover_reply sampleExt forwardedCommand FAILOVER_RES_PROCEED 0 true
      ≠ ipc_failover_reply sampleExt forwardedCommand FAILOVER_RES_PROCEED 2 true := by
  decide

/-- On a standby, an ACCEPT packet that answers a pending forwarded failover command is
relayed to the IPC client as PROCEED with failover id 0. -/
theorem wd_commands_packet_processor_accept (ext : WDExternals) (ws : World)
    (p : WDPacketData) (c : WDCommandData)
    (hp : p.type = WD_ACCEPT_MESSAGE)
    (hcodes : ext.WD_FAILOVER_LOCKING_REQUEST ≠ WD_ACCEPT_MESSAGE ∧
      ext.WD_IPC_FAILOVER_COMMAND ≠ WD_ACCEPT_MESSAGE ∧
      ext.WD_IPC_ONLINE_RECOVERY_COMMAND ≠ WD_ACCEPT_MESSAGE)
    (hc : get_wd_IPC_command_from_reply ws.cluster p = some c)
    (htype : c.commandPacket.type = ext.WD_IPC_FAILOVER_COMMAND)
    (hsock : c.sourceIPCSocket > 0) :
    ∃ w1, wd_commands_packet_processor ext ws WD_EVENT_PACKET_RCV (some p) = some (true, w1) ∧
      w1.trace = ws.trace ++ [ipc_failover_reply ext c FAILOVER_RES_PROCEED 0
        (ws.wr.headD true)] := by
  obtain ⟨h1, h2, h3⟩ := hcodes
  have hsrc : c.commandSource = COMMAND_SOURCE_IPC :=
    (get_wd_command_from_reply_some _ _ _ hc).2.1
  refine ⟨(reply_to_failove_command ext ws c FAILOVER_RES_PROCEED 0).2, ?_,
    reply_to_failove_command_ipc ext ws c _ _ hsrc hsock⟩
  unfold wd_commands_packet_processor
  have e1 : ¬ (WD_ACCEPT_MESSAGE = ext.WD_FAILOVER_LOCKING_REQUEST) := fun h => h1 h.symm
  have e2 : ¬ (WD_ACCEPT_MESSAGE = ext.WD_IPC_FAILOVER_COMMAND) := fun h => h2 h.symm
  have e3 : ¬ (WD_ACCEPT_MESSAGE = ext.WD_IPC_ONLINE_RECOVERY_COMMAND) := fun h => h3 h.symm
  have e4 : ¬ (WD_ACCEPT_MESSAGE = WD_REMOTE_FAILOVER_REQUEST) := by decide
  have e5 : ¬ (WD_ACCEPT_MESSAGE = WD_DATA_MESSAGE) := by decide
  have e6 : ¬ (WD_ACCEPT_MESSAGE = WD_CMD_REPLY_IN_DATA) := by decide
  simp only [ne_eq, not_true_eq_false, if_false, hp, e1, e2, e3, e4, e5, e6, true_or, if_true,
    hc, htype]

/-- C9 amended. When the coordinator admits a new failover request, the failover id of
the inserted object equals the command id of the REMOTE_FAILOVER_REQUEST packet it
broadcasts, and a local IPC client receives PROCEED with that failover id.  A standby
that forwarded the request receives the bare ACCEPT packet instead, and its watchdog
relays an ACCEPT for a pending forwarded failover command to the IPC client as PROCEED
with failover id 0. -/
theorem admitted_failover_id (ext : WDExternals) (w : World) (cmd : WDCommandData)
    (func_name : List Byte) (node_id_list : List Int) (reqKind : POOL_REQUEST_KIND)
    (hcoord : w.cluster.localNode.state = WD_COORDINATOR)
    (hparse : ext.parse_wd_node_function_json cmd.sourcePacket.data cmd.sourcePacket.len
      = some (func_name, node_id_list))
    (hkind : failover_request_kind ext func_name = some reqKind)
    (hcount : get_cluster_node_count w.cluster ≠ 0)
    (hsw : ¬ (cmd.commandSource = COMMAND_SOURCE_REMOTE ∧ w.switching = true))
    (hnew : get_failover_object w.cluster.wdCurrentFailovers reqKind node_id_list = none)
    (hfresh : cmd.nodeResults = none) :
    (process_failover_command_on_coordinator ext w cmd).2.1.commandPacket.type
      = WD_REMOTE_FAILOVER_REQUEST ∧
    (process_failover_command_on_coordinator ext w cmd).2.2.cluster.wdCurrentFailovers
      = w.cluster.wdCurrentFailovers ++
          [{ reqKind := reqKind,
             failoverID := toUInt32
               (process_failover_command_on_coordinator ext w cmd).2.1.commandPacket.command_id,
             nodeList := node_id_list, wdRequestingNode := NodeRef.localNode }] ∧
    (∃ B, (∀ a ∈ B, ∃ ref ok, a = Action.send ref
          (process_failover_command_on_coordinator ext w cmd).2.1.commandPacket ok) ∧
      (cmd.commandSource = COMMAND_SOURCE_IPC → cmd.sourceIPCSocket > 0 → ∃ ok,
        (process_failover_command_on_coordinator ext w cmd).2.2.trace
          = w.trace ++ B ++ [ipc_failover_reply ext cmd FAILOVER_RES_PROCEED
              (toUInt32
                (process_failover_command_on_coordinator ext w cmd).2.1.commandPacket.command_id)
              ok]) ∧
      (cmd.commandSource = COMMAND_SOURCE_REMOTE → ∀ j n,
        cmd.sourceWdNode = some (NodeRef.remote j) → w.cluster.remoteNodes[j]? = some n →
        ∃ ok, (process_failover_command_on_coordinator ext w cmd).2.2.trace
          = w.trace ++ B ++
            [Action.send (NodeRef.remote j) (minimal_reply WD_ACCEPT_MESSAGE cmd.sourcePacket) ok,
             Action.failover_callback reqKind (callback_nodes reqKind node_id_list)
               (toUInt32
                 (process_failover_command_on_coordinator ext w
                   cmd).2.1.commandPacket.command_id)])) ∧
    (∀ (ws : World) (p : WDPacketData) (c : WDCommandData),
      p.type = WD_ACCEPT_MESSAGE →
      (ext.WD_FAILOVER_LOCKING_REQUEST ≠ WD_ACCEPT_MESSAGE ∧
        ext.WD_IPC_FAILOVER_COMMAND ≠ WD_ACCEPT_MESSAGE ∧
        ext.WD_IPC_ONLINE_RECOVERY_COMMAND ≠ WD_ACCEPT_MESSAGE) →
      get_wd_IPC_command_from_reply ws.cluster p = some c →
      c.commandPacket.type = ext.WD_IPC_FAILOVER_COMMAND → c.sourceIPCSocket > 0 →
      ∃ w1, wd_commands_packet_processor ext ws WD_EVENT_PACKET_RCV (some p) = some (true, w1) ∧
        w1.trace = ws.trace ++ [ipc_failover_reply ext c FAILOVER_RES_PROCEED 0
          (ws.wr.headD true)]) := by
  obtain ⟨hpkt, hadm, B, haB, _, hipc, hrem⟩ :=
    process_failover_command_admit ext w cmd func_name node_id_list reqKind hcoord hparse hkind
      hcount hsw hnew hfresh
  have hid : (process_failover_command_on_coordinator ext w cmd).2.1.commandPacket.command_id
      = assigned_command_id w.cluster := by rw [hpkt]; rfl
  rw [hid]
  refine ⟨by rw [hpkt]; rfl, hadm, ⟨B, ?_, fun h1 => (hipc h1).2, hrem⟩, ?_⟩
  · rw [hpkt]; exact haB
  · intro ws p c hp hcodes hc htype hsock
    exact wd_commands_packet_processor_accept ext ws p c hp hcodes hc htype hsock

/-- Witness of C9 amended: the degenerate request for node 1 from IPC socket 9 in
`coordinatorWorld`; object and broadcast packet carry the id 2, and so does the reply. -/
theorem admitted_failover_id_witness :
    (process_failover_command_on_coordinator sampleExt coordinatorWorld
        (ipcFailoverCommand [68, 1] 9)).2.2.cluster.wdCurrentFailovers
      = coordinatorWorld.cluster.wdCurrentFailovers ++
          [{ reqKind := NODE_DOWN_REQUEST,
             failoverID := toUInt32
               (process_failover_command_on_coordinator sampleExt coordinatorWorld
                 (ipcFailoverCommand [68, 1] 9)).2.1.commandPacket.command_id,
             nodeList := [1], wdRequestingNode := NodeRef.localNode }] ∧
    (process_failover_command_on_coordinator sampleExt coordinatorWorld
        (ipcFailoverCommand [68, 1] 9)).2.2.trace
      = [Action.send (NodeRef.remote 0)
           { type := WD_REMOTE_FAILOVER_REQUEST, command_id := 2, len := 2,
             data := some [68, 1] } true,
         Action.send (NodeRef.remote 1)
           { type := WD_REMOTE_FAILOVER_REQUEST, command_id := 2, len := 2,
             data := some [68, 1] } true,
         ipc_failover_reply sampleExt (ipcFailoverCommand [68, 1] 9) FAILOVER_RES_PROCEED 2 true] :=
  ⟨(admitted_failover_id sampleExt coordinatorWorld (ipcFailoverCommand [68, 1] 9) [68] [1]
      NODE_DOWN_REQUEST (by decide) (by decide) (by decide) (by decide) (by decide) (by decide)
      (by decide)).2.1, by decide⟩

/-! ## The switching flag -/

/-- C10, as the code behaves: with the switching flag set, the degenerate request for
node 1 from the local IPC client is admitted (object registered under id 2,
REMOTE_FAILOVER_REQUEST sent to both active peers, reply PROCEED); and on a coordinator
without active peers the same request forwarded by remote node 0 is answered PROCEED
with failover id 0. -/
theorem switching_request_counterexample :
    switchingCoordinatorWorld.switching = true ∧
    (process_failover_command_on_coordinator sampleExt switchingCoordinatorWorld
        (ipcFailoverCommand [68, 1] 9)).2.2.cluster.wdCurrentFailovers
      = [{ reqKind := NODE_DOWN_REQUEST, failoverID := 2, nodeList := [1],
           wdRequestingNode := NodeRef.localNode }] ∧
    (process_failover_command_on_coordinator sampleExt switchingCoordinatorWorld
        (ipcFailoverCommand [68, 1] 9)).2.2.trace
      = [Action.send (NodeRef.remote 0)
           { type := WD_REMOTE_FAILOVER_REQUEST, command_id := 2, len := 2,
             data := some [68, 1] } true,
         Action.send (NodeRef.remote 1)
           { type := WD_REMOTE_FAILOVER_REQUEST, command_id := 2, len := 2,
             data := some [68, 1] } true,
         ipc_failover_reply sampleExt (ipcFailoverCommand [68, 1] 9) FAILOVER_RES_PROCEED 2 true] ∧
    switchingLoneCoordinatorWorld.switching = true ∧
    (process_failover_command_on_coordinator sampleExt switchingLoneCoordinatorWorld
        (remoteFailoverCommand [68, 1] 77 0)).2.2.trace
      = [remote_failover_reply sampleExt (remoteFailoverCommand [68, 1] 77 0) 0
          FAILOVER_RES_PROCEED 0 true] := by
  decide

/-- C10 amended. A valid failover request forwarded by a remote peer that reaches a
coordinator with at least one active remote peer while the switching flag is set is
rejected: the only thing sent is the reply NOT_ALLOWED to that peer, no failover object
is inserted and no REMOTE_FAILOVER_REQUEST is sent.  (A request from the local IPC
client is not checked against the flag.) -/
theorem switching_remote_request_rejected (ext : WDExternals) (w : World)
    (cmd : WDCommandData) (func_name : List Byte) (node_id_list : List Int)
    (reqKind : POOL_REQUEST_KIND) (j : Nat) (n : WatchdogNode)
    (hcoord : w.cluster.localNode.state = WD_COORDINATOR)
    (hparse : ext.parse_wd_node_function_json cmd.sourcePacket.data cmd.sourcePacket.len
      = some (func_name, node_id_list))
    (hkind : failover_request_kind ext func_name = some reqKind)
    (hcount : get_cluster_node_count w.cluster ≠ 0)
    (hsrc : cmd.commandSource = COMMAND_SOURCE_REMOTE)
    (hnode : cmd.sourceWdNode = some (NodeRef.remote j))
    (hj : w.cluster.remoteNodes[j]? = some n)
    (hsw : w.switching = true) :
    (process_failover_command_on_coordinator ext w cmd).1 = IPC_CMD_COMPLETE ∧
    (∃ ok, (process_failover_command_on_coordinator ext w cmd).2.2.trace
      = w.trace ++ [remote_failover_reply ext cmd j FAILOVER_RES_NOT_ALLOWED 0 ok]) ∧
    (process_failover_command_on_coordinator ext w cmd).2.2.cluster.wdCurrentFailovers
      = w.cluster.wdCurrentFailovers := by
  have h := process_failover_command_not_allowed ext w cmd func_name node_id_list reqKind
    hcoord hparse hkind hcount hsrc hsw
  rw [h]
  exact ⟨rfl, reply_to_failove_command_remote ext w cmd _ _ j n hsrc hnode hj,
    (reply_to_failove_command_frame _ _ _ _ _).1⟩

/-- Witness of C10 amended: the degenerate request for node 1 forwarded by remote node 0
to the coordinator of `switchingCoordinatorWorld`. -/
theorem switching_remote_request_rejected_witness :
    (process_failover_command_on_coordinator sampleExt switchingCoordinatorWorld
        (remoteFailoverCommand [68, 1] 77 0)).1 = IPC_CMD_COMPLETE ∧
    (∃ ok, (process_failover_command_on_coordinator sampleExt switchingCoordinatorWorld
        (remoteFailoverCommand [68, 1] 77 0)).2.2.trace
      = switchingCoordinatorWorld.trace ++
          [remote_failover_reply sampleExt (remoteFailoverCommand [68, 1] 77 0) 0
            FAILOVER_RES_NOT_ALLOWED 0 ok]) ∧
    (process_failover_command_on_coordinator sampleExt switchingCoordinatorWorld
        (remoteFailoverCommand [68, 1] 77 0)).2.2.cluster.wdCurrentFailovers
      = switchingCoordinatorWorld.cluster.wdCurrentFailovers :=
  switching_remote_request_rejected sampleExt switchingCoordinatorWorld
    (remoteFailoverCommand [68, 1] 77 0) [68] [1] NODE_DOWN_REQUEST 0
    (sampleNode WD_STANDBY 1 200 5) (by decide) (by decide) (by decide) (by decide) rfl rfl
    (by decide) rfl

/-! ## The lock service -/

/-- The look-up by id fails exactly when no registered object has the id. -/
theorem get_failover_object_by_id_none_iff (l : List WDFailoverObject) (F : Nat) :
    get_failover_object_by_id l F = none ↔ ∀ o ∈ l, o.failoverID ≠ F := by
  induction l with
  | nil => simp [get_failover_object_by_id]
  | cons a l ih =>
    unfold get_failover_object_by_id
    by_cases h : a.failoverID = F
    · simp [h]
    · simp [h, ih]

/-- An object found by id is registered and has the id. -/
theorem get_failover_object_by_id_some (l : List WDFailoverObject) (F : Nat)
    (o : WDFailoverObject) (h : get_failover_object_by_id l F = some o) :
    o ∈ l ∧ o.failoverID = F := by
  induction l with
  | nil => simp [get_failover_object_by_id] at h
  | cons a l ih =>
    unfold get_failover_object_by_id at h
    by_cases ha : a.failoverID = F
    · simp only [ha, if_true, Option.some.injEq] at h
      subst h
      exact ⟨List.mem_cons_self _ _, ha⟩
    · simp only [ha, if_false] at h
      exact ⟨List.mem_cons_of_mem _ (ih h).1, (ih h).2⟩

/-- The list `remove_failover_object_by_id` leaves is the registry without its first
object of the given id. -/
theorem remove_failover_object_by_id_eq (l : List WDFailoverObject) (F : Nat) :
    (remove_failover_object_by_id l F).2 = l.eraseP (fun o => decide (o.failoverID = F)) := by
  unfold remove_failover_object_by_id
  cases h : get_failover_object_by_id l F with
  | some o => rfl
  | none =>
    have := (get_failover_object_by_id_none_iff l F).mp h
    show l = _
    rw [List.eraseP_of_forall_not]
    intro a ha
    simpa using this a ha

/-- With distinct ids, no object of the removed id is left. -/
theorem eraseP_id_nodup (l : List WDFailoverObject) (F : Nat)
    (hnd : (l.map WDFailoverObject.failoverID).Nodup) :
    ∀ o ∈ l.eraseP (fun o => decide (o.failoverID = F)), o.failoverID ≠ F := by
  induction l with
  | nil => simp
  | cons a l ih =>
    rw [List.map_cons, List.nodup_cons] at hnd
    by_cases ha : a.failoverID = F
    · rw [List.eraseP_cons_of_pos (by simpa using ha)]
      intro o ho hF
      apply hnd.1
      rw [ha, ← hF]
      exact List.mem_map_of_mem _ ho
    · rw [List.eraseP_cons_of_neg (by simpa using ha)]
      intro o ho
      rcases List.mem_cons.mp ho with h | h
      · rw [h]; exact ha
      · exact ih hnd.2 o h

/-- Objects of another id stay registered. -/
theorem eraseP_id_keeps (l : List WDFailoverObject) (F : Nat) :
    ∀ o ∈ l, o.failoverID ≠ F → o ∈ l.eraseP (fun o => decide (o.failoverID = F)) := by
  intro o ho hne
  exact (List.mem_eraseP_of_neg (by simpa using hne)).mpr ho

/-- The loop over the sub-locks stores the same value in each of them. -/
theorem locks_set_all (l : List Bool) (b : Bool) (h : l.length = MAX_FAILOVER_LOCKS) :
    (List.range MAX_FAILOVER_LOCKS).foldl (fun l i => l.set i b) l
      = List.replicate MAX_FAILOVER_LOCKS b := by
  match l, h with
  | [x, y, z], _ => rfl

/-- C13. On a node in COORDINATOR state whose lock table has its `K` sub-locks, a lock
end request for failover id `F` from the current holder, or arriving when there is no
holder, returns SUCCESS, clears all sub-locks and the holder, and removes from the
registry the (first) object with id `F`, leaving every other object in place and
changing nothing else; when the registered ids are distinct no object with id `F` is
left.  An end request from a node other than an existing holder returns
I_AM_NOT_LOCK_HOLDER and changes nothing. -/
theorem node_is_asking_for_failover_end_spec (c : wd_cluster) (wdNode : NodeRef) (F : Nat)
    (hstate : c.localNode.state = WD_COORDINATOR)
    (hlen : c.interlockingNode.locks.length = MAX_FAILOVER_LOCKS) :
    ((c.interlockingNode.lockHolderNode = some wdNode ∨
        c.interlockingNode.lockHolderNode = none) →
      (node_is_asking_for_failover_end c wdNode F).1 = FAILOVER_RES_SUCCESS ∧
      (node_is_asking_for_failover_end c wdNode F).2 =
        { c with
          interlockingNode :=
            { lockHolderNode := none, locks := List.replicate MAX_FAILOVER_LOCKS false },
          wdCurrentFailovers :=
            c.wdCurrentFailovers.eraseP (fun o => decide (o.failoverID = F)) } ∧
      (∀ o ∈ c.wdCurrentFailovers, o.failoverID ≠ F →
        o ∈ (node_is_asking_for_failover_end c wdNode F).2.wdCurrentFailovers) ∧
      ((c.wdCurrentFailovers.map WDFailoverObject.failoverID).Nodup →
        ∀ o ∈ (node_is_asking_for_failover_end c wdNode F).2.wdCurrentFailovers,
          o.failoverID ≠ F)) ∧
    ((∃ holder, c.interlockingNode.lockHolderNode = some holder ∧ holder ≠ wdNode) →
      (node_is_asking_for_failover_end c wdNode F).1 = FAILOVER_RES_I_AM_NOT_LOCK_HOLDER ∧
      (node_is_asking_for_failover_end c wdNode F).2 = c) := by
  unfold node_is_asking_for_failover_end
  rw [if_pos hstate]
  constructor
  · intro hh
    rw [if_pos hh.symm, locks_set_all _ _ hlen, remove_failover_object_by_id_eq]
    exact ⟨rfl, rfl, eraseP_id_keeps _ _, eraseP_id_nodup _ _⟩
  · rintro ⟨holder, hh, hne⟩
    have : ¬ (c.interlockingNode.lockHolderNode = none ∨
        c.interlockingNode.lockHolderNode = some wdNode) := by
      rw [hh]
      simp [hne]
    rw [if_neg this]
    exact ⟨rfl, rfl⟩

/-- Witness of C13 on `lockedCluster`: the end request of the holder for failover 2
frees the lock table and leaves failover 3 alone in the registry; the end request of
remote node 0 is refused. -/
theorem node_is_asking_for_failover_end_spec_witness :
    lockedCluster.localNode.state = WD_COORDINATOR ∧
    lockedCluster.interlockingNode.lockHolderNode = some NodeRef.localNode ∧
    (node_is_asking_for_failover_end lockedCluster NodeRef.localNode 2).1
      = FAILOVER_RES_SUCCESS ∧
    (node_is_asking_for_failover_end lockedCluster NodeRef.localNode 2).2.interlockingNode
      = { lockHolderNode := none, locks := [false, false, false] } ∧
    (node_is_asking_for_failover_end lockedCluster NodeRef.localNode 2).2.wdCurrentFailovers.map
        WDFailoverObject.failoverID = [3] ∧
    (node_is_asking_for_failover_end lockedCluster (NodeRef.remote 0) 2).1
      = FAILOVER_RES_I_AM_NOT_LOCK_HOLDER ∧
    (node_is_asking_for_failover_end lockedCluster (NodeRef.remote 0) 2).2 = lockedCluster :=
  ⟨rfl, rfl,
   ((node_is_asking_for_failover_end_spec lockedCluster NodeRef.localNode 2 rfl rfl).1
      (Or.inl rfl)).1,
   congrArg wd_cluster.interlockingNode
     ((node_is_asking_for_failover_end_spec lockedCluster NodeRef.localNode 2 rfl rfl).1
        (Or.inl rfl)).2.1,
   congrArg (fun c => c.wdCurrentFailovers.map WDFailoverObject.failoverID)
     ((node_is_asking_for_failover_end_spec lockedCluster NodeRef.localNode 2 rfl rfl).1
        (Or.inl rfl)).2.1,
   ((node_is_asking_for_failover_end_spec lockedCluster (NodeRef.remote 0) 2 rfl rfl).2
      ⟨NodeRef.localNode, rfl, by decide⟩).1,
   ((node_is_asking_for_failover_end_spec lockedCluster (NodeRef.remote 0) 2 rfl rfl).2
      ⟨NodeRef.localNode, rfl, by decide⟩).2⟩

/-- C14. On a node in COORDINATOR state whose lock table has its `K` sub-locks, a lock
status request for sub-lock `i < K` and failover id `F` returns a result and leaves the
cluster, so the lock table, unchanged.  The result is LOCKED when a holder exists and
sub-lock `i` is set, UNLOCKED when a holder exists and sub-lock `i` is clear,
NO_LOCKHOLDER_BUT_WAIT if and only if no holder exists and an object with id `F` is
registered, and NO_LOCKHOLDER when no holder exists and no such object is registered. -/
theorem node_is_asking_for_failover_lock_status_spec (c : wd_cluster) (i F : Nat)
    (hstate : c.localNode.state = WD_COORDINATOR)
    (hlen : c.interlockingNode.locks.length = MAX_FAILOVER_LOCKS)
    (hi : i < MAX_FAILOVER_LOCKS) :
    ∃ res, node_is_asking_for_failover_lock_status c (i : Int) F = some (res, c) ∧
      (c.interlockingNode.lockHolderNode ≠ none →
        (c.interlockingNode.locks[i]? = some true → res = FAILOVER_RES_LOCKED) ∧
        (c.interlockingNode.locks[i]? = some false → res = FAILOVER_RES_UNLOCKED)) ∧
      (res = FAILOVER_RES_NO_LOCKHOLDER_BUT_WAIT ↔
        c.interlockingNode.lockHolderNode = none ∧
          ∃ o ∈ c.wdCurrentFailovers, o.failoverID = F) ∧
      (c.interlockingNode.lockHolderNode = none →
        (∀ o ∈ c.wdCurrentFailovers, o.failoverID ≠ F) → res = FAILOVER_RES_NO_LOCKHOLDER) := by
  have hK : MAX_FAILOVER_LOCKS = 3 := rfl
  have hi3 : i < 3 := hi
  have h1 : ¬ ((i : Int) < 0 ∨ (wd_failover_lock_name.length : Int) ≤ (i : Int)) := by
    have : wd_failover_lock_name.length = 3 := rfl
    rw [this]; omega
  have h2 : (i : Int) < (MAX_FAILOVER_LOCKS : Nat) := by rw [hK]; omega
  unfold node_is_asking_for_failover_lock_status
  rw [if_neg h1, if_pos hstate]
  cases hh : c.interlockingNode.lockHolderNode with
  | some holder =>
    simp only [h2, if_true, Int.toNat_ofNat]
    have hlt : i < c.interlockingNode.locks.length := by rw [hlen]; exact hi
    rw [List.getElem?_eq_getElem hlt]
    cases hb : c.interlockingNode.locks[i] with
    | true => exact ⟨_, rfl, fun _ => ⟨fun _ => rfl, fun h => by simp at h⟩, by simp, by simp⟩
    | false => exact ⟨_, rfl, fun _ => ⟨fun h => by simp at h, fun _ => rfl⟩, by simp, by simp⟩
  | none =>
    simp only []
    cases hg : get_failover_object_by_id c.wdCurrentFailovers F with
    | some o =>
      obtain ⟨hm, hF⟩ := get_failover_object_by_id_some _ _ _ hg
      refine ⟨_, rfl, fun h => absurd rfl h, ?_, ?_⟩
      · simp only [true_and, true_iff]
        exact ⟨o, hm, hF⟩
      · intro _ hall
        exact absurd hF (hall o hm)
    | none =>
      have hall := (get_failover_object_by_id_none_iff _ _).mp hg
      refine ⟨_, rfl, fun h => absurd rfl h, ?_, fun _ _ => rfl⟩
      constructor
      · intro h; cases h
      · rintro ⟨_, o, hm, hF⟩
        exact absurd hF (hall o hm)

/-- Witness of C14: with the coordinator holding the lock (`lockedCluster`) sub-lock 0 is
LOCKED and sub-lock 1 UNLOCKED; with failover 2 admitted and no holder
(`admittedCluster`) the answer for id 2 is NO_LOCKHOLDER_BUT_WAIT and for id 9
NO_LOCKHOLDER. -/
theorem node_is_asking_for_failover_lock_status_spec_witness :
    node_is_asking_for_failover_lock_status lockedCluster 0 2
      = some (FAILOVER_RES_LOCKED, lockedCluster) ∧
    node_is_asking_for_failover_lock_status lockedCluster 1 2
      = some (FAILOVER_RES_UNLOCKED, lockedCluster) ∧
    node_is_asking_for_failover_lock_status admittedCluster 0 2
      = some (FAILOVER_RES_NO_LOCKHOLDER_BUT_WAIT, admittedCluster) ∧
    node_is_asking_for_failover_lock_status admittedCluster 0 9
      = some (FAILOVER_RES_NO_LOCKHOLDER, admittedCluster) := by
  obtain ⟨r1, e1, h1, _, _⟩ :=
    node_is_asking_for_failover_lock_status_spec lockedCluster 0 2 rfl rfl (by decide)
  obtain ⟨r2, e2, h2, _, _⟩ :=
    node_is_asking_for_failover_lock_status_spec lockedCluster 1 2 rfl rfl (by decide)
  obtain ⟨r3, e3, _, h3, _⟩ :=
    node_is_asking_for_failover_lock_status_spec admittedCluster 0 2 rfl rfl (by decide)
  obtain ⟨r4, e4, _, _, h4⟩ :=
    node_is_asking_for_failover_lock_status_spec admittedCluster 0 9 rfl rfl (by decide)
  have q1 : r1 = FAILOVER_RES_LOCKED := (h1 (by decide)).1 rfl
  have q2 : r2 = FAILOVER_RES_UNLOCKED := (h2 (by decide)).2 rfl
  have q3 : r3 = FAILOVER_RES_NO_LOCKHOLDER_BUT_WAIT := h3.mpr ⟨rfl, _, List.mem_cons_self _ _, rfl⟩
  have q4 : r4 = FAILOVER_RES_NO_LOCKHOLDER := h4 rfl (by decide)
  subst q1 q2 q3 q4
  exact ⟨e1, e2, e3, e4⟩

/-! ## Frames of sending and of issuing a cluster command -/

theorem NodesFrame_refl (c : wd_cluster) : NodesFrame c c := rfl

theorem NodesFrame_trans {c c1 c2 : wd_cluster} (h12 : NodesFrame c c1)
    (h23 : NodesFrame c1 c2) : NodesFrame c c2 := by
  unfold NodesFrame at *
  rw [h23, h12]

theorem NodesFrame_set_node (c : wd_cluster) (ref : NodeRef) (n : WatchdogNode) :
    NodesFrame c (set_node c ref n) := by
  cases ref <;> rfl

theorem NodesFrame_clusterCommands {c c1 : wd_cluster} (h : NodesFrame c c1) :
    c1.clusterCommands = c.clusterCommands := by
  rw [h]

theorem WorldFrame_refl (w : World) : WorldFrame w w :=
  ⟨SendFrame_refl w, NodesFrame_refl _, rfl⟩

theorem WorldFrame_trans {w1 w2 w3 : World} (h12 : WorldFrame w1 w2)
    (h23 : WorldFrame w2 w3) : WorldFrame w1 w3 :=
  ⟨SendFrame_trans h12.1 h23.1, NodesFrame_trans h12.2.1 h23.2.1, h23.2.2.trans h12.2.2⟩

theorem send_message_to_node_wframe (w : World) (ref : NodeRef) (pkt : WDPacketData) :
    WorldFrame w (send_message_to_node w ref pkt).2 := by
  refine ⟨send_message_to_node_frame w ref pkt, ?_, ?_⟩
  · unfold send_message_to_node
    cases hg : get_node w.cluster ref with
    | none => exact NodesFrame_refl _
    | some n => exact NodesFrame_set_node _ _ _
  · unfold send_message_to_node
    cases hg : get_node w.cluster ref with
    | none => rfl
    | some n => rfl

theorem send_message_step_wframe (pkt : WDPacketData) (acc : Int × World) (i : Nat) :
    WorldFrame acc.2 (send_message_step pkt acc i).2 := by
  unfold send_message_step
  split
  · exact WorldFrame_refl _
  · split
    · dsimp only
      split
      · exact send_message_to_node_wframe _ _ _
      · exact send_message_to_node_wframe _ _ _
    · exact WorldFrame_refl _

theorem send_message_wframe (w : World) (wdNode : Option NodeRef) (pkt : WDPacketData) :
    WorldFrame w (send_message w wdNode pkt).2 := by
  unfold send_message
  split
  · exact WorldFrame_refl _
  · dsimp only
    split
    · exact send_message_to_node_wframe _ _ _
    · exact send_message_to_node_wframe _ _ _
  · have key : ∀ (l : List Nat) (acc : Int × World),
        WorldFrame acc.2 (l.foldl (send_message_step pkt) acc).2 := by
      intro l
      induction l with
      | nil => intro acc; exact WorldFrame_refl _
      | cons i l ih =>
        intro acc
        rw [List.foldl_cons]
        exact WorldFrame_trans (send_message_step_wframe pkt acc i) (ih _)
    exact key _ (0, w)

/-- Replacing the cluster by one in the node frame of the old one is a step in the world
frame. -/
theorem WorldFrame_of_cluster (w : World) (c1 : wd_cluster) (h : NodesFrame w.cluster c1)
    (hl : c1.localNode = w.cluster.localNode) (hr : c1.remoteNodes = w.cluster.remoteNodes) :
    WorldFrame w { w with cluster := c1 } := by
  refine ⟨⟨?_, ?_, ?_, ?_, ?_, ?_, rfl, [], by simp⟩, h, rfl⟩
  all_goals first
    | (show c1.localNode.state = _; rw [hl])
    | (show c1.remoteNodes.map _ = _; rw [hr])
    | (show _ = _; rw [h])

theorem get_minimum_message_wframe (w : World) (type : Byte) (replyFor : Option WDPacketData) :
    WorldFrame w { w with cluster := (get_minimum_message w.cluster type replyFor).2 } := by
  apply WorldFrame_of_cluster
  · cases replyFor <;> rfl
  · cases replyFor <;> rfl
  · cases replyFor <;> rfl

theorem get_mynode_info_message_wframe (ext : WDExternals) (w : World)
    (replyFor : Option WDPacketData) :
    WorldFrame w { w with cluster := (get_mynode_info_message ext w.cluster replyFor).2 } := by
  apply WorldFrame_of_cluster
  · cases replyFor <;> rfl
  · cases replyFor <;> rfl
  · cases replyFor <;> rfl

theorem get_addnode_message_wframe (ext : WDExternals) (w : World) :
    WorldFrame w { w with cluster := (get_addnode_message ext w.cluster).2 } :=
  WorldFrame_of_cluster _ _ rfl rfl rfl

theorem get_message_of_type_wframe (ext : WDExternals) (w : World) (type : Byte)
    (m : WDPacketData × wd_cluster) (h : get_message_of_type ext w.cluster type = some m) :
    WorldFrame w { w with cluster := m.2 } := by
  unfold get_message_of_type at h
  split at h
  · cases h; exact get_mynode_info_message_wframe ext w none
  · split at h
    · cases h; exact get_addnode_message_wframe ext w
    · split at h
      · cases h; exact get_minimum_message_wframe w type none
      · cases h

theorem reply_with_minimal_message_wframe (w : World) (wdNode : Option NodeRef) (type : Byte)
    (replyFor : Option WDPacketData) :
    WorldFrame w (reply_with_minimal_message w wdNode type replyFor).2 := by
  unfold reply_with_minimal_message
  exact WorldFrame_trans (get_minimum_message_wframe w type replyFor) (send_message_wframe _ _ _)

theorem send_message_of_type_wframe (ext : WDExternals) (w : World) (wdNode : Option NodeRef)
    (type : Byte) : WorldFrame w (send_message_of_type ext w wdNode type).2 := by
  unfold send_message_of_type
  cases h : get_message_of_type ext w.cluster type with
  | none => exact WorldFrame_refl _
  | some m =>
    exact WorldFrame_trans (get_message_of_type_wframe ext w type m h) (send_message_wframe _ _ _)

theorem Grows_refl (w : World) : Grows w w := ⟨⟨[], by simp⟩, ⟨[], by simp⟩, rfl⟩

theorem Grows_trans {w1 w2 w3 : World} (h12 : Grows w1 w2) (h23 : Grows w2 w3) :
    Grows w1 w3 := by
  obtain ⟨⟨e1, a1⟩, ⟨r1, b1⟩, c1⟩ := h12
  obtain ⟨⟨e2, a2⟩, ⟨r2, b2⟩, c2⟩ := h23
  refine ⟨⟨e1 ++ e2, ?_⟩, ⟨r1 ++ r2, ?_⟩, c2.trans c1⟩
  · rw [a2, a1, List.append_assoc]
  · rw [b2, b1, List.append_assoc]

theorem Grows_of_WorldFrame {w w1 : World} (h : WorldFrame w w1) : Grows w w1 := by
  obtain ⟨⟨_, _, _, _, _, hst, _, rest, htr⟩, hn, _⟩ := h
  refine ⟨⟨[], ?_⟩, ⟨rest, htr⟩, ?_⟩
  · rw [NodesFrame_clusterCommands hn]; simp
  · have := congrArg List.length hst
    simpa using this

/-! ## Issuing a cluster command -/

theorem CountsFrame_refl (cmd : WDCommandData) : CountsFrame cmd cmd := rfl

theorem CountsFrame_trans {c1 c2 c3 : WDCommandData} (h12 : CountsFrame c1 c2)
    (h23 : CountsFrame c2 c3) : CountsFrame c1 c3 := by
  unfold CountsFrame at *
  rw [h23, h12]

theorem update_nodeResult_cframe (cmd : WDCommandData) (i : Nat)
    (f : WDCommandNodeResult → WDCommandNodeResult) :
    CountsFrame cmd (update_nodeResult cmd i f) := rfl

theorem issue_internal_command_step_spec (pkt : WDPacketData)
    (acc : WDCommandData × Bool × World) (i : Nat) :
    CountsFrame acc.1 (issue_internal_command_step pkt acc i).1 ∧
    WorldFrame acc.2.2 (issue_internal_command_step pkt acc i).2.2 := by
  unfold issue_internal_command_step
  split
  · exact ⟨CountsFrame_refl _, WorldFrame_refl _⟩
  · split
    · exact ⟨CountsFrame_refl _, WorldFrame_refl _⟩
    · split
      · exact ⟨rfl, WorldFrame_refl _⟩
      · dsimp only
        split
        · exact ⟨rfl, send_message_to_node_wframe _ _ _⟩
        · exact ⟨rfl, send_message_to_node_wframe _ _ _⟩

theorem issue_internal_command_loop_spec (pkt : WDPacketData) (l : List Nat)
    (acc : WDCommandData × Bool × World) :
    CountsFrame acc.1 (l.foldl (issue_internal_command_step pkt) acc).1 ∧
    WorldFrame acc.2.2 (l.foldl (issue_internal_command_step pkt) acc).2.2 := by
  induction l generalizing acc with
  | nil => exact ⟨CountsFrame_refl _, WorldFrame_refl _⟩
  | cons i l ih =>
    rw [List.foldl_cons]
    obtain ⟨h1, h2⟩ := issue_internal_command_step_spec pkt acc i
    obtain ⟨h3, h4⟩ := ih (issue_internal_command_step pkt acc i)
    exact ⟨CountsFrame_trans h1 h3, WorldFrame_trans h2 h4⟩

theorem issue_internal_command_find_spec (wdNode : NodeRef) (l : List Nat)
    (acc : WDCommandData × Option Nat) :
    CountsFrame acc.1 (l.foldl (issue_internal_command_find wdNode) acc).1 := by
  induction l generalizing acc with
  | nil => exact CountsFrame_refl _
  | cons i l ih =>
    rw [List.foldl_cons]
    refine CountsFrame_trans ?_ (ih _)
    unfold issue_internal_command_find
    split
    · exact CountsFrame_refl _
    · exact rfl

theorem IssueFrame_of_NodesFrame {c c1 : wd_cluster} (h : NodesFrame c c1)
    (l : List WDCommandData) : IssueFrame c { c1 with clusterCommands := l } := by
  cases c1
  cases c
  simp only [NodesFrame, wd_cluster.mk.injEq, true_and] at h
  simp only [IssueFrame, wd_cluster.mk.injEq, true_and, and_true]
  obtain ⟨h1, h2, h3, h4, h5, _, h7, h8⟩ := h
  exact ⟨h1, h2, h3, h4, h5, h7, h8⟩

theorem issue_internal_command_finish_spec (wdNode : Option NodeRef) (pkt : WDPacketData)
    (w : World) (r : WDCommandData × Bool × World) (hc : IssuedCommand wdNode pkt r.1)
    (hw : WorldFrame w r.2.2) :
    SendFrame w (issue_internal_command_finish pkt r).2 ∧
    IssueFrame w.cluster (issue_internal_command_finish pkt r).2.cluster ∧
    (issue_internal_command_finish pkt r).2.connects = w.connects ∧
    ∃ cmd, (issue_internal_command_finish pkt r).2.cluster.clusterCommands
        = w.cluster.clusterCommands ++ [cmd] ∧ IssuedCommand wdNode pkt cmd := by
  obtain ⟨hs, hn, hcon⟩ := hw
  obtain ⟨a1, a2, a3, a4, a5, a6, a7, a8⟩ := hs
  unfold issue_internal_command_finish
  refine ⟨⟨a1, a2, a3, a4, a5, a6, a7, a8⟩, ?_, hcon, ?_⟩
  · exact IssueFrame_of_NodesFrame hn _
  · refine ⟨(if r.2.1 = true ∧ pkt.len > 0 then
        { r.1 with
          commandPacket :=
            { r.1.commandPacket with
              data := pkt.data.map (List.take pkt.len.toNat), len := pkt.len } }
      else r.1), ?_, ?_⟩
    · dsimp only
      rw [NodesFrame_clusterCommands hn]
    · obtain ⟨b1, b2, b3, b4, b5, b6⟩ := hc
      split
      · exact ⟨b1, b2, b3, b4, b5, b6⟩
      · exact ⟨b1, b2, b3, b4, b5, b6⟩

theorem IssuedCommand_of_cframe {wdNode : Option NodeRef} {pkt : WDPacketData}
    {c1 c2 : WDCommandData} (h : CountsFrame c1 c2) (hc : IssuedCommand wdNode pkt c1) :
    IssuedCommand wdNode pkt c2 := by
  unfold CountsFrame at h
  rw [h]
  exact hc

/-- `issue_watchdog_internal_command` sends and, unless it gives up with `-1`, appends
one record to `clusterCommands`: a command in progress with source
`COMMAND_SOURCE_LOCAL` that carries the type and the command id of the packet. -/
theorem issue_watchdog_internal_command_spec (w : World) (wdNode : Option NodeRef)
    (pkt : WDPacketData) :
    SendFrame w (issue_watchdog_internal_command w wdNode pkt).2 ∧
    IssueFrame w.cluster (issue_watchdog_internal_command w wdNode pkt).2.cluster ∧
    (issue_watchdog_internal_command w wdNode pkt).2.connects = w.connects ∧
    ((issue_watchdog_internal_command w wdNode pkt).2 = w ∨
      ∃ cmd, (issue_watchdog_internal_command w wdNode pkt).2.cluster.clusterCommands
          = w.cluster.clusterCommands ++ [cmd] ∧ IssuedCommand wdNode pkt cmd) := by
  have h0 : ∀ c : WDCommandData, IssuedCommand wdNode pkt
      (allocate_resultNodes_in_command w.cluster
        { c with
          commandSource := COMMAND_SOURCE_LOCAL, sourceWdNode := some NodeRef.localNode,
          commandPacket :=
            { type := pkt.type, command_id := pkt.command_id, len := 0, data := none },
          sendToNode := wdNode, commandSendToCount := 0, commandReplyFromCount := 0,
          commandStatus := COMMAND_IN_PROGRESS }) := by
    intro c
    unfold allocate_resultNodes_in_command
    split
    · exact ⟨rfl, rfl, rfl, rfl, rfl, rfl⟩
    · exact ⟨rfl, rfl, rfl, rfl, rfl, rfl⟩
  unfold issue_watchdog_internal_command
  cases wdNode with
  | none =>
    dsimp only
    obtain ⟨h1, h2⟩ := issue_internal_command_loop_spec pkt
      (List.range w.cluster.remoteNodes.length)
      (allocate_resultNodes_in_command w.cluster
        { create_command_object 0 with
          commandSource := COMMAND_SOURCE_LOCAL, sourceWdNode := some NodeRef.localNode,
          commandPacket :=
            { type := pkt.type, command_id := pkt.command_id, len := 0, data := none },
          sendToNode := none, commandSendToCount := 0, commandReplyFromCount := 0,
          commandStatus := COMMAND_IN_PROGRESS }, false, w)
    obtain ⟨q1, q2, q3, q4⟩ := issue_internal_command_finish_spec none pkt w _
      (IssuedCommand_of_cframe h1 (h0 _)) h2
    exact ⟨q1, q2, q3, Or.inr q4⟩
  | some target =>
    dsimp only
    have h1 := issue_internal_command_find_spec target
      (List.range w.cluster.remoteNodes.length)
      (allocate_resultNodes_in_command w.cluster
        { create_command_object 0 with
          commandSource := COMMAND_SOURCE_LOCAL, sourceWdNode := some NodeRef.localNode,
          commandPacket :=
            { type := pkt.type, command_id := pkt.command_id, len := 0, data := none },
          sendToNode := some target, commandSendToCount := 0, commandReplyFromCount := 0,
          commandStatus := COMMAND_IN_PROGRESS }, none)
    have hf := IssuedCommand_of_cframe h1 (h0 _)
    split
    · exact ⟨SendFrame_refl _, rfl, rfl, Or.inl rfl⟩
    · rename_i i hi
      split
      · refine (fun q => ⟨q.1, q.2.1, q.2.2.1, Or.inr q.2.2.2⟩)
          (issue_internal_command_finish_spec (some target) pkt w _ ?_ ?_)
        · exact IssuedCommand_of_cframe (update_nodeResult_cframe _ _ _) hf
        · exact send_message_to_node_wframe _ _ _
      · refine (fun q => ⟨q.1, q.2.1, q.2.2.1, Or.inr q.2.2.2⟩)
          (issue_internal_command_finish_spec (some target) pkt w _ ?_ ?_)
        · exact @IssuedCommand_of_cframe _ _ (update_nodeResult _ i _) _ rfl
            (IssuedCommand_of_cframe (update_nodeResult_cframe _ _ _) hf)
        · exact send_message_to_node_wframe _ _ _

/-! ## Changes of state -/

theorem Keeps_refl (w : World) : Keeps w w := ⟨Grows_refl w, rfl⟩

theorem Keeps_trans {w1 w2 w3 : World} (h12 : Keeps w1 w2) (h23 : Keeps w2 w3) :
    Keeps w1 w3 :=
  ⟨Grows_trans h12.1 h23.1, h23.2.trans h12.2⟩

theorem Keeps_of_WorldFrame {w w1 : World} (h : WorldFrame w w1) : Keeps w w1 :=
  ⟨Grows_of_WorldFrame h, h.1.2.2.2.2.1⟩

theorem issue_watchdog_internal_command_keeps (w : World) (wdNode : Option NodeRef)
    (pkt : WDPacketData) : Keeps w (issue_watchdog_internal_command w wdNode pkt).2 := by
  obtain ⟨⟨_, _, _, _, hst, hmap, _, rest, htr⟩, _, _, hcmd⟩ :=
    issue_watchdog_internal_command_spec w wdNode pkt
  refine ⟨⟨?_, ⟨rest, htr⟩, ?_⟩, hst⟩
  · rcases hcmd with h | ⟨cmd, h, _⟩
    · exact ⟨[], by rw [h]; simp⟩
    · exact ⟨[cmd], h⟩
  · have := congrArg List.length hmap
    simpa using this

theorem send_cluster_command_keeps (ext : WDExternals) (w : World) (wdNode : Option NodeRef)
    (type : Byte) : Keeps w (send_cluster_command ext w wdNode type).2 := by
  unfold send_cluster_command
  cases h : get_message_of_type ext w.cluster type with
  | none => exact Keeps_refl _
  | some m =>
    exact Keeps_trans (Keeps_of_WorldFrame (get_message_of_type_wframe ext w type m h))
      (issue_watchdog_internal_command_keeps _ _ _)

theorem watchdog_state_machine_new_outbound_connection_spec (ext : WDExternals) (w : World)
    (wdNode : NodeRef) (hs : has_state_handler w.cluster.localNode.state = true) :
    ∃ w1, watchdog_state_machine_new_outbound_connection ext w wdNode = some w1 ∧
      Keeps w w1 := by
  have hk : Keeps w (send_message { w with cluster := (get_addnode_message ext w.cluster).2 }
      (some wdNode) (get_addnode_message ext w.cluster).1).2 :=
    Keeps_of_WorldFrame
      (WorldFrame_trans (get_addnode_message_wframe ext w) (send_message_wframe _ _ _))
  unfold watchdog_state_machine_new_outbound_connection
  dsimp only
  rw [hk.2, hs]
  exact ⟨_, rfl, hk⟩

theorem try_connecting_step_spec (ext : WDExternals) (w : World) (i : Nat)
    (hs : has_state_handler w.cluster.localNode.state = true) :
    ∃ w1, try_connecting_step ext (some w) i = some w1 ∧ Keeps w w1 := by
  unfold try_connecting_step
  dsimp only
  split
  · exact ⟨_, rfl, Keeps_refl _⟩
  · rename_i wdNode hn
    split
    · split
      · exact ⟨_, rfl, Keeps_refl _⟩
      · have hk : Keeps w
            { w with
              cluster := set_node w.cluster (NodeRef.remote i)
                (connect_to_node wdNode (w.connects.headD (-1, false)))
              connects := w.connects.tail } := by
          refine ⟨⟨⟨[], by simp [set_node]⟩, ⟨[], by simp⟩, ?_⟩, rfl⟩
          simp [set_node]
        split
        · obtain ⟨w1, h1, h2⟩ := watchdog_state_machine_new_outbound_connection_spec ext
            { w with
              cluster := set_node w.cluster (NodeRef.remote i)
                (connect_to_node wdNode (w.connects.headD (-1, false)))
              connects := w.connects.tail } (NodeRef.remote i) (by rw [hk.2]; exact hs)
          exact ⟨w1, h1, Keeps_trans hk h2⟩
        · exact ⟨_, rfl, hk⟩
    · exact ⟨_, rfl, Keeps_refl _⟩

theorem try_connecting_loop_spec (ext : WDExternals) (l : List Nat) (w : World)
    (hs : has_state_handler w.cluster.localNode.state = true) :
    ∃ w1, l.foldl (try_connecting_step ext) (some w) = some w1 ∧ Keeps w w1 := by
  induction l generalizing w with
  | nil => exact ⟨w, rfl, Keeps_refl _⟩
  | cons i l ih =>
    rw [List.foldl_cons]
    obtain ⟨w1, h1, k1⟩ := try_connecting_step_spec ext w i hs
    rw [h1]
    obtain ⟨w2, h2, k2⟩ := ih w1 (by rw [k1.2]; exact hs)
    exact ⟨w2, h2, Keeps_trans k1 k2⟩

theorem watchdog_state_machine_state_changed_spec (ext : WDExternals) (w : World)
    (hs : ModelledTarget w.cluster.localNode.state) :
    ∃ w1, watchdog_state_machine_state_changed ext w = some w1 ∧ Keeps w w1 := by
  unfold watchdog_state_machine_state_changed
  rcases hs with h | h | h | h | h | h <;> rw [h] <;> dsimp only
  · unfold joining_state_changed
    obtain ⟨w1, h1, k1⟩ := try_connecting_loop_spec ext
      (List.range w.cluster.remoteNodes.length)
      { w with cluster := { w.cluster with masterNode := none } } (by
        show has_state_handler w.cluster.localNode.state = true
        rw [h]; rfl)
    have h1' : try_connecting_with_all_unreachable_nodes ext
        { w with cluster := { w.cluster with masterNode := none } } = some w1 := h1
    rw [h1']
    have k0 : Keeps w { w with cluster := { w.cluster with masterNode := none } } :=
      ⟨⟨⟨[], by simp⟩, ⟨[], by simp⟩, rfl⟩, rfl⟩
    exact ⟨_, rfl, Keeps_trans (Keeps_trans k0 k1) (send_cluster_command_keeps _ _ _ _)⟩
  · exact ⟨_, rfl, Keeps_refl _⟩
  · exact ⟨_, rfl, send_cluster_command_keeps _ _ _ _⟩
  · exact ⟨_, rfl, Keeps_refl _⟩
  · exact ⟨_, rfl, send_cluster_command_keeps _ _ _ _⟩
  · refine ⟨_, rfl, ?_⟩
    unfold standby_state_changed
    have k1 := send_cluster_command_keeps ext w w.cluster.masterNode WD_JOIN_COORDINATOR_MESSAGE
    refine Keeps_trans k1 ⟨⟨⟨[], ?_⟩, ⟨[], by simp⟩, ?_⟩, ?_⟩
    · unfold update_quorum_status
      dsimp only
      split_ifs <;> simp
    · unfold update_quorum_status
      dsimp only
      split_ifs <;> rfl
    · unfold update_quorum_status
      dsimp only
      split_ifs <;> rfl

/-- `set_state` to one of the modelled targets returns; afterwards the local node is in
the new state, the cluster commands recorded before are still at their places and the
trace has only grown. -/
theorem set_state_spec (ext : WDExternals) (w : World) (s : WD_STATES)
    (hs : ModelledTarget s) :
    ∃ w1, set_state ext w s = some w1 ∧ w1.cluster.localNode.state = s ∧ Grows w w1 := by
  unfold set_state
  dsimp only
  have g1 : Grows w
      { w with
        cluster := { w.cluster with localNode := { w.cluster.localNode with state := s } } } :=
    ⟨⟨[], by simp⟩, ⟨[], by simp⟩, rfl⟩
  split
  · have g2 : ∀ w2 : World, w2 = (if w.cluster.localNode.state = WD_COORDINATOR then
          { w with
            cluster := resign_from_escalated_node
              { w.cluster with localNode := { w.cluster.localNode with state := s } } }
        else
          { w with
            cluster :=
              { w.cluster with localNode := { w.cluster.localNode with state := s } } }) →
        Grows w w2 ∧ w2.cluster.localNode.state = s := by
      intro w2 e
      subst e
      split
      · unfold resign_from_escalated_node
        dsimp only
        split
        · exact ⟨g1, rfl⟩
        · exact ⟨⟨⟨[], by simp⟩, ⟨[], by simp⟩, rfl⟩, rfl⟩
      · exact ⟨g1, rfl⟩
    obtain ⟨g3, e3⟩ := g2 _ rfl
    obtain ⟨w3, h3, k3⟩ := watchdog_state_machine_state_changed_spec ext _ (by rw [e3]; exact hs)
    rw [h3]
    dsimp only
    have k4 := Keeps_of_WorldFrame (send_message_of_type_wframe ext w3 none WD_INFO_MESSAGE)
    refine ⟨_, rfl, ?_, Grows_trans (Grows_trans g3 k3.1) k4.1⟩
    rw [k4.2, k3.2, e3]
  · rename_i hne
    refine ⟨_, rfl, rfl, g1⟩

/-! ## The cluster command list -/

/-- A list without a record of source `COMMAND_SOURCE_IPC` answers no look-up. -/
theorem get_wd_command_from_reply_none (l : List WDCommandData) (pkt : WDPacketData)
    (h : ∀ c ∈ l, c.commandSource ≠ COMMAND_SOURCE_IPC) :
    get_wd_command_from_reply l pkt = none := by
  induction l with
  | nil => rfl
  | cons a l ih =>
    unfold get_wd_command_from_reply
    rw [if_pos (h a (List.mem_cons_self _ _))]
    exact ih fun c hc => h c (List.mem_cons_of_mem _ hc)

/-- C16, as the code behaves.  `issue_watchdog_internal_command` records its command with
source `COMMAND_SOURCE_LOCAL`, and `get_wd_command_from_reply` skips every record whose
source is not `COMMAND_SOURCE_IPC`.  So when the cluster-command list holds only records
of another source than IPC (an empty list, or records issued before), then after the
call the list has the same property, it ends in the new record (in progress, with the
type and the command id of the packet) unless the call gave up, and
`get_wd_cluster_command_from_reply` returns NULL for every incoming packet, the ones
with the command id of the new record included. -/
theorem issued_cluster_command_not_matched (w : World) (wdNode : Option NodeRef)
    (pkt : WDPacketData)
    (hold : ∀ c ∈ w.cluster.clusterCommands, c.commandSource ≠ COMMAND_SOURCE_IPC) :
    ((issue_watchdog_internal_command w wdNode pkt).2 = w ∨
      ∃ cmd, (issue_watchdog_internal_command w wdNode pkt).2.cluster.clusterCommands
          = w.cluster.clusterCommands ++ [cmd] ∧
        cmd.commandStatus = COMMAND_IN_PROGRESS ∧
        cmd.commandPacket.command_id = pkt.command_id ∧
        cmd.commandSource = COMMAND_SOURCE_LOCAL) ∧
    (∀ c ∈ (issue_watchdog_internal_command w wdNode pkt).2.cluster.clusterCommands,
      c.commandSource ≠ COMMAND_SOURCE_IPC) ∧
    ∀ reply : WDPacketData,
      get_wd_cluster_command_from_reply
        (issue_watchdog_internal_command w wdNode pkt).2.cluster reply = none := by
  obtain ⟨_, _, _, hcmd⟩ := issue_watchdog_internal_command_spec w wdNode pkt
  have hall : ∀ c ∈ (issue_watchdog_internal_command w wdNode pkt).2.cluster.clusterCommands,
      c.commandSource ≠ COMMAND_SOURCE_IPC := by
    rcases hcmd with h | ⟨cmd, h, hc⟩
    · rw [h]; exact hold
    · rw [h]
      intro c hc'
      rcases List.mem_append.mp hc' with h1 | h1
      · exact hold c h1
      · rw [List.mem_singleton] at h1
        rw [h1, hc.1]
        decide
  refine ⟨?_, hall, fun reply => get_wd_command_from_reply_none _ _ hall⟩
  rcases hcmd with h | ⟨cmd, h, hc⟩
  · exact Or.inl h
  · exact Or.inr ⟨cmd, h, hc.2.1, hc.2.2.2.1, hc.1⟩

/-- Witness of C16, as the code behaves: `masterWorld` broadcasts `declarePacket` (command
id 9); the record is in the list, in progress, and the ACCEPT reply with command id 9
finds no command. -/
theorem issued_cluster_command_not_matched_witness :
    (issue_watchdog_internal_command masterWorld none declarePacket).2.cluster.clusterCommands.map
        (fun c => (c.commandPacket.command_id, c.commandStatus))
      = [(9, COMMAND_IN_PROGRESS)] ∧
    get_wd_cluster_command_from_reply
      (issue_watchdog_internal_command masterWorld none declarePacket).2.cluster
      (minimal_reply WD_ACCEPT_MESSAGE declarePacket) = none :=
  ⟨by decide,
   (issued_cluster_command_not_matched masterWorld none declarePacket
      (fun _ h => absurd h (List.not_mem_nil _))).2.2 _⟩

/-! ## Split brain on the coordinator -/

/-- C19, as the code behaves: the coordinator `masterWorld` answers the
DECLARE_COORDINATOR message of remote node 0 with ERROR and stays in COORDINATOR; it
does not move to JOINING. -/
theorem coordinator_declare_counterexample :
    masterWorld.cluster.localNode.state = WD_COORDINATOR ∧
    declarePacket.type = WD_DECLARE_COORDINATOR_MESSAGE ∧
    (watchdog_state_machine_coordinator sampleExt masterWorld WD_EVENT_PACKET_RCV
        (some (NodeRef.remote 0)) (some declarePacket)).map
      (fun w => (w.trace, w.cluster.localNode.state)) =
      some ([Action.send (NodeRef.remote 0) (minimal_reply WD_ERROR_MESSAGE declarePacket) true],
        WD_COORDINATOR) := by
  decide

/-- C19 amended. A node in COORDINATOR state that receives an IAM_COORDINATOR packet
from a peer replies ERROR to the peer and moves to JOINING; when it receives a
DECLARE_COORDINATOR packet from a peer it replies ERROR, sends nothing else and stays
in COORDINATOR. -/
theorem coordinator_split_brain (ext : WDExternals) (w : World) (i : Nat) (peer : WatchdogNode)
    (p : WDPacketData)
    (hpeer : w.cluster.remoteNodes[i]? = some peer)
    (hstate : w.cluster.localNode.state = WD_COORDINATOR) :
    (p.type = WD_IAM_COORDINATOR_MESSAGE →
      ∃ w1, watchdog_state_machine_coordinator ext w WD_EVENT_PACKET_RCV
          (some (NodeRef.remote i)) (some p) = some w1 ∧
        w1.cluster.localNode.state = WD_JOINING ∧
        ∃ ok rest, w1.trace = w.trace ++
          Action.send (NodeRef.remote i) (minimal_reply WD_ERROR_MESSAGE p) ok :: rest) ∧
    (p.type = WD_DECLARE_COORDINATOR_MESSAGE →
      ∃ w1, watchdog_state_machine_coordinator ext w WD_EVENT_PACKET_RCV
          (some (NodeRef.remote i)) (some p) = some w1 ∧
        w1.cluster.localNode.state = WD_COORDINATOR ∧
        ∃ ok, w1.trace = w.trace ++
          [Action.send (NodeRef.remote i) (minimal_reply WD_ERROR_MESSAGE p) ok]) := by
  obtain ⟨⟨ok, htr⟩, hloc⟩ := reply_with_minimal_message_remote w i WD_ERROR_MESSAGE p peer hpeer
  constructor
  · intro hp
    obtain ⟨w1, h1, hs1, _, ⟨rest, hrest⟩, _⟩ := set_state_spec ext
      (reply_with_minimal_message w (some (NodeRef.remote i)) WD_ERROR_MESSAGE (some p)).2
      WD_JOINING (Or.inl rfl)
    refine ⟨w1, ?_, hs1, ok, rest, ?_⟩
    · unfold watchdog_state_machine_coordinator
      simp only [hp]
      exact h1
    · rw [hrest, htr, List.append_assoc]
      rfl
  · intro hp
    refine ⟨_, ?_, ?_, ok, htr⟩
    · unfold watchdog_state_machine_coordinator
      simp only [hp]
      rfl
    · rw [hloc]
      exact hstate

/-- Witness of C19 amended on `masterWorld`: the beacon of remote node 0 sends the node to
JOINING, its DECLARE_COORDINATOR message does not. -/
theorem coordinator_split_brain_witness :
    (∃ w1, watchdog_state_machine_coordinator sampleExt masterWorld WD_EVENT_PACKET_RCV
        (some (NodeRef.remote 0)) (some beaconPacket) = some w1 ∧
      w1.cluster.localNode.state = WD_JOINING ∧
      ∃ ok rest, w1.trace = masterWorld.trace ++
        Action.send (NodeRef.remote 0) (minimal_reply WD_ERROR_MESSAGE beaconPacket) ok :: rest) ∧
    (∃ w1, watchdog_state_machine_coordinator sampleExt masterWorld WD_EVENT_PACKET_RCV
        (some (NodeRef.remote 0)) (some declarePacket) = some w1 ∧
      w1.cluster.localNode.state = WD_COORDINATOR ∧
      ∃ ok, w1.trace = masterWorld.trace ++
        [Action.send (NodeRef.remote 0) (minimal_reply WD_ERROR_MESSAGE declarePacket) ok]) :=
  ⟨(coordinator_split_brain sampleExt masterWorld 0 _ beaconPacket rfl rfl).1 rfl,
   (coordinator_split_brain sampleExt masterWorld 0 _ declarePacket rfl rfl).2 rfl⟩

/-! ## The next state after INITIALIZING -/

/-- When the coordinator handles the loss of a remote node, the quorum status is
recomputed, and if it is `-1` the node is not escalated afterwards and does not hold the
virtual IP (a node holds the virtual IP only while it is escalated). -/
theorem coordinator_remote_node_lost (ext : WDExternals) (w : World)
    (wdNode : Option NodeRef) (pkt : Option WDPacketData)
    (hvip : w.cluster.holding_vip = true → w.cluster.escalated = true) :
    ∃ w1, watchdog_state_machine_coordinator ext w WD_EVENT_REMOTE_NODE_LOST wdNode pkt
        = some w1 ∧
      w1.cluster.quorum_status = (update_quorum_status w.cluster).1 ∧
      (w1.cluster.quorum_status = -1 →
        w1.cluster.escalated = false ∧ w1.cluster.holding_vip = false) := by
  have he : (update_quorum_status w.cluster).2.escalated = w.cluster.escalated := by
    unfold update_quorum_status
    dsimp only
    split_ifs <;> rfl
  have hv : (update_quorum_status w.cluster).2.holding_vip = w.cluster.holding_vip := by
    unfold update_quorum_status
    dsimp only
    split_ifs <;> rfl
  unfold watchdog_state_machine_coordinator
  dsimp only
  split
  · rename_i hq
    refine ⟨_, rfl, ?_, fun _ => ?_⟩
    · unfold resign_from_escalated_node
      split <;> rfl
    · unfold resign_from_escalated_node
      split
      · rename_i hesc
        refine ⟨hesc, ?_⟩
        rw [he] at hesc
        rw [hv]
        cases hh : w.cluster.holding_vip with
        | false => rfl
        | true => rw [hvip hh] at hesc; cases hesc
      · exact ⟨rfl, rfl⟩
  · rename_i hq
    exact ⟨_, rfl, rfl, fun h => absurd h hq⟩

/-- Why the announced states matter.  Were INFO messages to reach the escalated
coordinator `escalatedWorld` (two peers, quorum status 1, holding the virtual IP) in which
its two peers announce the state LOST, which no node running this code sends, the records
would turn inactive with the quorum status still 1; the request for the node list would
then recompute the quorum status to `-1` without de-escalating. -/
theorem quorum_lost_without_deescalation :
    ((watchdog_state_machine_coordinator sampleExt escalatedWorld WD_EVENT_PACKET_RCV
        (some (NodeRef.remote 0)) (some lostInfoPacket)).bind fun w1 =>
      watchdog_state_machine_coordinator sampleExt w1 WD_EVENT_PACKET_RCV
        (some (NodeRef.remote 1)) (some lostInfoPacket)).map
      (fun w2 =>
        ((w2.cluster.remoteNodes.map WatchdogNode.state, w2.cluster.quorum_status),
         ((get_node_list_json w2.cluster).localNode.state,
          (get_node_list_json w2.cluster).quorum_status,
          (get_node_list_json w2.cluster).escalated,
          (get_node_list_json w2.cluster).holding_vip)))
      = some (([WD_LOST, WD_LOST], 1), (WD_COORDINATOR, -1, true, true)) := by
  decide

/-! ## The lock holder -/

/-- A failover request leaves the lock table as it was. -/
theorem process_failover_command_lock_table (ext : WDExternals) (w : World)
    (ipcCommand : WDCommandData) :
    (process_failover_command_on_coordinator ext w ipcCommand).2.2.cluster.interlockingNode
      = w.cluster.interlockingNode := by
  unfold process_failover_command_on_coordinator
  split
  · rfl
  · split
    · exact (reply_to_failove_command_frame _ _ _ _ _).2.1
    · split
      · exact (reply_to_failove_command_frame _ _ _ _ _).2.1
      · split
        · exact (reply_to_failove_command_frame _ _ _ _ _).2.1
        · split
          · exact (reply_to_failove_command_frame _ _ _ _ _).2.1
          · split
            · exact (reply_to_failove_command_frame _ _ _ _ _).2.1
            · dsimp only
              split
              · exact (reply_to_failove_command_frame _ _ _ _ _).2.1.trans
                  (send_command_packet_to_remote_nodes_frame _ _ _).2.1
              · split
                · exact (process_wd_command_function_frame _ _ _ _ _ _ _).2.1.trans
                    (send_command_packet_to_remote_nodes_frame _ _ _).2.1
                · exact (process_wd_command_function_frame _ _ _ _ _ _ _).2.1.trans
                    (send_command_packet_to_remote_nodes_frame _ _ _).2.1

/-- The holder after a start verb is the requester, if it is the master, or the holder
before. -/
theorem node_is_asking_for_failover_start_holder (c : wd_cluster) (wdNode : NodeRef) :
    (node_is_asking_for_failover_start c wdNode).2.interlockingNode.lockHolderNode
        = c.interlockingNode.lockHolderNode ∨
    (c.masterNode = some wdNode ∧
      (node_is_asking_for_failover_start c wdNode).2.interlockingNode.lockHolderNode
        = some wdNode) := by
  unfold node_is_asking_for_failover_start
  split_ifs with h1 h2
  · exact Or.inr ⟨h2, rfl⟩
  · exact Or.inl rfl
  · exact Or.inl rfl

/-- The holder after an end verb is nobody or the holder before. -/
theorem node_is_asking_for_failover_end_holder (c : wd_cluster) (wdNode : NodeRef) (F : Nat) :
    (node_is_asking_for_failover_end c wdNode F).2.interlockingNode.lockHolderNode = none ∨
    (node_is_asking_for_failover_end c wdNode F).2.interlockingNode.lockHolderNode
      = c.interlockingNode.lockHolderNode := by
  unfold node_is_asking_for_failover_end
  split_ifs
  · exact Or.inl rfl
  · exact Or.inr rfl
  · exact Or.inr rfl

/-- The release verb leaves the holder as it was. -/
theorem node_is_asking_for_failover_lock_release_holder (c : wd_cluster) (wdNode : NodeRef)
    (failoverLock : Int) (r : WDFailoverCMDResults × wd_cluster)
    (h : node_is_asking_for_failover_lock_release c wdNode failoverLock = some r) :
    r.2.interlockingNode.lockHolderNode = c.interlockingNode.lockHolderNode := by
  unfold node_is_asking_for_failover_lock_release at h
  split_ifs at h <;> simp only [Option.some.injEq] at h <;> subst h <;> rfl

/-- The status verb leaves the cluster as it was. -/
theorem node_is_asking_for_failover_lock_status_cluster (c : wd_cluster) (failoverLock : Int)
    (failoverID : Nat) (r : WDFailoverCMDResults × wd_cluster)
    (h : node_is_asking_for_failover_lock_status c failoverLock failoverID = some r) :
    r.2 = c := by
  unfold node_is_asking_for_failover_lock_status at h
  split_ifs at h
  all_goals repeat' split at h
  all_goals cases h <;> rfl

/-- The start verb answers I_AM_LOCK_HOLDER exactly when it makes the requester the
holder; otherwise the holder is the one before. -/
theorem node_is_asking_for_failover_start_granted (c : wd_cluster) (wdNode : NodeRef) :
    ((node_is_asking_for_failover_start c wdNode).1 = FAILOVER_RES_I_AM_LOCK_HOLDER ∧
      (node_is_asking_for_failover_start c wdNode).2.interlockingNode.lockHolderNode
        = some wdNode) ∨
    ((node_is_asking_for_failover_start c wdNode).1 ≠ FAILOVER_RES_I_AM_LOCK_HOLDER ∧
      (node_is_asking_for_failover_start c wdNode).2.interlockingNode.lockHolderNode
        = c.interlockingNode.lockHolderNode) := by
  unfold node_is_asking_for_failover_start
  split_ifs with h1 h2
  · exact Or.inl ⟨rfl, rfl⟩
  · exact Or.inr ⟨(by intro h; cases h), rfl⟩
  · exact Or.inr ⟨(by intro h; cases h), rfl⟩

/-- Counterexample to C11 as worded.  `masterWorld` is a coordinator that records itself as
master and whose lock table is free.  After it has admitted the failover request for the
degeneration of node 1 (the object with id 2 is in the registry and no end verb has
come), the lock holder is still empty, not the coordinator: admission does not touch
the lock table, the lock is taken only by the start verb that follows.  And on
`coordinatorWorld`, in COORDINATOR state with the master pointer not set yet, the INFO
message in which remote node 0 announces COORDINATOR makes that node the master pointer
and leaves the local state as it is; the failover is admitted, the start verb of remote
node 0 is answered I_AM_LOCK_HOLDER, and the holder is remote node 0. -/
theorem admitted_failover_lock_holder_counterexample :
    masterWorld.cluster.localNode.state = WD_COORDINATOR ∧
    masterWorld.cluster.masterNode = some NodeRef.localNode ∧
    (process_failover_command_on_coordinator sampleExt masterWorld
        (ipcFailoverCommand [68, 1] 11)).2.2.cluster.wdCurrentFailovers
      = [{ reqKind := NODE_DOWN_REQUEST, failoverID := 2, nodeList := [1],
           wdRequestingNode := NodeRef.localNode }] ∧
    (process_failover_command_on_coordinator sampleExt masterWorld
        (ipcFailoverCommand [68, 1] 11)).2.2.cluster.interlockingNode.lockHolderNode = none ∧
    (process_failover_command_on_coordinator sampleExt masterWorld
        (ipcFailoverCommand [68, 1] 11)).2.2.cluster.interlockingNode.lockHolderNode
      ≠ some NodeRef.localNode ∧
    coordinatorWorld.cluster.localNode.state = WD_COORDINATOR ∧
    coordinatorWorld.cluster.masterNode = none ∧
    (standard_packet_processor sampleExt coordinatorWorld (NodeRef.remote 0)
        coordinatorInfoPacket).map
      (fun w => (w.cluster.localNode.state, w.cluster.masterNode))
      = some (WD_COORDINATOR, some (NodeRef.remote 0)) ∧
    (standard_packet_processor sampleExt coordinatorWorld (NodeRef.remote 0)
        coordinatorInfoPacket).map
      (fun w =>
        ((process_failover_command_on_coordinator sampleExt w
            (ipcFailoverCommand [68, 1] 11)).2.2.cluster.wdCurrentFailovers.map
           WDFailoverObject.failoverID,
         (node_is_asking_for_failover_start
            (process_failover_command_on_coordinator sampleExt w
              (ipcFailoverCommand [68, 1] 11)).2.2.cluster (NodeRef.remote 0)).1,
         (node_is_asking_for_failover_start
            (process_failover_command_on_coordinator sampleExt w
              (ipcFailoverCommand [68, 1] 11)).2.2.cluster
            (NodeRef.remote 0)).2.interlockingNode.lockHolderNode))
      = some ([2], FAILOVER_RES_I_AM_LOCK_HOLDER, some (NodeRef.remote 0)) := by
  decide

/-- C11, amended.  At every point reached from a free lock table by start, end, release
and status verbs from any nodes, failover requests and other activity of the event loop,
so in particular at every point between the admission of a failover object and the end
verb that removes it, the lock table's lockHolder is either empty or a node whose start
request was answered I_AM_LOCK_HOLDER; when no node but the coordinator itself was given
that answer, the holder is either empty or the coordinator itself.  A start request is
answered I_AM_LOCK_HOLDER only on a node in COORDINATOR state whose master pointer names
the requester. -/
theorem lock_holder_empty_or_granted (ext : WDExternals) (granted : List NodeRef) (w : World)
    (h : LockReachable ext granted w) :
    (w.cluster.interlockingNode.lockHolderNode = none ∨
      ∃ n ∈ granted, w.cluster.interlockingNode.lockHolderNode = some n) ∧
    ((∀ n ∈ granted, n = NodeRef.localNode) →
      w.cluster.interlockingNode.lockHolderNode = none ∨
      w.cluster.interlockingNode.lockHolderNode = some NodeRef.localNode) ∧
    (∀ (c : wd_cluster) (wdNode : NodeRef),
      (node_is_asking_for_failover_start c wdNode).1 = FAILOVER_RES_I_AM_LOCK_HOLDER →
      c.localNode.state = WD_COORDINATOR ∧ c.masterNode = some wdNode) := by
  have key : w.cluster.interlockingNode.lockHolderNode = none ∨
      ∃ n ∈ granted, w.cluster.interlockingNode.lockHolderNode = some n := by
    induction h with
    | init w h => exact Or.inl h
    | lock_start granted w wdNode _ ih =>
      rcases node_is_asking_for_failover_start_granted w.cluster wdNode with ⟨h1, h2⟩ | ⟨h1, h2⟩
      · right
        rw [if_pos h1]
        exact ⟨wdNode, List.mem_cons_self _ _, h2⟩
      · rw [if_neg h1]
        show (node_is_asking_for_failover_start w.cluster wdNode).2.interlockingNode.lockHolderNode
            = none ∨ ∃ n ∈ granted,
          (node_is_asking_for_failover_start w.cluster wdNode).2.interlockingNode.lockHolderNode
            = some n
        rw [h2]; exact ih
    | lock_end granted w wdNode F _ ih =>
      rcases node_is_asking_for_failover_end_holder w.cluster wdNode F with h | h
      · exact Or.inl h
      · show (node_is_asking_for_failover_end w.cluster wdNode F).2.interlockingNode.lockHolderNode
            = none ∨ ∃ n ∈ granted,
          (node_is_asking_for_failover_end w.cluster wdNode F).2.interlockingNode.lockHolderNode
            = some n
        rw [h]; exact ih
    | lock_release granted w wdNode failoverLock r _ hr ih =>
      show r.2.interlockingNode.lockHolderNode = none ∨
        ∃ n ∈ granted, r.2.interlockingNode.lockHolderNode = some n
      rw [node_is_asking_for_failover_lock_release_holder _ _ _ _ hr]; exact ih
    | lock_status granted w failoverLock failoverID r _ hr ih =>
      show r.2.interlockingNode.lockHolderNode = none ∨
        ∃ n ∈ granted, r.2.interlockingNode.lockHolderNode = some n
      rw [node_is_asking_for_failover_lock_status_cluster _ _ _ _ hr]; exact ih
    | request granted w ipcCommand _ ih =>
      rw [process_failover_command_lock_table]; exact ih
    | other granted w w1 _ hlock ih =>
      rw [hlock]; exact ih
  refine ⟨key, fun hall => ?_, fun c wdNode hg => ?_⟩
  · rcases key with h | ⟨n, hn, h⟩
    · exact Or.inl h
    · right
      rw [h, hall n hn]
  · unfold node_is_asking_for_failover_start at hg
    split_ifs at hg with h1 h2
    exact ⟨h1, h2⟩

/-- The history of `lockedWorld`: only the local node was granted the lock. -/
theorem lockedWorld_reachable : LockReachable sampleExt [NodeRef.localNode] lockedWorld :=
  LockReachable.lock_start [NodeRef.localNode]
       { (process_failover_command_on_coordinator sampleExt masterWorld
            (ipcFailoverCommand [68, 1] 11)).2.2 with
          cluster :=
            (node_is_asking_for_failover_start
              (process_failover_command_on_coordinator sampleExt masterWorld
                (ipcFailoverCommand [68, 1] 11)).2.2.cluster
              NodeRef.localNode).2 }
       (NodeRef.remote 0)
       (LockReachable.lock_start [] _ NodeRef.localNode
         (LockReachable.request [] masterWorld (ipcFailoverCommand [68, 1] 11)
           (LockReachable.init masterWorld rfl)))

/-- Witness of C11, amended: on `masterWorld` the failover for node 1 is admitted (no holder
yet), the coordinator sends its start verb and becomes the holder, remote node 0 asks for
the lock and is refused, and the coordinator is the holder at that point. -/
theorem lock_holder_empty_or_granted_witness :
    lockedWorld.cluster.interlockingNode.lockHolderNode = some NodeRef.localNode ∧
    (lockedWorld.cluster.interlockingNode.lockHolderNode = none ∨
      ∃ n ∈ [NodeRef.localNode], lockedWorld.cluster.interlockingNode.lockHolderNode = some n) ∧
    ((∀ n ∈ [NodeRef.localNode], n = NodeRef.localNode) →
      lockedWorld.cluster.interlockingNode.lockHolderNode = none ∨
      lockedWorld.cluster.interlockingNode.lockHolderNode = some NodeRef.localNode) ∧
    (∀ (c : wd_cluster) (wdNode : NodeRef),
      (node_is_asking_for_failover_start c wdNode).1 = FAILOVER_RES_I_AM_LOCK_HOLDER →
      c.localNode.state = WD_COORDINATOR ∧ c.masterNode = some wdNode) :=
  ⟨by decide,
   lock_holder_empty_or_granted sampleExt [NodeRef.localNode] lockedWorld lockedWorld_reachable⟩

/-! ## Replies to a cluster command -/

/-- The record `get_wd_command_from_reply` returns is kept at the position
`get_wd_command_index_from_reply` returns. -/
theorem get_wd_command_index_from_reply_spec (l : List WDCommandData) (pkt : WDPacketData)
    (cmd : WDCommandData) (h : get_wd_command_from_reply l pkt = some cmd) :
    ∃ idx, get_wd_command_index_from_reply l pkt = some idx ∧ l[idx]? = some cmd := by
  induction l with
  | nil => simp [get_wd_command_from_reply] at h
  | cons a l ih =>
    unfold get_wd_command_from_reply at h
    unfold get_wd_command_index_from_reply
    split_ifs at h ⊢ with h1 h2
    · obtain ⟨idx, hi, hg⟩ := ih h
      exact ⟨idx + 1, by simp [hi], by simpa using hg⟩
    · cases h
      exact ⟨0, rfl, by simp⟩
    · obtain ⟨idx, hi, hg⟩ := ih h
      exact ⟨idx + 1, by simp [hi], by simpa using hg⟩

/-- A write to a slot that keeps the owner of the slot keeps the owners of all slots. -/
theorem update_nodeResult_owners (cmd : WDCommandData) (i : Nat)
    (f : WDCommandNodeResult → WDCommandNodeResult) (hf : ∀ s, (f s).wdNode = s.wdNode) :
    ((update_nodeResult cmd i f).nodeResults.getD []).map WDCommandNodeResult.wdNode
      = (cmd.nodeResults.getD []).map WDCommandNodeResult.wdNode := by
  unfold update_nodeResult
  cases hn : cmd.nodeResults with
  | none => rfl
  | some rs =>
    simp only [Option.map_some', Option.getD_some]
    split
    · rename_i s hs
      apply List.ext_getElem?
      intro j
      simp only [List.getElem?_map, List.getElem?_set]
      split_ifs with hij hlt
      · subst hij
        simp [hs, hf]
      · subst hij
        rw [List.getElem?_eq_none (by omega)] at hs
        cases hs
      · rfl
    · rfl

/-- A write to a slot changes nothing in the record but the slots. -/
theorem update_nodeResult_rest (cmd : WDCommandData) (i : Nat)
    (f : WDCommandNodeResult → WDCommandNodeResult) :
    update_nodeResult cmd i f
      = { cmd with nodeResults := (update_nodeResult cmd i f).nodeResults } := rfl

/-- One round of the slot loop of the reply processor. -/
theorem internal_command_reply_step_spec (wdNode : NodeRef) (c : WDCommandData)
    (o : Option Nat) (i : Nat) :
    (internal_command_reply_step wdNode (c, o) i).1
      = { c with nodeResults := (internal_command_reply_step wdNode (c, o) i).1.nodeResults } ∧
    (((internal_command_reply_step wdNode (c, o) i).1.nodeResults.getD []).map
        WDCommandNodeResult.wdNode
      = (c.nodeResults.getD []).map WDCommandNodeResult.wdNode) ∧
    (o ≠ none → (internal_command_reply_step wdNode (c, o) i).2 ≠ none) ∧
    (((c.nodeResults.getD []).map WDCommandNodeResult.wdNode)[i]? = some wdNode →
      (internal_command_reply_step wdNode (c, o) i).2 ≠ none) := by
  unfold internal_command_reply_step
  cases o with
  | some j => exact ⟨rfl, rfl, fun h => h, fun _ => by simp⟩
  | none =>
    simp only []
    cases hs : (c.nodeResults.getD [])[i]? with
    | none =>
      refine ⟨rfl, rfl, fun h => absurd rfl h, fun h => ?_⟩
      rw [List.getElem?_map, hs] at h
      cases h
    | some s =>
      refine ⟨rfl, update_nodeResult_owners _ _ _ (fun _ => rfl), fun h => absurd rfl h,
        fun h => ?_⟩
      rw [List.getElem?_map, hs] at h
      simp only [Option.map_some', Option.some.injEq] at h
      simp [h]

/-- The slot loop of the reply processor changes only slots, keeps their owners, and
stops at a slot of the replying node if there is one among those it walks over. -/
theorem internal_command_reply_loop (wdNode : NodeRef) (l : List Nat)
    (acc : WDCommandData × Option Nat) :
    (l.foldl (internal_command_reply_step wdNode) acc).1
      = { acc.1 with
          nodeResults := (l.foldl (internal_command_reply_step wdNode) acc).1.nodeResults } ∧
    (((l.foldl (internal_command_reply_step wdNode) acc).1.nodeResults.getD []).map
        WDCommandNodeResult.wdNode
      = (acc.1.nodeResults.getD []).map WDCommandNodeResult.wdNode) ∧
    (acc.2 ≠ none → (l.foldl (internal_command_reply_step wdNode) acc).2 ≠ none) ∧
    ((∃ i ∈ l, ((acc.1.nodeResults.getD []).map WDCommandNodeResult.wdNode)[i]? = some wdNode) →
      (l.foldl (internal_command_reply_step wdNode) acc).2 ≠ none) := by
  induction l generalizing acc with
  | nil => exact ⟨rfl, rfl, fun h => h, fun ⟨i, hi, _⟩ => absurd hi (List.not_mem_nil i)⟩
  | cons i l ih =>
    rw [List.foldl_cons]
    obtain ⟨h1, h2, h3, h4⟩ := ih (internal_command_reply_step wdNode acc i)
    have hstep := internal_command_reply_step_spec wdNode acc.1 acc.2 i
    obtain ⟨s1, s2, s3, s4⟩ := hstep
    refine ⟨?_, h2.trans s2, fun h => h3 (s3 h), ?_⟩
    · rw [h1, s1]
    · rintro ⟨j, hj, hown⟩
      rcases List.mem_cons.mp hj with hji | hjl
      · subst hji
        exact h3 (s4 hown)
      · exact h4 ⟨j, hjl, by rw [s2]; exact hown⟩

/-- What the reply processor does to the record of a command one of whose first
`remoteNodeCount` slots belongs to the replying node: the reply counter is incremented,
the send counter stays, a REJECT or ERROR finishes the command as NODE_REJECTED, any
other reply finishes it as ALL_REPLIED when the reply counter has reached the send
counter and leaves the status alone otherwise. -/
theorem internal_command_reply_spec (n : Nat) (wdNode : NodeRef) (pkt : WDPacketData)
    (cmd : WDCommandData)
    (hslot : ∃ i, i < n ∧
      ((cmd.nodeResults.getD []).map WDCommandNodeResult.wdNode)[i]? = some wdNode) :
    (internal_command_reply n wdNode pkt cmd).1.commandSendToCount = cmd.commandSendToCount ∧
    (internal_command_reply n wdNode pkt cmd).1.commandReplyFromCount
      = (cmd.commandReplyFromCount + 1) % 4294967296 ∧
    ((pkt.type = WD_REJECT_MESSAGE ∨ pkt.type = WD_ERROR_MESSAGE) →
      (internal_command_reply n wdNode pkt cmd).1.commandStatus = COMMAND_FINISHED_NODE_REJECTED ∧
      (internal_command_reply n wdNode pkt cmd).2 = true) ∧
    (¬ (pkt.type = WD_REJECT_MESSAGE ∨ pkt.type = WD_ERROR_MESSAGE) →
      (cmd.commandReplyFromCount + 1) % 4294967296 ≥ cmd.commandSendToCount →
      (internal_command_reply n wdNode pkt cmd).1.commandStatus = COMMAND_FINISHED_ALL_REPLIED ∧
      (internal_command_reply n wdNode pkt cmd).2 = true) ∧
    (¬ (pkt.type = WD_REJECT_MESSAGE ∨ pkt.type = WD_ERROR_MESSAGE) →
      (cmd.commandReplyFromCount + 1) % 4294967296 < cmd.commandSendToCount →
      (internal_command_reply n wdNode pkt cmd).1.commandStatus = cmd.commandStatus ∧
      (internal_command_reply n wdNode pkt cmd).2 = false) := by
  obtain ⟨h1, _, _, h4⟩ :=
    internal_command_reply_loop wdNode (List.range n) (cmd, none)
  obtain ⟨i, hi, hown⟩ := hslot
  have hfound := h4 ⟨i, List.mem_range.mpr hi, hown⟩
  have hsend : ((List.range n).foldl (internal_command_reply_step wdNode) (cmd, none)).1.commandSendToCount
      = cmd.commandSendToCount := by rw [h1]
  have hreply : ((List.range n).foldl (internal_command_reply_step wdNode) (cmd, none)).1.commandReplyFromCount
      = cmd.commandReplyFromCount := by rw [h1]
  have hstatus : ((List.range n).foldl (internal_command_reply_step wdNode) (cmd, none)).1.commandStatus
      = cmd.commandStatus := by rw [h1]
  obtain ⟨j, hf⟩ := Option.ne_none_iff_exists'.mp hfound
  unfold internal_command_reply
  simp only [hf]
  split_ifs with c1 c2 c3
  · exact ⟨hsend, congrArg (fun x => (x + 1) % 4294967296) hreply, fun _ => ⟨rfl, rfl⟩,
      fun h => absurd c2 h, fun h => absurd c2 h⟩
  · have c1' : (cmd.commandReplyFromCount + 1) % 4294967296 ≥ cmd.commandSendToCount := by
      rw [← hreply, ← hsend]; exact c1
    exact ⟨hsend, congrArg (fun x => (x + 1) % 4294967296) hreply, fun h => absurd h c2,
      fun _ _ => ⟨rfl, rfl⟩, fun _ h => absurd c1' (by omega)⟩
  · exact ⟨hsend, congrArg (fun x => (x + 1) % 4294967296) hreply, fun _ => ⟨rfl, rfl⟩,
      fun h => absurd c3 h, fun h => absurd c3 h⟩
  · have c1' : ¬ (cmd.commandReplyFromCount + 1) % 4294967296 ≥ cmd.commandSendToCount := by
      rw [← hreply, ← hsend]; exact c1
    exact ⟨hsend, congrArg (fun x => (x + 1) % 4294967296) hreply, fun h => absurd h c3,
      fun _ h => absurd h c1', fun _ _ => ⟨hstatus, rfl⟩⟩

/-- Storing a node record and the master pointer leaves the cluster commands, the trace
and the number of remote nodes alone. -/
theorem Grows_set_node (w : World) (ref : NodeRef) (n : WatchdogNode) (m : Option NodeRef) :
    Grows w { w with cluster := { set_node w.cluster ref n with masterNode := m } } := by
  cases ref with
  | localNode => exact ⟨⟨[], by simp [set_node]⟩, ⟨[], by simp⟩, rfl⟩
  | remote i => exact ⟨⟨[], by simp [set_node]⟩, ⟨[], by simp⟩, by simp [set_node]⟩

/-- An INFO message from a node of the cluster is processed by the standard processor,
which keeps the recorded cluster commands at their places. -/
theorem standard_packet_processor_info (ext : WDExternals) (w : World) (wdNode : NodeRef)
    (pkt : WDPacketData) (htype : pkt.type = WD_INFO_MESSAGE)
    (hnode : get_node w.cluster wdNode ≠ none) :
    ∃ w1, standard_packet_processor ext w wdNode pkt = some w1 ∧ Grows w w1 := by
  unfold standard_packet_processor
  rw [if_pos htype]
  cases hp : parse_node_info_message ext pkt with
  | none => exact ⟨w, rfl, Grows_refl w⟩
  | some tempNode =>
    cases hn : get_node w.cluster wdNode with
    | none => exact absurd hn hnode
    | some n =>
      simp only []
      have hjoin : ∀ c1 : wd_cluster,
          Grows w { w with cluster := { c1 with masterNode := none } } →
          ∃ w1, set_state ext { w with cluster := { c1 with masterNode := none } } WD_JOINING
            = some w1 ∧ Grows w w1 := by
        intro c1 hg
        obtain ⟨w1, h1, _, h3⟩ :=
          set_state_spec ext { w with cluster := { c1 with masterNode := none } } WD_JOINING
            (Or.inl rfl)
        exact ⟨w1, h1, Grows_trans hg h3⟩
      split_ifs
      · exact ⟨_, rfl, Grows_set_node w wdNode _ _⟩
      · exact hjoin _ (Grows_set_node w wdNode _ none)
      · exact ⟨_, rfl, by
          have := Grows_set_node w wdNode
            { n with state := tempNode.1, startup_time := tempNode.2.1,
                     wd_priority := tempNode.2.2 }
            (set_node w.cluster wdNode
              { n with state := tempNode.1, startup_time := tempNode.2.1,
                       wd_priority := tempNode.2.2 }).masterNode
          exact this⟩
      · exact hjoin _ (Grows_set_node w wdNode _ none)
      · exact ⟨_, rfl, by
          have := Grows_set_node w wdNode
            { n with state := tempNode.1, startup_time := tempNode.2.1,
                     wd_priority := tempNode.2.2 }
            (set_node w.cluster wdNode
              { n with state := tempNode.1, startup_time := tempNode.2.1,
                       wd_priority := tempNode.2.2 }).masterNode
          exact this⟩

/-- The body of `watchdog_internal_command_packet_processor` behind its look-up.  Let a
reply packet of type ERROR, ACCEPT, REJECT or INFO come from a node of the cluster, let
`get_wd_cluster_command_from_reply` return a record that is in progress (the look-up
returns records of source `COMMAND_SOURCE_IPC` only, which
`issue_watchdog_internal_command` does not store), and let one of the result slots of
the record belong to the node.  Then
`watchdog_internal_command_packet_processor` consumes the packet, increments the reply
count of the record at its place in the list and leaves the send count as it is, and:
if the reply is REJECT or ERROR, the status becomes NODE_REJECTED and the state machine
is called with COMMAND_FINISHED for the record, however the counters stand; if the reply
is ACCEPT or INFO and the reply count has reached the send count, the status becomes
ALL_REPLIED and COMMAND_FINISHED is raised; otherwise the command stays IN_PROGRESS and
COMMAND_FINISHED is not raised. -/
theorem watchdog_internal_command_packet_processor_spec (ext : WDExternals) (w : World)
    (wdNode : NodeRef) (pkt : WDPacketData) (cmd : WDCommandData)
    (hget : get_wd_cluster_command_from_reply w.cluster pkt = some cmd)
    (hprog : cmd.commandStatus = COMMAND_IN_PROGRESS)
    (hnode : get_node w.cluster wdNode ≠ none)
    (hslot : ∃ i, i < w.cluster.remoteNodes.length ∧
      ((cmd.nodeResults.getD []).map WDCommandNodeResult.wdNode)[i]? = some wdNode)
    (htype : pkt.type = WD_ERROR_MESSAGE ∨ pkt.type = WD_ACCEPT_MESSAGE ∨
      pkt.type = WD_REJECT_MESSAGE ∨ pkt.type = WD_INFO_MESSAGE) :
    ∃ (idx : Nat) (w1 : World) (cmd1 : WDCommandData) (raised : Option WDCommandData),
      w.cluster.clusterCommands[idx]? = some cmd ∧
      watchdog_internal_command_packet_processor ext w wdNode pkt = some (true, w1, raised) ∧
      w1.cluster.clusterCommands[idx]? = some cmd1 ∧
      cmd1.commandSendToCount = cmd.commandSendToCount ∧
      cmd1.commandReplyFromCount = (cmd.commandReplyFromCount + 1) % 4294967296 ∧
      ((pkt.type = WD_REJECT_MESSAGE ∨ pkt.type = WD_ERROR_MESSAGE) →
        cmd1.commandStatus = COMMAND_FINISHED_NODE_REJECTED ∧ raised = some cmd1) ∧
      ((pkt.type = WD_ACCEPT_MESSAGE ∨ pkt.type = WD_INFO_MESSAGE) →
        cmd1.commandReplyFromCount ≥ cmd1.commandSendToCount →
        cmd1.commandStatus = COMMAND_FINISHED_ALL_REPLIED ∧ raised = some cmd1) ∧
      ((pkt.type = WD_ACCEPT_MESSAGE ∨ pkt.type = WD_INFO_MESSAGE) →
        cmd1.commandReplyFromCount < cmd1.commandSendToCount →
        cmd1.commandStatus = COMMAND_IN_PROGRESS ∧ raised = none) := by
  obtain ⟨idx, hidx, hl⟩ := get_wd_command_index_from_reply_spec _ _ _ hget
  have hlt : idx < w.cluster.clusterCommands.length := by
    rcases Nat.lt_or_ge idx w.cluster.clusterCommands.length with h | h
    · exact h
    · rw [List.getElem?_eq_none h] at hl
      cases hl
  have hnot : ¬ (pkt.type ≠ WD_ERROR_MESSAGE ∧ pkt.type ≠ WD_ACCEPT_MESSAGE ∧
      pkt.type ≠ WD_REJECT_MESSAGE ∧ pkt.type ≠ WD_INFO_MESSAGE) := by
    rintro ⟨a, b, c, d⟩
    rcases htype with h | h | h | h
    · exact a h
    · exact b h
    · exact c h
    · exact d h
  have hstd : ∃ w1, (if pkt.type = WD_INFO_MESSAGE then standard_packet_processor ext w wdNode pkt
      else some w) = some w1 ∧ Grows w w1 := by
    by_cases hi : pkt.type = WD_INFO_MESSAGE
    · rw [if_pos hi]
      exact standard_packet_processor_info ext w wdNode pkt hi hnode
    · rw [if_neg hi]
      exact ⟨w, rfl, Grows_refl w⟩
  obtain ⟨w1, hw1, ⟨extra, hext⟩, _, hlen⟩ := hstd
  have hl1 : w1.cluster.clusterCommands[idx]? = some cmd := by
    rw [hext, List.getElem?_append_left hlt]
    exact hl
  have hlt1 : idx < w1.cluster.clusterCommands.length := by
    rw [hext, List.length_append]
    omega
  have hacc : ∀ t : Byte, (t = WD_ACCEPT_MESSAGE ∨ t = WD_INFO_MESSAGE) →
      ¬ (t = WD_REJECT_MESSAGE ∨ t = WD_ERROR_MESSAGE) := by
    intro t h1 h2
    rcases h1 with h | h <;> rcases h2 with h' | h' <;> rw [h] at h' <;>
      exact absurd h' (by decide)
  obtain ⟨r1, r2, r3, r4, r5⟩ :=
    internal_command_reply_spec w1.cluster.remoteNodes.length wdNode pkt cmd
      (by rw [hlen]; exact hslot)
  refine ⟨idx, { w1 with
      cluster :=
        { w1.cluster with
          clusterCommands := w1.cluster.clusterCommands.set idx
            (internal_command_reply w1.cluster.remoteNodes.length wdNode pkt cmd).1 } },
    (internal_command_reply w1.cluster.remoteNodes.length wdNode pkt cmd).1,
    (if (internal_command_reply w1.cluster.remoteNodes.length wdNode pkt cmd).2 = true
      then some (internal_command_reply w1.cluster.remoteNodes.length wdNode pkt cmd).1
      else none),
    hl, ?_, ?_, r1, r2, ?_, ?_, ?_⟩
  · unfold watchdog_internal_command_packet_processor
    rw [hidx]
    simp only [hl, hprog, ne_eq, not_true_eq_false, if_false]
    rw [if_neg hnot, hw1]
    simp only [hl1]
  · show (w1.cluster.clusterCommands.set idx _)[idx]? = _
    rw [List.getElem?_set_self hlt1]
  · intro h
    obtain ⟨a, b⟩ := r3 h
    exact ⟨a, by rw [b]; rfl⟩
  · intro h hge
    rw [r1, r2] at hge
    obtain ⟨a, b⟩ := r4 (hacc _ h) hge
    exact ⟨a, by rw [b]; rfl⟩
  · intro h hlt'
    rw [r1, r2] at hlt'
    obtain ⟨a, b⟩ := r5 (hacc _ h) hlt'
    exact ⟨a.trans hprog, by rw [b]; rfl⟩

/-- The body behind the look-up on `matchedCommandWorld`, whose only record has the
source IPC: the REJECT of remote node 0 to the command with id 9, which was sent to two
nodes and has no reply yet. -/
theorem watchdog_internal_command_packet_processor_spec_witness :
    get_wd_cluster_command_from_reply matchedCommandWorld.cluster rejectPacket
      = some matchedCommand ∧
    ∃ (idx : Nat) (w1 : World) (cmd1 : WDCommandData) (raised : Option WDCommandData),
      matchedCommandWorld.cluster.clusterCommands[idx]? = some matchedCommand ∧
      watchdog_internal_command_packet_processor sampleExt matchedCommandWorld
        (NodeRef.remote 0) rejectPacket = some (true, w1, raised) ∧
      w1.cluster.clusterCommands[idx]? = some cmd1 ∧
      cmd1.commandSendToCount = matchedCommand.commandSendToCount ∧
      cmd1.commandReplyFromCount = (matchedCommand.commandReplyFromCount + 1) % 4294967296 ∧
      ((rejectPacket.type = WD_REJECT_MESSAGE ∨ rejectPacket.type = WD_ERROR_MESSAGE) →
        cmd1.commandStatus = COMMAND_FINISHED_NODE_REJECTED ∧ raised = some cmd1) ∧
      ((rejectPacket.type = WD_ACCEPT_MESSAGE ∨ rejectPacket.type = WD_INFO_MESSAGE) →
        cmd1.commandReplyFromCount ≥ cmd1.commandSendToCount →
        cmd1.commandStatus = COMMAND_FINISHED_ALL_REPLIED ∧ raised = some cmd1) ∧
      ((rejectPacket.type = WD_ACCEPT_MESSAGE ∨ rejectPacket.type = WD_INFO_MESSAGE) →
        cmd1.commandReplyFromCount < cmd1.commandSendToCount →
        cmd1.commandStatus = COMMAND_IN_PROGRESS ∧ raised = none) :=
  ⟨by decide,
   watchdog_internal_command_packet_processor_spec sampleExt matchedCommandWorld
     (NodeRef.remote 0) rejectPacket matchedCommand (by decide) (by decide) (by decide)
     ⟨0, by decide, by decide⟩ (Or.inr (Or.inr (Or.inl rfl)))⟩

/-! ## The counters of a command record -/

/-- Replacing a list element moves one unit of a count from the old element to the new
one. -/
theorem countP_set_balance {α : Type} (p : α → Bool) (l : List α) (i : Nat) (s a : α)
    (hs : l[i]? = some s) :
    (l.set i a).countP p + (if p s = true then 1 else 0)
      = l.countP p + (if p a = true then 1 else 0) := by
  obtain ⟨hlt, hget⟩ := List.getElem?_eq_some.mp hs
  have h1 := List.countP_set p l i a hlt
  have h2 := List.boole_getElem_le_countP p l i hlt
  rw [hget] at h1 h2
  omega

/-- Two counts over exclusive properties fit in the list. -/
theorem countP_add_le_length {α : Type} (p q : α → Bool) (l : List α)
    (h : ∀ a, p a = true → q a = true → False) :
    l.countP p + l.countP q ≤ l.length := by
  induction l with
  | nil => simp
  | cons a l ih =>
    rw [List.countP_cons, List.countP_cons, List.length_cons]
    have := h a
    by_cases hp : p a = true <;> by_cases hq : q a = true <;> simp [hp, hq] <;>
      first | omega | exact absurd hq (fun hq => this hp hq)

/-- The slots after a write to an existing slot. -/
theorem update_nodeResult_slots (cmd : WDCommandData) (i : Nat)
    (f : WDCommandNodeResult → WDCommandNodeResult) (s : WDCommandNodeResult)
    (hs : (cmd.nodeResults.getD [])[i]? = some s) :
    (update_nodeResult cmd i f).nodeResults.getD [] = (cmd.nodeResults.getD []).set i (f s) := by
  unfold update_nodeResult
  cases hn : cmd.nodeResults with
  | none => rw [hn] at hs; simp at hs
  | some rs =>
    rw [hn] at hs
    simp only [Option.getD_some] at hs
    simp only [Option.map_some', Option.getD_some, hs]

/-- A write to a slot that does not exist changes nothing. -/
theorem update_nodeResult_slots_none (cmd : WDCommandData) (i : Nat)
    (f : WDCommandNodeResult → WDCommandNodeResult)
    (hs : (cmd.nodeResults.getD [])[i]? = none) :
    (update_nodeResult cmd i f).nodeResults.getD [] = cmd.nodeResults.getD [] := by
  unfold update_nodeResult
  cases hn : cmd.nodeResults with
  | none => rfl
  | some rs =>
    rw [hn] at hs
    simp only [Option.getD_some] at hs
    simp only [Option.map_some', Option.getD_some, hs]

/-- The count of a state after a slot was replaced. -/
theorem count_cmdState_set (slots : List WDCommandNodeResult) (i : Nat)
    (s x : WDCommandNodeResult) (st : WDNodeCommandState) (hs : slots[i]? = some s) :
    count_cmdState (slots.set i x) st + (if s.cmdState = st then 1 else 0)
      = count_cmdState slots st + (if x.cmdState = st then 1 else 0) := by
  have := countP_set_balance (fun s => decide (s.cmdState = st)) slots i s x hs
  simpa [count_cmdState] using this

/-- The slots in state SENT and those in state SEND_ERROR fit in the array. -/
theorem count_sent_add_error_le (slots : List WDCommandNodeResult) :
    count_cmdState slots COMMAND_STATE_SENT + count_cmdState slots COMMAND_STATE_SEND_ERROR
      ≤ slots.length := by
  apply countP_add_le_length
  intro a h1 h2
  simp only [decide_eq_true_eq] at h1 h2
  rw [h1] at h2
  cases h2

/-- A count is at most the length. -/
theorem count_cmdState_le (slots : List WDCommandNodeResult) (st : WDNodeCommandState) :
    count_cmdState slots st ≤ slots.length := List.countP_le_length _

/-- No slot of an array of slots in state INIT is in another state. -/
theorem count_cmdState_init (slots : List WDCommandNodeResult) (st : WDNodeCommandState)
    (hst : st ≠ COMMAMD_STATE_INIT)
    (h : ∀ (j : Nat) (s : WDCommandNodeResult), slots[j]? = some s →
      s.cmdState = COMMAMD_STATE_INIT) :
    count_cmdState slots st = 0 := by
  unfold count_cmdState
  rw [List.countP_eq_zero]
  intro a ha
  obtain ⟨j, hj⟩ := List.mem_iff_getElem?.mp ha
  simp only [decide_eq_true_eq]
  intro hc
  exact hst (hc.symm.trans (h j a hj))

/-- At the end of an issue loop the bookkeeping of the record is in order. -/
theorem TrackerInv_of_IssueInv (k : Nat) (cmd : WDCommandData) (h : IssueInv k cmd) :
    TrackerInv cmd := by
  obtain ⟨h1, _, h3⟩ := h
  have := count_sent_add_error_le (cmd.nodeResults.getD [])
  exact ⟨by omega, by omega, h3⟩

/-- One round of an issue loop: the record is left alone, or slot `k` is written and the
send count is incremented if the slot is marked SENT. -/
theorem IssueInv_step (k : Nat) (cmd cmd1 : WDCommandData) (h : IssueInv k cmd)
    (hcase : (cmd1.nodeResults.getD [] = cmd.nodeResults.getD [] ∧
        cmd1.commandSendToCount = cmd.commandSendToCount) ∨
      ∃ s x, (cmd.nodeResults.getD [])[k]? = some s ∧
        cmd1.nodeResults.getD [] = (cmd.nodeResults.getD []).set k x ∧
        ((x.cmdState ≠ COMMAND_STATE_SENT ∧ cmd1.commandSendToCount = cmd.commandSendToCount) ∨
         (x.cmdState = COMMAND_STATE_SENT ∧
          cmd1.commandSendToCount = (cmd.commandSendToCount + 1) % 4294967296))) :
    IssueInv (k + 1) cmd1 := by
  obtain ⟨h1, h2, h3⟩ := h
  rcases hcase with ⟨e1, e2⟩ | ⟨s, x, hs, e1, e2⟩
  · refine ⟨by rw [e1, e2]; exact h1, ?_, by rw [e1]; exact h3⟩
    intro j s hj
    rw [e1]
    exact h2 j s (by omega)
  · have hinit := h2 k s (le_refl k) hs
    have hbal := count_cmdState_set (cmd.nodeResults.getD []) k s x COMMAND_STATE_SENT hs
    rw [hinit] at hbal
    simp only [show ¬ (COMMAMD_STATE_INIT = COMMAND_STATE_SENT) by decide, if_false,
      Nat.add_zero] at hbal
    have hlen : (cmd1.nodeResults.getD []).length = (cmd.nodeResults.getD []).length := by
      rw [e1, List.length_set]
    have hle := count_cmdState_le (cmd1.nodeResults.getD []) COMMAND_STATE_SENT
    rw [e1, hbal, List.length_set] at hle
    refine ⟨?_, ?_, by rw [hlen]; exact h3⟩
    · rw [e1, hbal]
      rcases e2 with ⟨hx, hsend⟩ | ⟨hx, hsend⟩
      · rw [hsend, h1, if_neg hx, Nat.add_zero]
      · rw [if_pos hx] at hle
        rw [hsend, h1, if_pos hx, Nat.mod_eq_of_lt (by omega)]
    · intro j s1 hj hs1
      rw [e1, List.getElem?_set_ne (by omega)] at hs1
      exact h2 j s1 (by omega) hs1

/-- An issue loop over the first `k` slots, each round of which leaves the record alone or
writes the slot of its index as in `IssueInv_step`, keeps the reply count and arrives at
`IssueInv k`. -/
theorem IssueInv_loop {A : Type} (step : A → Nat → A) (proj : A → WDCommandData)
    (hstep : ∀ acc k,
      (proj (step acc k)).commandReplyFromCount = (proj acc).commandReplyFromCount ∧
      (((proj (step acc k)).nodeResults.getD [] = (proj acc).nodeResults.getD [] ∧
          (proj (step acc k)).commandSendToCount = (proj acc).commandSendToCount) ∨
        ∃ s x, ((proj acc).nodeResults.getD [])[k]? = some s ∧
          (proj (step acc k)).nodeResults.getD [] = ((proj acc).nodeResults.getD []).set k x ∧
          ((x.cmdState ≠ COMMAND_STATE_SENT ∧
              (proj (step acc k)).commandSendToCount = (proj acc).commandSendToCount) ∨
           (x.cmdState = COMMAND_STATE_SENT ∧
              (proj (step acc k)).commandSendToCount
                = ((proj acc).commandSendToCount + 1) % 4294967296))))
    (acc0 : A) (h : IssueInv 0 (proj acc0)) (k : Nat) :
    IssueInv k (proj ((List.range k).foldl step acc0)) ∧
    (proj ((List.range k).foldl step acc0)).commandReplyFromCount
      = (proj acc0).commandReplyFromCount := by
  induction k with
  | zero => exact ⟨h, rfl⟩
  | succ k ih =>
    rw [List.range_succ, List.foldl_append, List.foldl_cons, List.foldl_nil]
    obtain ⟨h1, h2⟩ := hstep ((List.range k).foldl step acc0) k
    exact ⟨IssueInv_step k _ _ ih.1 h2, h1.trans ih.2⟩

/-- A freshly allocated result array with a send count of zero. -/
theorem IssueInv_allocate (c : wd_cluster) (cmd : WDCommandData)
    (hfresh : cmd.nodeResults = none) (hsend : cmd.commandSendToCount = 0)
    (hn : c.remoteNodes.length < 2147483648) :
    IssueInv 0 (allocate_resultNodes_in_command c cmd) := by
  have hslots : (allocate_resultNodes_in_command c cmd).nodeResults.getD []
      = (List.range c.remoteNodes.length).map fun i =>
          ({ wdNode := NodeRef.remote i, cmdState := COMMAMD_STATE_INIT,
             result_type := WD_NO_MESSAGE } : WDCommandNodeResult) := by
    unfold allocate_resultNodes_in_command
    rw [hfresh]
    rfl
  have hc : (allocate_resultNodes_in_command c cmd).commandSendToCount = 0 := by
    unfold allocate_resultNodes_in_command
    rw [hfresh]
    exact hsend
  have hinit : ∀ (j : Nat) (s : WDCommandNodeResult),
      ((allocate_resultNodes_in_command c cmd).nodeResults.getD [])[j]? = some s →
      s.cmdState = COMMAMD_STATE_INIT := by
    intro j s hs
    rw [hslots, List.getElem?_map] at hs
    cases hr : (List.range c.remoteNodes.length)[j]? with
    | none => rw [hr] at hs; cases hs
    | some i =>
      rw [hr] at hs
      simp only [Option.map_some', Option.some.injEq] at hs
      rw [← hs]
  refine ⟨?_, fun j s _ hs => hinit j s hs, ?_⟩
  · rw [hc, count_cmdState_init _ _ (by decide) hinit]
  · rw [hslots, List.length_map, List.length_range]
    omega

/-- One round of the loop of `send_command_packet_to_remote_nodes`. -/
theorem send_command_packet_step_case (source_included : Bool) (acc : WDCommandData × World)
    (k : Nat) :
    (send_command_packet_step source_included acc k).1.commandReplyFromCount
      = acc.1.commandReplyFromCount ∧
    (((send_command_packet_step source_included acc k).1.nodeResults.getD []
          = acc.1.nodeResults.getD [] ∧
        (send_command_packet_step source_included acc k).1.commandSendToCount
          = acc.1.commandSendToCount) ∨
      ∃ s x, (acc.1.nodeResults.getD [])[k]? = some s ∧
        (send_command_packet_step source_included acc k).1.nodeResults.getD []
          = (acc.1.nodeResults.getD []).set k x ∧
        ((x.cmdState ≠ COMMAND_STATE_SENT ∧
            (send_command_packet_step source_included acc k).1.commandSendToCount
              = acc.1.commandSendToCount) ∨
         (x.cmdState = COMMAND_STATE_SENT ∧
            (send_command_packet_step source_included acc k).1.commandSendToCount
              = (acc.1.commandSendToCount + 1) % 4294967296))) := by
  unfold send_command_packet_step
  split
  · exact ⟨rfl, Or.inl ⟨rfl, rfl⟩⟩
  · rename_i s hs
    split
    · exact ⟨rfl, Or.inl ⟨rfl, rfl⟩⟩
    · have hset : ∀ st, (set_cmdState acc.1 k st).nodeResults.getD []
          = (acc.1.nodeResults.getD []).set k { s with cmdState := st } :=
        fun st => update_nodeResult_slots acc.1 k (fun s => { s with cmdState := st }) s hs
      dsimp only
      split_ifs
      · exact ⟨rfl, Or.inr ⟨s, _, hs, hset _, Or.inl ⟨(by intro h; cases h), rfl⟩⟩⟩
      · exact ⟨rfl, Or.inr ⟨s, _, hs, hset _, Or.inl ⟨(by intro h; cases h), rfl⟩⟩⟩
      · exact ⟨rfl, Or.inr ⟨s, _, hs, hset _, Or.inl ⟨(by intro h; cases h), rfl⟩⟩⟩
      · exact ⟨rfl, Or.inr ⟨s, _, hs, hset _, Or.inl ⟨(by intro h; cases h), rfl⟩⟩⟩
      · exact ⟨rfl, Or.inr ⟨s, _, hs, hset _, Or.inr ⟨rfl, rfl⟩⟩⟩
      · exact ⟨rfl, Or.inr ⟨s, _, hs, hset _, Or.inl ⟨(by intro h; cases h), rfl⟩⟩⟩

/-- The record `send_command_packet_to_remote_nodes` leaves from a fresh one: the
bookkeeping is in order and no reply is counted. -/
theorem send_command_packet_to_remote_nodes_counts (w : World) (cmd : WDCommandData)
    (source_included : Bool) (hfresh : cmd.nodeResults = none)
    (hn : w.cluster.remoteNodes.length < 2147483648) :
    TrackerInv (send_command_packet_to_remote_nodes w cmd source_included).2.1 ∧
    (send_command_packet_to_remote_nodes w cmd source_included).2.1.commandReplyFromCount = 0 := by
  obtain ⟨h1, h2⟩ := IssueInv_loop (send_command_packet_step source_included) (fun a => a.1)
    (send_command_packet_step_case source_included)
    (allocate_resultNodes_in_command w.cluster
      { cmd with
        commandSendToCount := 0, commandReplyFromCount := 0, commandSendToErrorCount := 0 }, w)
    (IssueInv_allocate _ _ hfresh rfl hn) w.cluster.remoteNodes.length
  refine ⟨TrackerInv_of_IssueInv _ _ h1, h2.trans ?_⟩
  show (allocate_resultNodes_in_command w.cluster _).commandReplyFromCount = 0
  unfold allocate_resultNodes_in_command
  split <;> rfl

/-- One round of the broadcast loop of `issue_watchdog_internal_command`. -/
theorem issue_internal_command_step_case (pkt : WDPacketData)
    (acc : WDCommandData × Bool × World) (k : Nat) :
    (issue_internal_command_step pkt acc k).1.commandReplyFromCount
      = acc.1.commandReplyFromCount ∧
    (((issue_internal_command_step pkt acc k).1.nodeResults.getD []
          = acc.1.nodeResults.getD [] ∧
        (issue_internal_command_step pkt acc k).1.commandSendToCount
          = acc.1.commandSendToCount) ∨
      ∃ s x, (acc.1.nodeResults.getD [])[k]? = some s ∧
        (issue_internal_command_step pkt acc k).1.nodeResults.getD []
          = (acc.1.nodeResults.getD []).set k x ∧
        ((x.cmdState ≠ COMMAND_STATE_SENT ∧
            (issue_internal_command_step pkt acc k).1.commandSendToCount
              = acc.1.commandSendToCount) ∨
         (x.cmdState = COMMAND_STATE_SENT ∧
            (issue_internal_command_step pkt acc k).1.commandSendToCount
              = (acc.1.commandSendToCount + 1) % 4294967296))) := by
  unfold issue_internal_command_step
  split
  · exact ⟨rfl, Or.inl ⟨rfl, rfl⟩⟩
  · rename_i s hs
    split
    · exact ⟨rfl, Or.inl ⟨rfl, rfl⟩⟩
    · have hset : ∀ f, (update_nodeResult acc.1 k f).nodeResults.getD []
          = (acc.1.nodeResults.getD []).set k (f s) :=
        fun f => update_nodeResult_slots acc.1 k f s hs
      dsimp only
      split_ifs
      · exact ⟨rfl, Or.inr ⟨s, _, hs, hset _, Or.inl ⟨(by intro h; cases h), rfl⟩⟩⟩
      · exact ⟨rfl, Or.inr ⟨s, _, hs, hset _, Or.inl ⟨(by intro h; cases h), rfl⟩⟩⟩
      · exact ⟨rfl, Or.inr ⟨s, _, hs, hset _, Or.inr ⟨rfl, rfl⟩⟩⟩

/-- The search loop for a single addressee keeps the slots in state INIT and the send
count, and the slot it reports exists. -/
theorem issue_internal_command_find_inv (wdNode : NodeRef) (l : List Nat)
    (acc : WDCommandData × Option Nat) (h : IssueInv 0 acc.1)
    (hi : ∀ i, acc.2 = some i → i < (acc.1.nodeResults.getD []).length) :
    IssueInv 0 (l.foldl (issue_internal_command_find wdNode) acc).1 ∧
    (∀ i, (l.foldl (issue_internal_command_find wdNode) acc).2 = some i →
      i < ((l.foldl (issue_internal_command_find wdNode) acc).1.nodeResults.getD []).length) := by
  induction l generalizing acc with
  | nil => exact ⟨h, hi⟩
  | cons k l ih =>
    rw [List.foldl_cons]
    apply ih
    · unfold issue_internal_command_find
      split
      · exact h
      · rename_i s hs
        have := IssueInv_step k acc.1 (update_nodeResult acc.1 k clear_command_node_result)
          ⟨h.1, fun j s hj => h.2.1 j s (Nat.zero_le j), h.2.2⟩
          (Or.inr ⟨s, _, hs, update_nodeResult_slots _ _ _ s hs, Or.inl ⟨(by intro h; cases h), rfl⟩⟩)
        refine ⟨this.1, ?_, this.2.2⟩
        intro j s1 _ hs1
        rw [update_nodeResult_slots _ _ _ s hs] at hs1
        by_cases hjk : k = j
        · subst hjk
          rw [List.getElem?_set_self (List.getElem?_eq_some.mp hs).1] at hs1
          cases hs1
          rfl
        · rw [List.getElem?_set_ne hjk] at hs1
          exact h.2.1 j s1 (Nat.zero_le j) hs1
    · unfold issue_internal_command_find
      split
      · exact hi
      · rename_i s hs
        intro i hfound
        rw [update_nodeResult_slots _ _ _ s hs, List.length_set]
        obtain ⟨hlt, _⟩ := List.getElem?_eq_some.mp hs
        dsimp only at hfound
        split_ifs at hfound
        · cases hfound
          exact hlt
        · exact hi i hfound

/-- The record `issue_internal_command_finish` appends has the slots and the send count
of the record it is given. -/
theorem issue_internal_command_finish_counts (pkt : WDPacketData)
    (r : WDCommandData × Bool × World) (h : TrackerInv r.1) :
    ∃ cmd0, (issue_internal_command_finish pkt r).2.cluster.clusterCommands
        = r.2.2.cluster.clusterCommands ++ [cmd0] ∧ TrackerInv cmd0 := by
  unfold issue_internal_command_finish
  refine ⟨(if r.2.1 = true ∧ pkt.len > 0 then
        { r.1 with
          commandPacket :=
            { r.1.commandPacket with
              data := pkt.data.map (List.take pkt.len.toNat), len := pkt.len } }
      else r.1), rfl, ?_⟩
  split
  · exact h
  · exact h

/-- The bookkeeping of the record `issue_watchdog_internal_command` appends is in order
and no reply is counted in it. -/
theorem issue_watchdog_internal_command_counts (w : World) (wdNode : Option NodeRef)
    (pkt : WDPacketData) (cmd : WDCommandData)
    (hn : w.cluster.remoteNodes.length < 2147483648)
    (h : (issue_watchdog_internal_command w wdNode pkt).2.cluster.clusterCommands
      = w.cluster.clusterCommands ++ [cmd]) :
    TrackerInv cmd ∧ cmd.commandReplyFromCount = 0 := by
  have hself : w.cluster.clusterCommands ≠ w.cluster.clusterCommands ++ [cmd] := by
    intro he
    have := congrArg List.length he
    simp at this
  constructor
  · have key : (issue_watchdog_internal_command w wdNode pkt).2 = w ∨
        ∃ cmd0, (issue_watchdog_internal_command w wdNode pkt).2.cluster.clusterCommands
          = w.cluster.clusterCommands ++ [cmd0] ∧ TrackerInv cmd0 := by
      have h0 : ∀ target, IssueInv 0
          (allocate_resultNodes_in_command w.cluster
            { create_command_object 0 with
              commandSource := COMMAND_SOURCE_LOCAL, sourceWdNode := some NodeRef.localNode,
              commandPacket :=
                { type := pkt.type, command_id := pkt.command_id, len := 0, data := none },
              sendToNode := target, commandSendToCount := 0, commandReplyFromCount := 0,
              commandStatus := COMMAND_IN_PROGRESS }) :=
        fun target => IssueInv_allocate _ _ rfl rfl hn
      unfold issue_watchdog_internal_command
      cases wdNode with
      | none =>
        dsimp only
        right
        obtain ⟨_, hw⟩ := issue_internal_command_loop_spec pkt
          (List.range w.cluster.remoteNodes.length)
          (allocate_resultNodes_in_command w.cluster
            { create_command_object 0 with
              commandSource := COMMAND_SOURCE_LOCAL, sourceWdNode := some NodeRef.localNode,
              commandPacket :=
                { type := pkt.type, command_id := pkt.command_id, len := 0, data := none },
              sendToNode := none, commandSendToCount := 0, commandReplyFromCount := 0,
              commandStatus := COMMAND_IN_PROGRESS }, false, w)
        obtain ⟨hI, _⟩ := IssueInv_loop (issue_internal_command_step pkt) (fun a => a.1)
          (issue_internal_command_step_case pkt)
          (allocate_resultNodes_in_command w.cluster
            { create_command_object 0 with
              commandSource := COMMAND_SOURCE_LOCAL, sourceWdNode := some NodeRef.localNode,
              commandPacket :=
                { type := pkt.type, command_id := pkt.command_id, len := 0, data := none },
              sendToNode := none, commandSendToCount := 0, commandReplyFromCount := 0,
              commandStatus := COMMAND_IN_PROGRESS }, false, w)
          (h0 none) w.cluster.remoteNodes.length
        obtain ⟨c0, hc, ht⟩ := issue_internal_command_finish_counts pkt _
          (TrackerInv_of_IssueInv _ _ hI)
        exact ⟨c0, by rw [hc, NodesFrame_clusterCommands hw.2.1], ht⟩
      | some target =>
        dsimp only
        obtain ⟨hI, hidx⟩ := issue_internal_command_find_inv target
          (List.range w.cluster.remoteNodes.length)
          (allocate_resultNodes_in_command w.cluster
            { create_command_object 0 with
              commandSource := COMMAND_SOURCE_LOCAL, sourceWdNode := some NodeRef.localNode,
              commandPacket :=
                { type := pkt.type, command_id := pkt.command_id, len := 0, data := none },
              sendToNode := some target, commandSendToCount := 0, commandReplyFromCount := 0,
              commandStatus := COMMAND_IN_PROGRESS }, none)
          (h0 (some target)) (fun i hi => by cases hi)
        split
        · exact Or.inl rfl
        · rename_i i hi
          right
          have hlt := hidx i hi
          obtain ⟨s, hs⟩ : ∃ s, (((List.range w.cluster.remoteNodes.length).foldl
              (issue_internal_command_find target)
              (allocate_resultNodes_in_command w.cluster
                { create_command_object 0 with
                  commandSource := COMMAND_SOURCE_LOCAL,
                  sourceWdNode := some NodeRef.localNode,
                  commandPacket :=
                    { type := pkt.type, command_id := pkt.command_id, len := 0, data := none },
                  sendToNode := some target, commandSendToCount := 0,
                  commandReplyFromCount := 0,
                  commandStatus := COMMAND_IN_PROGRESS }, none)).1.nodeResults.getD [])[i]?
                = some s := ⟨_, List.getElem?_eq_getElem hlt⟩
          have hIi : IssueInv i ((List.range w.cluster.remoteNodes.length).foldl
              (issue_internal_command_find target)
              (allocate_resultNodes_in_command w.cluster
                { create_command_object 0 with
                  commandSource := COMMAND_SOURCE_LOCAL,
                  sourceWdNode := some NodeRef.localNode,
                  commandPacket :=
                    { type := pkt.type, command_id := pkt.command_id, len := 0, data := none },
                  sendToNode := some target, commandSendToCount := 0,
                  commandReplyFromCount := 0,
                  commandStatus := COMMAND_IN_PROGRESS }, none)).1 :=
            ⟨hI.1, fun j s _ => hI.2.1 j s (Nat.zero_le j), hI.2.2⟩
          have hw := send_message_to_node_wframe w target pkt
          split
          · obtain ⟨c0, hc, ht⟩ := issue_internal_command_finish_counts pkt
              (update_nodeResult _ i (fun s => { s with cmdState := COMMAND_STATE_SEND_ERROR }),
                true, (send_message_to_node w target pkt).2)
              (TrackerInv_of_IssueInv _ _ (IssueInv_step i _ _ hIi
                (Or.inr ⟨s, _, hs, update_nodeResult_slots _ _ _ s hs,
                  Or.inl ⟨(by intro h; cases h), rfl⟩⟩)))
            exact ⟨c0, by rw [hc]; exact congrArg (· ++ [c0]) (NodesFrame_clusterCommands hw.2.1),
              ht⟩
          · obtain ⟨c0, hc, ht⟩ := issue_internal_command_finish_counts pkt
              ({ update_nodeResult _ i (fun s => { s with cmdState := COMMAND_STATE_SENT }) with
                 commandSendToCount := (_ + 1) % 4294967296 },
                false, (send_message_to_node w target pkt).2)
              (TrackerInv_of_IssueInv _ _ (IssueInv_step i _ _ hIi
                (Or.inr ⟨s, _, hs, update_nodeResult_slots _ _ _ s hs, Or.inr ⟨rfl, rfl⟩⟩)))
            exact ⟨c0, by rw [hc]; exact congrArg (· ++ [c0]) (NodesFrame_clusterCommands hw.2.1),
              ht⟩
    rcases key with hk | ⟨c0, hc, ht⟩
    · rw [hk] at h
      exact absurd h hself
    · rw [hc] at h
      have := List.append_cancel_left h
      simp only [List.cons.injEq, and_true] at this
      rw [← this]
      exact ht
  · obtain ⟨_, _, _, hk | ⟨c0, hc, hi⟩⟩ := issue_watchdog_internal_command_spec w wdNode pkt
    · rw [hk] at h
      exact absurd h hself
    · rw [hc] at h
      have := List.append_cancel_left h
      simp only [List.cons.injEq, and_true] at this
      rw [← this]
      exact hi.2.2.2.2.1

/-- A resend: a slot in state SEND_ERROR becomes SENT and the send count is incremented. -/
theorem TrackerInv_resend (cmd cmd1 : WDCommandData) (i : Nat) (s : WDCommandNodeResult)
    (h : TrackerInv cmd) (hs : (cmd.nodeResults.getD [])[i]? = some s)
    (hse : s.cmdState = COMMAND_STATE_SEND_ERROR)
    (hres : cmd1.nodeResults.getD []
      = (cmd.nodeResults.getD []).set i { s with cmdState := COMMAND_STATE_SENT })
    (hsend : cmd1.commandSendToCount = (cmd.commandSendToCount + 1) % 4294967296) :
    TrackerInv cmd1 ∧ cmd.commandSendToCount ≤ cmd1.commandSendToCount := by
  obtain ⟨h1, h2, h3⟩ := h
  have b1 := count_cmdState_set (cmd.nodeResults.getD []) i s
    { s with cmdState := COMMAND_STATE_SENT } COMMAND_STATE_SENT hs
  have b2 := count_cmdState_set (cmd.nodeResults.getD []) i s
    { s with cmdState := COMMAND_STATE_SENT } COMMAND_STATE_SEND_ERROR hs
  rw [hse] at b1 b2
  simp only [show ¬ (COMMAND_STATE_SEND_ERROR = COMMAND_STATE_SENT) by decide,
    show ¬ (COMMAND_STATE_SENT = COMMAND_STATE_SEND_ERROR) by decide, if_true, if_false,
    Nat.add_zero] at b1 b2
  unfold TrackerInv
  rw [hres, hsend, List.length_set, b1]
  have hm : (cmd.commandSendToCount + 1) % 4294967296 = cmd.commandSendToCount + 1 :=
    Nat.mod_eq_of_lt (by omega)
  rw [hm]
  exact ⟨⟨by omega, by omega, h3⟩, by omega⟩

/-- A write that puts a slot in a state other than SENT and SEND_ERROR. -/
theorem TrackerInv_drop (cmd cmd1 : WDCommandData) (i : Nat)
    (f : WDCommandNodeResult → WDCommandNodeResult) (h : TrackerInv cmd)
    (hf : ∀ s, (f s).cmdState ≠ COMMAND_STATE_SENT ∧ (f s).cmdState ≠ COMMAND_STATE_SEND_ERROR)
    (hres : cmd1.nodeResults.getD [] = (update_nodeResult cmd i f).nodeResults.getD [])
    (hsend : cmd1.commandSendToCount = cmd.commandSendToCount) :
    TrackerInv cmd1 := by
  obtain ⟨h1, h2, h3⟩ := h
  unfold TrackerInv
  rw [hres, hsend]
  cases hs : (cmd.nodeResults.getD [])[i]? with
  | none =>
    rw [update_nodeResult_slots_none _ _ _ hs]
    exact ⟨h1, h2, h3⟩
  | some s =>
    rw [update_nodeResult_slots _ _ _ s hs, List.length_set]
    have b1 := count_cmdState_set (cmd.nodeResults.getD []) i s (f s) COMMAND_STATE_SENT hs
    have b2 := count_cmdState_set (cmd.nodeResults.getD []) i s (f s)
      COMMAND_STATE_SEND_ERROR hs
    rw [if_neg (hf s).1] at b1
    rw [if_neg (hf s).2] at b2
    exact ⟨by omega, by omega, h3⟩

/-- A lost peer: a slot in state SENT is taken out and the send count is decremented. -/
theorem TrackerInv_lost (cmd cmd1 : WDCommandData) (i : Nat) (s : WDCommandNodeResult)
    (h : TrackerInv cmd) (hs : (cmd.nodeResults.getD [])[i]? = some s)
    (hsent : s.cmdState = COMMAND_STATE_SENT)
    (hres : cmd1.nodeResults.getD []
      = (update_nodeResult cmd i
          (fun s => { s with cmdState := COMMAND_STATE_DO_NOT_SEND })).nodeResults.getD [])
    (hsend : cmd1.commandSendToCount = (cmd.commandSendToCount + 4294967295) % 4294967296) :
    TrackerInv cmd1 := by
  obtain ⟨h1, h2, h3⟩ := h
  have b1 := count_cmdState_set (cmd.nodeResults.getD []) i s
    { s with cmdState := COMMAND_STATE_DO_NOT_SEND } COMMAND_STATE_SENT hs
  have b2 := count_cmdState_set (cmd.nodeResults.getD []) i s
    { s with cmdState := COMMAND_STATE_DO_NOT_SEND } COMMAND_STATE_SEND_ERROR hs
  rw [hsent] at b1 b2
  simp only [show ¬ (COMMAND_STATE_DO_NOT_SEND = COMMAND_STATE_SENT) by decide,
    show ¬ (COMMAND_STATE_SENT = COMMAND_STATE_SEND_ERROR) by decide,
    show ¬ (COMMAND_STATE_DO_NOT_SEND = COMMAND_STATE_SEND_ERROR) by decide, if_true, if_false,
    Nat.add_zero] at b1 b2
  unfold TrackerInv
  rw [hres, hsend, update_nodeResult_slots _ _ _ s hs, List.length_set, b2]
  refine ⟨by omega, by omega, h3⟩

/-- One round of the resend loop of `service_ipc_commands`. -/
theorem service_ipc_commands_step_inv (acc : Bool × WDCommandData × World) (i : Nat)
    (h : TrackerInv acc.2.1 ∧ acc.2.1.commandReplyFromCount ≤ acc.2.1.commandSendToCount) :
    TrackerInv (service_ipc_commands_step acc i).2.1 ∧
    (service_ipc_commands_step acc i).2.1.commandReplyFromCount
      ≤ (service_ipc_commands_step acc i).2.1.commandSendToCount := by
  unfold service_ipc_commands_step
  split_ifs with h0
  · exact h
  · split
    · exact h
    · rename_i s hs
      split_ifs with hse
      · split
        · exact h
        · dsimp only
          split_ifs
          · have := TrackerInv_resend acc.2.1
              { update_nodeResult acc.2.1 i
                  (fun s => { s with cmdState := COMMAND_STATE_SENT }) with
                commandSendToErrorCount :=
                  (acc.2.1.commandSendToErrorCount + 4294967295) % 4294967296,
                commandSendToCount := (acc.2.1.commandSendToCount + 1) % 4294967296 }
              i s h.1 hs hse (update_nodeResult_slots _ _ _ s hs) rfl
            exact ⟨this.1, le_trans h.2 this.2⟩
          · exact h
          · exact h
      · exact h

/-- The resend loop of `service_ipc_commands`. -/
theorem service_ipc_commands_loop_inv (l : List Nat) (acc : Bool × WDCommandData × World)
    (h : TrackerInv acc.2.1 ∧ acc.2.1.commandReplyFromCount ≤ acc.2.1.commandSendToCount) :
    TrackerInv (l.foldl service_ipc_commands_step acc).2.1 ∧
    (l.foldl service_ipc_commands_step acc).2.1.commandReplyFromCount
      ≤ (l.foldl service_ipc_commands_step acc).2.1.commandSendToCount := by
  induction l generalizing acc with
  | nil => exact h
  | cons i l ih =>
    rw [List.foldl_cons]
    exact ih _ (service_ipc_commands_step_inv acc i h)

/-- One round of the resend loop of `service_internal_command`. -/
theorem service_internal_command_step_inv (acc : WDCommandData × World) (i : Nat)
    (h : TrackerInv acc.1 ∧ acc.1.commandReplyFromCount ≤ acc.1.commandSendToCount) :
    TrackerInv (service_internal_command_step acc i).1 ∧
    (service_internal_command_step acc i).1.commandReplyFromCount
      ≤ (service_internal_command_step acc i).1.commandSendToCount := by
  unfold service_internal_command_step
  split
  · exact h
  · rename_i s hs
    split_ifs with hse
    · split
      · exact h
      · dsimp only
        split_ifs
        · have := TrackerInv_resend acc.1
            { update_nodeResult acc.1 i (fun s => { s with cmdState := COMMAND_STATE_SENT }) with
              commandSendToCount := (acc.1.commandSendToCount + 1) % 4294967296 }
            i s h.1 hs hse (update_nodeResult_slots _ _ _ s hs) rfl
          exact ⟨this.1, le_trans h.2 this.2⟩
        · exact h
        · exact h
    · exact h

/-- The resend loop of `service_internal_command`. -/
theorem service_internal_command_loop_inv (l : List Nat) (acc : WDCommandData × World)
    (h : TrackerInv acc.1 ∧ acc.1.commandReplyFromCount ≤ acc.1.commandSendToCount) :
    TrackerInv (l.foldl service_internal_command_step acc).1 ∧
    (l.foldl service_internal_command_step acc).1.commandReplyFromCount
      ≤ (l.foldl service_internal_command_step acc).1.commandSendToCount := by
  induction l generalizing acc with
  | nil => exact h
  | cons i l ih =>
    rw [List.foldl_cons]
    exact ih _ (service_internal_command_step_inv acc i h)

/-- A reply to an IPC command that does not finish it. -/
theorem reply_is_received_inv (ext : WDExternals) (w : World) (wdNode : NodeRef)
    (pkt : WDPacketData) (cmd : WDCommandData) (h : TrackerInv cmd ∧
      cmd.commandReplyFromCount ≤ cmd.commandSendToCount)
    (hopen : (reply_is_received_for_pgpool_replicate_command ext w wdNode pkt cmd).2.2.1
      = false) :
    TrackerInv (reply_is_received_for_pgpool_replicate_command ext w wdNode pkt cmd).2.1 ∧
    (reply_is_received_for_pgpool_replicate_command ext w wdNode pkt cmd).2.1.commandReplyFromCount
      ≤ (reply_is_received_for_pgpool_replicate_command ext w wdNode pkt
          cmd).2.1.commandSendToCount := by
  unfold reply_is_received_for_pgpool_replicate_command at hopen ⊢
  cases hf : find_nodeResult w.cluster.remoteNodes.length cmd wdNode with
  | none =>
    simp only [hf]
    exact h
  | some i =>
    simp only [hf] at hopen ⊢
    split_ifs at hopen ⊢ with c1 c2
    refine ⟨TrackerInv_drop cmd _ i _ h.1
      (fun s => ⟨(by intro h; cases h), (by intro h; cases h)⟩) rfl rfl, ?_⟩
    exact Nat.le_of_lt (Nat.lt_of_not_ge c2)

/-- The slot loop of the reply processor keeps the bookkeeping in order. -/
theorem internal_command_reply_loop_inv (wdNode : NodeRef) (l : List Nat)
    (acc : WDCommandData × Option Nat) (h : TrackerInv acc.1) :
    TrackerInv (l.foldl (internal_command_reply_step wdNode) acc).1 := by
  induction l generalizing acc with
  | nil => exact h
  | cons i l ih =>
    rw [List.foldl_cons]
    apply ih
    unfold internal_command_reply_step
    split
    · exact h
    · split
      · exact h
      · exact TrackerInv_drop acc.1 _ i clear_command_node_result h
          (fun s => ⟨(by intro h; cases h), (by intro h; cases h)⟩) rfl rfl

/-- A reply to a cluster command that does not finish it. -/
theorem internal_command_reply_inv (n : Nat) (wdNode : NodeRef) (pkt : WDPacketData)
    (cmd : WDCommandData) (h : TrackerInv cmd ∧
      cmd.commandReplyFromCount ≤ cmd.commandSendToCount)
    (hopen : (internal_command_reply n wdNode pkt cmd).2 = false) :
    TrackerInv (internal_command_reply n wdNode pkt cmd).1 ∧
    (internal_command_reply n wdNode pkt cmd).1.commandReplyFromCount
      ≤ (internal_command_reply n wdNode pkt cmd).1.commandSendToCount := by
  have hT := internal_command_reply_loop_inv wdNode (List.range n) (cmd, none) h.1
  obtain ⟨h1, _, _, _⟩ := internal_command_reply_loop wdNode (List.range n) (cmd, none)
  have hsend : ((List.range n).foldl (internal_command_reply_step wdNode)
      (cmd, none)).1.commandSendToCount = cmd.commandSendToCount := by rw [h1]
  have hreply : ((List.range n).foldl (internal_command_reply_step wdNode)
      (cmd, none)).1.commandReplyFromCount = cmd.commandReplyFromCount := by rw [h1]
  unfold internal_command_reply at hopen ⊢
  cases hf : ((List.range n).foldl (internal_command_reply_step wdNode) (cmd, none)).2 with
  | none =>
    simp only [hf]
    exact ⟨hT, by rw [hsend, hreply]; exact h.2⟩
  | some j =>
    simp only [hf] at hopen ⊢
    split_ifs at hopen ⊢ with c1 c2 c3
    refine ⟨TrackerInv_drop _ _ j _ hT
      (fun s => ⟨(by intro h; cases h), (by intro h; cases h)⟩) rfl rfl, ?_⟩
    exact Nat.le_of_lt (Nat.lt_of_not_ge c1)

/-- A lost peer that does not finish the command. -/
theorem node_lost_inv (ext : WDExternals) (w : World) (cmd : WDCommandData)
    (wdLostNode : NodeRef) (h : TrackerInv cmd ∧
      cmd.commandReplyFromCount ≤ cmd.commandSendToCount)
    (hopen : (wd_command_processor_for_node_lost_event ext w cmd wdLostNode).1
      = IPC_CMD_PROCESSING) :
    TrackerInv (wd_command_processor_for_node_lost_event ext w cmd wdLostNode).2.1 ∧
    (wd_command_processor_for_node_lost_event ext w cmd wdLostNode).2.1.commandReplyFromCount
      ≤ (wd_command_processor_for_node_lost_event ext w cmd wdLostNode).2.1.commandSendToCount := by
  unfold wd_command_processor_for_node_lost_event at hopen ⊢
  cases hst : cmd.sendToNode with
  | some t =>
    simp only [hst] at hopen ⊢
    split_ifs at hopen ⊢
    exact h
  | none =>
    simp only [hst] at hopen ⊢
    cases hfi : find_nodeResult w.cluster.remoteNodes.length cmd wdLostNode with
    | none =>
      simp only [hfi]
      exact h
    | some i =>
      simp only [hfi] at hopen ⊢
      cases hs : (cmd.nodeResults.getD [])[i]? with
      | none =>
        simp only [hs]
        exact h
      | some s =>
        simp only [hs] at hopen ⊢
        split_ifs at hopen ⊢ with hsent c
        · refine ⟨TrackerInv_lost cmd _ i s h.1 hs hsent rfl rfl, ?_⟩
          exact Nat.le_of_lt (Nat.lt_of_not_ge c)
        · exact h

/-- The bookkeeping of every tracked record is in order and its reply count does not
exceed its send count. -/
theorem Tracked_inv (ext : WDExternals) (cmd : WDCommandData) (h : Tracked ext cmd) :
    TrackerInv cmd ∧ cmd.commandReplyFromCount ≤ cmd.commandSendToCount := by
  induction h with
  | issue_ipc w cmd source_included hfresh hn =>
    obtain ⟨h1, h2⟩ := send_command_packet_to_remote_nodes_counts w cmd source_included hfresh hn
    exact ⟨h1, by rw [h2]; exact Nat.zero_le _⟩
  | issue_cluster w wdNode pkt cmd hn h =>
    obtain ⟨h1, h2⟩ := issue_watchdog_internal_command_counts w wdNode pkt cmd hn h
    exact ⟨h1, by rw [h2]; exact Nat.zero_le _⟩
  | resend_ipc w cmd _ ih =>
    unfold service_ipc_commands_resend
    split_ifs
    · exact service_ipc_commands_loop_inv _ (false, cmd, w) ih
    · exact ih
  | resend_cluster w cmd _ ih =>
    unfold service_internal_command_resend
    split_ifs
    · exact ih
    · exact service_internal_command_loop_inv _ (cmd, w) ih
  | reply_ipc w wdNode pkt cmd _ hopen ih => exact reply_is_received_inv ext w wdNode pkt cmd ih hopen
  | reply_cluster n wdNode pkt cmd _ hopen ih => exact internal_command_reply_inv n wdNode pkt cmd ih hopen
  | peer_lost w cmd wdLostNode _ hopen ih => exact node_lost_inv ext w cmd wdLostNode ih hopen

/-- C15, the counterexample: a coordinator whose only peer is active but not reachable
issues a failover command.  `send_command_packet_to_remote_nodes` leaves the record with
a send count of 0, a reply count of 0 and an error count of 1, so right after the issue
step the send count is less than the reply count plus the error count. -/
theorem command_error_count_counterexample :
    (send_command_packet_to_remote_nodes unreachablePeerWorld
        (ipcFailoverCommand [68, 1] 11) false).2.1.commandSendToCount = 0 ∧
    (send_command_packet_to_remote_nodes unreachablePeerWorld
        (ipcFailoverCommand [68, 1] 11) false).2.1.commandReplyFromCount = 0 ∧
    (send_command_packet_to_remote_nodes unreachablePeerWorld
        (ipcFailoverCommand [68, 1] 11) false).2.1.commandSendToErrorCount = 1 ∧
    ¬ ((send_command_packet_to_remote_nodes unreachablePeerWorld
          (ipcFailoverCommand [68, 1] 11) false).2.1.commandSendToCount
        ≥ (send_command_packet_to_remote_nodes unreachablePeerWorld
            (ipcFailoverCommand [68, 1] 11) false).2.1.commandReplyFromCount
          + (send_command_packet_to_remote_nodes unreachablePeerWorld
              (ipcFailoverCommand [68, 1] 11) false).2.1.commandSendToErrorCount) := by
  decide

/-- C15, amended.  For every cluster or IPC command record, from the moment it is issued
until it is finalized, commandSendToCount >= commandReplyFromCount holds after every
tracker step (issue, resend, reply, peer lost) that leaves it unfinalized, and at
finalization its status is one of ALL_REPLIED, TIMEOUT, REJECTED, SEND_FAILED: a reply
finishes a command as REJECTED or ALL_REPLIED, a lost peer as SEND_FAILED or ALL_REPLIED,
and the time-out as TIMEOUT. -/
theorem command_tracker_counts (ext : WDExternals) (cmd : WDCommandData)
    (h : Tracked ext cmd) :
    cmd.commandSendToCount ≥ cmd.commandReplyFromCount ∧
    (∀ w wdNode pkt,
      (reply_is_received_for_pgpool_replicate_command ext w wdNode pkt cmd).2.2.1 = true →
      FinalStatus
        (reply_is_received_for_pgpool_replicate_command ext w wdNode pkt cmd).2.1.commandStatus) ∧
    (∀ n wdNode pkt, (internal_command_reply n wdNode pkt cmd).2 = true →
      FinalStatus (internal_command_reply n wdNode pkt cmd).1.commandStatus) ∧
    (∀ w wdLostNode,
      (wd_command_processor_for_node_lost_event ext w cmd wdLostNode).1 ≠ IPC_CMD_PROCESSING →
      FinalStatus
        (wd_command_processor_for_node_lost_event ext w cmd wdLostNode).2.1.commandStatus) ∧
    (∀ expired c, cmd ∈ c.clusterCommands → cmd.commandStatus = COMMAND_IN_PROGRESS →
      expired cmd = true →
      ∃ cmd1 ∈ (check_for_current_command_timeout expired c).2,
        cmd1 = { cmd with commandStatus := COMMAND_FINISHED_TIMEOUT } ∧
        FinalStatus cmd1.commandStatus) := by
  refine ⟨(Tracked_inv ext cmd h).2, ?_, ?_, ?_, ?_⟩
  · intro w wdNode pkt hfin
    unfold reply_is_received_for_pgpool_replicate_command at hfin ⊢
    cases hf : find_nodeResult w.cluster.remoteNodes.length cmd wdNode with
    | none => simp [hf] at hfin
    | some i =>
      simp only [hf] at hfin ⊢
      split_ifs at hfin ⊢
      · exact Or.inr (Or.inr (Or.inl rfl))
      · exact Or.inl rfl
  · intro n wdNode pkt hfin
    unfold internal_command_reply at hfin ⊢
    cases hf : ((List.range n).foldl (internal_command_reply_step wdNode) (cmd, none)).2 with
    | none => simp [hf] at hfin
    | some j =>
      simp only [hf] at hfin ⊢
      split_ifs at hfin ⊢
      · exact Or.inr (Or.inr (Or.inl rfl))
      · exact Or.inl rfl
      · exact Or.inr (Or.inr (Or.inl rfl))
  · intro w wdLostNode hfin
    unfold wd_command_processor_for_node_lost_event at hfin ⊢
    cases hst : cmd.sendToNode with
    | some t =>
      simp only [hst] at hfin ⊢
      split_ifs at hfin ⊢
      · exact Or.inr (Or.inr (Or.inr rfl))
      · exact absurd rfl hfin
    | none =>
      simp only [hst] at hfin ⊢
      cases hfi : find_nodeResult w.cluster.remoteNodes.length cmd wdLostNode with
      | none =>
        simp only [hfi] at hfin
        exact absurd rfl hfin
      | some i =>
        simp only [hfi] at hfin ⊢
        cases hs : (cmd.nodeResults.getD [])[i]? with
        | none =>
          simp only [hs] at hfin
          exact absurd rfl hfin
        | some s =>
          simp only [hs] at hfin ⊢
          split_ifs at hfin ⊢
          · exact Or.inl rfl
          · exact absurd rfl hfin
          · exact absurd rfl hfin
  · intro expired c hmem hprog hexp
    refine ⟨{ cmd with commandStatus := COMMAND_FINISHED_TIMEOUT }, ?_, rfl,
      Or.inr (Or.inl rfl)⟩
    unfold check_for_current_command_timeout
    simp only [List.mem_map, List.mem_filter, Bool.and_eq_true, decide_eq_true_eq]
    exact ⟨cmd, ⟨hmem, hprog, hexp⟩, rfl⟩

/-- Witness of C15: `coordinatorWorld` issues the failover command for node 1 to its two
active peers and remote node 0 accepts it; the record, still open, has a send count of 2
and a reply count of 1. -/
theorem command_tracker_counts_witness :
    (reply_is_received_for_pgpool_replicate_command sampleExt coordinatorWorld
        (NodeRef.remote 0) acceptPacket
        (send_command_packet_to_remote_nodes coordinatorWorld
          (ipcFailoverCommand [68, 1] 11) false).2.1).2.2.1 = false ∧
    (reply_is_received_for_pgpool_replicate_command sampleExt coordinatorWorld
        (NodeRef.remote 0) acceptPacket
        (send_command_packet_to_remote_nodes coordinatorWorld
          (ipcFailoverCommand [68, 1] 11) false).2.1).2.1.commandSendToCount = 2 ∧
    (reply_is_received_for_pgpool_replicate_command sampleExt coordinatorWorld
        (NodeRef.remote 0) acceptPacket
        (send_command_packet_to_remote_nodes coordinatorWorld
          (ipcFailoverCommand [68, 1] 11) false).2.1).2.1.commandReplyFromCount = 1 ∧
    (reply_is_received_for_pgpool_replicate_command sampleExt coordinatorWorld
        (NodeRef.remote 0) acceptPacket
        (send_command_packet_to_remote_nodes coordinatorWorld
          (ipcFailoverCommand [68, 1] 11) false).2.1).2.1.commandSendToCount
      ≥ (reply_is_received_for_pgpool_replicate_command sampleExt coordinatorWorld
          (NodeRef.remote 0) acceptPacket
          (send_command_packet_to_remote_nodes coordinatorWorld
            (ipcFailoverCommand [68, 1] 11) false).2.1).2.1.commandReplyFromCount :=
  ⟨by decide, by decide, by decide,
   (command_tracker_counts sampleExt _
     (Tracked.reply_ipc coordinatorWorld (NodeRef.remote 0) acceptPacket _
       (Tracked.issue_ipc coordinatorWorld (ipcFailoverCommand [68, 1] 11) false rfl
         (by decide))
       (by decide))).1⟩

/-! ## Command ids -/

/-- C24, the counterexample: the counter is initialised to 1 and `get_next_commandID`
increments before it returns, so the first command id after `wd_cluster_initialize` is 2,
not 1. -/
theorem first_commandID_counterexample :
    ( wd_cluster_initialize sampleInitConfig).map (fun c => c.nextCommandID) = some 1 ∧
    ( wd_cluster_initialize sampleInitConfig).map (fun c => (get_next_commandID c).1) = some 2 ∧
    ( wd_cluster_initialize sampleInitConfig).map (fun c => (get_next_commandID c).1) ≠ some 1 := by
  decide

/-- C24, amended.  After `wd_cluster_initialize` the first command id returned by
`get_next_commandID` is 2; the counter holds the value returned last, and every later
call, made before the 32-bit counter wraps, returns the value of the previous call plus
one, so a strictly greater value. -/
theorem get_next_commandID_sequence (cfg : WDInitConfig) (c0 : wd_cluster)
    (hinit : wd_cluster_initialize cfg = some c0) :
    (get_next_commandID c0).1 = 2 ∧
    ∀ c : wd_cluster,
      (get_next_commandID c).2.nextCommandID = (get_next_commandID c).1 ∧
      ∀ c1 : wd_cluster, c1.nextCommandID = (get_next_commandID c).2.nextCommandID →
        (get_next_commandID c).1 + 1 < 4294967296 →
        (get_next_commandID c1).1 = (get_next_commandID c).1 + 1 ∧
        (get_next_commandID c1).1 > (get_next_commandID c).1 := by
  constructor
  · unfold wd_cluster_initialize at hinit
    split_ifs at hinit with h1 h2
    · simp only [Option.some.injEq] at hinit
      rw [← hinit]
      unfold resign_from_escalated_node get_next_commandID
      split_ifs <;> rfl
    · simp only [Option.some.injEq] at hinit
      rw [← hinit]
      rfl
  · intro c
    refine ⟨rfl, fun c1 h1 hlt => ?_⟩
    have h2 : c1.nextCommandID = (get_next_commandID c).1 := h1
    unfold get_next_commandID at h2 hlt ⊢
    dsimp only at h2 hlt ⊢
    rw [h2, Nat.mod_eq_of_lt hlt]
    omega

/-- Witness of C24 amended: the sequence for `sampleInitConfig` starts with 2 and 3. -/
theorem get_next_commandID_sequence_witness :
    ∃ c0, wd_cluster_initialize sampleInitConfig = some c0 ∧
      (get_next_commandID c0).1 = 2 ∧
      (get_next_commandID (get_next_commandID c0).2).1 = (get_next_commandID c0).1 + 1 :=
  ⟨_, rfl, (get_next_commandID_sequence sampleInitConfig _ rfl).1,
    (((get_next_commandID_sequence sampleInitConfig _ rfl).2 _).2 _ rfl (by decide)).1⟩

/-! ## The quorum value as a sign -/

/-- The counting loop of `wd_child.c` started from any value adds the number of nodes
that are neither dead nor lost. -/
theorem wd_child_foldl_count (l : List WatchdogNode) (k : Int) :
    l.foldl
      (fun count wdNode =>
        if wdNode.state = WD_DEAD ∨ wdNode.state = WD_LOST then count else count + 1)
      k = k + (l.countP (fun n => decide (¬ (n.state = WD_DEAD ∨ n.state = WD_LOST))) : Nat) := by
  induction l generalizing k with
  | nil => simp
  | cons n ns ih =>
    rw [List.foldl_cons, ih, List.countP_cons]
    by_cases h : n.state = WD_DEAD ∨ n.state = WD_LOST
    · simp [h]
    · simp [h]
      omega

/-- The three-way test of the quorum functions on a count of `L` nodes is the sign of
`2 * (L + 1) - (N + 1)`. -/
theorem quorum_test_eq_sign (c : wd_cluster) (L : Nat) (hL : L ≤ c.remoteNodes.length) :
    (if (L : Int) > get_mimimum_nodes_required_for_quorum c then (1 : Int)
     else if (L : Int) = get_mimimum_nodes_required_for_quorum c then
       (if Int.tmod c.remoteNodeCount 2 ≠ 0 then 0 else 1)
     else -1) = quorum_sign c.remoteNodes.length L := by
  have h0 : (0 : Int) ≤ (c.remoteNodes.length : Int) := Int.ofNat_nonneg _
  rw [get_mimimum_nodes_required_for_quorum_eq]
  unfold wd_cluster.remoteNodeCount quorum_sign
  rw [Int.tmod_eq_emod h0 (by decide : (0 : Int) ≤ 2)]
  by_cases hpar : c.remoteNodes.length % 2 = 0
  · have hp : ((c.remoteNodes.length : Int)) % 2 = 0 := by omega
    simp only [hpar, hp, if_true, ne_eq, not_true_eq_false, if_false]
    by_cases h1 : (L : Int) ≥ ((c.remoteNodes.length / 2 : Nat) : Int)
    · rw [Int.sign_eq_one_of_pos (by omega)]
      split_ifs <;> first | rfl | omega
    · rw [Int.sign_eq_neg_one_of_neg (by omega)]
      split_ifs <;> first | rfl | omega
  · have hp : ¬ ((c.remoteNodes.length : Int)) % 2 = 0 := by omega
    simp only [hpar, hp, if_false, ne_eq, not_false_eq_true, if_true]
    by_cases h1 : (L : Int) > (((c.remoteNodes.length - 1) / 2 : Nat) : Int)
    · rw [if_pos h1, Int.sign_eq_one_of_pos (by omega)]
    · rw [if_neg h1]
      by_cases h2 : (L : Int) = (((c.remoteNodes.length - 1) / 2 : Nat) : Int)
      · rw [if_pos h2]
        have : 2 * ((L : Int) + 1) - ((c.remoteNodes.length : Int) + 1) = 0 := by omega
        rw [this]
        rfl
      · rw [if_neg h2, Int.sign_eq_neg_one_of_neg (by omega)]

/-- C26.  For a cluster of `N` remote peers, `update_quorum_status` returns the sign of
`2 * (L + 1) - (N + 1)` for the number `L` of active peers, and the older
`get_quorum_status` of `wd_child.c` returns the same sign for the number of peers it
counts (those neither dead nor lost).  The sign is `+1` when the node and the counted
peers are a strict majority of the `N + 1` nodes, `0` when they are exactly half and `-1`
when they are a minority, and with an even `N` neither function returns `0`. -/
theorem quorum_status_majority_sign (c : wd_cluster) (N L L1 : Nat)
    (hN : c.remoteNodes.length = N)
    (hL : c.remoteNodes.countP is_node_active = L)
    (hL1 : c.remoteNodes.countP
      (fun n => decide (¬ (n.state = WD_DEAD ∨ n.state = WD_LOST))) = L1) :
    L ≤ N ∧ L1 ≤ N ∧
    (update_quorum_status c).1 = quorum_sign N L ∧
    get_quorum_status c = quorum_sign N L1 ∧
    (∀ K : Nat,
      (quorum_sign N K = 1 ↔ 2 * (K + 1) > N + 1) ∧
      (quorum_sign N K = 0 ↔ 2 * (K + 1) = N + 1) ∧
      (quorum_sign N K = -1 ↔ 2 * (K + 1) < N + 1)) ∧
    (N % 2 = 0 → (update_quorum_status c).1 ≠ 0 ∧ get_quorum_status c ≠ 0) := by
  have hLN : L ≤ N := by rw [← hN, ← hL]; exact List.countP_le_length _
  have hL1N : L1 ≤ N := by rw [← hN, ← hL1]; exact List.countP_le_length _
  have hu : (update_quorum_status c).1 = quorum_sign N L := by
    have h1 : (update_quorum_status c).1
        = (if get_cluster_node_count c > get_mimimum_nodes_required_for_quorum c then (1 : Int)
           else if get_cluster_node_count c = get_mimimum_nodes_required_for_quorum c then
             (if Int.tmod c.remoteNodeCount 2 ≠ 0 then 0 else 1)
           else -1) := by
      unfold update_quorum_status
      dsimp only
      split_ifs <;> rfl
    rw [h1, get_cluster_node_count_eq, hL, ← hN]
    exact quorum_test_eq_sign c L (by rw [hN]; exact hLN)
  have hg : get_quorum_status c = quorum_sign N L1 := by
    have h1 : wd_child_get_cluster_node_count c = (L1 : Int) := by
      unfold wd_child_get_cluster_node_count
      rw [wd_child_foldl_count, hL1]
      simp
    unfold get_quorum_status
    rw [h1, ← hN]
    exact quorum_test_eq_sign c L1 (by rw [hN]; exact hL1N)
  have hsign : ∀ K : Nat,
      (quorum_sign N K = 1 ↔ 2 * (K + 1) > N + 1) ∧
      (quorum_sign N K = 0 ↔ 2 * (K + 1) = N + 1) ∧
      (quorum_sign N K = -1 ↔ 2 * (K + 1) < N + 1) := by
    intro K
    unfold quorum_sign
    rw [Int.sign_eq_one_iff_pos, Int.sign_eq_zero_iff_zero, Int.sign_eq_neg_one_iff_neg]
    refine ⟨?_, ?_, ?_⟩ <;> constructor <;> intro h <;> omega
  refine ⟨hLN, hL1N, hu, hg, hsign, fun hpar => ⟨?_, ?_⟩⟩
  · rw [hu]
    intro h0
    have := (hsign L).2.1.mp h0
    omega
  · rw [hg]
    intro h0
    have := (hsign L1).2.1.mp h0
    omega

/-- Witness of C26 on `quorumEdgeCluster`: three remote peers of which one is active, so
two of four nodes, exactly half, and both functions return 0. -/
theorem quorum_status_majority_sign_witness :
    (update_quorum_status quorumEdgeCluster).1 = quorum_sign 3 1 ∧
    get_quorum_status quorumEdgeCluster = quorum_sign 3 1 ∧
    quorum_sign 3 1 = 0 :=
  ⟨(quorum_status_majority_sign quorumEdgeCluster 3 1 1 (by decide) (by decide)
      (by decide)).2.2.1,
   (quorum_status_majority_sign quorumEdgeCluster 3 1 1 (by decide) (by decide)
      (by decide)).2.2.2.1,
   by decide⟩

/-! ## Lost peers and reachability -/

theorem StaysLost_refl (w : World) : StaysLost w w := fun _ _ h _ => h

theorem StaysLost_trans {w w1 w2 : World} (h1 : StaysLost w w1) (h2 : StaysLost w1 w2) :
    StaysLost w w2 := fun j n hj hn => h2 j n (h1 j n hj hn) hn

theorem StaysLost_of_nodes {w w1 : World}
    (h : w1.cluster.remoteNodes = w.cluster.remoteNodes) : StaysLost w w1 := by
  intro j n hj _
  rw [h]; exact hj

/-- Nothing is written to a connection that is not connected. -/
theorem send_message_to_connection_unconnected (conn : SocketConnection) (wr : List Bool)
    (h : is_socket_connection_connected conn = false) :
    send_message_to_connection conn wr = (false, conn, wr) := by
  unfold send_message_to_connection
  unfold is_socket_connection_connected at h
  have hc : ¬ (conn.sock > 0 ∧ conn.sock_state = WD_SOCK_CONNECTED) := by
    intro hh
    simp [hh.1, hh.2] at h
  rw [if_neg hc]

theorem close_socket_connection_unconnected (conn : SocketConnection) :
    is_socket_connection_connected (close_socket_connection conn) = false := by
  unfold close_socket_connection
  split_ifs with h
  · decide
  · unfold is_socket_connection_connected
    have hc : ¬ (conn.sock > 0 ∧ conn.sock_state = WD_SOCK_CONNECTED) := fun hh => h (Or.inl hh)
    by_cases h1 : conn.sock > 0
    · have h2 : ¬ conn.sock_state = WD_SOCK_CONNECTED := fun hh => hc ⟨h1, hh⟩
      simp [h2]
    · simp [h1]

theorem is_node_reachable_false (n : WatchdogNode) (h : is_node_reachable n = false) :
    is_socket_connection_connected n.client_socket = false ∧
    is_socket_connection_connected n.server_socket = false := by
  unfold is_node_reachable at h
  split_ifs at h with h1 h2
  exact ⟨by simpa using h1, by simpa using h2⟩

theorem send_message_to_node_stays (w : World) (ref : NodeRef) (pkt : WDPacketData) :
    StaysLost w (send_message_to_node w ref pkt).2 := by
  intro j n hj hn
  unfold send_message_to_node
  cases hg : get_node w.cluster ref with
  | none => exact hj
  | some wdNode =>
    cases ref with
    | localNode => exact hj
    | remote k =>
      simp only [set_node]
      by_cases hjk : k = j
      · subst hjk
        have hw : wdNode = n := by
          simp only [get_node] at hg
          rw [hg] at hj
          exact Option.some.inj hj
        subst hw
        obtain ⟨hc, hs⟩ := is_node_reachable_false _ hn
        rw [send_message_to_connection_unconnected _ _ hc]
        simp only [if_true]
        rw [send_message_to_connection_unconnected _ _ hs]
        rw [List.getElem?_set_self (by
          have := List.getElem?_eq_some.mp hj
          exact this.1)]
      · rw [List.getElem?_set_ne hjk]
        exact hj

theorem send_message_step_stays (pkt : WDPacketData) (acc : Int × World) (i : Nat) :
    StaysLost acc.2 (send_message_step pkt acc i).2 := by
  unfold send_message_step
  cases hn : acc.2.cluster.remoteNodes[i]? with
  | none => exact StaysLost_refl _
  | some wdNode =>
    simp only []
    split_ifs
    · exact send_message_to_node_stays _ _ _
    · exact send_message_to_node_stays _ _ _
    · exact StaysLost_refl _

theorem send_message_loop_stays (pkt : WDPacketData) (l : List Nat) (acc : Int × World) :
    StaysLost acc.2 (l.foldl (send_message_step pkt) acc).2 := by
  induction l generalizing acc with
  | nil => exact StaysLost_refl _
  | cons i l ih =>
    rw [List.foldl_cons]
    exact StaysLost_trans (send_message_step_stays pkt acc i) (ih _)

theorem send_message_stays (w : World) (wdNode : Option NodeRef) (pkt : WDPacketData) :
    StaysLost w (send_message w wdNode pkt).2 := by
  unfold send_message
  cases wdNode with
  | none => exact send_message_loop_stays pkt _ (0, w)
  | some ref =>
    cases ref with
    | localNode => exact StaysLost_refl _
    | remote i =>
      simp only []
      split_ifs
      · exact send_message_to_node_stays _ _ _
      · exact send_message_to_node_stays _ _ _

theorem get_minimum_message_nodes (c : wd_cluster) (type : Byte)
    (replyFor : Option WDPacketData) :
    (get_minimum_message c type replyFor).2.remoteNodes = c.remoteNodes := by
  unfold get_minimum_message
  cases replyFor <;> rfl

theorem reply_with_minimal_message_stays (w : World) (wdNode : Option NodeRef) (type : Byte)
    (replyFor : Option WDPacketData) :
    StaysLost w (reply_with_minimal_message w wdNode type replyFor).2 := by
  unfold reply_with_minimal_message
  refine StaysLost_trans ?_ (send_message_stays _ _ _)
  exact StaysLost_of_nodes (get_minimum_message_nodes _ _ _)

theorem write_ipc_command_stays (w : World) (ipcCommand : WDCommandData) (type : Byte)
    (data : Option (List Byte)) (len : Int) :
    StaysLost w (write_ipc_command_with_result_data w ipcCommand type data len).2 := by
  unfold write_ipc_command_with_result_data
  split_ifs
  · exact StaysLost_refl _
  · exact StaysLost_of_nodes rfl

theorem wd_command_is_complete_stays (ext : WDExternals) (w : World)
    (ipcCommand : WDCommandData) : StaysLost w (wd_command_is_complete ext w ipcCommand) := by
  unfold wd_command_is_complete
  split_ifs
  all_goals first
    | exact StaysLost_refl _
    | exact write_ipc_command_stays _ _ _ _ _
    | exact reply_with_minimal_message_stays _ _ _ _

theorem node_lost_event_stays (ext : WDExternals) (w : World) (ipcCommand : WDCommandData)
    (wdLostNode : NodeRef) :
    StaysLost w (wd_command_processor_for_node_lost_event ext w ipcCommand wdLostNode).2.2 := by
  unfold wd_command_processor_for_node_lost_event
  cases hs : ipcCommand.sendToNode with
  | some sendToNode =>
    simp only []
    split_ifs
    · exact wd_command_is_complete_stays _ _ _
    · exact StaysLost_refl _
  | none =>
    simp only []
    cases hf : find_nodeResult w.cluster.remoteNodes.length ipcCommand wdLostNode with
    | none => exact StaysLost_refl _
    | some i =>
      simp only []
      cases hr : (ipcCommand.nodeResults.getD [])[i]? with
      | none => exact StaysLost_refl _
      | some nodeResult =>
        simp only []
        split_ifs
        all_goals first
          | exact StaysLost_refl _
          | exact wd_command_is_complete_stays _ _ _

theorem node_lost_while_ipc_command_step_stays (ext : WDExternals) (wdNode : NodeRef)
    (acc : World × List Nat) (j : Nat) :
    StaysLost acc.1 (node_lost_while_ipc_command_step ext wdNode acc j).1 := by
  unfold node_lost_while_ipc_command_step
  cases hc : acc.1.cluster.ipc_commands[j]? with
  | none => exact StaysLost_refl _
  | some ipcCommand =>
    simp only []
    split_ifs
    all_goals
      intro k n hk hn
      exact node_lost_event_stays ext acc.1 ipcCommand wdNode k n hk hn

theorem node_lost_while_ipc_command_loop_stays (ext : WDExternals) (wdNode : NodeRef)
    (l : List Nat) (acc : World × List Nat) :
    StaysLost acc.1 (l.foldl (node_lost_while_ipc_command_step ext wdNode) acc).1 := by
  induction l generalizing acc with
  | nil => exact StaysLost_refl _
  | cons i l ih =>
    rw [List.foldl_cons]
    exact StaysLost_trans (node_lost_while_ipc_command_step_stays ext wdNode acc i) (ih _)

theorem node_lost_while_ipc_command_stays (ext : WDExternals) (w : World) (wdNode : NodeRef) :
    StaysLost w (node_lost_while_ipc_command ext w wdNode) := by
  unfold node_lost_while_ipc_command
  exact StaysLost_trans (node_lost_while_ipc_command_loop_stays ext wdNode _ (w, []))
    (StaysLost_of_nodes rfl)

/-- The REMOTE_NODE_LOST branch of the state machine leaves the lost peer in state LOST or
SHUTDOWN with both connections closed. -/
theorem remote_node_lost_branch_spec (ext : WDExternals) (w : World) (i : Nat)
    (n : WatchdogNode) (hn : w.cluster.remoteNodes[i]? = some n) :
    ∃ w1 n1, remote_node_lost_branch ext w (NodeRef.remote i) = some w1 ∧
      w1.cluster.remoteNodes[i]? = some n1 ∧
      n1.state = (if n.state = WD_SHUTDOWN then WD_SHUTDOWN else WD_LOST) ∧
      is_node_reachable n1 = false := by
  have hlt : i < w.cluster.remoteNodes.length := (List.getElem?_eq_some.mp hn).1
  have hreach : is_node_reachable
      { n with
        client_socket := close_socket_connection n.client_socket,
        server_socket := close_socket_connection n.server_socket,
        state := if n.state = WD_SHUTDOWN then n.state else WD_LOST } = false := by
    unfold is_node_reachable
    simp only [close_socket_connection_unconnected]
    rfl
  unfold remote_node_lost_branch
  simp only [get_node, hn]
  refine ⟨_, _, rfl, ?_, ?_, hreach⟩
  · apply node_lost_while_ipc_command_stays _ _ _ i _ _ hreach
    simp only [set_node]
    split_ifs
    all_goals exact List.getElem?_set_self hlt
  · simp only []
    split_ifs with h
    · exact h
    · rfl

theorem update_quorum_status_nodes (c : wd_cluster) :
    (update_quorum_status c).2.remoteNodes = c.remoteNodes := by
  unfold update_quorum_status
  simp only []
  split_ifs <;> rfl

/-- The loss of the node a pending IPC command was forwarded to finishes the command as
SEND_FAILED and writes the result BAD to the command's IPC socket. -/
theorem node_lost_event_forwarded (ext : WDExternals) (w : World) (c : WDCommandData)
    (wdLostNode : NodeRef) (hto : c.sendToNode = some wdLostNode)
    (hsrc : c.commandSource = COMMAND_SOURCE_IPC) (hsock : c.sourceIPCSocket > 0) :
    (wd_command_processor_for_node_lost_event ext w c wdLostNode).1 = IPC_CMD_ERROR ∧
    (wd_command_processor_for_node_lost_event ext w c wdLostNode).2.2.trace
      = w.trace ++ [Action.ipc_write c.sourceIPCSocket
          { type := ext.WD_IPC_CMD_RESULT_BAD, command_id := 0, len := 0, data := none }
          (w.wr.headD true)] := by
  unfold wd_command_processor_for_node_lost_event
  simp only [hto, if_true, true_and]
  unfold wd_command_is_complete write_ipc_command_with_result_data
  have hs : ¬ (c.sourceIPCSocket ≤ 0) := by omega
  simp [hsrc, hs]

/-- C25, the code departs from the claim.  On a standby, when the coordinator's ACCEPT,
REJECT or ERROR for a forwarded IPC failover command has been relayed to the IPC client,
the record is still in the list of pending IPC commands, unchanged; the loss of the
coordinator afterwards finishes that record once more and writes a second reply (result
BAD) to the same IPC socket. -/
theorem relayed_failover_command_stays_pending (ext : WDExternals) (ws : World)
    (p : WDPacketData) (c : WDCommandData) (wdLostNode : NodeRef)
    (hp : p.type = WD_ACCEPT_MESSAGE ∨ p.type = WD_REJECT_MESSAGE ∨ p.type = WD_ERROR_MESSAGE)
    (hcodes : p.type ≠ ext.WD_FAILOVER_LOCKING_REQUEST ∧
      p.type ≠ ext.WD_IPC_FAILOVER_COMMAND ∧ p.type ≠ ext.WD_IPC_ONLINE_RECOVERY_COMMAND)
    (hc : get_wd_IPC_command_from_reply ws.cluster p = some c)
    (htype : c.commandPacket.type = ext.WD_IPC_FAILOVER_COMMAND)
    (hsock : c.sourceIPCSocket > 0) (hto : c.sendToNode = some wdLostNode) :
    ∃ w1 res, wd_commands_packet_processor ext ws WD_EVENT_PACKET_RCV (some p) = some (true, w1) ∧
      w1.trace = ws.trace ++ [ipc_failover_reply ext c res 0 (ws.wr.headD true)] ∧
      w1.cluster.ipc_commands = ws.cluster.ipc_commands ∧
      c ∈ w1.cluster.ipc_commands ∧
      (wd_command_processor_for_node_lost_event ext w1 c wdLostNode).2.2.trace
        = ws.trace ++ [ipc_failover_reply ext c res 0 (ws.wr.headD true),
            Action.ipc_write c.sourceIPCSocket
              { type := ext.WD_IPC_CMD_RESULT_BAD, command_id := 0, len := 0, data := none }
              (w1.wr.headD true)] := by
  obtain ⟨h1, h2, h3⟩ := hcodes
  obtain ⟨hmem, hsrc, _⟩ := get_wd_command_from_reply_some _ _ _ hc
  have e4 : ¬ (p.type = WD_REMOTE_FAILOVER_REQUEST) := by
    rcases hp with h | h | h <;> rw [h] <;> decide
  have e5 : ¬ (p.type = WD_DATA_MESSAGE) := by
    rcases hp with h | h | h <;> rw [h] <;> decide
  have e6 : ¬ (p.type = WD_CMD_REPLY_IN_DATA) := by
    rcases hp with h | h | h <;> rw [h] <;> decide
  have key : ∀ res, ∃ w1, w1 = (reply_to_failove_command ext ws c res 0).2 ∧
      w1.trace = ws.trace ++ [ipc_failover_reply ext c res 0 (ws.wr.headD true)] ∧
      w1.cluster.ipc_commands = ws.cluster.ipc_commands ∧
      c ∈ w1.cluster.ipc_commands ∧
      (wd_command_processor_for_node_lost_event ext w1 c wdLostNode).2.2.trace
        = ws.trace ++ [ipc_failover_reply ext c res 0 (ws.wr.headD true),
            Action.ipc_write c.sourceIPCSocket
              { type := ext.WD_IPC_CMD_RESULT_BAD, command_id := 0, len := 0, data := none }
              (w1.wr.headD true)] := by
    intro res
    have htr := reply_to_failove_command_ipc ext ws c res 0 hsrc hsock
    have hfr := (reply_to_failove_command_frame ext ws c res 0).2.2.2.1
    refine ⟨_, rfl, htr, hfr, ?_, ?_⟩
    · rw [hfr]
      exact hmem
    · rw [(node_lost_event_forwarded ext _ c wdLostNode hto hsrc hsock).2, htr]
      simp
  unfold wd_commands_packet_processor
  simp only [ne_eq, not_true_eq_false, if_false, h1, h2, h3, e4, e5, e6, hp, if_true, hc, htype]
  split_ifs
  · obtain ⟨w1, hw1, r⟩ := key FAILOVER_RES_PROCEED
    exact ⟨w1, _, by rw [hw1], r⟩
  · obtain ⟨w1, hw1, r⟩ := key FAILOVER_RES_MASTER_REJECTED
    exact ⟨w1, _, by rw [hw1], r⟩

/-- Witness of C25 on `standbyWorld`: the master's ACCEPT for `forwardedCommand` is
relayed, the record stays pending, and the loss of the master afterwards makes the state
machine write a second reply to IPC socket 11. -/
theorem relayed_failover_command_stays_pending_witness :
    (∃ w1 res, wd_commands_packet_processor sampleExt standbyWorld WD_EVENT_PACKET_RCV
        (some acceptPacket77) = some (true, w1) ∧
      w1.trace = standbyWorld.trace
        ++ [ipc_failover_reply sampleExt forwardedCommand res 0 (standbyWorld.wr.headD true)] ∧
      w1.cluster.ipc_commands = standbyWorld.cluster.ipc_commands ∧
      forwardedCommand ∈ w1.cluster.ipc_commands ∧
      (wd_command_processor_for_node_lost_event sampleExt w1 forwardedCommand
          (NodeRef.remote 0)).2.2.trace
        = standbyWorld.trace ++
          [ipc_failover_reply sampleExt forwardedCommand res 0 (standbyWorld.wr.headD true),
            Action.ipc_write forwardedCommand.sourceIPCSocket
              { type := sampleExt.WD_IPC_CMD_RESULT_BAD, command_id := 0, len := 0,
                data := none }
              (w1.wr.headD true)]) ∧
    ((wd_commands_packet_processor sampleExt standbyWorld WD_EVENT_PACKET_RCV
        (some acceptPacket77)).bind
      fun r => (watchdog_state_machine_remote_node_lost sampleExt r.2 (NodeRef.remote 0) 0).map
        fun w => (w.trace.filterMap fun a =>
          match a with
          | Action.ipc_write sock pkt _ => some (sock, pkt.type)
          | _ => none))
      = some [(11, sampleExt.WD_IPC_CMD_RESULT_OK), (11, sampleExt.WD_IPC_CMD_RESULT_BAD)] :=
  ⟨relayed_failover_command_stays_pending sampleExt standbyWorld acceptPacket77
    forwardedCommand (NodeRef.remote 0) (Or.inl rfl) (by decide) (by decide) rfl (by decide)
    rfl, by decide⟩

/-! ## The slots the reply processor visits -/

/-- A write to slot `i` leaves every other slot alone. -/
theorem update_nodeResult_other (cmd : WDCommandData) (i k : Nat)
    (f : WDCommandNodeResult → WDCommandNodeResult) (hik : i ≠ k) :
    ((update_nodeResult cmd i f).nodeResults.getD [])[k]? = (cmd.nodeResults.getD [])[k]? := by
  cases hs : (cmd.nodeResults.getD [])[i]? with
  | none => rw [update_nodeResult_slots_none cmd i f hs]
  | some s =>
    rw [update_nodeResult_slots cmd i f s hs]
    exact List.getElem?_set_ne hik

/-- A round of the slot loop for an index other than 0 leaves slot 0 alone and does not
report slot 0 as found. -/
theorem internal_command_reply_step_first (wdNode : NodeRef)
    (acc : WDCommandData × Option Nat) (i : Nat) (hi : i ≠ 0) (hacc : acc.2 ≠ some 0) :
    ((internal_command_reply_step wdNode acc i).1.nodeResults.getD [])[0]?
      = (acc.1.nodeResults.getD [])[0]? ∧
    (internal_command_reply_step wdNode acc i).2 ≠ some 0 := by
  obtain ⟨c, o⟩ := acc
  unfold internal_command_reply_step
  cases o with
  | some j => exact ⟨rfl, hacc⟩
  | none =>
    simp only []
    cases hs : (c.nodeResults.getD [])[i]? with
    | none => exact ⟨rfl, hacc⟩
    | some nodeRes =>
      refine ⟨update_nodeResult_other _ _ _ _ hi, ?_⟩
      simp only []
      split_ifs
      · intro h
        exact hi (Option.some.inj h)
      · intro h
        cases h

theorem internal_command_reply_loop_first (wdNode : NodeRef) (l : List Nat)
    (hl : ∀ i ∈ l, i ≠ 0) (acc : WDCommandData × Option Nat) (hacc : acc.2 ≠ some 0) :
    ((l.foldl (internal_command_reply_step wdNode) acc).1.nodeResults.getD [])[0]?
      = (acc.1.nodeResults.getD [])[0]? ∧
    (l.foldl (internal_command_reply_step wdNode) acc).2 ≠ some 0 := by
  induction l generalizing acc with
  | nil => exact ⟨rfl, hacc⟩
  | cons i l ih =>
    rw [List.foldl_cons]
    have h1 := internal_command_reply_step_first wdNode acc i (hl i (List.mem_cons_self _ _)) hacc
    have h2 := ih (fun j hj => hl j (List.mem_cons_of_mem _ hj)) _ h1.2
    exact ⟨h2.1.trans h1.1, h2.2⟩

/-- The slot loop of `watchdog_internal_command_packet_processor`, on a record handed to
it, calls `clear_command_node_result` on every slot it visits before it compares the
slot's owner with the replying node, so a reply from a peer other than the owner of
slot 0 resets slot 0 to state INIT with result type NO_MESSAGE, whatever its state was.
The loop is reached only with a record of source `COMMAND_SOURCE_IPC`. -/
theorem reply_clears_earlier_slot (n : Nat) (wdNode : NodeRef) (pkt : WDPacketData)
    (cmd : WDCommandData) (s0 : WDCommandNodeResult) (hn : 0 < n)
    (hs : (cmd.nodeResults.getD [])[0]? = some s0) (hne : s0.wdNode ≠ wdNode) :
    ((internal_command_reply n wdNode pkt cmd).1.nodeResults.getD [])[0]?
      = some (clear_command_node_result s0) := by
  obtain ⟨m, rfl⟩ : ∃ m, n = m + 1 := ⟨n - 1, by omega⟩
  have hstep : internal_command_reply_step wdNode (cmd, none) 0
      = (update_nodeResult cmd 0 clear_command_node_result, none) := by
    unfold internal_command_reply_step
    simp only [hs, if_neg hne]
  have hslot0 : ((update_nodeResult cmd 0 clear_command_node_result).nodeResults.getD [])[0]?
      = some (clear_command_node_result s0) := by
    rw [update_nodeResult_slots cmd 0 _ s0 hs]
    exact List.getElem?_set_self (List.getElem?_eq_some.mp hs).1
  have hloop := internal_command_reply_loop_first wdNode ((List.range m).map Nat.succ)
    (by
      intro i hi
      obtain ⟨j, _, rfl⟩ := List.mem_map.mp hi
      exact Nat.succ_ne_zero j)
    (update_nodeResult cmd 0 clear_command_node_result, none) (by intro h; cases h)
  have hfold : (List.range (m + 1)).foldl (internal_command_reply_step wdNode) (cmd, none)
      = ((List.range m).map Nat.succ).foldl (internal_command_reply_step wdNode)
          (update_nodeResult cmd 0 clear_command_node_result, none) := by
    rw [List.range_succ_eq_map, List.foldl_cons, hstep]
  unfold internal_command_reply
  rw [hfold]
  cases hf : (((List.range m).map Nat.succ).foldl (internal_command_reply_step wdNode)
      (update_nodeResult cmd 0 clear_command_node_result, none)).2 with
  | none =>
    simp only [hf]
    rw [hloop.1, hslot0]
  | some i =>
    have hi : i ≠ 0 := by
      intro h
      apply hloop.2
      rw [hf, h]
    simp only [hf]
    split_ifs
    all_goals
      show ((update_nodeResult _ i _).nodeResults.getD [])[0]? = _
      rw [update_nodeResult_other _ _ _ _ hi, hloop.1, hslot0]

/-- The slot loop on `matchedCommand`, a record of source IPC: an ACCEPT of remote node 1
resets the slot of remote node 0 from SENT to INIT. -/
theorem reply_clears_earlier_slot_witness :
    (matchedCommand.nodeResults.getD []).map WDCommandNodeResult.cmdState
      = [COMMAND_STATE_SENT, COMMAND_STATE_SENT, COMMAND_STATE_DO_NOT_SEND] ∧
    ((internal_command_reply 3 (NodeRef.remote 1) (minimal_reply WD_ACCEPT_MESSAGE declarePacket)
        matchedCommand).1.nodeResults.getD [])[0]?
      = some { wdNode := NodeRef.remote 0, cmdState := COMMAMD_STATE_INIT,
               result_type := WD_NO_MESSAGE } ∧
    (watchdog_internal_command_packet_processor sampleExt matchedCommandWorld (NodeRef.remote 1)
        (minimal_reply WD_ACCEPT_MESSAGE declarePacket)).map
      (fun r => r.2.1.cluster.clusterCommands.map fun c =>
        (c.nodeResults.getD []).map WDCommandNodeResult.cmdState)
      = some [[COMMAMD_STATE_INIT, COMMAND_STATE_REPLIED, COMMAND_STATE_DO_NOT_SEND]] :=
  ⟨by decide,
   reply_clears_earlier_slot 3 (NodeRef.remote 1) (minimal_reply WD_ACCEPT_MESSAGE declarePacket)
     matchedCommand
     { wdNode := NodeRef.remote 0, cmdState := COMMAND_STATE_SENT, result_type := WD_NO_MESSAGE }
     (by decide) rfl (by decide),
   by decide⟩

/-! ## Repeated replies -/

/-- C29, the code departs from the claim.  Both reply processors count packets, not
peers.  A failover command issued by `coordinatorWorld` is sent to the remote nodes 0
and 1 (send count 2); two ACCEPT replies from node 0 handled by
`reply_is_received_for_pgpool_replicate_command` finish it as ALL_REPLIED while the slot
of node 1 is still SENT.  The same happens to the cluster command `matchedCommand` in
`watchdog_internal_command_packet_processor`. -/
theorem repeated_reply_finishes_command :
    (send_command_packet_to_remote_nodes coordinatorWorld
        (ipcFailoverCommand [68, 1] 11) false).2.1.commandSendToCount = 2 ∧
    ((send_command_packet_to_remote_nodes coordinatorWorld
        (ipcFailoverCommand [68, 1] 11) false).2.1.nodeResults.getD []).map
        WDCommandNodeResult.cmdState
      = [COMMAND_STATE_SENT, COMMAND_STATE_SENT, COMMAND_STATE_DO_NOT_SEND] ∧
    (reply_is_received_for_pgpool_replicate_command sampleExt coordinatorWorld
        (NodeRef.remote 0) acceptPacket
        (send_command_packet_to_remote_nodes coordinatorWorld
          (ipcFailoverCommand [68, 1] 11) false).2.1).2.2.1 = false ∧
    (fun r : Bool × WDCommandData × Bool × World =>
        (r.2.2.1, r.2.1.commandStatus,
          (r.2.1.nodeResults.getD []).map WDCommandNodeResult.cmdState))
      (reply_is_received_for_pgpool_replicate_command sampleExt coordinatorWorld
        (NodeRef.remote 0) acceptPacket
        (reply_is_received_for_pgpool_replicate_command sampleExt coordinatorWorld
          (NodeRef.remote 0) acceptPacket
          (send_command_packet_to_remote_nodes coordinatorWorld
            (ipcFailoverCommand [68, 1] 11) false).2.1).2.1)
      = (true, COMMAND_FINISHED_ALL_REPLIED,
          [COMMAND_STATE_REPLIED, COMMAND_STATE_SENT, COMMAND_STATE_DO_NOT_SEND]) ∧
    ((watchdog_internal_command_packet_processor sampleExt matchedCommandWorld
        (NodeRef.remote 0) (minimal_reply WD_ACCEPT_MESSAGE declarePacket)).bind
      fun r1 => (watchdog_internal_command_packet_processor sampleExt r1.2.1
        (NodeRef.remote 0) (minimal_reply WD_ACCEPT_MESSAGE declarePacket)).map
        fun r2 => (r1.2.2.isSome, r2.2.2.map fun c =>
          (c.commandStatus, (c.nodeResults.getD []).map WDCommandNodeResult.cmdState)))
      = some (false, some (COMMAND_FINISHED_ALL_REPLIED,
          [COMMAND_STATE_REPLIED, COMMAND_STATE_SENT, COMMAND_STATE_DO_NOT_SEND])) := by
  decide

/-! ## The counters and the slots -/

theorem count_three_le (slots : List WDCommandNodeResult) :
    count_cmdState slots COMMAND_STATE_SENT + count_cmdState slots COMMAND_STATE_REPLIED
      + count_cmdState slots COMMAND_STATE_SEND_ERROR ≤ slots.length := by
  induction slots with
  | nil => simp [count_cmdState]
  | cons s l ih =>
    unfold count_cmdState at ih ⊢
    simp only [List.countP_cons, List.length_cons]
    cases hs : s.cmdState <;> simp <;> omega

theorem count_four_le (slots : List WDCommandNodeResult) :
    count_cmdState slots COMMAND_STATE_SENT + count_cmdState slots COMMAND_STATE_REPLIED
      + count_cmdState slots COMMAND_STATE_SEND_ERROR
      + count_cmdState slots COMMAMD_STATE_INIT ≤ slots.length := by
  induction slots with
  | nil => simp [count_cmdState]
  | cons s l ih =>
    unfold count_cmdState at ih ⊢
    simp only [List.countP_cons, List.length_cons]
    cases hs : s.cmdState <;> simp <;> omega

/-- A slot in state `st` is counted. -/
theorem count_cmdState_pos (slots : List WDCommandNodeResult) (i : Nat)
    (s : WDCommandNodeResult) (st : WDNodeCommandState) (hs : slots[i]? = some s)
    (hst : s.cmdState = st) : 1 ≤ count_cmdState slots st := by
  have := List.boole_getElem_le_countP
    (fun s : WDCommandNodeResult => decide (s.cmdState = st)) slots i
    (List.getElem?_eq_some.mp hs).1
  rw [(List.getElem?_eq_some.mp hs).2] at this
  simpa [count_cmdState, hst] using this

/-- Writing a new state into slot `k` moves one unit between the counts of the states. -/
theorem CountsExact_set (cmd cmd1 : WDCommandData) (k : Nat) (s x : WDCommandNodeResult)
    (h : CountsExact cmd) (hs : (cmd.nodeResults.getD [])[k]? = some s)
    (hres : cmd1.nodeResults.getD [] = (cmd.nodeResults.getD []).set k x)
    (hsend : cmd1.commandSendToCount + (if s.cmdState = COMMAND_STATE_SENT then 1 else 0)
        + (if s.cmdState = COMMAND_STATE_REPLIED then 1 else 0)
      = cmd.commandSendToCount + (if x.cmdState = COMMAND_STATE_SENT then 1 else 0)
        + (if x.cmdState = COMMAND_STATE_REPLIED then 1 else 0))
    (herr : cmd1.commandSendToErrorCount
        + (if s.cmdState = COMMAND_STATE_SEND_ERROR then 1 else 0)
      = cmd.commandSendToErrorCount
        + (if x.cmdState = COMMAND_STATE_SEND_ERROR then 1 else 0)) :
    CountsExact cmd1 := by
  obtain ⟨h1, h2, h3⟩ := h
  have e1 := count_cmdState_set _ k s x COMMAND_STATE_SENT hs
  have e2 := count_cmdState_set _ k s x COMMAND_STATE_REPLIED hs
  have e3 := count_cmdState_set _ k s x COMMAND_STATE_SEND_ERROR hs
  unfold CountsExact
  rw [hres, List.length_set]
  refine ⟨?_, ?_, h3⟩ <;> omega

/-- The counters do not wrap: the three counted states are disjoint. -/
theorem CountsExact_bound (cmd : WDCommandData) (h : CountsExact cmd) :
    cmd.commandSendToCount + cmd.commandSendToErrorCount < 4294967296 := by
  obtain ⟨h1, h2, h3⟩ := h
  have := count_three_le (cmd.nodeResults.getD [])
  omega

theorem IssueExact_allocate (c : wd_cluster) (cmd : WDCommandData)
    (hfresh : cmd.nodeResults = none) (hsend : cmd.commandSendToCount = 0)
    (herr : cmd.commandSendToErrorCount = 0) (hn : c.remoteNodes.length < 2147483648) :
    IssueExact 0 (allocate_resultNodes_in_command c cmd) := by
  have hslots : (allocate_resultNodes_in_command c cmd).nodeResults.getD []
      = (List.range c.remoteNodes.length).map fun i =>
        ({ wdNode := NodeRef.remote i, cmdState := COMMAMD_STATE_INIT,
           result_type := WD_NO_MESSAGE } : WDCommandNodeResult) := by
    unfold allocate_resultNodes_in_command
    rw [hfresh]
    rfl
  have hs1 : (allocate_resultNodes_in_command c cmd).commandSendToCount = 0 := by
    unfold allocate_resultNodes_in_command
    rw [hfresh]
    exact hsend
  have hs2 : (allocate_resultNodes_in_command c cmd).commandSendToErrorCount = 0 := by
    unfold allocate_resultNodes_in_command
    rw [hfresh]
    exact herr
  have hinit : ∀ (j : Nat) (s : WDCommandNodeResult),
      ((allocate_resultNodes_in_command c cmd).nodeResults.getD [])[j]? = some s →
      s.cmdState = COMMAMD_STATE_INIT := by
    intro j s hj
    rw [hslots, List.getElem?_map] at hj
    cases hr : (List.range c.remoteNodes.length)[j]? with
    | none =>
      rw [hr] at hj
      cases hj
    | some i =>
      rw [hr] at hj
      cases hj
      rfl
  refine ⟨⟨?_, ?_, ?_⟩, fun j s _ hj => hinit j s hj⟩
  · rw [hs1, count_cmdState_init _ _ (by intro h; cases h) hinit,
      count_cmdState_init _ _ (by intro h; cases h) hinit]
  · rw [hs2, count_cmdState_init _ _ (by intro h; cases h) hinit]
  · rw [hslots, List.length_map, List.length_range]
    omega

/-- One round of the sending loop keeps the counters in step with the slots. -/
theorem send_command_packet_step_exact (source_included : Bool)
    (acc : WDCommandData × World) (k : Nat) (h : IssueExact k acc.1) :
    IssueExact (k + 1) (send_command_packet_step source_included acc k).1 := by
  have hkeep : IssueExact (k + 1) acc.1 := ⟨h.1, fun j s hj => h.2 j s (by omega)⟩
  unfold send_command_packet_step
  split
  · exact hkeep
  · rename_i s hs
    split
    · exact hkeep
    · have hinit : s.cmdState = COMMAMD_STATE_INIT := h.2 k s (le_refl k) hs
      have hb : acc.1.commandSendToCount + acc.1.commandSendToErrorCount + 1
          < 4294967296 := by
        have h4 := count_four_le (acc.1.nodeResults.getD [])
        have h1 := count_cmdState_pos _ k s _ hs hinit
        obtain ⟨e1, e2, e3⟩ := h.1
        omega
      have hset : ∀ st, (set_cmdState acc.1 k st).nodeResults.getD []
          = (acc.1.nodeResults.getD []).set k { s with cmdState := st } :=
        fun st => update_nodeResult_slots acc.1 k (fun s => { s with cmdState := st }) s hs
      have hlater : ∀ (cmd1 : WDCommandData) (x : WDCommandNodeResult),
          cmd1.nodeResults.getD [] = (acc.1.nodeResults.getD []).set k x →
          ∀ (j : Nat) (s1 : WDCommandNodeResult), k + 1 ≤ j →
            (cmd1.nodeResults.getD [])[j]? = some s1 → s1.cmdState = COMMAMD_STATE_INIT := by
        intro cmd1 x hres j s1 hj hs1
        rw [hres, List.getElem?_set_ne (by omega)] at hs1
        exact h.2 j s1 (by omega) hs1
      dsimp only
      split_ifs
      all_goals
        refine ⟨CountsExact_set acc.1 _ k s _ h.1 hs (hset _) ?_ ?_, hlater _ _ (hset _)⟩
      all_goals simp [hinit, set_cmdState]
      all_goals omega

theorem send_command_packet_loop_exact (source_included : Bool)
    (acc0 : WDCommandData × World) (h : IssueExact 0 acc0.1) (k : Nat) :
    IssueExact k ((List.range k).foldl (send_command_packet_step source_included) acc0).1 := by
  induction k with
  | zero => exact h
  | succ k ih =>
    rw [List.range_succ, List.foldl_append]
    exact send_command_packet_step_exact source_included _ k ih

/-- After the issue by `send_command_packet_to_remote_nodes` the counters agree with the
slots. -/
theorem send_command_packet_to_remote_nodes_exact (w : World) (cmd : WDCommandData)
    (source_included : Bool) (hfresh : cmd.nodeResults = none)
    (hn : w.cluster.remoteNodes.length < 2147483648) :
    CountsExact (send_command_packet_to_remote_nodes w cmd source_included).2.1 := by
  unfold send_command_packet_to_remote_nodes
  exact (send_command_packet_loop_exact source_included
    (allocate_resultNodes_in_command w.cluster
      { cmd with
        commandSendToCount := 0, commandReplyFromCount := 0, commandSendToErrorCount := 0 }, w)
    (IssueExact_allocate w.cluster
      { cmd with
        commandSendToCount := 0, commandReplyFromCount := 0, commandSendToErrorCount := 0 }
      hfresh rfl rfl hn) _).1

theorem service_ipc_commands_step_exact (acc : Bool × WDCommandData × World) (i : Nat)
    (h : CountsExact acc.2.1) : CountsExact (service_ipc_commands_step acc i).2.1 := by
  have hb := CountsExact_bound _ h
  unfold service_ipc_commands_step
  split_ifs with h0
  · exact h
  · split
    · exact h
    · rename_i s hs
      split_ifs with hse
      · split
        · exact h
        · dsimp only
          split_ifs
          · have hpos : 1 ≤ acc.2.1.commandSendToErrorCount := by
              rw [h.2.1]
              exact count_cmdState_pos _ i s _ hs hse
            refine CountsExact_set acc.2.1 _ i s { s with cmdState := COMMAND_STATE_SENT } h hs
              (update_nodeResult_slots acc.2.1 i _ s hs) ?_ ?_
            all_goals simp [hse, update_nodeResult]
            all_goals omega
          · exact h
          · exact h
      · exact h

theorem service_ipc_commands_loop_exact (l : List Nat) (acc : Bool × WDCommandData × World)
    (h : CountsExact acc.2.1) : CountsExact (l.foldl service_ipc_commands_step acc).2.1 := by
  induction l generalizing acc with
  | nil => exact h
  | cons i l ih =>
    rw [List.foldl_cons]
    exact ih _ (service_ipc_commands_step_exact acc i h)

theorem service_ipc_commands_resend_exact (w : World) (cmd : WDCommandData)
    (h : CountsExact cmd) : CountsExact (service_ipc_commands_resend w cmd).1 := by
  unfold service_ipc_commands_resend
  split_ifs
  · exact service_ipc_commands_loop_exact _ (false, cmd, w) h
  · exact h

theorem find_nodeResult_slot (n : Nat) (cmd : WDCommandData) (wdNode : NodeRef) (i : Nat)
    (h : find_nodeResult n cmd wdNode = some i) :
    ∃ s, (cmd.nodeResults.getD [])[i]? = some s := by
  unfold find_nodeResult at h
  have := List.find?_some h
  cases hs : (cmd.nodeResults.getD [])[i]? with
  | none => simp [hs] at this
  | some s => exact ⟨s, rfl⟩

/-- A reply from a peer whose slot is in state SENT or REPLIED keeps the counters in step
with the slots. -/
theorem reply_is_received_exact (ext : WDExternals) (w : World) (wdNode : NodeRef)
    (pkt : WDPacketData) (cmd : WDCommandData) (h : CountsExact cmd)
    (hslot : ∀ (i : Nat) (s : WDCommandNodeResult),
      find_nodeResult w.cluster.remoteNodes.length cmd wdNode = some i →
      (cmd.nodeResults.getD [])[i]? = some s →
      s.cmdState = COMMAND_STATE_SENT ∨ s.cmdState = COMMAND_STATE_REPLIED) :
    CountsExact (reply_is_received_for_pgpool_replicate_command ext w wdNode pkt cmd).2.1 := by
  unfold reply_is_received_for_pgpool_replicate_command
  cases hf : find_nodeResult w.cluster.remoteNodes.length cmd wdNode with
  | none => exact h
  | some i =>
    obtain ⟨s, hs⟩ := find_nodeResult_slot _ _ _ _ hf
    have hst := hslot i s hf hs
    have key : CountsExact
        { update_nodeResult cmd i
            (fun s => { s with result_type := pkt.type, cmdState := COMMAND_STATE_REPLIED }) with
          commandReplyFromCount := (cmd.commandReplyFromCount + 1) % 4294967296 } := by
      refine CountsExact_set cmd _ i s
        { s with result_type := pkt.type, cmdState := COMMAND_STATE_REPLIED } h hs
        (update_nodeResult_slots cmd i _ s hs) ?_ ?_
      · rcases hst with h1 | h1 <;> simp [h1, update_nodeResult]
      · rcases hst with h1 | h1 <;> simp [h1, update_nodeResult]
    dsimp only
    split_ifs
    all_goals exact key

/-- The loss of a peer keeps the counters in step with the slots. -/
theorem node_lost_exact (ext : WDExternals) (w : World) (cmd : WDCommandData)
    (wdLostNode : NodeRef) (h : CountsExact cmd) :
    CountsExact (wd_command_processor_for_node_lost_event ext w cmd wdLostNode).2.1 := by
  unfold wd_command_processor_for_node_lost_event
  cases hto : cmd.sendToNode with
  | some sendToNode =>
    dsimp only
    split_ifs
    · exact h
    · exact h
  | none =>
    dsimp only
    cases hf : find_nodeResult w.cluster.remoteNodes.length cmd wdLostNode with
    | none => exact h
    | some i =>
      dsimp only
      cases hs : (cmd.nodeResults.getD [])[i]? with
      | none => exact h
      | some s =>
        dsimp only
        by_cases hsent : s.cmdState = COMMAND_STATE_SENT
        · have key : CountsExact
              { update_nodeResult cmd i
                  (fun s => { s with cmdState := COMMAND_STATE_DO_NOT_SEND }) with
                commandSendToCount := (cmd.commandSendToCount + 4294967295) % 4294967296 } := by
            have hpos : 1 ≤ cmd.commandSendToCount := by
              have h2 := count_cmdState_pos _ i s _ hs hsent
              rw [h.1]
              omega
            have hb := CountsExact_bound _ h
            have hres := update_nodeResult_slots cmd i
              (fun s => { s with cmdState := COMMAND_STATE_DO_NOT_SEND }) s hs
            refine CountsExact_set cmd _ i s { s with cmdState := COMMAND_STATE_DO_NOT_SEND } h hs
              hres ?_ ?_
            all_goals simp [hsent, update_nodeResult]
            all_goals omega
          rw [if_pos hsent]
          split_ifs
          · exact key
          · exact key
        · rw [if_neg hsent]
          exact h

/-- For every command issued with `send_command_packet_to_remote_nodes` from a fresh
record, after the issue and after every later resend, peer loss, and reply from a peer
whose slot is in state SENT or REPLIED, commandSendToCount is the number of slots in state
SENT or REPLIED and commandSendToErrorCount the number of slots in state SEND_ERROR. -/
theorem send_tracked_counts (ext : WDExternals) (cmd : WDCommandData)
    (h : SendTracked ext cmd) : CountsExact cmd := by
  induction h with
  | issue w cmd source_included hfresh hn =>
    exact send_command_packet_to_remote_nodes_exact w cmd source_included hfresh hn
  | resend w cmd _ ih => exact service_ipc_commands_resend_exact w cmd ih
  | reply w wdNode pkt cmd _ hslot ih => exact reply_is_received_exact ext w wdNode pkt cmd ih hslot
  | peer_lost w cmd wdLostNode _ ih => exact node_lost_exact ext w cmd wdLostNode ih

/-- An instance of `send_tracked_counts`: the record of `sentCommand` after the loss of
remote node 1 and an ACCEPT reply of remote node 0. -/
theorem send_tracked_counts_example :
    CountsExact
      (reply_is_received_for_pgpool_replicate_command sampleExt lostPeerCommand.2.2
        (NodeRef.remote 0) acceptPacket lostPeerCommand.2.1).2.1 :=
  send_tracked_counts sampleExt _
    (SendTracked.reply lostPeerCommand.2.2 (NodeRef.remote 0) acceptPacket _
      (SendTracked.peer_lost sentCommand.2.2 _ (NodeRef.remote 1)
        (SendTracked.issue coordinatorWorld (ipcFailoverCommand [68, 1] 11) false rfl
          (by decide)))
      (by
        intro i s hf hs
        have h0 : find_nodeResult lostPeerCommand.2.2.cluster.remoteNodes.length
            lostPeerCommand.2.1 (NodeRef.remote 0) = some 0 := by decide
        rw [h0] at hf
        cases hf
        have h1 : (lostPeerCommand.2.1.nodeResults.getD [])[0]?
            = some { wdNode := NodeRef.remote 0, cmdState := COMMAND_STATE_SENT,
                     result_type := WD_NO_MESSAGE } := by decide
        rw [h1] at hs
        cases hs
        exact Or.inl rfl))

/-- C28, the code departs from the claim.  `reply_is_received_for_pgpool_replicate_command`
marks the slot of the replying peer REPLIED and counts the reply whatever the state of
the slot was.  After the issue to the remote nodes 0 and 1 (send count 2, slots SENT,
SENT, DO_NOT_SEND) and the loss of node 1 (send count 1, slots SENT, DO_NOT_SEND,
DO_NOT_SEND), a late ACCEPT of node 1 makes its slot REPLIED: the send count is 1 while
two slots are in state SENT or REPLIED, and the command is finished as ALL_REPLIED
although node 0 has not replied. -/
theorem late_reply_breaks_counts :
    (sentCommand.2.1.commandSendToCount, sentCommand.2.1.commandSendToErrorCount,
      (sentCommand.2.1.nodeResults.getD []).map WDCommandNodeResult.cmdState)
      = (2, 0, [COMMAND_STATE_SENT, COMMAND_STATE_SENT, COMMAND_STATE_DO_NOT_SEND]) ∧
    (lostPeerCommand.1, lostPeerCommand.2.1.commandSendToCount,
      (lostPeerCommand.2.1.nodeResults.getD []).map WDCommandNodeResult.cmdState)
      = (IPC_CMD_PROCESSING, 1,
          [COMMAND_STATE_SENT, COMMAND_STATE_DO_NOT_SEND, COMMAND_STATE_DO_NOT_SEND]) ∧
    (lateReplyCommand.2.2.1, lateReplyCommand.2.1.commandStatus,
      lateReplyCommand.2.1.commandSendToCount,
      (lateReplyCommand.2.1.nodeResults.getD []).map WDCommandNodeResult.cmdState)
      = (true, COMMAND_FINISHED_ALL_REPLIED, 1,
          [COMMAND_STATE_SENT, COMMAND_STATE_REPLIED, COMMAND_STATE_DO_NOT_SEND]) ∧
    lateReplyCommand.2.1.commandSendToCount
      ≠ count_cmdState (lateReplyCommand.2.1.nodeResults.getD []) COMMAND_STATE_SENT
        + count_cmdState (lateReplyCommand.2.1.nodeResults.getD []) COMMAND_STATE_REPLIED := by
  decide

/-! ## The declared length of a frame -/

/-- C22, the claim as stated fails for NODE_STATUS_CHANGE.  The switch of
`check_and_report_IPC_authentication` puts that type with the user-facing commands: with
authentication disabled a NODE_STATUS_CHANGE command with an empty payload passes, and
with authentication enabled one passes whose document carries the configured
`IPCAuthKey` and no shared key. -/
theorem node_status_change_auth_counterexample :
    check_and_report_IPC_authentication sampleExt sampleJson sampleAuth false
        (ipcCommandOfType sampleAuth.WD_NODE_STATUS_CHANGE_COMMAND []) = some (true, none) ∧
    check_and_report_IPC_authentication sampleExt sampleJson sampleAuth true
        (ipcCommandOfType sampleAuth.WD_NODE_STATUS_CHANGE_COMMAND [3]) = some (true, none) ∧
    (sampleJson.json_parse [3] 1).map
        (fun v => sampleJson.json_get_int_value_for_key v sampleAuth.WD_IPC_SHARED_KEY)
      = some none := by
  decide

/-- C22 amended.  For every IPC command whose type is one of FAILOVER_COMMAND,
ONLINE_RECOVERY_COMMAND, FAILOVER_LOCKING_REQUEST and GET_MASTER_DATA_REQUEST,
`check_and_report_IPC_authentication` returns, and it succeeds if and only if the payload
is a JSON object carrying an IPCSharedKey equal to the process-internal shared key;
neither the flag `ipc_auth_needed` nor an `IPCAuthKey` in the payload plays a part. -/
theorem internal_command_authentication {J : Type} (ext : WDExternals)
    (json : JsonExternals J) (auth : IPCAuthExternals) (ipc_auth_needed : Bool)
    (ipcCommand : WDCommandData)
    (htype : ipcCommand.sourcePacket.type = ext.WD_IPC_FAILOVER_COMMAND ∨
      ipcCommand.sourcePacket.type = ext.WD_IPC_ONLINE_RECOVERY_COMMAND ∨
      ipcCommand.sourcePacket.type = ext.WD_FAILOVER_LOCKING_REQUEST ∨
      ipcCommand.sourcePacket.type = auth.WD_GET_MASTER_DATA_REQUEST)
    (hcodes : ipcCommand.sourcePacket.type ≠ auth.WD_NODE_STATUS_CHANGE_COMMAND ∧
      ipcCommand.sourcePacket.type ≠ auth.WD_REGISTER_FOR_NOTIFICATION ∧
      ipcCommand.sourcePacket.type ≠ auth.WD_GET_NODES_LIST_COMMAND) :
    ∃ (b : Bool) (msg : Option String),
      check_and_report_IPC_authentication ext json auth ipc_auth_needed ipcCommand
        = some (b, msg) ∧
      (b = true ↔
        ∃ (data : List Byte) (root : J) (key : Int),
          ipcCommand.sourcePacket.data = some data ∧ ipcCommand.sourcePacket.len > 0 ∧
          json.json_parse data ipcCommand.sourcePacket.len = some root ∧
          json.is_json_object root = true ∧
          json.json_get_int_value_for_key root auth.WD_IPC_SHARED_KEY = some key ∧
          auth.get_ipc_shared_key = some (toUInt32 key)) := by
  have h1 : ¬ (ipcCommand.sourcePacket.type = auth.WD_NODE_STATUS_CHANGE_COMMAND ∨
      ipcCommand.sourcePacket.type = auth.WD_REGISTER_FOR_NOTIFICATION ∨
      ipcCommand.sourcePacket.type = auth.WD_GET_NODES_LIST_COMMAND) := by
    rintro (h | h | h)
    · exact hcodes.1 h
    · exact hcodes.2.1 h
    · exact hcodes.2.2 h
  unfold check_and_report_IPC_authentication check_IPC_client_authentication
  simp only [if_neg h1, if_pos htype]
  cases hd : ipcCommand.sourcePacket.data with
  | none =>
    refine ⟨false, (some "authentication failed: invalid data"), by simp, ?_⟩
    simp
  | some data =>
    by_cases hlen : ipcCommand.sourcePacket.len ≤ 0
    · refine ⟨false, (some "authentication failed: invalid data"), by simp [hlen], ?_⟩
      constructor
      · intro h
        cases h
      · rintro ⟨_, _, _, _, h, _⟩
        omega
    · have hpos : ipcCommand.sourcePacket.len > 0 := by omega
      cases hp : json.json_parse data ipcCommand.sourcePacket.len with
      | none =>
        refine ⟨false, (some "authentication failed: invalid data"), by simp [hlen, hp], ?_⟩
        constructor
        · intro h
          cases h
        · rintro ⟨d, r, k, h0, _, h2, _⟩
          cases h0
          rw [hp] at h2
          cases h2
      | some root =>
        by_cases ho : json.is_json_object root = false
        · refine ⟨false, (some "authentication failed: invalid data"), by simp [hlen, hp, ho], ?_⟩
          constructor
          · intro h
            cases h
          · rintro ⟨d, r, k, h0, _, h2, h3, _⟩
            cases h0
            rw [hp] at h2
            cases h2
            rw [ho] at h3
            cases h3
        · have ho1 : json.is_json_object root = true := by
            cases h : json.is_json_object root
            · exact absurd h ho
            · rfl
          cases hs : auth.get_ipc_shared_key with
          | none =>
            refine ⟨false, (some "authentication failed: invalid KEY"), by simp [hlen, hp, ho1, hs], ?_⟩
            constructor
            · intro h
              cases h
            · rintro ⟨_, _, _, _, _, _, _, _, h⟩
              cases h
          | some shared_key =>
            cases hk : json.json_get_int_value_for_key root auth.WD_IPC_SHARED_KEY with
            | none =>
              refine ⟨false, (some "authentication failed: invalid KEY"), by simp [hlen, hp, ho1, hs, hk], ?_⟩
              constructor
              · intro h
                cases h
              · rintro ⟨d, r, k, h0, _, h2, _, h4, _⟩
                cases h0
                rw [hp] at h2
                cases h2
                rw [hk] at h4
                cases h4
            | some key =>
              by_cases he : shared_key = toUInt32 key
              · refine ⟨true, none, by simp [hlen, hp, ho1, hs, hk, he], ?_⟩
                constructor
                · intro _
                  exact ⟨data, root, key, rfl, hpos, hp, ho1, hk, by rw [he]⟩
                · intro _
                  rfl
              · refine ⟨false, (some "authentication failed: invalid KEY"), by simp [hlen, hp, ho1, hs, hk, he], ?_⟩
                constructor
                · intro h
                  cases h
                · rintro ⟨d, r, k, h0, _, h2, _, h4, h5⟩
                  cases h0
                  rw [hp] at h2
                  cases h2
                  rw [hk] at h4
                  cases h4
                  exact absurd (Option.some.inj h5) he

/-- Witness of C22 on a FAILOVER_COMMAND: the document with the shared key 4242 passes;
the document with the shared key 7 and the configured auth key is rejected with
authentication disabled. -/
theorem internal_command_authentication_witness :
    check_and_report_IPC_authentication sampleExt sampleJson sampleAuth true
      (ipcCommandOfType sampleExt.WD_IPC_FAILOVER_COMMAND [1]) = some (true, none) ∧
    check_and_report_IPC_authentication sampleExt sampleJson sampleAuth false
      (ipcCommandOfType sampleExt.WD_IPC_FAILOVER_COMMAND [2])
      = some (false, some "authentication failed: invalid KEY") ∧
    ∃ (b : Bool) (msg : Option String),
      check_and_report_IPC_authentication sampleExt sampleJson sampleAuth true
        (ipcCommandOfType sampleExt.WD_IPC_FAILOVER_COMMAND [1]) = some (b, msg) ∧
      (b = true ↔
        ∃ (data : List Byte) (root : SampleJson) (key : Int),
          (ipcCommandOfType sampleExt.WD_IPC_FAILOVER_COMMAND [1]).sourcePacket.data
            = some data ∧
          (ipcCommandOfType sampleExt.WD_IPC_FAILOVER_COMMAND [1]).sourcePacket.len > 0 ∧
          sampleJson.json_parse data
            (ipcCommandOfType sampleExt.WD_IPC_FAILOVER_COMMAND [1]).sourcePacket.len
            = some root ∧
          sampleJson.is_json_object root = true ∧
          sampleJson.json_get_int_value_for_key root sampleAuth.WD_IPC_SHARED_KEY = some key ∧
          sampleAuth.get_ipc_shared_key = some (toUInt32 key)) :=
  ⟨by decide, by decide,
   internal_command_authentication sampleExt sampleJson sampleAuth true
     (ipcCommandOfType sampleExt.WD_IPC_FAILOVER_COMMAND [1]) (Or.inl rfl) (by decide)⟩

/-! ## Lock requests with an index outside the table -/

/-- C30, the code departs from the claim.  The release and the status verb start with a
log message that reads `wd_failover_lock_name[failoverLock]`, before any test of the
index, so with an index outside `0..K-1` the name table is read out of bounds (`none`)
and no result ERROR is produced.  `process_failover_locking_requests_on_cordinator`
passes the index of the request on as it is, and `-1` when the request carries no
`FailoverLockID`. -/
theorem lock_request_index_out_of_bounds {J : Type} (ext : WDExternals)
    (json : JsonExternals J) (req : LockRequestExternals) (w : World)
    (ipcCommand : WDCommandData) (data : List Byte) (root : J) (syncRequestType : String)
    (hcoord : w.cluster.localNode.state = WD_COORDINATOR)
    (hdata : ipcCommand.sourcePacket.data = some data)
    (hlen : ipcCommand.sourcePacket.len > 0)
    (hparse : json.json_parse data ipcCommand.sourcePacket.len = some root)
    (hobj : json.is_json_object root = true)
    (hreq : json.json_get_string_value_for_key root "SyncRequestType" = some syncRequestType)
    (hstart : req.is_failover_start syncRequestType = false)
    (hend : req.is_failover_end syncRequestType = false)
    (hverb : req.is_failover_release_lock syncRequestType = true ∨
      req.is_failover_lock_status syncRequestType = true)
    (hid : ∀ v, json.json_get_int_value_for_key root "FailoverLockID" = some v →
      v < 0 ∨ (MAX_FAILOVER_LOCKS : Int) ≤ v) :
    process_failover_locking_requests_on_cordinator ext json req w ipcCommand = none ∧
    (∀ (c : wd_cluster) (wdNode : NodeRef) (failoverID : Nat) (failoverLock : Int),
      failoverLock < 0 ∨ (MAX_FAILOVER_LOCKS : Int) ≤ failoverLock →
      node_is_asking_for_failover_lock_release c wdNode failoverLock = none ∧
      node_is_asking_for_failover_lock_status c failoverLock failoverID = none) := by
  have hverbs : ∀ (c : wd_cluster) (wdNode : NodeRef) (failoverID : Nat) (failoverLock : Int),
      failoverLock < 0 ∨ (MAX_FAILOVER_LOCKS : Int) ≤ failoverLock →
      node_is_asking_for_failover_lock_release c wdNode failoverLock = none ∧
      node_is_asking_for_failover_lock_status c failoverLock failoverID = none := by
    intro c wdNode failoverID failoverLock h
    have h1 : failoverLock < 0 ∨ (wd_failover_lock_name.length : Int) ≤ failoverLock := h
    unfold node_is_asking_for_failover_lock_release node_is_asking_for_failover_lock_status
    rw [if_pos h1, if_pos h1]
    exact ⟨rfl, rfl⟩
  refine ⟨?_, hverbs⟩
  have hidx : (json.json_get_int_value_for_key root "FailoverLockID").getD (-1) < 0 ∨
      (MAX_FAILOVER_LOCKS : Int) ≤
        (json.json_get_int_value_for_key root "FailoverLockID").getD (-1) := by
    cases hv : json.json_get_int_value_for_key root "FailoverLockID" with
    | none => exact Or.inl (by decide)
    | some v => exact hid v hv
  have hlen1 : ¬ (ipcCommand.sourcePacket.len ≤ 0) := by omega
  unfold process_failover_locking_requests_on_cordinator
  simp only [hcoord, hdata, hparse, hobj, hreq, hstart, hend, hlen1, ne_eq, not_true_eq_false,
    if_false, Bool.true_eq_false, Bool.false_eq_true]
  split
  · rfl
  · rename_i wdNode hw
    rcases hverb with h | h
    · simp only [h, if_true, (hverbs w.cluster wdNode 0 _ hidx).1]
    · by_cases hr : req.is_failover_release_lock syncRequestType = true
      · simp only [hr, if_true, (hverbs w.cluster wdNode 0 _ hidx).1]
      · have hr1 : req.is_failover_release_lock syncRequestType = false := by
          cases hx : req.is_failover_release_lock syncRequestType
          · rfl
          · exact absurd hx hr
        simp only [hr1, h, if_true, if_false, Bool.false_eq_true,
          (hverbs w.cluster wdNode _ _ hidx).2]

/-- Witness of C30: the lock holder of `lockedCluster` sends a release request without
`FailoverLockID`. -/
theorem lock_request_index_out_of_bounds_witness :
    lockedCluster.localNode.state = WD_COORDINATOR ∧
    lockedCluster.interlockingNode.lockHolderNode = some NodeRef.localNode ∧
    sampleJson.json_get_int_value_for_key
      (SampleJson.object [("WDFailoverID", 2)] [("SyncRequestType", "RELEASE")])
      "FailoverLockID" = none ∧
    process_failover_locking_requests_on_cordinator sampleExt sampleJson sampleReq
      { masterWorld with cluster := lockedCluster }
      (ipcCommandOfType sampleExt.WD_FAILOVER_LOCKING_REQUEST [4]) = none ∧
    (∀ (c : wd_cluster) (wdNode : NodeRef) (failoverID : Nat) (failoverLock : Int),
      failoverLock < 0 ∨ (MAX_FAILOVER_LOCKS : Int) ≤ failoverLock →
      node_is_asking_for_failover_lock_release c wdNode failoverLock = none ∧
      node_is_asking_for_failover_lock_status c failoverLock failoverID = none) :=
  ⟨by decide, by decide, by decide,
   lock_request_index_out_of_bounds sampleExt sampleJson sampleReq
     { masterWorld with cluster := lockedCluster }
     (ipcCommandOfType sampleExt.WD_FAILOVER_LOCKING_REQUEST [4]) [4]
     (SampleJson.object [("WDFailoverID", 2)] [("SyncRequestType", "RELEASE")]) "RELEASE"
     (by decide) rfl (by decide) (by decide) (by decide) (by decide) (by decide) (by decide)
     (Or.inl (by decide)) (by
       intro v hv
       have h0 : sampleJson.json_get_int_value_for_key
           (SampleJson.object [("WDFailoverID", 2)] [("SyncRequestType", "RELEASE")])
           "FailoverLockID" = none := by decide
       rw [h0] at hv
       cases hv)⟩

/-! ## Replies to the commands of `clusterCommands` -/

/-- A list without a record of source `COMMAND_SOURCE_IPC` gives the look-up no position. -/
theorem get_wd_command_index_from_reply_none (l : List WDCommandData) (pkt : WDPacketData)
    (h : ∀ c ∈ l, c.commandSource ≠ COMMAND_SOURCE_IPC) :
    get_wd_command_index_from_reply l pkt = none := by
  induction l with
  | nil => rfl
  | cons a l ih =>
    unfold get_wd_command_index_from_reply
    rw [if_pos (h a (List.mem_cons_self _ _)), ih fun c hc => h c (List.mem_cons_of_mem _ hc)]
    rfl

/-- C17, the code departs from the claim.  Whatever `issue_watchdog_internal_command`
records (the source of its record is `COMMAND_SOURCE_LOCAL`), the look-up of
`watchdog_internal_command_packet_processor` returns NULL for every reply, so the
function returns `false` at its first test: the world is as before, the command is still
IN_PROGRESS and no COMMAND_FINISHED is raised, also for a REJECT or an ERROR that carries
the command id of the record, and for the ACCEPT or INFO that would complete the replies. -/
theorem cluster_command_reply_ignored (ext : WDExternals) (w : World)
    (target : Option NodeRef) (pkt : WDPacketData) (wdNode : NodeRef) (reply : WDPacketData)
    (hold : ∀ c ∈ w.cluster.clusterCommands, c.commandSource ≠ COMMAND_SOURCE_IPC) :
    watchdog_internal_command_packet_processor ext
        (issue_watchdog_internal_command w target pkt).2 wdNode reply
      = some (false, (issue_watchdog_internal_command w target pkt).2, none) := by
  obtain ⟨_, _, _, hcmd⟩ := issue_watchdog_internal_command_spec w target pkt
  have hall : ∀ c ∈ (issue_watchdog_internal_command w target pkt).2.cluster.clusterCommands,
      c.commandSource ≠ COMMAND_SOURCE_IPC := by
    rcases hcmd with h | ⟨cmd, h, hc⟩
    · rw [h]; exact hold
    · rw [h]
      intro c hc'
      rcases List.mem_append.mp hc' with h1 | h1
      · exact hold c h1
      · rw [List.mem_singleton] at h1
        rw [h1, hc.1]
        decide
  unfold watchdog_internal_command_packet_processor
  rw [get_wd_command_index_from_reply_none _ _ hall]

/-- Witness of C17, as the code behaves: `masterWorld` broadcasts `declarePacket` (command
id 9, sent to two peers); the REJECT of remote node 0 with command id 9 is not consumed
and leaves the world, the record in progress included, as it was. -/
theorem cluster_command_reply_ignored_witness :
    (issue_watchdog_internal_command masterWorld none declarePacket).2.cluster.clusterCommands.map
        (fun c => (c.commandPacket.command_id, c.commandStatus, c.commandSendToCount))
      = [(9, COMMAND_IN_PROGRESS, 2)] ∧
    rejectPacket.type = WD_REJECT_MESSAGE ∧ rejectPacket.command_id = 9 ∧
    watchdog_internal_command_packet_processor sampleExt
        (issue_watchdog_internal_command masterWorld none declarePacket).2 (NodeRef.remote 0)
        rejectPacket
      = some (false, (issue_watchdog_internal_command masterWorld none declarePacket).2, none) :=
  ⟨by decide, rfl, rfl,
   cluster_command_reply_ignored sampleExt masterWorld none declarePacket (NodeRef.remote 0)
     rejectPacket (fun _ h => absurd h (List.not_mem_nil _))⟩

theorem update_quorum_status_escalated (c : wd_cluster) :
    (update_quorum_status c).2.escalated = c.escalated := by
  unfold update_quorum_status
  dsimp only
  split_ifs <;> rfl

theorem update_quorum_status_holding_vip (c : wd_cluster) :
    (update_quorum_status c).2.holding_vip = c.holding_vip := by
  unfold update_quorum_status
  dsimp only
  split_ifs <;> rfl

theorem update_quorum_status_localNode (c : wd_cluster) :
    (update_quorum_status c).2.localNode = c.localNode := by
  unfold update_quorum_status
  dsimp only
  split_ifs <;> rfl

theorem update_quorum_status_stored (c : wd_cluster) :
    (update_quorum_status c).2.quorum_status = (update_quorum_status c).1 := by
  unfold update_quorum_status
  rfl

/-- The quorum status is lost exactly when fewer remote nodes are active than the minimum
requires. -/
theorem update_quorum_status_lost_iff (c : wd_cluster) :
    (update_quorum_status c).1 = -1 ↔
      get_cluster_node_count c < get_mimimum_nodes_required_for_quorum c := by
  unfold update_quorum_status
  dsimp only
  split_ifs with h1 h2 h3
  · constructor
    · intro h; cases h
    · intro h; omega
  · constructor
    · intro h; cases h
    · intro h; omega
  · constructor
    · intro h; cases h
    · intro h; omega
  · constructor
    · intro _; omega
    · intro _; rfl

/-- The computed quorum status depends on the node records only. -/
theorem update_quorum_status_of_nodes (c c1 : wd_cluster)
    (h : c1.remoteNodes = c.remoteNodes) :
    (update_quorum_status c1).1 = (update_quorum_status c).1 := by
  unfold update_quorum_status get_cluster_node_count get_mimimum_nodes_required_for_quorum
    wd_cluster.remoteNodeCount
  dsimp only
  rw [h]
  split_ifs <;> rfl

/-- The computed quorum status depends on the states of the remote nodes only. -/
theorem update_quorum_status_congr (c c1 : wd_cluster)
    (h : c1.remoteNodes.map WatchdogNode.state = c.remoteNodes.map WatchdogNode.state) :
    (update_quorum_status c1).1 = (update_quorum_status c).1 := by
  have hc := get_cluster_node_count_congr c1 c h
  have hl : c1.remoteNodes.length = c.remoteNodes.length := by
    have := congrArg List.length h
    simpa using this
  unfold update_quorum_status get_mimimum_nodes_required_for_quorum wd_cluster.remoteNodeCount
  dsimp only
  rw [hc, hl]
  split_ifs <;> rfl

/-- A record that takes an active state does not lower the number of active nodes. -/
theorem get_cluster_node_count_set_active (c : wd_cluster) (i : Nat) (n1 : WatchdogNode)
    (hactive : ¬ (n1.state = WD_DEAD ∨ n1.state = WD_LOST ∨ n1.state = WD_SHUTDOWN)) :
    get_cluster_node_count c ≤ get_cluster_node_count (set_node c (NodeRef.remote i) n1) := by
  rw [get_cluster_node_count_eq, get_cluster_node_count_eq]
  show ((c.remoteNodes.countP is_node_active : Nat) : Int)
    ≤ (((c.remoteNodes.set i n1).countP is_node_active : Nat) : Int)
  have ha : is_node_active n1 = true := by
    unfold is_node_active
    rw [if_neg hactive]
  by_cases hlt : i < c.remoteNodes.length
  · have h1 := List.countP_set is_node_active c.remoteNodes i n1 hlt
    have h2 := List.boole_getElem_le_countP is_node_active c.remoteNodes i hlt
    rw [ha] at h1
    simp only [if_true] at h1
    by_cases hb : is_node_active c.remoteNodes[i] = true
    · simp only [hb, if_true] at h1 h2
      omega
    · simp only [hb] at h1 h2
      simp only [Bool.false_eq_true, if_false] at h1 h2
      omega
  · rw [List.set_eq_of_length_le (by omega)]

/-- With as many node records and no fewer active ones, a quorum that is present stays
present. -/
theorem update_quorum_status_mono (c c1 : wd_cluster)
    (hlen : c1.remoteNodes.length = c.remoteNodes.length)
    (hcount : get_cluster_node_count c ≤ get_cluster_node_count c1)
    (h : (update_quorum_status c).1 ≠ -1) : (update_quorum_status c1).1 ≠ -1 := by
  rw [Ne, update_quorum_status_lost_iff] at h ⊢
  have hm : get_mimimum_nodes_required_for_quorum c1
      = get_mimimum_nodes_required_for_quorum c := by
    unfold get_mimimum_nodes_required_for_quorum wd_cluster.remoteNodeCount
    rw [hlen]
  rw [hm]
  omega

theorem start_escalated_node_frame (c : wd_cluster) (forked has_delegate_ip : Bool) :
    (start_escalated_node c forked has_delegate_ip).quorum_status = c.quorum_status ∧
    (start_escalated_node c forked has_delegate_ip).remoteNodes = c.remoteNodes ∧
    (start_escalated_node c forked has_delegate_ip).localNode = c.localNode := by
  unfold start_escalated_node
  split_ifs <;> exact ⟨rfl, rfl, rfl⟩

/-- The start of the escalation sets `holding_vip` only together with `escalated`. -/
theorem start_escalated_node_vip (c : wd_cluster) (forked has_delegate_ip : Bool)
    (hv : c.holding_vip = true → c.escalated = true) :
    (start_escalated_node c forked has_delegate_ip).holding_vip = true →
      (start_escalated_node c forked has_delegate_ip).escalated = true := by
  unfold start_escalated_node
  split_ifs with h1 h2 h3
  · exact hv
  · intro _; rfl
  · intro _; rfl
  · exact hv

/-- After `resign_from_escalated_node` the node is not escalated, and it does not hold the
virtual IP if it held it only while escalated. -/
theorem resign_from_escalated_node_flags (c : wd_cluster)
    (hv : c.holding_vip = true → c.escalated = true) :
    (resign_from_escalated_node c).escalated = false ∧
    (resign_from_escalated_node c).holding_vip = false := by
  unfold resign_from_escalated_node
  split_ifs with h
  · refine ⟨h, ?_⟩
    cases hh : c.holding_vip with
    | false => rfl
    | true => rw [hv hh] at h; cases h
  · exact ⟨rfl, rfl⟩

theorem resign_from_escalated_node_frame (c : wd_cluster) :
    (resign_from_escalated_node c).quorum_status = c.quorum_status ∧
    (resign_from_escalated_node c).remoteNodes = c.remoteNodes ∧
    (resign_from_escalated_node c).localNode = c.localNode := by
  unfold resign_from_escalated_node
  split_ifs <;> exact ⟨rfl, rfl, rfl⟩

theorem FlagsFrame_refl (w : World) : FlagsFrame w w := ⟨rfl, rfl, rfl, rfl⟩

theorem FlagsFrame_trans {w1 w2 w3 : World} (h12 : FlagsFrame w1 w2) (h23 : FlagsFrame w2 w3) :
    FlagsFrame w1 w3 :=
  ⟨h23.1.trans h12.1, h23.2.1.trans h12.2.1, h23.2.2.1.trans h12.2.2.1,
   h23.2.2.2.trans h12.2.2.2⟩

theorem EscalationFrame_of_WorldFrame {w w1 : World} (h : WorldFrame w w1) :
    EscalationFrame w w1 := by
  obtain ⟨hs, hn, _⟩ := h
  unfold NodesFrame at hn
  refine ⟨⟨?_, ?_, ?_, hs.2.2.2.2.1⟩, hs.2.2.2.2.2.1⟩
  · rw [hn]
  · rw [hn]
  · rw [hn]

theorem FlagsFrame_of_WorldFrame {w w1 : World} (h : WorldFrame w w1) : FlagsFrame w w1 :=
  (EscalationFrame_of_WorldFrame h).1
theorem write_ipc_command_fframe (w : World) (ipcCommand : WDCommandData) (type : Byte)
    (data : Option (List Byte)) (len : Int) :
    FlagsFrame w (write_ipc_command_with_result_data w ipcCommand type data len).2 := by
  unfold write_ipc_command_with_result_data
  split_ifs
  · exact FlagsFrame_refl _
  · exact ⟨rfl, rfl, rfl, rfl⟩

theorem wd_command_is_complete_fframe (ext : WDExternals) (w : World)
    (ipcCommand : WDCommandData) : FlagsFrame w (wd_command_is_complete ext w ipcCommand) := by
  unfold wd_command_is_complete
  split_ifs
  all_goals first
    | exact FlagsFrame_refl _
    | exact write_ipc_command_fframe _ _ _ _ _
    | exact FlagsFrame_of_WorldFrame (reply_with_minimal_message_wframe _ _ _ _)

theorem node_lost_event_fframe (ext : WDExternals) (w : World) (ipcCommand : WDCommandData)
    (wdLostNode : NodeRef) :
    FlagsFrame w (wd_command_processor_for_node_lost_event ext w ipcCommand wdLostNode).2.2 := by
  unfold wd_command_processor_for_node_lost_event
  cases hs : ipcCommand.sendToNode with
  | some sendToNode =>
    simp only []
    split_ifs
    · exact wd_command_is_complete_fframe _ _ _
    · exact FlagsFrame_refl _
  | none =>
    simp only []
    cases hf : find_nodeResult w.cluster.remoteNodes.length ipcCommand wdLostNode with
    | none => exact FlagsFrame_refl _
    | some i =>
      simp only []
      cases hr : (ipcCommand.nodeResults.getD [])[i]? with
      | none => exact FlagsFrame_refl _
      | some nodeResult =>
        simp only []
        split_ifs
        all_goals first
          | exact FlagsFrame_refl _
          | exact wd_command_is_complete_fframe _ _ _

theorem node_lost_while_ipc_command_step_fframe (ext : WDExternals) (wdNode : NodeRef)
    (acc : World × List Nat) (j : Nat) :
    FlagsFrame acc.1 (node_lost_while_ipc_command_step ext wdNode acc j).1 := by
  unfold node_lost_while_ipc_command_step
  cases hc : acc.1.cluster.ipc_commands[j]? with
  | none => exact FlagsFrame_refl _
  | some ipcCommand =>
    simp only []
    have h := node_lost_event_fframe ext acc.1 ipcCommand wdNode
    split_ifs
    all_goals exact ⟨h.1, h.2.1, h.2.2.1, h.2.2.2⟩

theorem node_lost_while_ipc_command_loop_fframe (ext : WDExternals) (wdNode : NodeRef)
    (l : List Nat) (acc : World × List Nat) :
    FlagsFrame acc.1 (l.foldl (node_lost_while_ipc_command_step ext wdNode) acc).1 := by
  induction l generalizing acc with
  | nil => exact FlagsFrame_refl _
  | cons i l ih =>
    rw [List.foldl_cons]
    exact FlagsFrame_trans (node_lost_while_ipc_command_step_fframe ext wdNode acc i) (ih _)

theorem node_lost_while_ipc_command_fframe (ext : WDExternals) (w : World) (wdNode : NodeRef) :
    FlagsFrame w (node_lost_while_ipc_command ext w wdNode) := by
  unfold node_lost_while_ipc_command
  have h := node_lost_while_ipc_command_loop_fframe ext wdNode
    (List.range w.cluster.ipc_commands.length) (w, [])
  exact ⟨h.1, h.2.1, h.2.2.1, h.2.2.2⟩

/-- The REMOTE_NODE_LOST branch of the state machine for a remote node leaves the
escalation flags, the stored quorum status and the state of the local node alone. -/
theorem remote_node_lost_branch_fframe (ext : WDExternals) (w w1 : World) (i : Nat)
    (h : remote_node_lost_branch ext w (NodeRef.remote i) = some w1) : FlagsFrame w w1 := by
  unfold remote_node_lost_branch at h
  cases hg : get_node w.cluster (NodeRef.remote i) with
  | none => rw [hg] at h; cases h
  | some n =>
    rw [hg] at h
    simp only [Option.some.injEq] at h
    rw [← h]
    refine FlagsFrame_trans ?_ (node_lost_while_ipc_command_fframe ext _ _)
    simp only [set_node]
    split_ifs <;> exact ⟨rfl, rfl, rfl, rfl⟩

/-- The event REMOTE_NODE_LOST for a remote node on a node in COORDINATOR state that holds
the virtual IP only while escalated: afterwards the stored quorum status is the one
computed from the node records, the node is still in COORDINATOR state and holds the
virtual IP only while escalated, and if the quorum status is `-1` it is not escalated and
does not hold the virtual IP. -/
theorem coordinator_node_lost_event (ext : WDExternals) (w w1 : World) (i : Nat)
    (last_rcv_sec : Int)
    (hs : w.cluster.localNode.state = WD_COORDINATOR)
    (hv : w.cluster.holding_vip = true → w.cluster.escalated = true)
    (h : watchdog_state_machine_remote_node_lost ext w (NodeRef.remote i) last_rcv_sec
      = some w1) :
    (update_quorum_status w1.cluster).1 = w1.cluster.quorum_status ∧
    (w1.cluster.holding_vip = true → w1.cluster.escalated = true) ∧
    w1.cluster.localNode.state = WD_COORDINATOR ∧
    (w1.cluster.quorum_status = -1 →
      w1.cluster.escalated = false ∧ w1.cluster.holding_vip = false) := by
  unfold watchdog_state_machine_remote_node_lost at h
  cases hb : remote_node_lost_branch ext w (NodeRef.remote i) with
  | none => rw [hb] at h; cases h
  | some wb =>
    rw [hb] at h
    obtain ⟨f1, f2, _, f4⟩ := remote_node_lost_branch_fframe ext w wb i hb
    have hsb : wb.cluster.localNode.state = WD_COORDINATOR := f4.trans hs
    have hvb : wb.cluster.holding_vip = true → wb.cluster.escalated = true := by
      rw [f1, f2]; exact hv
    simp only [hsb] at h
    unfold watchdog_state_machine_coordinator at h
    dsimp only at h
    have hvu : (update_quorum_status wb.cluster).2.holding_vip = true →
        (update_quorum_status wb.cluster).2.escalated = true := by
      rw [update_quorum_status_holding_vip, update_quorum_status_escalated]; exact hvb
    by_cases hq : (update_quorum_status wb.cluster).2.quorum_status = -1
    · rw [if_pos hq] at h
      simp only [Option.some.injEq] at h
      rw [← h]
      obtain ⟨r1, r2, r3⟩ := resign_from_escalated_node_frame (update_quorum_status wb.cluster).2
      obtain ⟨e1, e2⟩ := resign_from_escalated_node_flags (update_quorum_status wb.cluster).2 hvu
      refine ⟨?_, ?_, ?_, fun _ => ⟨e1, e2⟩⟩
      · show (update_quorum_status (resign_from_escalated_node _)).1
          = (resign_from_escalated_node _).quorum_status
        rw [r1, update_quorum_status_stored,
          update_quorum_status_of_nodes wb.cluster _ (r2.trans (update_quorum_status_nodes _))]
      · intro hh
        rw [show (resign_from_escalated_node (update_quorum_status wb.cluster).2).holding_vip
          = false from e2] at hh
        cases hh
      · show (resign_from_escalated_node _).localNode.state = _
        rw [r3, update_quorum_status_localNode]
        exact hsb
    · rw [if_neg hq] at h
      simp only [Option.some.injEq] at h
      rw [← h]
      refine ⟨?_, hvu, ?_, fun hc => absurd hc hq⟩
      · show (update_quorum_status (update_quorum_status wb.cluster).2).1
          = (update_quorum_status wb.cluster).2.quorum_status
        rw [update_quorum_status_stored,
          update_quorum_status_of_nodes wb.cluster _ (update_quorum_status_nodes _)]
      · show (update_quorum_status wb.cluster).2.localNode.state = _
        rw [update_quorum_status_localNode]
        exact hsb

/-- On a node in COORDINATOR state the event REMOTE_NODE_LOST for a node of the cluster is
handled to the end. -/
theorem coordinator_node_lost_returns (ext : WDExternals) (w : World) (i : Nat)
    (n : WatchdogNode) (last_rcv_sec : Int)
    (hs : w.cluster.localNode.state = WD_COORDINATOR)
    (hn : w.cluster.remoteNodes[i]? = some n) :
    ∃ w1, watchdog_state_machine_remote_node_lost ext w (NodeRef.remote i) last_rcv_sec
      = some w1 := by
  obtain ⟨wb, _, hb, _⟩ := remote_node_lost_branch_spec ext w i n hn
  obtain ⟨_, _, _, f4⟩ := remote_node_lost_branch_fframe ext w wb i hb
  unfold watchdog_state_machine_remote_node_lost
  rw [hb]
  simp only [f4.trans hs]
  unfold watchdog_state_machine_coordinator
  dsimp only
  split_ifs
  · exact ⟨_, rfl⟩
  · exact ⟨_, rfl⟩
theorem issue_watchdog_internal_command_fframe (w : World) (wdNode : Option NodeRef)
    (pkt : WDPacketData) : FlagsFrame w (issue_watchdog_internal_command w wdNode pkt).2 := by
  obtain ⟨hs, hi, _, _⟩ := issue_watchdog_internal_command_spec w wdNode pkt
  unfold IssueFrame at hi
  refine ⟨?_, ?_, ?_, hs.2.2.2.2.1⟩
  · rw [hi]
  · rw [hi]
  · rw [hi]

theorem send_cluster_command_fframe (ext : WDExternals) (w : World) (wdNode : Option NodeRef)
    (type : Byte) : FlagsFrame w (send_cluster_command ext w wdNode type).2 := by
  unfold send_cluster_command
  cases h : get_message_of_type ext w.cluster type with
  | none => exact FlagsFrame_refl _
  | some m =>
    exact FlagsFrame_trans (FlagsFrame_of_WorldFrame (get_message_of_type_wframe ext w type m h))
      (issue_watchdog_internal_command_fframe _ _ _)

theorem new_outbound_connection_fframe (ext : WDExternals) (w w1 : World) (wdNode : NodeRef)
    (h : watchdog_state_machine_new_outbound_connection ext w wdNode = some w1) :
    FlagsFrame w w1 := by
  unfold watchdog_state_machine_new_outbound_connection at h
  dsimp only at h
  split_ifs at h
  simp only [Option.some.injEq] at h
  rw [← h]
  exact FlagsFrame_of_WorldFrame
    (WorldFrame_trans (get_addnode_message_wframe ext w) (send_message_wframe _ _ _))

theorem try_connecting_step_fframe (ext : WDExternals) (w w1 : World) (i : Nat)
    (h : try_connecting_step ext (some w) i = some w1) : FlagsFrame w w1 := by
  unfold try_connecting_step at h
  dsimp only at h
  cases hn : w.cluster.remoteNodes[i]? with
  | none =>
    rw [hn] at h
    simp only [Option.some.injEq] at h
    rw [← h]
    exact FlagsFrame_refl _
  | some wdNode =>
    rw [hn] at h
    dsimp only at h
    have hk : FlagsFrame w
        { w with
          cluster := set_node w.cluster (NodeRef.remote i)
            (connect_to_node wdNode (w.connects.headD (-1, false)))
          connects := w.connects.tail } := ⟨rfl, rfl, rfl, rfl⟩
    split_ifs at h
    · simp only [Option.some.injEq] at h
      rw [← h]
      exact FlagsFrame_refl _
    · exact FlagsFrame_trans hk (new_outbound_connection_fframe ext _ _ _ h)
    · simp only [Option.some.injEq] at h
      rw [← h]
      exact hk
    · simp only [Option.some.injEq] at h
      rw [← h]
      exact FlagsFrame_refl _

theorem try_connecting_step_none (ext : WDExternals) (l : List Nat) :
    l.foldl (try_connecting_step ext) none = none := by
  induction l with
  | nil => rfl
  | cons i l ih =>
    rw [List.foldl_cons]
    exact ih

theorem try_connecting_loop_fframe (ext : WDExternals) (l : List Nat) (w w1 : World)
    (h : l.foldl (try_connecting_step ext) (some w) = some w1) : FlagsFrame w w1 := by
  induction l generalizing w with
  | nil =>
    simp only [List.foldl_nil, Option.some.injEq] at h
    rw [← h]
    exact FlagsFrame_refl _
  | cons i l ih =>
    rw [List.foldl_cons] at h
    cases hs : try_connecting_step ext (some w) i with
    | none =>
      rw [hs, try_connecting_step_none] at h
      cases h
    | some w0 =>
      rw [hs] at h
      exact FlagsFrame_trans (try_connecting_step_fframe ext w w0 i hs) (ih w0 h)

/-- The handlers of the event STATE_CHANGED leave the escalation flags and the state of
the local node alone. -/
theorem watchdog_state_machine_state_changed_flags (ext : WDExternals) (w w1 : World)
    (h : watchdog_state_machine_state_changed ext w = some w1) :
    w1.cluster.escalated = w.cluster.escalated ∧
    w1.cluster.holding_vip = w.cluster.holding_vip ∧
    w1.cluster.localNode.state = w.cluster.localNode.state := by
  have hfin : ∀ w0 : World, FlagsFrame w w0 →
      w0.cluster.escalated = w.cluster.escalated ∧
      w0.cluster.holding_vip = w.cluster.holding_vip ∧
      w0.cluster.localNode.state = w.cluster.localNode.state :=
    fun w0 f => ⟨f.1, f.2.1, f.2.2.2⟩
  unfold watchdog_state_machine_state_changed at h
  cases hst : w.cluster.localNode.state
  all_goals simp only [hst] at h
  case WD_JOINING =>
    unfold joining_state_changed at h
    cases ht : try_connecting_with_all_unreachable_nodes ext
        { w with cluster := { w.cluster with masterNode := none } } with
    | none => rw [ht] at h; cases h
    | some w0 =>
      rw [ht] at h
      simp only [Option.some.injEq] at h
      rw [← h, ← hst]
      have f0 : FlagsFrame w { w with cluster := { w.cluster with masterNode := none } } :=
        ⟨rfl, rfl, rfl, rfl⟩
      exact hfin _ (FlagsFrame_trans (FlagsFrame_trans f0
        (try_connecting_loop_fframe ext _ _ _ ht)) (send_cluster_command_fframe _ _ _ _))
  case WD_INITIALIZING =>
    simp only [Option.some.injEq] at h
    rw [← h, ← hst]
    exact ⟨rfl, rfl, rfl⟩
  case WD_PARTICIPATE_IN_ELECTION =>
    simp only [Option.some.injEq] at h
    rw [← h, ← hst]
    exact ⟨rfl, rfl, rfl⟩
  case WD_COORDINATOR =>
    simp only [Option.some.injEq] at h
    rw [← h, ← hst]
    exact hfin _ (send_cluster_command_fframe _ _ _ _)
  case WD_STAND_FOR_COORDINATOR =>
    simp only [Option.some.injEq] at h
    rw [← h, ← hst]
    exact hfin _ (send_cluster_command_fframe _ _ _ _)
  case WD_STANDBY =>
    simp only [Option.some.injEq] at h
    rw [← h, ← hst]
    unfold standby_state_changed
    have f := send_cluster_command_fframe ext w w.cluster.masterNode WD_JOIN_COORDINATOR_MESSAGE
    refine ⟨?_, ?_, ?_⟩
    · show (update_quorum_status _).2.escalated = _
      rw [update_quorum_status_escalated]; exact f.1
    · show (update_quorum_status _).2.holding_vip = _
      rw [update_quorum_status_holding_vip]; exact f.2.1
    · show (update_quorum_status _).2.localNode.state = _
      rw [update_quorum_status_localNode]; exact f.2.2.2
  all_goals cases h

/-- `set_state` on a node in COORDINATOR state that holds the virtual IP only while
escalated: the new state is stored, and when it is another state than COORDINATOR the node
is not escalated and does not hold the virtual IP afterwards; a call with the state
COORDINATOR changes neither flag, nor the quorum status, nor a node record. -/
theorem set_state_leaves_coordinator (ext : WDExternals) (w w1 : World) (s : WD_STATES)
    (hs : w.cluster.localNode.state = WD_COORDINATOR)
    (hv : w.cluster.holding_vip = true → w.cluster.escalated = true)
    (h : set_state ext w s = some w1) :
    w1.cluster.localNode.state = s ∧
    (s ≠ WD_COORDINATOR → w1.cluster.escalated = false ∧ w1.cluster.holding_vip = false) ∧
    (s = WD_COORDINATOR → EscalationFrame w w1) := by
  unfold set_state at h
  dsimp only at h
  by_cases hne : w.cluster.localNode.state ≠ s
  · rw [if_pos hne, if_pos hs] at h
    cases h3 : watchdog_state_machine_state_changed ext
        { w with
          cluster := resign_from_escalated_node
            { w.cluster with localNode := { w.cluster.localNode with state := s } } } with
    | none => rw [h3] at h; cases h
    | some w3 =>
      rw [h3] at h
      simp only [Option.some.injEq] at h
      obtain ⟨a1, a2, a3⟩ := watchdog_state_machine_state_changed_flags ext _ w3 h3
      obtain ⟨b1, b2, _, b4⟩ :=
        FlagsFrame_of_WorldFrame (send_message_of_type_wframe ext w3 none WD_INFO_MESSAGE)
      obtain ⟨e1, e2⟩ := resign_from_escalated_node_flags
        { w.cluster with localNode := { w.cluster.localNode with state := s } } hv
      obtain ⟨_, _, r3⟩ := resign_from_escalated_node_frame
        { w.cluster with localNode := { w.cluster.localNode with state := s } }
      rw [← h]
      refine ⟨?_, fun _ => ⟨?_, ?_⟩, fun hc => ?_⟩
      · rw [b4, a3]
        show (resign_from_escalated_node _).localNode.state = s
        rw [r3]
      · rw [b1, a1]; exact e1
      · rw [b2, a2]; exact e2
      · exact absurd (hs.trans hc.symm) hne
  · rw [if_neg hne] at h
    simp only [Option.some.injEq] at h
    rw [← h]
    have hst : w.cluster.localNode.state = s := not_not.mp hne
    refine ⟨rfl, fun hc => absurd (hs.symm.trans hst) (Ne.symm hc), fun _ => ?_⟩
    exact ⟨⟨rfl, rfl, rfl, hst.symm⟩, rfl⟩
theorem EscalationInv_of_flags_false (c : wd_cluster) (he : c.escalated = false)
    (hv : c.holding_vip = false) : EscalationInv c :=
  ⟨fun h => (by rw [hv] at h; cases h), fun h => (by rw [he] at h; cases h), fun _ => he⟩

theorem EscalationInv_of_recomputed (c : wd_cluster)
    (hfresh : (update_quorum_status c).1 = c.quorum_status)
    (hv : c.holding_vip = true → c.escalated = true)
    (hs : c.localNode.state = WD_COORDINATOR) : EscalationInv c :=
  ⟨hv, fun _ h => by rw [hfresh]; exact h, fun h => absurd hs h⟩

/-- The bookkeeping survives a step that keeps the flags, the stored quorum status and the
local state and does not lower the number of active nodes. -/
theorem EscalationInv_of_activation (c c1 : wd_cluster) (hinv : EscalationInv c)
    (he : c1.escalated = c.escalated) (hv : c1.holding_vip = c.holding_vip)
    (hq : c1.quorum_status = c.quorum_status)
    (hl : c1.localNode.state = c.localNode.state)
    (hlen : c1.remoteNodes.length = c.remoteNodes.length)
    (hcount : get_cluster_node_count c ≤ get_cluster_node_count c1) : EscalationInv c1 := by
  obtain ⟨i1, i2, i3⟩ := hinv
  refine ⟨?_, ?_, ?_⟩
  · rw [he, hv]; exact i1
  · rw [he, hq]
    intro h1 h2
    exact update_quorum_status_mono c c1 hlen hcount (i2 h1 h2)
  · rw [he, hl]; exact i3

theorem EscalationInv_of_frame {w w1 : World} (hinv : EscalationInv w.cluster)
    (hf : EscalationFrame w w1) : EscalationInv w1.cluster := by
  obtain ⟨⟨f1, f2, f3, f4⟩, f5⟩ := hf
  refine EscalationInv_of_activation w.cluster w1.cluster hinv f1 f2 f3 f4 ?_ ?_
  · have := congrArg List.length f5
    simpa using this
  · rw [get_cluster_node_count_congr w1.cluster w.cluster f5]

/-- What `coordinator_quorum_complete` leaves behind: the computed quorum status is
stored, the node records are untouched, the virtual IP is held only while escalated, and
when the quorum is lost neither flag has changed. -/
theorem coordinator_quorum_complete_spec (c : wd_cluster) (forked has_delegate_ip : Bool)
    (hv : c.holding_vip = true → c.escalated = true) :
    (coordinator_quorum_complete c forked has_delegate_ip).quorum_status
      = (update_quorum_status c).1 ∧
    (coordinator_quorum_complete c forked has_delegate_ip).remoteNodes = c.remoteNodes ∧
    (coordinator_quorum_complete c forked has_delegate_ip).localNode = c.localNode ∧
    ((coordinator_quorum_complete c forked has_delegate_ip).holding_vip = true →
      (coordinator_quorum_complete c forked has_delegate_ip).escalated = true) ∧
    ((update_quorum_status c).1 = -1 →
      (coordinator_quorum_complete c forked has_delegate_ip).escalated = c.escalated ∧
      (coordinator_quorum_complete c forked has_delegate_ip).holding_vip = c.holding_vip) := by
  have hvu : (update_quorum_status c).2.holding_vip = true →
      (update_quorum_status c).2.escalated = true := by
    rw [update_quorum_status_holding_vip, update_quorum_status_escalated]; exact hv
  obtain ⟨s1, s2, s3⟩ :=
    start_escalated_node_frame (update_quorum_status c).2 forked has_delegate_ip
  unfold coordinator_quorum_complete
  dsimp only
  by_cases h1 : (update_quorum_status c).2.escalated = false
  · rw [if_pos h1]
    by_cases h2 : (update_quorum_status c).2.quorum_status ≥ 0
    · rw [if_pos h2]
      refine ⟨s1.trans (update_quorum_status_stored c),
        s2.trans (update_quorum_status_nodes c),
        s3.trans (update_quorum_status_localNode c),
        start_escalated_node_vip _ _ _ hvu, fun hl => ?_⟩
      rw [update_quorum_status_stored, hl] at h2
      exact absurd h2 (by decide)
    · rw [if_neg h2]
      exact ⟨update_quorum_status_stored c, update_quorum_status_nodes c,
        update_quorum_status_localNode c, hvu,
        fun _ => ⟨update_quorum_status_escalated c, update_quorum_status_holding_vip c⟩⟩
  · rw [if_neg h1]
    exact ⟨update_quorum_status_stored c, update_quorum_status_nodes c,
      update_quorum_status_localNode c, hvu,
      fun _ => ⟨update_quorum_status_escalated c, update_quorum_status_holding_vip c⟩⟩

theorem coordinator_declare_finished_spec (c : wd_cluster) (forked has_delegate_ip : Bool)
    (hv : c.holding_vip = true → c.escalated = true) :
    (coordinator_declare_finished c forked has_delegate_ip).quorum_status
      = (update_quorum_status c).1 ∧
    (coordinator_declare_finished c forked has_delegate_ip).remoteNodes = c.remoteNodes ∧
    (coordinator_declare_finished c forked has_delegate_ip).localNode = c.localNode ∧
    ((coordinator_declare_finished c forked has_delegate_ip).holding_vip = true →
      (coordinator_declare_finished c forked has_delegate_ip).escalated = true) ∧
    ((update_quorum_status c).1 = -1 →
      (coordinator_declare_finished c forked has_delegate_ip).escalated = c.escalated ∧
      (coordinator_declare_finished c forked has_delegate_ip).holding_vip = c.holding_vip) := by
  have hvu : ({ (update_quorum_status c).2 with
        masterNode := some NodeRef.localNode } : wd_cluster).holding_vip = true →
      ({ (update_quorum_status c).2 with
        masterNode := some NodeRef.localNode } : wd_cluster).escalated = true := by
    show (update_quorum_status c).2.holding_vip = true → (update_quorum_status c).2.escalated = true
    rw [update_quorum_status_holding_vip, update_quorum_status_escalated]; exact hv
  obtain ⟨s1, s2, s3⟩ := start_escalated_node_frame
    { (update_quorum_status c).2 with masterNode := some NodeRef.localNode }
    forked has_delegate_ip
  unfold coordinator_declare_finished
  dsimp only
  by_cases h1 : (update_quorum_status c).2.quorum_status = -1
  · rw [if_pos h1]
    exact ⟨update_quorum_status_stored c, update_quorum_status_nodes c,
      update_quorum_status_localNode c, hvu,
      fun _ => ⟨update_quorum_status_escalated c, update_quorum_status_holding_vip c⟩⟩
  · rw [if_neg h1]
    refine ⟨s1.trans (update_quorum_status_stored c),
      s2.trans (update_quorum_status_nodes c),
      s3.trans (update_quorum_status_localNode c),
      start_escalated_node_vip _ _ _ hvu, fun hl => ?_⟩
    rw [update_quorum_status_stored] at h1
    exact absurd hl h1

/-- The reply of the ADD_NODE case leaves the flags, the quorum status, the local state
and the states of the remote records alone. -/
theorem coordinator_add_node_reply_frame (ext : WDExternals) (w : World) (wdNode : NodeRef)
    (pkt : WDPacketData) :
    EscalationFrame w
      (send_message_to_node
        { w with cluster := (get_mynode_info_message ext w.cluster (some pkt)).2 } wdNode
        (get_mynode_info_message ext w.cluster (some pkt)).1).2 :=
  EscalationFrame_of_WorldFrame
    (WorldFrame_trans (get_mynode_info_message_wframe ext w (some pkt))
      (send_message_to_node_wframe _ _ _))

/-- Every step that writes `quorum_status` on a node in COORDINATOR state that holds the
virtual IP only while escalated leaves the node in COORDINATOR state with the computed
quorum status stored and the virtual IP held only while escalated. -/
theorem coordinator_quorum_step_recomputed (ext : WDExternals) (w w1 : World)
    (hs : w.cluster.localNode.state = WD_COORDINATOR)
    (hv : w.cluster.holding_vip = true → w.cluster.escalated = true)
    (hq : CoordinatorQuorumStep ext w w1) :
    (update_quorum_status w1.cluster).1 = w1.cluster.quorum_status ∧
    (w1.cluster.holding_vip = true → w1.cluster.escalated = true) ∧
    w1.cluster.localNode.state = WD_COORDINATOR := by
  cases hq with
  | node_lost _ i t h =>
    obtain ⟨a, b, c, _⟩ := coordinator_node_lost_event ext w w1 i t hs hv h
    exact ⟨a, b, c⟩
  | going_down _ i n t hn h =>
    obtain ⟨a, b, c, _⟩ := coordinator_node_lost_event ext
      { w with
        cluster := set_node w.cluster (NodeRef.remote i) { n with state := WD_SHUTDOWN } }
      w1 i t
      (show (set_node w.cluster (NodeRef.remote i) { n with state := WD_SHUTDOWN }).localNode.state
        = WD_COORDINATOR from hs)
      (show (set_node w.cluster (NodeRef.remote i) { n with state := WD_SHUTDOWN }).holding_vip
          = true →
        (set_node w.cluster (NodeRef.remote i) { n with state := WD_SHUTDOWN }).escalated = true
        from hv) h
    exact ⟨a, b, c⟩
  | node_found forked hd =>
    obtain ⟨a, b, c, d, _⟩ := coordinator_quorum_complete_spec w.cluster forked hd hv
    refine ⟨?_, d, ?_⟩
    · show (update_quorum_status (coordinator_quorum_complete w.cluster forked hd)).1 = _
      rw [update_quorum_status_of_nodes w.cluster _ b]
      exact a.symm
    · show (coordinator_quorum_complete w.cluster forked hd).localNode.state = _
      rw [c]; exact hs
  | add_node wdNode pkt forked hd =>
    obtain ⟨⟨f1, f2, _, f4⟩, _⟩ := coordinator_add_node_reply_frame ext w wdNode pkt
    obtain ⟨a, b, c, d, _⟩ := coordinator_quorum_complete_spec
      (send_message_to_node
        { w with cluster := (get_mynode_info_message ext w.cluster (some pkt)).2 } wdNode
        (get_mynode_info_message ext w.cluster (some pkt)).1).2.cluster forked hd
      (by rw [f1, f2]; exact hv)
    unfold coordinator_add_node
    dsimp only
    refine ⟨?_, d, ?_⟩
    · rw [update_quorum_status_of_nodes _ _ b]
      exact a.symm
    · rw [c]; exact f4.trans hs
  | declare_finished forked hd =>
    obtain ⟨a, b, c, d, _⟩ := coordinator_declare_finished_spec w.cluster forked hd hv
    refine ⟨?_, d, ?_⟩
    · show (update_quorum_status (coordinator_declare_finished w.cluster forked hd)).1 = _
      rw [update_quorum_status_of_nodes w.cluster _ b]
      exact a.symm
    · show (coordinator_declare_finished w.cluster forked hd).localNode.state = _
      rw [c]; exact hs
  | node_list =>
    unfold get_node_list_json
    refine ⟨?_, ?_, ?_⟩
    · show (update_quorum_status (update_quorum_status w.cluster).2).1 = _
      rw [update_quorum_status_of_nodes w.cluster _ (update_quorum_status_nodes _)]
      exact (update_quorum_status_stored _).symm
    · show (update_quorum_status w.cluster).2.holding_vip = true →
        (update_quorum_status w.cluster).2.escalated = true
      rw [update_quorum_status_holding_vip, update_quorum_status_escalated]; exact hv
    · show (update_quorum_status w.cluster).2.localNode.state = _
      rw [update_quorum_status_localNode]; exact hs

/-- `standard_packet_processor` for an INFO message in which a remote node announces an
active state keeps the bookkeeping of the escalation. -/
theorem standard_packet_processor_escalation (ext : WDExternals) (w w1 : World) (i : Nat)
    (pkt : WDPacketData)
    (hs : w.cluster.localNode.state = WD_COORDINATOR)
    (hinv : EscalationInv w.cluster)
    (hp : standard_packet_processor ext w (NodeRef.remote i) pkt = some w1)
    (hactive : ∀ t, parse_node_info_message ext pkt = some t →
      ¬ (t.1 = WD_DEAD ∨ t.1 = WD_LOST ∨ t.1 = WD_SHUTDOWN)) :
    EscalationInv w1.cluster := by
  unfold standard_packet_processor at hp
  by_cases ht : pkt.type = WD_INFO_MESSAGE
  · rw [if_pos ht] at hp
    cases hparse : parse_node_info_message ext pkt with
    | none =>
      rw [hparse] at hp
      simp only [Option.some.injEq] at hp
      rw [← hp]; exact hinv
    | some t =>
      rw [hparse] at hp
      have hact := hactive t hparse
      cases hn : get_node w.cluster (NodeRef.remote i) with
      | none => rw [hn] at hp; cases hp
      | some n =>
        rw [hn] at hp
        dsimp only at hp
        have hbase : ∀ m : Option NodeRef, EscalationInv
            ({ set_node w.cluster (NodeRef.remote i)
                { n with state := t.1, startup_time := t.2.1, wd_priority := t.2.2 } with
              masterNode := m } : wd_cluster) := by
          intro m
          refine EscalationInv_of_activation w.cluster _ hinv rfl rfl rfl rfl ?_ ?_
          · show (w.cluster.remoteNodes.set i _).length = _
            exact List.length_set _ _ _
          · exact get_cluster_node_count_set_active w.cluster i _ hact
        have hjoin : ∀ w0 : World,
            set_state ext
              { w with
                cluster :=
                  { set_node w.cluster (NodeRef.remote i)
                      { n with state := t.1, startup_time := t.2.1, wd_priority := t.2.2 } with
                    masterNode := none } } WD_JOINING = some w0 →
            EscalationInv w0.cluster := by
          intro w0 h0
          obtain ⟨_, hf, _⟩ := set_state_leaves_coordinator ext
            { w with
              cluster :=
                { set_node w.cluster (NodeRef.remote i)
                    { n with state := t.1, startup_time := t.2.1, wd_priority := t.2.2 } with
                  masterNode := none } } w0 WD_JOINING hs hinv.1 h0
          obtain ⟨e1, e2⟩ := hf (by decide)
          exact EscalationInv_of_flags_false _ e1 e2
        split_ifs at hp
        · simp only [Option.some.injEq] at hp
          rw [← hp]; exact hbase _
        · exact hjoin w1 hp
        · simp only [Option.some.injEq] at hp
          rw [← hp]; exact hbase _
        · exact hjoin w1 hp
        · simp only [Option.some.injEq] at hp
          rw [← hp]; exact hbase _
  · rw [if_neg ht] at hp
    cases hp

/-- After `wd_cluster_initialize` the node does not hold the virtual IP, and it is not
escalated when the host hands over a set escalation flag only together with the order to
clean up. -/
theorem wd_cluster_initialize_flags (cfg : WDInitConfig) (c : wd_cluster)
    (h : wd_cluster_initialize cfg = some c)
    (hhost : cfg.escalation_state = true → cfg.needs_cleanup = true) :
    c.escalated = false ∧ c.holding_vip = false := by
  unfold wd_cluster_initialize at h
  by_cases h0 : cfg.num_wd ≤ 0
  · rw [if_pos h0] at h
    cases h
  · rw [if_neg h0] at h
    dsimp only at h
    by_cases hc : cfg.needs_cleanup = true
    · rw [if_pos hc] at h
      simp only [Option.some.injEq] at h
      rw [← h]
      exact resign_from_escalated_node_flags _ (fun hh => by cases hh)
    · rw [if_neg hc] at h
      simp only [Option.some.injEq] at h
      rw [← h]
      refine ⟨?_, rfl⟩
      show cfg.escalation_state = false
      cases he : cfg.escalation_state with
      | false => rfl
      | true => exact absurd (hhost he) hc

/-- The bookkeeping of the escalation holds in every state a node passes through. -/
theorem escalation_reachable_inv (ext : WDExternals) (w : World)
    (h : EscalationReachable ext w) : EscalationInv w.cluster := by
  induction h with
  | init w cfg hw hhost =>
    obtain ⟨e1, e2⟩ := wd_cluster_initialize_flags cfg w.cluster hw hhost
    exact EscalationInv_of_flags_false _ e1 e2
  | outside w w1 _ hs he hv ih =>
    have e0 : w.cluster.escalated = false := ih.2.2 hs
    have v0 : w.cluster.holding_vip = false := by
      cases hh : w.cluster.holding_vip with
      | false => rfl
      | true => rw [ih.1 hh] at e0; cases e0
    exact EscalationInv_of_flags_false _ (he.trans e0) (hv.trans v0)
  | state_change w w1 s _ hs hset ih =>
    obtain ⟨_, hf, hc⟩ := set_state_leaves_coordinator ext w w1 s hs ih.1 hset
    by_cases hsc : s = WD_COORDINATOR
    · exact EscalationInv_of_frame ih (hc hsc)
    · obtain ⟨e1, e2⟩ := hf hsc
      exact EscalationInv_of_flags_false _ e1 e2
  | info w w1 i pkt _ hs hp hactive ih =>
    exact standard_packet_processor_escalation ext w w1 i pkt hs ih hp hactive
  | add_node_record w i n n1 _ hs hn hactive ih =>
    refine EscalationInv_of_activation w.cluster _ ih rfl rfl rfl rfl ?_ ?_
    · show (w.cluster.remoteNodes.set i _).length = _
      exact List.length_set _ _ _
    · exact get_cluster_node_count_set_active w.cluster i n1 hactive
  | quorum_step w w1 _ hs hq ih =>
    obtain ⟨a, b, c⟩ := coordinator_quorum_step_recomputed ext w w1 hs ih.1 hq
    exact EscalationInv_of_recomputed _ a b c
  | other w w1 _ hs hf ih =>
    exact EscalationInv_of_frame ih hf
/-- With the bookkeeping in place, a stored quorum status other than `-1` and a computed
one of `-1` leave no room for a set flag. -/
theorem flags_clear_of_quorum_lost (c : wd_cluster) (hinv : EscalationInv c)
    (hold : c.quorum_status ≠ -1) (hl : (update_quorum_status c).1 = -1) :
    c.escalated = false ∧ c.holding_vip = false := by
  have he : c.escalated = false := by
    cases h : c.escalated with
    | false => rfl
    | true => exact absurd hl (hinv.2.1 h hold)
  refine ⟨he, ?_⟩
  cases h : c.holding_vip with
  | false => rfl
  | true => rw [hinv.1 h] at he; cases he

/-- C18.  Let a node be in COORDINATOR state, in a state it can reach from
`wd_cluster_initialize` (`EscalationReachable`).  Whenever a step of the event loop that
writes `quorum_status` (the events REMOTE_NODE_LOST and REMOTE_NODE_FOUND, the packets
INFORM_I_AM_GOING_DOWN and ADD_NODE, the end of the DECLARE_COORDINATOR command, the
request for the node list) changes it from another value to `-1`, the node is still in
COORDINATOR state, is not escalated and does not hold the virtual IP when the step ends.
In particular the event REMOTE_NODE_LOST for a node of the cluster is handled to the end,
and if it leaves `quorum_status = -1` the node is not escalated and does not hold the
virtual IP. -/
theorem coordinator_quorum_loss_deescalates (ext : WDExternals) (w : World)
    (hreach : EscalationReachable ext w)
    (hstate : w.cluster.localNode.state = WD_COORDINATOR) :
    (∀ w1, CoordinatorQuorumStep ext w w1 → w.cluster.quorum_status ≠ -1 →
      w1.cluster.quorum_status = -1 →
      w1.cluster.localNode.state = WD_COORDINATOR ∧
      w1.cluster.escalated = false ∧ w1.cluster.holding_vip = false) ∧
    (∀ (i : Nat) (n : WatchdogNode) (last_rcv_sec : Int),
      w.cluster.remoteNodes[i]? = some n →
      ∃ w1, watchdog_state_machine_remote_node_lost ext w (NodeRef.remote i) last_rcv_sec
          = some w1 ∧
        (w1.cluster.quorum_status = -1 →
          w1.cluster.escalated = false ∧ w1.cluster.holding_vip = false)) := by
  have hinv := escalation_reachable_inv ext w hreach
  constructor
  · intro w1 hq hold hnew
    have hst := (coordinator_quorum_step_recomputed ext w w1 hstate hinv.1 hq).2.2
    refine ⟨hst, ?_⟩
    cases hq with
    | node_lost _ i t h =>
      exact (coordinator_node_lost_event ext w w1 i t hstate hinv.1 h).2.2.2 hnew
    | going_down _ i n t hn h =>
      exact (coordinator_node_lost_event ext
        { w with
          cluster := set_node w.cluster (NodeRef.remote i) { n with state := WD_SHUTDOWN } }
        w1 i t
        (show (set_node w.cluster (NodeRef.remote i)
            { n with state := WD_SHUTDOWN }).localNode.state = WD_COORDINATOR from hstate)
        (show (set_node w.cluster (NodeRef.remote i)
            { n with state := WD_SHUTDOWN }).holding_vip = true →
          (set_node w.cluster (NodeRef.remote i)
            { n with state := WD_SHUTDOWN }).escalated = true from hinv.1) h).2.2.2 hnew
    | node_found forked hd =>
      obtain ⟨a, _, _, _, e⟩ := coordinator_quorum_complete_spec w.cluster forked hd hinv.1
      have hl : (update_quorum_status w.cluster).1 = -1 := a.symm.trans hnew
      obtain ⟨e1, e2⟩ := e hl
      obtain ⟨c1, c2⟩ := flags_clear_of_quorum_lost w.cluster hinv hold hl
      exact ⟨e1.trans c1, e2.trans c2⟩
    | add_node wdNode pkt forked hd =>
      obtain ⟨⟨f1, f2, f3, f4⟩, f5⟩ := coordinator_add_node_reply_frame ext w wdNode pkt
      obtain ⟨a, _, _, _, e⟩ := coordinator_quorum_complete_spec
        (send_message_to_node
          { w with cluster := (get_mynode_info_message ext w.cluster (some pkt)).2 } wdNode
          (get_mynode_info_message ext w.cluster (some pkt)).1).2.cluster forked hd
        (by rw [f1, f2]; exact hinv.1)
      have hl0 : (update_quorum_status (send_message_to_node
          { w with cluster := (get_mynode_info_message ext w.cluster (some pkt)).2 } wdNode
          (get_mynode_info_message ext w.cluster (some pkt)).1).2.cluster).1 = -1 :=
        a.symm.trans hnew
      have hl : (update_quorum_status w.cluster).1 = -1 := by
        rw [← update_quorum_status_congr w.cluster _ f5]
        exact hl0
      obtain ⟨e1, e2⟩ := e hl0
      obtain ⟨c1, c2⟩ := flags_clear_of_quorum_lost w.cluster hinv hold hl
      exact ⟨e1.trans (f1.trans c1), e2.trans (f2.trans c2)⟩
    | declare_finished forked hd =>
      obtain ⟨a, _, _, _, e⟩ := coordinator_declare_finished_spec w.cluster forked hd hinv.1
      have hl : (update_quorum_status w.cluster).1 = -1 := a.symm.trans hnew
      obtain ⟨e1, e2⟩ := e hl
      obtain ⟨c1, c2⟩ := flags_clear_of_quorum_lost w.cluster hinv hold hl
      exact ⟨e1.trans c1, e2.trans c2⟩
    | node_list =>
      have hl : (update_quorum_status w.cluster).1 = -1 :=
        (update_quorum_status_stored w.cluster).symm.trans hnew
      obtain ⟨c1, c2⟩ := flags_clear_of_quorum_lost w.cluster hinv hold hl
      exact ⟨(update_quorum_status_escalated w.cluster).trans c1,
        (update_quorum_status_holding_vip w.cluster).trans c2⟩
  · intro i n t hn
    obtain ⟨w1, h1⟩ := coordinator_node_lost_returns ext w i n t hstate hn
    exact ⟨w1, h1, (coordinator_node_lost_event ext w w1 i t hstate hinv.1 h1).2.2.2⟩

/-- The history of `escalatedOnePeerWorld`: initialisation, the way into the COORDINATOR
state, the start of the escalation when the quorum was found complete, and the loss of
remote node 1. -/
theorem escalatedOnePeerWorld_reachable : EscalationReachable sampleExt escalatedOnePeerWorld :=
  EscalationReachable.quorum_step
    { newCoordinatorWorld with
      cluster := coordinator_quorum_complete newCoordinatorWorld.cluster true true }
    escalatedOnePeerWorld
    (EscalationReachable.quorum_step newCoordinatorWorld _
      (EscalationReachable.outside initialWorld newCoordinatorWorld
        (EscalationReachable.init initialWorld sampleInitConfig (by decide) (by decide))
        (by decide) rfl rfl)
      rfl (CoordinatorQuorumStep.node_found newCoordinatorWorld true true))
    rfl
    (CoordinatorQuorumStep.node_lost _ _ 1 0 (by decide))

/-- Witness of C18: `escalatedOnePeerWorld` is an escalated coordinator that holds the
virtual IP, with quorum status 1 and one active peer; when that peer is lost the quorum
status becomes `-1` and both flags are cleared. -/
theorem coordinator_quorum_loss_deescalates_witness :
    (escalatedOnePeerWorld.cluster.localNode.state, escalatedOnePeerWorld.cluster.quorum_status,
      escalatedOnePeerWorld.cluster.escalated, escalatedOnePeerWorld.cluster.holding_vip)
      = (WD_COORDINATOR, 1, true, true) ∧
    (watchdog_state_machine_remote_node_lost sampleExt escalatedOnePeerWorld
        (NodeRef.remote 0) 0).map
      (fun w => (w.cluster.localNode.state, w.cluster.quorum_status, w.cluster.escalated,
        w.cluster.holding_vip))
      = some (WD_COORDINATOR, -1, false, false) ∧
    (∀ w1, CoordinatorQuorumStep sampleExt escalatedOnePeerWorld w1 →
      escalatedOnePeerWorld.cluster.quorum_status ≠ -1 →
      w1.cluster.quorum_status = -1 →
      w1.cluster.localNode.state = WD_COORDINATOR ∧
      w1.cluster.escalated = false ∧ w1.cluster.holding_vip = false) ∧
    (∀ (i : Nat) (n : WatchdogNode) (last_rcv_sec : Int),
      escalatedOnePeerWorld.cluster.remoteNodes[i]? = some n →
      ∃ w1, watchdog_state_machine_remote_node_lost sampleExt escalatedOnePeerWorld
          (NodeRef.remote i) last_rcv_sec = some w1 ∧
        (w1.cluster.quorum_status = -1 →
          w1.cluster.escalated = false ∧ w1.cluster.holding_vip = false)) :=
  ⟨by decide, by decide,
   coordinator_quorum_loss_deescalates sampleExt escalatedOnePeerWorld
     escalatedOnePeerWorld_reachable (by decide)⟩

end Watchdog
